import Mathlib

/-!
# Scope building of the C++ front end (`src/cxx-buildscope.c`)

A shallow embedding of the symbol-table builder: declarator-to-type
composition, the declaration registrar, enum / template / using-directive
processing, together with the properties proved about them.

Conventions of the embedding

* A tree (`AST`) is a nullable pointer to a node with a kind, four children
  and a text; `AST.null` is the `NULL` tree.
* Scopes and symbol entries live in a `scope_store`; a `scope_t*` is an index
  into `scope_store.scopes`, a `scope_entry_t*` an index into
  `scope_store.entries`.
* Functions that can stop the compiler return an `outcome`: a value,
  `internal_error`, `running_error`, or `out_of_fuel` when the recursion
  budget of the model is exhausted.
* Services of other translation units (name lookup through enclosing
  scopes, constant evaluation, ambiguity resolution) are fields of
  `collaborators`.
-/

set_option autoImplicit false
set_option maxRecDepth 4000

namespace Mcxx

/-! ## Trees -/

/-- Node kinds tested by `cxx-buildscope.c`. The kinds from `AST_TYPE_ID` to
`AST_EXCEPTION_DECLARATION` are produced by the parser and never tested by name
in this file; `AST_INVALID_NODE` stands for
the kind read from a `NULL` tree. -/
inductive node_t where
  | AST_ABSTRACT_ARRAY | AST_ABSTRACT_DECLARATOR | AST_ABSTRACT_DECLARATOR_FUNC
  | AST_ADD_ASSIGN_OPERATOR | AST_ADD_OPERATOR | AST_AMBIGUITY | AST_AND_ASSIGN_OPERATOR
  | AST_ANY_EXCEPTION | AST_ASSIGNMENT_OPERATOR | AST_AUTO_SPEC | AST_BASE_SPECIFIER
  | AST_BASE_SPECIFIER_ACCESS | AST_BASE_SPECIFIER_ACCESS_VIRTUAL | AST_BASE_SPECIFIER_VIRTUAL
  | AST_BITWISE_AND_OPERATOR | AST_BITWISE_NEG_OPERATOR | AST_BITWISE_OR_OPERATOR
  | AST_BITWISE_XOR_OPERATOR | AST_BOOL_TYPE | AST_BREAK_STATEMENT | AST_CASE_STATEMENT
  | AST_CHAR_TYPE | AST_CLASS_KEY_CLASS | AST_CLASS_SPECIFIER | AST_COMMA_OPERATOR
  | AST_COMPOUND_STATEMENT | AST_CONST_SPEC | AST_CONTINUE_STATEMENT | AST_CONVERSION_DECLARATOR
  | AST_CONVERSION_FUNCTION_ID | AST_DECLARATION_STATEMENT | AST_DECLARATOR | AST_DECLARATOR_ARRAY
  | AST_DECLARATOR_FUNC | AST_DECLARATOR_ID_EXPR | AST_DECREMENT_OPERATOR | AST_DEFAULT_STATEMENT
  | AST_DELETE_ARRAY_OPERATOR | AST_DELETE_OPERATOR | AST_DESTRUCTOR_ID | AST_DIFFERENT_OPERATOR
  | AST_DIRECT_NEW_DECLARATOR | AST_DIV_ASSIGN_OPERATOR | AST_DIV_OPERATOR | AST_DOUBLE_TYPE
  | AST_DO_STATEMENT | AST_ELABORATED_TYPE_CLASS | AST_ELABORATED_TYPE_ENUM
  | AST_ELABORATED_TYPE_TEMPLATE | AST_ELABORATED_TYPE_TEMPLATE_TEMPLATE | AST_EMPTY_DECL
  | AST_EMPTY_PARAMETER_DECLARATION_CLAUSE | AST_EMPTY_STATEMENT | AST_ENUM_SPECIFIER
  | AST_EQUAL_OPERATOR | AST_EXPLICIT_INSTANTIATION | AST_EXPLICIT_SPEC
  | AST_EXPLICIT_SPECIALIZATION | AST_EXPORT_TEMPLATE_DECLARATION | AST_EXPRESSION_STATEMENT
  | AST_EXTERN_SPEC | AST_FLOAT_TYPE | AST_FOR_STATEMENT | AST_FRIEND_SPEC
  | AST_FUNCTION_CALL_OPERATOR | AST_FUNCTION_DEFINITION | AST_GOTO_STATEMENT
  | AST_GREATER_OPERATOR | AST_GREATER_OR_EQUAL_OPERATOR | AST_IF_ELSE_STATEMENT
  | AST_INCREMENT_OPERATOR | AST_INLINE_SPEC | AST_INT_TYPE | AST_LABELED_STATEMENT
  | AST_LEFT_ASSIGN_OPERATOR | AST_LEFT_OPERATOR | AST_LESS_OR_EQUAL_OPERATOR | AST_LINKAGE_SPEC
  | AST_LINKAGE_SPEC_DECL | AST_LOGICAL_AND_OPERATOR | AST_LOGICAL_NOT_OPERATOR
  | AST_LOGICAL_OR_OPERATOR | AST_LONG_TYPE | AST_LOWER_OPERATOR | AST_MEMBER_DECLARATION
  | AST_MEMBER_DECLARATOR | AST_MINUS_OPERATOR | AST_MOD_ASSIGN_OPERATOR | AST_MOD_OPERATOR
  | AST_MULT_OPERATOR | AST_MUL_ASSIGN_OPERATOR | AST_MUTABLE_SPEC | AST_NAMESPACE_DEFINITION
  | AST_NEW_ARRAY_OPERATOR | AST_NEW_DECLARATOR | AST_NEW_OPERATOR | AST_NODE_LIST
  | AST_OPERATOR_FUNCTION_ID | AST_OR_ASSIGN_OPERATOR | AST_PARAMETER_DECL
  | AST_PARENTHESIZED_ABSTRACT_DECLARATOR | AST_PARENTHESIZED_DECLARATOR | AST_POINTER_DECL
  | AST_POINTER_DERREF_OPERATOR | AST_POINTER_OPERATOR | AST_POINTER_SPEC | AST_PRIVATE_SPEC
  | AST_PROTECTED_SPEC | AST_PUBLIC_SPEC | AST_QUALIFIED_ID | AST_QUALIFIED_OPERATOR_FUNCTION_ID
  | AST_QUALIFIED_TEMPLATE | AST_QUALIFIED_TEMPLATE_ID | AST_REFERENCE_SPEC | AST_REGISTER_SPEC
  | AST_RETURN_STATEMENT | AST_RIGHT_ASSIGN_OPERATOR | AST_RIGHT_OPERATOR | AST_SHORT_TYPE
  | AST_SIGNED_TYPE | AST_SIMPLE_DECLARATION | AST_SIMPLE_TYPE_SPECIFIER | AST_STATIC_SPEC
  | AST_SUBSCRIPT_OPERATOR | AST_SUB_ASSIGN_OPERATOR | AST_SWITCH_STATEMENT | AST_SYMBOL
  | AST_TEMPLATE_DECLARATION | AST_TEMPLATE_EXPRESSION_ARGUMENT | AST_TEMPLATE_ID
  | AST_TEMPLATE_TYPE_ARGUMENT | AST_THREAD_SPEC | AST_TRY_BLOCK | AST_TYPEDEF_SPEC
  | AST_TYPE_PARAMETER_CLASS | AST_TYPE_PARAMETER_TEMPLATE | AST_TYPE_PARAMETER_TYPENAME
  | AST_UNSIGNED_TYPE | AST_USING_DIRECTIVE | AST_VARIADIC_ARG | AST_VIRTUAL_SPEC
  | AST_VOID_TYPE | AST_VOLATILE_SPEC | AST_WCHAR_TYPE | AST_WHILE_STATEMENT
  | AST_XOR_ASSIGN_OPERATOR
  | AST_TYPE_ID | AST_INIT_DECLARATOR | AST_DECL_SPECIFIER_SEQ | AST_ENUM_DEF
  | AST_DECIMAL_LITERAL | AST_CLASS_HEAD | AST_CLASS_KEY_STRUCT | AST_MEMBER_SPEC
  | AST_BASE_CLAUSE | AST_FUNCTION_BODY | AST_TRANSLATION_UNIT | AST_HANDLER
  | AST_EXCEPTION_DECLARATION
  | AST_INVALID_NODE
  deriving DecidableEq, Repr

/-- A tree: `NULL`, or a node with its kind, its four children and its text. -/
inductive AST where
  | null
  | node (kind : node_t) (son0 son1 son2 son3 : AST) (text : String)
  deriving DecidableEq, Repr

/-- The `ASTType` accessor. -/
def ASTType : AST → node_t
  | AST.null => node_t.AST_INVALID_NODE
  | AST.node kind _ _ _ _ _ => kind

/-- The `ASTSon0` accessor. -/
def ASTSon0 : AST → AST
  | AST.null => AST.null
  | AST.node _ son0 _ _ _ _ => son0

/-- The `ASTSon1` accessor. -/
def ASTSon1 : AST → AST
  | AST.null => AST.null
  | AST.node _ _ son1 _ _ _ => son1

/-- The `ASTSon2` accessor. -/
def ASTSon2 : AST → AST
  | AST.null => AST.null
  | AST.node _ _ _ son2 _ _ => son2

/-- The `ASTSon3` accessor. -/
def ASTSon3 : AST → AST
  | AST.null => AST.null
  | AST.node _ _ _ _ son3 _ => son3

/-- The `ASTText` accessor. -/
def ASTText : AST → String
  | AST.null => ""
  | AST.node _ _ _ _ _ text => text

/-- Replace the first child of a node (an assignment to `ASTSon0(a)`). -/
def setSon0 (a s : AST) : AST :=
  match a with
  | AST.null => AST.null
  | AST.node kind _ son1 son2 son3 text => AST.node kind s son1 son2 son3 text

/-- Replace the second child of a node (an assignment to `ASTSon1(a)`). -/
def setSon1 (a s : AST) : AST :=
  match a with
  | AST.null => AST.null
  | AST.node kind son0 _ son2 son3 text => AST.node kind son0 s son2 son3 text

/-- The constructor `ASTMake2(kind, son0, son1, line, text)`; a `NULL` text is
the empty text. -/
def ASTMake2 (kind : node_t) (son0 son1 : AST) (text : String) : AST :=
  AST.node kind son0 son1 AST.null AST.null text

/-- The constructor `ASTLeaf(kind, line, text)`. -/
def ASTLeaf (kind : node_t) (text : String) : AST :=
  AST.node kind AST.null AST.null AST.null AST.null text

/-- Modelled from the spec: the macro `for_each_element(list, iter)` is not in
the shown sources. A list is a chain of `AST_NODE_LIST` nodes, the first child
being the list of the preceding elements and the second child the element
(this is how `build_scope_template_arguments` appends a default argument);
the macro visits the list nodes left to right, that is innermost first. The
result is the sequence of values taken by `iter`. -/
def for_each_element : AST → List AST
  | AST.null => []
  | AST.node kind son0 son1 son2 son3 text =>
      for_each_element son0 ++ [AST.node kind son0 son1 son2 son3 text]

/-- The elements `ASTSon1(iter)` of a list, in iteration order. -/
def list_elements (list : AST) : List AST :=
  (for_each_element list).map ASTSon1

/-- Build the list tree holding the given elements, in order. -/
def list_of_elements : List AST → AST
  | [] => AST.null
  | x :: xs => (x :: xs).foldl (fun acc e => ASTMake2 node_t.AST_NODE_LIST acc e "") AST.null

/-! ## Outcomes -/

/-- Result of a function that may stop the compiler. Modelled from the spec:
`internal_error` (invariant violation) and `running_error` (program error)
are both fatal; `out_of_fuel` is the exhaustion of the model's recursion
budget. -/
inductive outcome (α : Type) where
  | ok (value : α)
  | internal_error (message : String)
  | running_error (message : String)
  | out_of_fuel
  deriving DecidableEq, Repr

/-- Sequencing of outcomes: the first fatal error wins. -/
def outcome.bind {α β : Type} (x : outcome α) (f : α → outcome β) : outcome β :=
  match x with
  | outcome.ok v => f v
  | outcome.internal_error m => outcome.internal_error m
  | outcome.running_error m => outcome.running_error m
  | outcome.out_of_fuel => outcome.out_of_fuel

instance : Monad outcome where
  pure := outcome.ok
  bind := outcome.bind

/-- An outcome is a program error. -/
def outcome.is_running_error {α : Type} : outcome α → Bool
  | outcome.running_error _ => true
  | _ => false

/-- An outcome is an invariant violation. -/
def outcome.is_internal_error {α : Type} : outcome α → Bool
  | outcome.internal_error _ => true
  | _ => false

/-- An outcome is a value. -/
def outcome.is_ok {α : Type} : outcome α → Bool
  | outcome.ok _ => true
  | _ => false

/-! ## Kinds and flags -/

abbrev ScopeId := Nat
abbrev EntryId := Nat

/-- Symbol kinds; `SK_UNDEFINED` is the zero value of a fresh entry. -/
inductive cxx_symbol_kind where
  | SK_UNDEFINED | SK_CLASS | SK_ENUM | SK_ENUMERATOR | SK_FUNCTION | SK_NAMESPACE
  | SK_VARIABLE | SK_TYPEDEF | SK_TEMPLATE_CLASS | SK_TEMPLATE_FUNCTION
  | SK_TEMPLATE_PARAMETER | SK_TEMPLATE_PRIMARY_CLASS | SK_TEMPLATE_SPECIALIZED_CLASS
  deriving DecidableEq, Repr

/-- Kinds of simple types; `STK_UNDEFINED` is the zero value. -/
inductive simple_type_kind_t where
  | STK_UNDEFINED | STK_BUILTIN_TYPE | STK_CLASS | STK_ENUM | STK_TYPEDEF
  | STK_USER_DEFINED | STK_TYPE_TEMPLATE_PARAMETER
  deriving DecidableEq, Repr

/-- Builtin types; `BT_UNKNOWN` is the zero value. -/
inductive builtin_type_t where
  | BT_UNKNOWN | BT_INT | BT_BOOL | BT_FLOAT | BT_DOUBLE | BT_CHAR | BT_WCHAR | BT_VOID
  deriving DecidableEq, Repr

/-- The cv-qualifier bit set: `CV_NONE` has no bit, `CV_CONST` and
`CV_VOLATILE` one bit each. -/
structure cv_qualifier_t where
  is_const : Bool
  is_volatile : Bool
  deriving DecidableEq, Repr

/-- No qualifier. -/
def CV_NONE : cv_qualifier_t := ⟨false, false⟩
/-- The const bit. -/
def CV_CONST : cv_qualifier_t := ⟨true, false⟩
/-- The volatile bit. -/
def CV_VOLATILE : cv_qualifier_t := ⟨false, true⟩

/-- Bitwise or of two qualifier sets (`a |= b`). -/
def cv_qualifier_t.or (a b : cv_qualifier_t) : cv_qualifier_t :=
  ⟨a.is_const || b.is_const, a.is_volatile || b.is_volatile⟩

/-- Member access. -/
inductive access_specifier_t where
  | AS_UNKNOWN | AS_PUBLIC | AS_PRIVATE | AS_PROTECTED
  deriving DecidableEq, Repr

/-- Kind of a template argument. -/
inductive template_argument_kind_t where
  | TAK_UNDEFINED | TAK_NONTYPE | TAK_TYPE
  deriving DecidableEq, Repr

/-- Kind of a scope. -/
inductive scope_kind_t where
  | NAMESPACE_SCOPE | CLASS_SCOPE | BLOCK_SCOPE | FUNCTION_SCOPE | PROTOTYPE_SCOPE
  | TEMPLATE_SCOPE
  deriving DecidableEq, Repr

/-- Lookup flag of the query functions. -/
inductive unqualified_lookup_behaviour_t where
  | NOFULL_UNQUALIFIED_LOOKUP | FULL_UNQUALIFIED_LOOKUP
  deriving DecidableEq, Repr

/-- The non-recursive fields of a `simple_type_t`. The last one, `address`, is
not a field of the source record: it names the record itself where the source
holds one record in several types at once. That is the record of a class
specifier, which the type of `this` and the field `class_type` of every member
function of the class point to (lines 2288, 2400, 2407, 2457) and which is
written after these types were made (lines 2291, 2410, 437-468, 2163); it is
named by the class scope of its class specifier, which is made once for each
(line 946). A record that is not written after a type was made from it has no
name (`none`). -/
structure simple_type_fields where
  kind : simple_type_kind_t
  builtin_type : builtin_type_t
  is_long : Nat
  is_short : Bool
  is_unsigned : Bool
  is_signed : Bool
  cv_qualifier : cv_qualifier_t
  user_defined_type : Option EntryId
  enumeration_list : List EntryId
  template_parameter_num : Nat
  address : Option ScopeId
  deriving DecidableEq, Repr

/-! ## The type graph -/

mutual
/-- A type descriptor `type_t`, as a tagged variant: the kind selects which of
the `pointer`, `array`, `function` and `type` fields is set. `null` is a
`NULL` pointer to a type. -/
inductive type_t where
  | null
  | direct (type : simple_type_t)
  | pointer (pointee : type_t) (cv_qualifier : cv_qualifier_t)
  | pointer_to_member (pointee : type_t) (pointee_class : Option EntryId)
      (cv_qualifier : cv_qualifier_t)
  | reference (pointee : type_t)
  | array (element_type : type_t) (array_expr : AST)
  | function (function : function_info_t)
  deriving DecidableEq, Repr
/-- The record `function_info_t`. -/
inductive function_info_t where
  | mk (return_type : type_t) (parameter_list : parameter_list_t)
      (cv_qualifier : cv_qualifier_t) (exception_spec : exception_spec_t)
      (is_static is_inline is_virtual is_explicit is_member : Bool)
      (class_type : simple_type_t)
  deriving DecidableEq, Repr
/-- The array `parameter_list` of a function, with its `num_parameters`
elements. -/
inductive parameter_list_t where
  | nil
  | cons (head : parameter_info_t) (tail : parameter_list_t)
  deriving DecidableEq, Repr
/-- The record `parameter_info_t`. -/
inductive parameter_info_t where
  | mk (is_ellipsis : Bool) (type_info : type_t) (default_argument : AST)
  deriving DecidableEq, Repr
/-- An `exception_spec_t*`: `null` when there is no exception specification. -/
inductive exception_spec_t where
  | null
  | mk (exception_type_seq : type_list_t)
  deriving DecidableEq, Repr
/-- A sequence of types. -/
inductive type_list_t where
  | nil
  | cons (head : type_t) (tail : type_list_t)
  deriving DecidableEq, Repr
/-- A `simple_type_t*`: `null`, or the record with its plain fields, its class
information, its aliased type and its template arguments. -/
inductive simple_type_t where
  | null
  | mk (fields : simple_type_fields) (class_info : class_info_t) (aliased_type : type_t)
      (template_arguments : template_argument_list_t)
  deriving DecidableEq, Repr
/-- A `class_info_t*`. -/
inductive class_info_t where
  | null
  | mk (inner_scope : Option ScopeId) (base_classes_list : type_list_t)
      (constructor_list : List EntryId) (destructor : Option EntryId)
      (operator_function_list : List EntryId)
      (conversion_function_list : conversion_list_t)
  deriving DecidableEq, Repr
/-- The conversion functions of a class. -/
inductive conversion_list_t where
  | nil
  | cons (conversion_type : type_t) (cv_qualifier : cv_qualifier_t) (tail : conversion_list_t)
  deriving DecidableEq, Repr
/-- A `template_argument_list_t*`. -/
inductive template_argument_list_t where
  | null
  | mk (argument_list : template_arguments_t)
  deriving DecidableEq, Repr
/-- The array `argument_list` with its `num_arguments` elements. -/
inductive template_arguments_t where
  | nil
  | cons (head : template_argument_t) (tail : template_arguments_t)
  deriving DecidableEq, Repr
/-- The record `template_argument_t`. -/
inductive template_argument_t where
  | mk (kind : template_argument_kind_t) (type : type_t) (expression : AST)
  deriving DecidableEq, Repr
end

/-! ## Accessors of the type graph -/

/-- The field `function` of a type: set exactly for `TK_FUNCTION`. -/
def type_t.function_info : type_t → Option function_info_t
  | type_t.function f => some f
  | _ => none

/-- The test `declarator_type->kind == TK_FUNCTION`. -/
def type_t.is_function : type_t → Bool
  | type_t.function _ => true
  | _ => false

/-- The test `t->type == NULL` on a type: the field `type` is set only for
`TK_DIRECT` types made from a non-null simple type. -/
def type_t.type_is_null : type_t → Bool
  | type_t.direct simple_type_t.null => true
  | type_t.direct _ => false
  | _ => true

/-- Field `return_type`. -/
def function_info_t.return_type : function_info_t → type_t
  | function_info_t.mk r _ _ _ _ _ _ _ _ _ => r

/-- Field `parameter_list`. -/
def function_info_t.parameter_list : function_info_t → parameter_list_t
  | function_info_t.mk _ p _ _ _ _ _ _ _ _ => p

/-- Field `cv_qualifier`. -/
def function_info_t.cv_qualifier : function_info_t → cv_qualifier_t
  | function_info_t.mk _ _ c _ _ _ _ _ _ _ => c

/-- Assignment to the field `return_type`. -/
def function_info_t.set_return_type : function_info_t → type_t → function_info_t
  | function_info_t.mk _ p c e s i v x m ct, r => function_info_t.mk r p c e s i v x m ct

/-- Field `is_static`. -/
def function_info_t.is_static : function_info_t → Bool
  | function_info_t.mk _ _ _ _ s _ _ _ _ _ => s

/-- Field `is_member`. -/
def function_info_t.is_member : function_info_t → Bool
  | function_info_t.mk _ _ _ _ _ _ _ _ m _ => m

/-- Field `class_type`. -/
def function_info_t.class_type : function_info_t → simple_type_t
  | function_info_t.mk _ _ _ _ _ _ _ _ _ ct => ct

/-- Assignment to the field `class_type`. -/
def function_info_t.set_class_type : function_info_t → simple_type_t → function_info_t
  | function_info_t.mk r p c e s i v x m _, ct => function_info_t.mk r p c e s i v x m ct

/-- The assignments `is_member = 1; class_type = class_info`. -/
def function_info_t.set_member : function_info_t → simple_type_t → function_info_t
  | function_info_t.mk r p c e s i v x _ _, ct => function_info_t.mk r p c e s i v x true ct

/-- The parameters as a list. -/
def parameter_list_t.toList : parameter_list_t → List parameter_info_t
  | parameter_list_t.nil => []
  | parameter_list_t.cons h t => h :: parameter_list_t.toList t

/-- The number of parameters (`num_parameters`). -/
def function_info_t.num_parameters (f : function_info_t) : Nat :=
  f.parameter_list.toList.length

/-- The macro `P_LIST_ADD` on a parameter list: the element is stored after
the last one and the count grows by one. -/
def parameter_list_t.add : parameter_list_t → parameter_info_t → parameter_list_t
  | parameter_list_t.nil, p => parameter_list_t.cons p parameter_list_t.nil
  | parameter_list_t.cons h t, p => parameter_list_t.cons h (parameter_list_t.add t p)

/-- The macro `P_LIST_ADD` on a sequence of types. -/
def type_list_t.add : type_list_t → type_t → type_list_t
  | type_list_t.nil, p => type_list_t.cons p type_list_t.nil
  | type_list_t.cons h t, p => type_list_t.cons h (type_list_t.add t p)

/-- The types of a sequence as a list. -/
def type_list_t.toList : type_list_t → List type_t
  | type_list_t.nil => []
  | type_list_t.cons h t => h :: type_list_t.toList t

/-- The macro `P_LIST_ADD` on a template argument array. -/
def template_arguments_t.add : template_arguments_t → template_argument_t → template_arguments_t
  | template_arguments_t.nil, p => template_arguments_t.cons p template_arguments_t.nil
  | template_arguments_t.cons h t, p => template_arguments_t.cons h (template_arguments_t.add t p)

/-- The template arguments as a list. -/
def template_arguments_t.toList : template_arguments_t → List template_argument_t
  | template_arguments_t.nil => []
  | template_arguments_t.cons h t => h :: template_arguments_t.toList t

/-- The arguments of a `template_argument_list_t*` as a list. -/
def template_argument_list_t.toList : template_argument_list_t → List template_argument_t
  | template_argument_list_t.null => []
  | template_argument_list_t.mk l => l.toList

/-- Field `is_ellipsis`. -/
def parameter_info_t.is_ellipsis : parameter_info_t → Bool
  | parameter_info_t.mk e _ _ => e

/-- Field `type_info`. -/
def parameter_info_t.type_info : parameter_info_t → type_t
  | parameter_info_t.mk _ t _ => t

/-- Field `default_argument`. -/
def parameter_info_t.default_argument : parameter_info_t → AST
  | parameter_info_t.mk _ _ d => d

/-- A zeroed `simple_type_t` record (`GC_CALLOC`, `memset`). -/
def zero_simple_type_fields : simple_type_fields :=
  { kind := simple_type_kind_t.STK_UNDEFINED, builtin_type := builtin_type_t.BT_UNKNOWN,
    is_long := 0, is_short := false, is_unsigned := false, is_signed := false,
    cv_qualifier := CV_NONE, user_defined_type := none, enumeration_list := [],
    template_parameter_num := 0, address := none }

/-- A zeroed `simple_type_t` record. -/
def zero_simple_type : simple_type_t :=
  simple_type_t.mk zero_simple_type_fields class_info_t.null type_t.null
    template_argument_list_t.null

/-- The plain fields of a simple type (those of a zeroed record for `NULL`). -/
def simple_type_t.fields : simple_type_t → simple_type_fields
  | simple_type_t.null => zero_simple_type_fields
  | simple_type_t.mk f _ _ _ => f

/-- Update of the plain fields of a simple type. -/
def simple_type_t.update (s : simple_type_t) (g : simple_type_fields → simple_type_fields) :
    simple_type_t :=
  match s with
  | simple_type_t.null => simple_type_t.null
  | simple_type_t.mk f c a t => simple_type_t.mk (g f) c a t

/-- Field `template_arguments` of a simple type. -/
def simple_type_t.template_arguments : simple_type_t → template_argument_list_t
  | simple_type_t.null => template_argument_list_t.null
  | simple_type_t.mk _ _ _ t => t

/-- Modelled from the spec: `simple_type_to_type` is not in the shown sources;
it wraps a simple type in a Direct type descriptor. The descriptor points to
the record it is given (`Copy the type because we are creating it and we would
clobber it otherwise`, line 998): a type made of a record that has an
`address` holds that record, and shows what is written to it later (see
`write_record`). -/
def simple_type_to_type (s : simple_type_t) : type_t := type_t.direct s

/-- Modelled from the spec: `copy_type` is not in the shown sources; it
duplicates a type descriptor, which is the identity on values. -/
def copy_type (t : type_t) : type_t := t

/-- The builtin simple type of the given kind, without modifiers. -/
def builtin_simple_type (b : builtin_type_t) : simple_type_t :=
  simple_type_t.mk
    { zero_simple_type_fields with kind := simple_type_kind_t.STK_BUILTIN_TYPE, builtin_type := b }
    class_info_t.null type_t.null template_argument_list_t.null

/-! ## Records held by several types -/

mutual
/-- A change of the plain fields of the `simple_type_t` records, applied to
every record a type is made of. -/
def type_t.rewrite (g : simple_type_fields → simple_type_fields) : type_t → type_t
  | type_t.null => type_t.null
  | type_t.direct s => type_t.direct (simple_type_t.rewrite g s)
  | type_t.pointer p cv => type_t.pointer (type_t.rewrite g p) cv
  | type_t.pointer_to_member p c cv => type_t.pointer_to_member (type_t.rewrite g p) c cv
  | type_t.reference p => type_t.reference (type_t.rewrite g p)
  | type_t.array e x => type_t.array (type_t.rewrite g e) x
  | type_t.function f => type_t.function (function_info_t.rewrite g f)
termination_by structural t => t
/-- The change in the types of a function record. -/
def function_info_t.rewrite (g : simple_type_fields → simple_type_fields) :
    function_info_t → function_info_t
  | function_info_t.mk r p c e s i v x m ct =>
      function_info_t.mk (type_t.rewrite g r) (parameter_list_t.rewrite g p) c
        (exception_spec_t.rewrite g e) s i v x m (simple_type_t.rewrite g ct)
termination_by structural f => f
/-- The change in the types of a parameter list. -/
def parameter_list_t.rewrite (g : simple_type_fields → simple_type_fields) :
    parameter_list_t → parameter_list_t
  | parameter_list_t.nil => parameter_list_t.nil
  | parameter_list_t.cons h t =>
      parameter_list_t.cons (parameter_info_t.rewrite g h) (parameter_list_t.rewrite g t)
termination_by structural l => l
/-- The change in the type of a parameter. -/
def parameter_info_t.rewrite (g : simple_type_fields → simple_type_fields) :
    parameter_info_t → parameter_info_t
  | parameter_info_t.mk e t d => parameter_info_t.mk e (type_t.rewrite g t) d
termination_by structural p => p
/-- The change in the types of an exception specification. -/
def exception_spec_t.rewrite (g : simple_type_fields → simple_type_fields) :
    exception_spec_t → exception_spec_t
  | exception_spec_t.null => exception_spec_t.null
  | exception_spec_t.mk l => exception_spec_t.mk (type_list_t.rewrite g l)
termination_by structural e => e
/-- The change in the types of a sequence of types. -/
def type_list_t.rewrite (g : simple_type_fields → simple_type_fields) :
    type_list_t → type_list_t
  | type_list_t.nil => type_list_t.nil
  | type_list_t.cons h t => type_list_t.cons (type_t.rewrite g h) (type_list_t.rewrite g t)
termination_by structural l => l
/-- The change in a `simple_type_t` record and in the types it holds. -/
def simple_type_t.rewrite (g : simple_type_fields → simple_type_fields) :
    simple_type_t → simple_type_t
  | simple_type_t.null => simple_type_t.null
  | simple_type_t.mk f c a t =>
      simple_type_t.mk (g f) (class_info_t.rewrite g c) (type_t.rewrite g a)
        (template_argument_list_t.rewrite g t)
termination_by structural s => s
/-- The change in the types of a class record. -/
def class_info_t.rewrite (g : simple_type_fields → simple_type_fields) :
    class_info_t → class_info_t
  | class_info_t.null => class_info_t.null
  | class_info_t.mk s b c d o v =>
      class_info_t.mk s (type_list_t.rewrite g b) c d o (conversion_list_t.rewrite g v)
termination_by structural c => c
/-- The change in the types of the conversion functions of a class. -/
def conversion_list_t.rewrite (g : simple_type_fields → simple_type_fields) :
    conversion_list_t → conversion_list_t
  | conversion_list_t.nil => conversion_list_t.nil
  | conversion_list_t.cons t cv tail =>
      conversion_list_t.cons (type_t.rewrite g t) cv (conversion_list_t.rewrite g tail)
termination_by structural l => l
/-- The change in the types of a template argument list. -/
def template_argument_list_t.rewrite (g : simple_type_fields → simple_type_fields) :
    template_argument_list_t → template_argument_list_t
  | template_argument_list_t.null => template_argument_list_t.null
  | template_argument_list_t.mk l => template_argument_list_t.mk (template_arguments_t.rewrite g l)
termination_by structural l => l
/-- The change in the types of a template argument array. -/
def template_arguments_t.rewrite (g : simple_type_fields → simple_type_fields) :
    template_arguments_t → template_arguments_t
  | template_arguments_t.nil => template_arguments_t.nil
  | template_arguments_t.cons h t =>
      template_arguments_t.cons (template_argument_t.rewrite g h)
        (template_arguments_t.rewrite g t)
termination_by structural l => l
/-- The change in the type of a template argument. -/
def template_argument_t.rewrite (g : simple_type_fields → simple_type_fields) :
    template_argument_t → template_argument_t
  | template_argument_t.mk k t x => template_argument_t.mk k (type_t.rewrite g t) x
termination_by structural a => a
end

/-- The fields a type shows for a record after a store through a pointer to
the record: the fields written, when the record is the one the pointer names,
and its own fields otherwise. -/
def written_fields (written : simple_type_fields) (f : simple_type_fields) :
    simple_type_fields :=
  if f.address = written.address then written else f

/-- A type without the names of the records it is made of: what a comparison
of two types by their structure looks at. -/
def erase_addresses (t : type_t) : type_t :=
  t.rewrite (fun f => { f with address := none })

/-! ## Declaration specifiers, entries, scopes -/

/-- The record `gather_decl_spec_t`: the flags gathered from a
decl-specifier-seq that are not the type. -/
structure gather_decl_spec_t where
  is_auto : Bool
  is_register : Bool
  is_static : Bool
  is_extern : Bool
  is_mutable : Bool
  is_thread : Bool
  is_friend : Bool
  is_typedef : Bool
  is_signed : Bool
  is_unsigned : Bool
  is_short : Bool
  is_long : Bool
  is_const : Bool
  is_volatile : Bool
  is_inline : Bool
  is_virtual : Bool
  is_explicit : Bool
  deriving DecidableEq, Repr

/-- The record after `memset(&gather_info, 0, sizeof(gather_info))`. -/
def zero_gather_info : gather_decl_spec_t :=
  { is_auto := false, is_register := false, is_static := false, is_extern := false,
    is_mutable := false, is_thread := false, is_friend := false, is_typedef := false,
    is_signed := false, is_unsigned := false, is_short := false, is_long := false,
    is_const := false, is_volatile := false, is_inline := false, is_virtual := false,
    is_explicit := false }

/-- The record `template_parameter_t`. -/
structure template_parameter_t where
  type_info : type_t
  default_argument : AST
  deriving DecidableEq, Repr

/-- The record `scope_entry_t`, with the fields this file reads or writes. -/
structure scope_entry_t where
  symbol_name : String
  kind : cxx_symbol_kind
  scope : ScopeId
  type_information : type_t
  defined : Bool
  related_scope : Option ScopeId
  expression_value : AST
  num_template_parameters : Nat
  template_parameter_info : List template_parameter_t
  deriving DecidableEq, Repr

/-- The record `scope_t`, with the fields this file reads or writes. The
symbol table of the scope is the list `hash` of its entries, the most
recently inserted first. -/
structure scope_t where
  kind : scope_kind_t
  contained_in : Option ScopeId
  hash : List EntryId
  use_namespace : List ScopeId
  base_scope : List (Option ScopeId)
  template_scope : Option ScopeId
  prototype_scope : Option ScopeId
  function_scope : Option ScopeId
  deriving DecidableEq, Repr

/-- All scopes and all symbol entries of a compilation. -/
structure scope_store where
  scopes : List scope_t
  entries : List scope_entry_t
  deriving DecidableEq, Repr

/-- A scope without symbols. -/
def empty_scope (kind : scope_kind_t) (contained_in : Option ScopeId) : scope_t :=
  { kind := kind, contained_in := contained_in, hash := [], use_namespace := [],
    base_scope := [], template_scope := none, prototype_scope := none,
    function_scope := none }

/-- A zeroed entry. -/
def zero_entry : scope_entry_t :=
  { symbol_name := "", kind := cxx_symbol_kind.SK_UNDEFINED, scope := 0,
    type_information := type_t.null, defined := false, related_scope := none,
    expression_value := AST.null, num_template_parameters := 0,
    template_parameter_info := [] }

/-- Dereference of a scope pointer. -/
def get_scope (tab : scope_store) (st : ScopeId) : scope_t :=
  (tab.scopes[st]?).getD (empty_scope scope_kind_t.NAMESPACE_SCOPE none)

/-- Dereference of an entry pointer. -/
def get_entry (tab : scope_store) (e : EntryId) : scope_entry_t :=
  (tab.entries[e]?).getD zero_entry

/-- Store through a scope pointer. -/
def set_scope (tab : scope_store) (st : ScopeId) (s : scope_t) : scope_store :=
  { tab with scopes := tab.scopes.set st s }

/-- Store through an entry pointer. -/
def set_entry (tab : scope_store) (e : EntryId) (v : scope_entry_t) : scope_store :=
  { tab with entries := tab.entries.set e v }

/-- A change of the plain fields of the `simple_type_t` records in the types a
symbol holds: its type and the types of its template parameters. -/
def scope_entry_t.rewrite (g : simple_type_fields → simple_type_fields) (e : scope_entry_t) :
    scope_entry_t :=
  { e with
      type_information := e.type_information.rewrite g,
      template_parameter_info := e.template_parameter_info.map
        (fun p => { p with type_info := p.type_info.rewrite g }) }

/-- A store through a pointer to a `simple_type_t` record that several types
hold, as `this_type->pointer->pointee->type->cv_qualifier = ...`: `r` is the
record as it is after the store, and every type of the symbol table that is
made of the record shows it. A record without a name is held by no other type.
Types that are being composed while the store is made, and are put in the
symbol table later, are not reached. -/
def write_record (tab : scope_store) (r : simple_type_t) : scope_store :=
  match r.fields.address with
  | none => tab
  | some _ =>
      { tab with entries := tab.entries.map (scope_entry_t.rewrite (written_fields r.fields)) }

/-- A type as the symbol table shows it after the store `write_record tab r`
through a pointer to the record `r`. -/
def type_t.after_write (r : simple_type_t) (t : type_t) : type_t :=
  match r.fields.address with
  | none => t
  | some _ => t.rewrite (written_fields r.fields)

/-- Modelled from the spec: `new_symbol` is not in the shown sources. It
creates a zeroed entry with the given name, owned by the scope, and inserts it
in the scope's table, where it is found before the older entries of the same
name (`The last entry will hold our symbol` in
`build_scope_simple_declaration`). -/
def new_symbol (tab : scope_store) (sc : ScopeId) (name : String) : scope_store × EntryId :=
  let id := tab.entries.length
  let s := get_scope tab sc
  ({ scopes := tab.scopes.set sc { s with hash := id :: s.hash },
     entries := tab.entries ++ [{ zero_entry with symbol_name := name, scope := sc }] }, id)

/-- Modelled from the spec: the scope constructors (`new_namespace_scope`,
`new_class_scope`, `new_prototype_scope`, `new_template_scope`,
`new_function_scope`, `new_block_scope`) are not in the shown sources. Each
allocates an empty scope of its kind enclosed in the given scope. -/
def new_scope (tab : scope_store) (kind : scope_kind_t) (enclosing : Option ScopeId)
    (prototype_scope function_scope : Option ScopeId) : scope_store × ScopeId :=
  ({ tab with scopes := tab.scopes ++
      [{ empty_scope kind enclosing with
          prototype_scope := prototype_scope, function_scope := function_scope }] },
    tab.scopes.length)

/-- The constructor `new_prototype_scope(st)`. -/
def new_prototype_scope (tab : scope_store) (st : ScopeId) : scope_store × ScopeId :=
  new_scope tab scope_kind_t.PROTOTYPE_SCOPE (some st) none none

/-- The constructor `new_namespace_scope(st)`. -/
def new_namespace_scope (tab : scope_store) (st : Option ScopeId) : scope_store × ScopeId :=
  new_scope tab scope_kind_t.NAMESPACE_SCOPE st none none

/-- The constructor `new_template_scope(st)`. -/
def new_template_scope (tab : scope_store) (st : ScopeId) : scope_store × ScopeId :=
  new_scope tab scope_kind_t.TEMPLATE_SCOPE (some st) none none

/-- Modelled from the spec: lookup restricted to one scope
(`NOFULL_UNQUALIFIED_LOOKUP` on a plain name) is not in the shown sources. It
yields the entries of that scope with that name, the most recently inserted
first. -/
def query_in_current_scope (tab : scope_store) (st : ScopeId) (name : String) : List EntryId :=
  (get_scope tab st).hash.filter (fun e => (get_entry tab e).symbol_name == name)

/-- Modelled from the spec: `filter_symbol_kind_set` is not in the shown
sources; it keeps the entries whose kind is one of the given kinds. -/
def filter_symbol_kind_set (tab : scope_store) (l : List EntryId)
    (kinds : List cxx_symbol_kind) : List EntryId :=
  l.filter (fun e => kinds.contains (get_entry tab e).kind)

/-- Modelled from the spec: `filter_symbol_non_kind_set` is not in the shown
sources; it keeps the entries whose kind is none of the given kinds. -/
def filter_symbol_non_kind_set (tab : scope_store) (l : List EntryId)
    (kinds : List cxx_symbol_kind) : List EntryId :=
  l.filter (fun e => !kinds.contains (get_entry tab e).kind)

/-- Modelled from the spec: `filter_symbol_non_kind` is not in the shown
sources; it keeps the entries whose kind is not the given kind. -/
def filter_symbol_non_kind (tab : scope_store) (l : List EntryId)
    (kind : cxx_symbol_kind) : List EntryId :=
  filter_symbol_non_kind_set tab l [kind]

/-- The services of other translation units, and the three entry points of
this file through which its functions call each other recursively, the class
specifier, the declaration and the statement (`tie` closes that recursion). A
lookup result `scope_entry_list_t*` is the list of its entries, `NULL` being
the empty list. The resolution functions of `cxx-ambiguity` rewrite a tree in
place and read the symbol table; each is the function from the tree to the
tree that replaces it. -/
structure collaborators where
  /-- Full unqualified lookup `query_unqualified_name(st, name)`. -/
  query_unqualified_name : scope_store → ScopeId → String → List EntryId
  /-- Lookup `query_nested_name(st, global_op, nested_name, name, flags)`. -/
  query_nested_name : scope_store → ScopeId → AST → AST → AST →
    unqualified_lookup_behaviour_t → List EntryId
  /-- Lookup `query_nested_name_spec(st, global_op, nested_name, &result)`. -/
  query_nested_name_spec : scope_store → ScopeId → AST → AST → List EntryId
  /-- Lookup `query_id_expression` on an id that is not a plain name looked up
  in one scope. -/
  query_id_expression_other : scope_store → ScopeId → AST →
    unqualified_lookup_behaviour_t → List EntryId
  /-- Choice `filter_simple_type_specifier(list)` of the type named by a
  lookup result. -/
  filter_simple_type_specifier : scope_store → List EntryId → Option EntryId
  /-- Constant folding `evaluate_constant_expression(expr, st)`. -/
  evaluate_constant_expression : scope_store → AST → ScopeId → Int
  /-- Inverse `tree_from_literal_value(value)` of constant folding. -/
  tree_from_literal_value : Int → AST
  /-- Resolution `solve_ambiguous_declarator(a, st)`: the node that replaces
  the ambiguous one. -/
  solve_ambiguous_declarator : scope_store → AST → ScopeId → AST
  /-- Resolution `solve_ambiguous_init_declarator(a, st)`. -/
  solve_ambiguous_init_declarator : scope_store → AST → ScopeId → AST
  /-- Name and type `get_conversion_function_name(id, st, &type)` of a
  conversion function id. -/
  get_conversion_function_name : scope_store → AST → ScopeId → String × type_t
  /-- Resolution `solve_ambiguous_declaration(a, st)`. -/
  solve_ambiguous_declaration : scope_store → AST → ScopeId → AST
  /-- Resolution `solve_ambiguous_statement(a, st)`. -/
  solve_ambiguous_statement : scope_store → AST → ScopeId → AST
  /-- Resolution `solve_ambiguous_type_spec_seq(type_specifier_seq, st)`. -/
  solve_ambiguous_type_spec_seq : scope_store → AST → ScopeId → AST
  /-- Resolution `solve_possibly_ambiguous_expression(a, st)`. -/
  solve_possibly_ambiguous_expression : scope_store → AST → ScopeId → AST
  /-- Resolution `solve_parameter_declaration_vs_type_parameter_class(a)`. -/
  solve_parameter_declaration_vs_type_parameter_class : AST → AST
  /-- The comparison `type_information->kind == SK_FUNCTION` made by
  `build_scope_simple_member_declaration`, of the kind of a type with a
  constant of the symbol kinds; its value depends on the numbering of the two
  enumerations, which is not in the shown sources. -/
  type_kind_equals_SK_FUNCTION : type_t → Bool
  /-- Processing `gather_type_spec_from_class_specifier(a, st, type_info)` of a
  class specifier, as called from this file (see `tie`). -/
  gather_type_spec_from_class_specifier : scope_store → AST → ScopeId → simple_type_t →
    outcome (scope_store × simple_type_t)
  /-- Processing `build_scope_declaration(a, st)`, as called from this file
  (see `tie`). -/
  build_scope_declaration : scope_store → AST → ScopeId → outcome scope_store
  /-- Processing `build_scope_statement(a, st)`, as called from this file (see
  `tie`). -/
  build_scope_statement : scope_store → AST → ScopeId → outcome scope_store

/-- Modelled from the spec: `query_id_expression` is not in the shown
sources. On a plain name looked up with `NOFULL_UNQUALIFIED_LOOKUP` it is the
lookup in the given scope alone; other lookups are left to the
collaborators. -/
def query_id_expression (env : collaborators) (tab : scope_store) (st : ScopeId)
    (id_expr : AST) (flags : unqualified_lookup_behaviour_t) : List EntryId :=
  if ASTType id_expr = node_t.AST_SYMBOL then
    match flags with
    | unqualified_lookup_behaviour_t.NOFULL_UNQUALIFIED_LOOKUP =>
        query_in_current_scope tab st (ASTText id_expr)
    | unqualified_lookup_behaviour_t.FULL_UNQUALIFIED_LOOKUP =>
        env.query_unqualified_name tab st (ASTText id_expr)
  else env.query_id_expression_other tab st id_expr flags

/-- Modelled from the spec: the literal values of `cxx-cexpr` are not in the
shown sources; a literal value is an integer, `literal_value_minus_one` is
`-1` and `increment_literal_value` adds one. -/
def literal_value_minus_one : Int := -1

/-- Modelled from the spec: `increment_literal_value` adds one to a literal
value. -/
def increment_literal_value (v : Int) : Int := v + 1

/-! ## Qualifiers and the pointer and array wrappers -/

/-- One step of the loop of `compute_cv_qualifier`. -/
def compute_cv_qualifier_step (result : cv_qualifier_t) (iter : AST) : outcome cv_qualifier_t :=
  match ASTType (ASTSon1 iter) with
  | node_t.AST_CONST_SPEC => pure (result.or CV_CONST)
  | node_t.AST_VOLATILE_SPEC => pure (result.or CV_VOLATILE)
  | _ => outcome.internal_error "Unknown node type %s"

/-- The function `compute_cv_qualifier`: the qualifier set of a list of
cv-qualifiers. -/
def compute_cv_qualifier (a : AST) : outcome cv_qualifier_t :=
  if a = AST.null then pure CV_NONE
  else if ASTType a ≠ node_t.AST_NODE_LIST then
    outcome.internal_error "This function expects a list"
  else (for_each_element a).foldlM compute_cv_qualifier_step CV_NONE

/-- The function `set_pointer_type`: from `T` to pointer to `T`, pointer to
member, or reference to `T`. -/
def set_pointer_type (env : collaborators) (tab : scope_store) (declarator_type : type_t)
    (st : ScopeId) (pointer_tree : AST) : outcome type_t :=
  let pointee_type := declarator_type
  match ASTType pointer_tree with
  | node_t.AST_POINTER_SPEC =>
      if ASTSon0 pointer_tree = AST.null ∧ ASTSon1 pointer_tree = AST.null then do
        let cv ← compute_cv_qualifier (ASTSon2 pointer_tree)
        pure (type_t.pointer pointee_type cv)
      else do
        let entry_list :=
          env.query_nested_name_spec tab st (ASTSon0 pointer_tree) (ASTSon1 pointer_tree)
        let cv ← compute_cv_qualifier (ASTSon2 pointer_tree)
        pure (type_t.pointer_to_member pointee_type entry_list.head? cv)
  | node_t.AST_REFERENCE_SPEC => pure (type_t.reference pointee_type)
  | _ => outcome.internal_error "Unhandled node type %s"

/-- The function `set_array_type`: from `T` to array of `T`, the size
expression kept as a tree. -/
def set_array_type (declarator_type : type_t) (constant_expr : AST) : type_t :=
  type_t.array declarator_type constant_expr

/-! ## Declaration specifiers -/

/-- The function `gather_decl_spec_information`. -/
def gather_decl_spec_information (a : AST) (gather_info : gather_decl_spec_t) :
    outcome gather_decl_spec_t :=
  match ASTType a with
  | node_t.AST_AUTO_SPEC => pure { gather_info with is_auto := true }
  | node_t.AST_REGISTER_SPEC => pure { gather_info with is_register := true }
  | node_t.AST_STATIC_SPEC => pure { gather_info with is_static := true }
  | node_t.AST_EXTERN_SPEC => pure { gather_info with is_extern := true }
  | node_t.AST_MUTABLE_SPEC => pure { gather_info with is_mutable := true }
  | node_t.AST_THREAD_SPEC => pure { gather_info with is_thread := true }
  | node_t.AST_FRIEND_SPEC => pure { gather_info with is_friend := true }
  | node_t.AST_TYPEDEF_SPEC => pure { gather_info with is_typedef := true }
  | node_t.AST_SIGNED_TYPE => pure { gather_info with is_signed := true }
  | node_t.AST_UNSIGNED_TYPE => pure { gather_info with is_unsigned := true }
  | node_t.AST_LONG_TYPE => pure { gather_info with is_long := true }
  | node_t.AST_SHORT_TYPE => pure { gather_info with is_short := true }
  | node_t.AST_CONST_SPEC => pure { gather_info with is_const := true }
  | node_t.AST_VOLATILE_SPEC => pure { gather_info with is_volatile := true }
  | node_t.AST_INLINE_SPEC => pure { gather_info with is_inline := true }
  | node_t.AST_VIRTUAL_SPEC => pure { gather_info with is_virtual := true }
  | node_t.AST_EXPLICIT_SPEC => pure { gather_info with is_explicit := true }
  | _ => outcome.internal_error "Unknown node %s"

/-- The type of a stub symbol made by the elaborated type specifiers: a
Direct type of the given kind. -/
def stub_type (kind : simple_type_kind_t) : type_t :=
  type_t.direct (simple_type_t.mk { zero_simple_type_fields with kind := kind }
    class_info_t.null type_t.null template_argument_list_t.null)

/-- The simple type that refers to a symbol: kind `STK_USER_DEFINED`. -/
def set_user_defined (s : simple_type_t) (entry : EntryId) : simple_type_t :=
  s.update (fun f =>
    { f with kind := simple_type_kind_t.STK_USER_DEFINED, user_defined_type := some entry })

/-- The common body of the two elaborated type specifier functions: look for
an entry of one of the wanted kinds, otherwise create a stub when the name is
unqualified. -/
def gather_type_spec_from_elaborated (env : collaborators) (tab : scope_store) (st : ScopeId)
    (global_scope nested_name_specifier symbol : AST) (wanted : List cxx_symbol_kind)
    (stub_kind : cxx_symbol_kind) (stub_simple_kind : simple_type_kind_t)
    (type_info : simple_type_t) : scope_store × simple_type_t :=
  let result_list := env.query_nested_name tab st global_scope nested_name_specifier symbol
    unqualified_lookup_behaviour_t.FULL_UNQUALIFIED_LOOKUP
  match (filter_symbol_kind_set tab result_list wanted).head? with
  | none =>
      if nested_name_specifier = AST.null ∧ global_scope = AST.null then
        let r := new_symbol tab st (ASTText symbol)
        let tab1 := set_entry r.1 r.2
          { get_entry r.1 r.2 with kind := stub_kind, type_information := stub_type stub_simple_kind }
        (tab1, set_user_defined type_info r.2)
      else (tab, type_info)
  | some entry => (tab, set_user_defined type_info entry)

/-- The function `gather_type_spec_from_elaborated_class_specifier`. -/
def gather_type_spec_from_elaborated_class_specifier (env : collaborators) (tab : scope_store)
    (a : AST) (st : ScopeId) (type_info : simple_type_t) : scope_store × simple_type_t :=
  gather_type_spec_from_elaborated env tab st (ASTSon1 a) (ASTSon2 a) (ASTSon3 a)
    [cxx_symbol_kind.SK_CLASS, cxx_symbol_kind.SK_TEMPLATE_PRIMARY_CLASS,
      cxx_symbol_kind.SK_TEMPLATE_SPECIALIZED_CLASS]
    cxx_symbol_kind.SK_CLASS simple_type_kind_t.STK_CLASS type_info

/-- The function `gather_type_spec_from_elaborated_enum_specifier`. -/
def gather_type_spec_from_elaborated_enum_specifier (env : collaborators) (tab : scope_store)
    (a : AST) (st : ScopeId) (type_info : simple_type_t) : scope_store × simple_type_t :=
  gather_type_spec_from_elaborated env tab st (ASTSon0 a) (ASTSon1 a) (ASTSon2 a)
    [cxx_symbol_kind.SK_ENUM] cxx_symbol_kind.SK_ENUM simple_type_kind_t.STK_ENUM type_info

/-- The function `gather_type_spec_from_simple_type_specifier`. -/
def gather_type_spec_from_simple_type_specifier (env : collaborators) (tab : scope_store)
    (a : AST) (st : ScopeId) (simple_type_info : simple_type_t) : outcome simple_type_t :=
  let global_op := ASTSon0 a
  let nested_name_spec := ASTSon1 a
  let type_name := if ASTSon2 a ≠ AST.null then ASTSon2 a else ASTSon3 a
  let entry_list := env.query_nested_name tab st global_op nested_name_spec type_name
    unqualified_lookup_behaviour_t.FULL_UNQUALIFIED_LOOKUP
  if entry_list = [] then outcome.internal_error "The list of types is already empty!"
  else
    match env.filter_simple_type_specifier tab entry_list with
    | none => outcome.internal_error "Identifier %s in line %d is not a type"
    | some simple_type_entry =>
        if (get_entry tab simple_type_entry).type_information.type_is_null then
          outcome.internal_error "The named type %s has no direct type entry in symbol table"
        else pure (set_user_defined simple_type_info simple_type_entry)

/-! ## Enum specifiers -/

/-- State of the enumerator loop of `gather_type_spec_from_enum_specifier`:
the store, the running `enum_value`, and the simple type of the caller. -/
structure enum_state where
  tab : scope_store
  enum_value : Int
  simple_type_info : simple_type_t

/-- The statement `P_LIST_ADD(simple_type_info->enum_info->enumeration_list,
..., enumeration_item)`: for a named enum, `simple_type_info` points to the
simple type of the enum symbol (`target`); for an anonymous one, to the record
of the caller. -/
def add_enumeration (tab : scope_store) (target : Option EntryId)
    (simple_type_info : simple_type_t) (enumeration_item : EntryId) :
    scope_store × simple_type_t :=
  let add := fun (f : simple_type_fields) =>
    { f with enumeration_list := f.enumeration_list ++ [enumeration_item] }
  match target with
  | some e =>
      let entry := get_entry tab e
      let ty := match entry.type_information with
        | type_t.direct s => type_t.direct (s.update add)
        | t => t
      (set_entry tab e { entry with type_information := ty }, simple_type_info)
  | none => (tab, simple_type_info.update add)

/-- One iteration of the enumerator loop: register the enumerator in the
enclosing scope and give it its value. -/
def enumerator_step (env : collaborators) (st : ScopeId) (target : Option EntryId)
    (s : enum_state) (iter : AST) : enum_state :=
  let enumeration := ASTSon1 iter
  let enumeration_name := ASTSon0 enumeration
  let enumeration_expr := ASTSon1 enumeration
  let r := new_symbol s.tab st (ASTText enumeration_name)
  let tab1 := set_entry r.1 r.2 { get_entry r.1 r.2 with kind := cxx_symbol_kind.SK_ENUMERATOR }
  let enum_value :=
    if enumeration_expr = AST.null then increment_literal_value s.enum_value
    else env.evaluate_constant_expression tab1 enumeration_expr st
  let tab2 := set_entry tab1 r.2
    { get_entry tab1 r.2 with expression_value := env.tree_from_literal_value enum_value }
  let r2 := add_enumeration tab2 target s.simple_type_info r.2
  { tab := r2.1, enum_value := enum_value, simple_type_info := r2.2 }

/-- The enumerator loop. -/
def enumerator_loop (env : collaborators) (st : ScopeId) (target : Option EntryId)
    (iters : List AST) (s : enum_state) : enum_state :=
  iters.foldl (enumerator_step env st target) s

/-- The first half of `gather_type_spec_from_enum_specifier`: a named enum is
registered in the scope unless lookup yields exactly one entry and it is an
enum. The result is the store, the simple type left to the caller, and the
enum symbol if there is one. -/
def register_enum_name (env : collaborators) (tab : scope_store) (a : AST) (st : ScopeId)
    (simple_type_info : simple_type_t) : scope_store × simple_type_t × Option EntryId :=
  let info0 := simple_type_info.update (fun f =>
    { f with enumeration_list := [], kind := simple_type_kind_t.STK_ENUM })
  let enum_name := ASTSon0 a
  if enum_name ≠ AST.null then
    let enum_entry_list := env.query_unqualified_name tab st (ASTText enum_name)
    let r : scope_store × EntryId :=
      match enum_entry_list with
      | [e] =>
          if (get_entry tab e).kind = cxx_symbol_kind.SK_ENUM then (tab, e)
          else
            let n := new_symbol tab st (ASTText enum_name)
            (set_entry n.1 n.2 { get_entry n.1 n.2 with kind := cxx_symbol_kind.SK_ENUM }, n.2)
      | _ =>
          let n := new_symbol tab st (ASTText enum_name)
          (set_entry n.1 n.2 { get_entry n.1 n.2 with kind := cxx_symbol_kind.SK_ENUM }, n.2)
    let tab1 := set_entry r.1 r.2
      { get_entry r.1 r.2 with
          type_information := copy_type (simple_type_to_type info0), defined := true }
    (tab1, set_user_defined zero_simple_type r.2, some r.2)
  else (tab, info0, none)

/-- The function `gather_type_spec_from_enum_specifier`. -/
def gather_type_spec_from_enum_specifier (env : collaborators) (tab : scope_store) (a : AST)
    (st : ScopeId) (simple_type_info : simple_type_t) : scope_store × simple_type_t :=
  let r := register_enum_name env tab a st simple_type_info
  let list := ASTSon1 a
  if list ≠ AST.null then
    let s := enumerator_loop env st r.2.2 (for_each_element list)
      { tab := r.1, enum_value := literal_value_minus_one, simple_type_info := r.2.1 }
    (s.tab, s.simple_type_info)
  else (r.1, r.2.1)

/-- The function `gather_type_spec_information`. -/
def gather_type_spec_information (env : collaborators) (tab : scope_store) (a : AST)
    (st : ScopeId) (simple_type_info : simple_type_t) : outcome (scope_store × simple_type_t) :=
  let builtin := fun (b : builtin_type_t) (g : simple_type_fields → simple_type_fields) =>
    (pure (tab, simple_type_info.update (fun f =>
      g { f with kind := simple_type_kind_t.STK_BUILTIN_TYPE, builtin_type := b })) :
      outcome (scope_store × simple_type_t))
  match ASTType a with
  | node_t.AST_SIMPLE_TYPE_SPECIFIER => do
      let r ← gather_type_spec_from_simple_type_specifier env tab a st simple_type_info
      pure (tab, r)
  | node_t.AST_ENUM_SPECIFIER =>
      pure (gather_type_spec_from_enum_specifier env tab a st simple_type_info)
  | node_t.AST_CLASS_SPECIFIER =>
      env.gather_type_spec_from_class_specifier tab a st simple_type_info
  | node_t.AST_ELABORATED_TYPE_ENUM =>
      pure (gather_type_spec_from_elaborated_enum_specifier env tab a st simple_type_info)
  | node_t.AST_ELABORATED_TYPE_CLASS =>
      pure (gather_type_spec_from_elaborated_class_specifier env tab a st simple_type_info)
  | node_t.AST_ELABORATED_TYPE_TEMPLATE_TEMPLATE =>
      outcome.internal_error "Still not supported AST_ELABORATED_TYPE_TEMPLATE_TEMPLATE"
  | node_t.AST_ELABORATED_TYPE_TEMPLATE =>
      outcome.internal_error "Still not supported AST_ELABORATED_TYPE_TEMPLATE"
  | node_t.AST_CHAR_TYPE => builtin builtin_type_t.BT_CHAR id
  | node_t.AST_WCHAR_TYPE => builtin builtin_type_t.BT_WCHAR id
  | node_t.AST_BOOL_TYPE => builtin builtin_type_t.BT_BOOL id
  | node_t.AST_SHORT_TYPE => builtin builtin_type_t.BT_INT (fun f => { f with is_short := true })
  | node_t.AST_INT_TYPE => builtin builtin_type_t.BT_INT id
  | node_t.AST_LONG_TYPE => builtin builtin_type_t.BT_INT (fun f => { f with is_long := 1 })
  | node_t.AST_SIGNED_TYPE => builtin builtin_type_t.BT_INT (fun f => { f with is_signed := true })
  | node_t.AST_UNSIGNED_TYPE =>
      builtin builtin_type_t.BT_INT (fun f => { f with is_unsigned := true })
  | node_t.AST_FLOAT_TYPE => builtin builtin_type_t.BT_FLOAT id
  | node_t.AST_DOUBLE_TYPE => builtin builtin_type_t.BT_DOUBLE id
  | node_t.AST_VOID_TYPE => builtin builtin_type_t.BT_VOID id
  | _ => outcome.internal_error "Unknown node %s"

/-- One of the two loops of `build_scope_decl_specifier_seq` over the
specifiers that are not the type; a `NULL` list is skipped. -/
def gather_decl_spec_list (list : AST) (gather_info : gather_decl_spec_t) :
    outcome gather_decl_spec_t :=
  if list ≠ AST.null then
    (for_each_element list).foldlM
      (fun g iter => gather_decl_spec_information (ASTSon1 iter) g) gather_info
  else pure gather_info

/-- The update of the type specifier with what the decl-specifier-seq said
about length, sign and cv-qualification. -/
def apply_gather_info (gather_info : gather_decl_spec_t) (f : simple_type_fields) :
    simple_type_fields :=
  let f := if gather_info.is_long then { f with is_long := f.is_long + 1 } else f
  let f := if gather_info.is_short then { f with is_short := true } else f
  let f := if gather_info.is_unsigned then { f with is_unsigned := true } else f
  let f := if gather_info.is_signed then { f with is_signed := true } else f
  let f := { f with cv_qualifier := CV_NONE }
  let f := if gather_info.is_const then { f with cv_qualifier := f.cv_qualifier.or CV_CONST } else f
  if gather_info.is_volatile then { f with cv_qualifier := f.cv_qualifier.or CV_VOLATILE } else f

/-- The function `build_scope_decl_specifier_seq`: the flags in `gather_info`
and the base type in `simple_type_info`, which stays as it was when the
sequence has no type specifier. The update of the record after the type
specifier is a store through a pointer: the record of a class specifier is
held by the types its members have made of it. -/
def build_scope_decl_specifier_seq (env : collaborators) (tab : scope_store) (a : AST)
    (st : ScopeId) (gather_info : gather_decl_spec_t) (simple_type_info : simple_type_t) :
    outcome (scope_store × gather_decl_spec_t × simple_type_t) := do
  let g1 ← gather_decl_spec_list (ASTSon0 a) gather_info
  let g2 ← gather_decl_spec_list (ASTSon2 a) g1
  if ASTSon1 a ≠ AST.null then
    let r ← gather_type_spec_information env tab (ASTSon1 a) st zero_simple_type
    pure (write_record r.1 (r.2.update (apply_gather_info g2)), g2,
      r.2.update (apply_gather_info g2))
  else pure (tab, g2, simple_type_info)

/-! ## The declaration registrar -/

/-- Removal of the top-level cv-qualification of a parameter type. -/
def strip_top_level_cv : type_t → type_t
  | type_t.direct s => type_t.direct (s.update (fun f => { f with cv_qualifier := CV_NONE }))
  | type_t.pointer p _ => type_t.pointer p CV_NONE
  | type_t.pointer_to_member p c _ => type_t.pointer_to_member p c CV_NONE
  | t => t

/-- Two parameters agree: both are the ellipsis, or neither is and their
types are structurally equal up to top-level cv-qualification; default
arguments are not compared. -/
def equivalent_parameter (p q : parameter_info_t) : Bool :=
  (p.is_ellipsis && q.is_ellipsis) ||
    (!p.is_ellipsis && !q.is_ellipsis &&
      decide (erase_addresses (strip_top_level_cv p.type_info)
        = erase_addresses (strip_top_level_cv q.type_info)))

/-- Ordered, structural equality of two parameter-type lists. -/
def equivalent_parameter_lists : List parameter_info_t → List parameter_info_t → Bool
  | [], [] => true
  | p :: ps, q :: qs => equivalent_parameter p q && equivalent_parameter_lists ps qs
  | _, _ => false

/-- Modelled from the spec: `overloaded_function` of `cxx-typeutils` is not in
the shown sources. Two function declarations are overloads of each other
unless their parameter-type lists are structurally equal, in order, up to
top-level cv-qualification of the parameters and counting a trailing ellipsis;
default arguments do not take part. A missing function record never matches. -/
def overloaded_function (f g : Option function_info_t) : Bool :=
  match f, g with
  | some f, some g =>
      !equivalent_parameter_lists f.parameter_list.toList g.parameter_list.toList
  | _, _ => true

/-- The loop of `find_function_declaration`: the first function entry of the
list that is not an overload of the declared function, and the flag
`is_overload`. -/
def find_function_declaration_loop (tab : scope_store)
    (function_being_declared : Option function_info_t) :
    List EntryId → Bool → Option EntryId × Bool
  | [], is_overload => (none, is_overload)
  | entry :: next, is_overload =>
      if (get_entry tab entry).kind ≠ cxx_symbol_kind.SK_FUNCTION then
        find_function_declaration_loop tab function_being_declared next is_overload
      else
        let current_function := (get_entry tab entry).type_information.function_info
        let found_equal := !overloaded_function function_being_declared current_function
        if found_equal then (some entry, is_overload)
        else find_function_declaration_loop tab function_being_declared next true

/-- The function `find_function_declaration`. -/
def find_function_declaration (env : collaborators) (tab : scope_store) (st : ScopeId)
    (declarator_id : AST) (declarator_type : type_t) : Option EntryId × Bool :=
  let entry_list := query_id_expression env tab st declarator_id
    unqualified_lookup_behaviour_t.NOFULL_UNQUALIFIED_LOOKUP
  find_function_declaration_loop tab declarator_type.function_info entry_list false

/-- The function `register_function`. -/
def register_function (env : collaborators) (tab : scope_store) (declarator_id : AST)
    (declarator_type : type_t) (st : ScopeId) : scope_store × EntryId :=
  match (find_function_declaration env tab st declarator_id declarator_type).1 with
  | none =>
      let r := new_symbol tab st (ASTText declarator_id)
      (set_entry r.1 r.2
        { get_entry r.1 r.2 with
            kind := cxx_symbol_kind.SK_FUNCTION, type_information := declarator_type }, r.2)
  | some entry => (tab, entry)

/-- The function `register_new_variable_name`. -/
def register_new_variable_name (env : collaborators) (tab : scope_store) (declarator_id : AST)
    (declarator_type : type_t) (st : ScopeId) : outcome (scope_store × EntryId) :=
  if !declarator_type.is_function then
    let entry_list := query_id_expression env tab st declarator_id
      unqualified_lookup_behaviour_t.NOFULL_UNQUALIFIED_LOOKUP
    let check_list := filter_symbol_non_kind_set tab entry_list
      [cxx_symbol_kind.SK_CLASS, cxx_symbol_kind.SK_ENUM]
    if check_list ≠ [] then
      outcome.running_error "Symbol %s has been redefined as another symbol kind"
    else
      let r := new_symbol tab st (ASTText declarator_id)
      pure (set_entry r.1 r.2
        { get_entry r.1 r.2 with
            kind := cxx_symbol_kind.SK_VARIABLE, type_information := declarator_type }, r.2)
  else pure (register_function env tab declarator_id declarator_type st)

/-- The type of a typedef symbol: a Direct type of kind `STK_TYPEDEF` whose
aliased type is the declared type. -/
def typedef_type (declarator_type : type_t) : type_t :=
  type_t.direct (simple_type_t.mk
    { zero_simple_type_fields with kind := simple_type_kind_t.STK_TYPEDEF }
    class_info_t.null declarator_type template_argument_list_t.null)

/-- The function `register_new_typedef_name`. -/
def register_new_typedef_name (env : collaborators) (tab : scope_store) (declarator_id : AST)
    (declarator_type : type_t) (st : ScopeId) : outcome (scope_store × EntryId) :=
  let list := env.query_unqualified_name tab st (ASTText declarator_id)
  let register : outcome (scope_store × EntryId) :=
    let r := new_symbol tab st (ASTText declarator_id)
    pure (set_entry r.1 r.2
      { get_entry r.1 r.2 with
          kind := cxx_symbol_kind.SK_TYPEDEF, type_information := typedef_type declarator_type },
      r.2)
  match list with
  | [] => register
  | [_] =>
      match env.filter_simple_type_specifier tab list with
      | none => outcome.running_error
          "Symbol %s in line %d has been redeclared as a different symbol kind."
      | some _ => register
  | _ => outcome.running_error
      "Symbol %s in line %d has been redeclared as a different symbol kind."

/-- The function `get_operator_function_name`. -/
def get_operator_function_name (declarator_id : AST) : outcome String :=
  if ASTType declarator_id ≠ node_t.AST_OPERATOR_FUNCTION_ID then
    outcome.internal_error "This node is not valid here %s"
  else
    match ASTType (ASTSon0 declarator_id) with
    | node_t.AST_NEW_OPERATOR => pure "operator new"
    | node_t.AST_DELETE_OPERATOR => pure "operator delete"
    | node_t.AST_NEW_ARRAY_OPERATOR => pure "operator new[]"
    | node_t.AST_DELETE_ARRAY_OPERATOR => pure "operator delete[]"
    | node_t.AST_ADD_OPERATOR => pure "operator +"
    | node_t.AST_MINUS_OPERATOR => pure "operator -"
    | node_t.AST_MULT_OPERATOR => pure "operator *"
    | node_t.AST_DIV_OPERATOR => pure "operator /"
    | node_t.AST_MOD_OPERATOR => pure "operator %"
    | node_t.AST_BITWISE_XOR_OPERATOR => pure "operator ^"
    | node_t.AST_BITWISE_AND_OPERATOR => pure "operator &"
    | node_t.AST_BITWISE_OR_OPERATOR => pure "operator |"
    | node_t.AST_BITWISE_NEG_OPERATOR => pure "operator ~"
    | node_t.AST_LOGICAL_NOT_OPERATOR => pure "operator !"
    | node_t.AST_ASSIGNMENT_OPERATOR => pure "operator ="
    | node_t.AST_LOWER_OPERATOR => pure "operator <"
    | node_t.AST_GREATER_OPERATOR => pure "operator >"
    | node_t.AST_ADD_ASSIGN_OPERATOR => pure "operator +="
    | node_t.AST_SUB_ASSIGN_OPERATOR => pure "operator -="
    | node_t.AST_MUL_ASSIGN_OPERATOR => pure "operator *="
    | node_t.AST_DIV_ASSIGN_OPERATOR => pure "operator /="
    | node_t.AST_MOD_ASSIGN_OPERATOR => pure "operator %="
    | node_t.AST_XOR_ASSIGN_OPERATOR => pure "operator ^="
    | node_t.AST_AND_ASSIGN_OPERATOR => pure "operator &="
    | node_t.AST_OR_ASSIGN_OPERATOR => pure "operator |="
    | node_t.AST_LEFT_OPERATOR => pure "operator <<"
    | node_t.AST_RIGHT_OPERATOR => pure "operator >>"
    | node_t.AST_LEFT_ASSIGN_OPERATOR => pure "operator <<="
    | node_t.AST_RIGHT_ASSIGN_OPERATOR => pure "operator >>="
    | node_t.AST_EQUAL_OPERATOR => pure "operator =="
    | node_t.AST_DIFFERENT_OPERATOR => pure "operator !="
    | node_t.AST_LESS_OR_EQUAL_OPERATOR => pure "operator <="
    | node_t.AST_GREATER_OR_EQUAL_OPERATOR => pure "operator >="
    | node_t.AST_LOGICAL_AND_OPERATOR => pure "operator &&"
    | node_t.AST_LOGICAL_OR_OPERATOR => pure "operator ||"
    | node_t.AST_INCREMENT_OPERATOR => pure "operator ++"
    | node_t.AST_DECREMENT_OPERATOR => pure "operator --"
    | node_t.AST_COMMA_OPERATOR => pure "operator ,"
    | node_t.AST_POINTER_OPERATOR => pure "operator ->"
    | node_t.AST_POINTER_DERREF_OPERATOR => pure "operator ->*"
    | node_t.AST_FUNCTION_CALL_OPERATOR => pure "operator ()"
    | node_t.AST_SUBSCRIPT_OPERATOR => pure "operator []"
    | _ => outcome.internal_error "Invalid node type %s"

/-- The function `build_scope_declarator_id_expr`: the entry registered or
found for the declarator name, if any. -/
def build_scope_declarator_id_expr (env : collaborators) (tab : scope_store)
    (declarator_name : AST) (declarator_type : type_t) (gather_info : gather_decl_spec_t)
    (st : ScopeId) : outcome (scope_store × Option EntryId) :=
  let declarator_id := ASTSon0 declarator_name
  match ASTType declarator_id with
  | node_t.AST_SYMBOL =>
      if gather_info.is_typedef then do
        let r ← register_new_typedef_name env tab declarator_id declarator_type st
        pure (r.1, some r.2)
      else do
        let r ← register_new_variable_name env tab declarator_id declarator_type st
        pure (r.1, some r.2)
  | node_t.AST_DESTRUCTOR_ID => do
      let destructor_id := ASTSon0 declarator_id
      let r ← register_new_variable_name env tab destructor_id declarator_type st
      pure (r.1, some r.2)
  | node_t.AST_TEMPLATE_ID => pure (tab, none)
  | node_t.AST_OPERATOR_FUNCTION_ID => do
      let operator_function_name ← get_operator_function_name declarator_id
      let operator_id := ASTLeaf node_t.AST_SYMBOL operator_function_name
      let r ← register_new_variable_name env tab operator_id declarator_type st
      pure (r.1, some r.2)
  | node_t.AST_CONVERSION_FUNCTION_ID =>
      let conversion_function_name := (env.get_conversion_function_name tab declarator_id st).1
      let r := new_symbol tab st conversion_function_name
      pure (set_entry r.1 r.2
        { get_entry r.1 r.2 with
            kind := cxx_symbol_kind.SK_FUNCTION, type_information := declarator_type },
        some r.2)
  | node_t.AST_QUALIFIED_ID =>
      if !declarator_type.is_function then
        match query_id_expression env tab st declarator_id
            unqualified_lookup_behaviour_t.FULL_UNQUALIFIED_LOOKUP with
        | [] => outcome.internal_error "Qualified id name not found"
        | entry :: _ => pure (tab, some entry)
      else pure (tab, (find_function_declaration env tab st declarator_id declarator_type).1)
  | node_t.AST_QUALIFIED_TEMPLATE => pure (tab, none)
  | node_t.AST_QUALIFIED_TEMPLATE_ID => pure (tab, none)
  | node_t.AST_QUALIFIED_OPERATOR_FUNCTION_ID => pure (tab, none)
  | _ => outcome.internal_error "Unknown node %s"

/-- The function `build_scope_declarator_name`. -/
def build_scope_declarator_name (env : collaborators) (tab : scope_store)
    (declarator_name : AST) (declarator_type : type_t) (gather_info : gather_decl_spec_t)
    (st : ScopeId) : outcome (scope_store × Option EntryId) :=
  match ASTType declarator_name with
  | node_t.AST_DECLARATOR_ID_EXPR =>
      build_scope_declarator_id_expr env tab declarator_name declarator_type gather_info st
  | _ => outcome.internal_error "Unknown node %s"

/-! ## The declarator-to-type composer -/

/-- What `build_scope_declarator_rec` leaves behind: the store, the content
of `*parameters_scope`, the composed `*declarator_type`, the name node
`*declarator_name`, and the declarator tree itself, in which an ambiguous node
met on the way has been replaced by its resolution. -/
structure declarator_rec_result where
  tab : scope_store
  parameters_scope : Option ScopeId
  declarator_type : type_t
  declarator_name : AST
  tree : AST
  deriving DecidableEq, Repr

/-- What `build_scope_declarator_with_parameter_scope` leaves behind: the
store, the returned entry, the content of `*parameters_scope`, the composed
`*declarator_type`, and the declarator tree. -/
structure declarator_result where
  tab : scope_store
  entry : Option EntryId
  parameters_scope : Option ScopeId
  declarator_type : type_t
  tree : AST
  deriving DecidableEq, Repr

/-- The conversion function id of a declarator name, as looked for by
`build_scope_declarator_with_parameter_scope`; `NULL` if there is none. -/
def conversion_function_id_of (declarator_name : AST) : AST :=
  let id_expression := ASTSon0 declarator_name
  let conversion_function_id :=
    if ASTType id_expression = node_t.AST_QUALIFIED_ID then
      if ASTType (ASTSon2 id_expression) = node_t.AST_CONVERSION_FUNCTION_ID then
        ASTSon2 id_expression
      else AST.null
    else AST.null
  if ASTType id_expression = node_t.AST_CONVERSION_FUNCTION_ID then id_expression
  else conversion_function_id

/-- The special case of `build_scope_declarator_with_parameter_scope` for
conversion function ids: a function type whose return type has no simple type
gets the conversion type as return type. -/
def fix_conversion_return_type (env : collaborators) (tab : scope_store) (st : ScopeId)
    (declarator_name : AST) (declarator_type : type_t) : type_t :=
  match declarator_type with
  | type_t.function f =>
      if f.return_type.type_is_null then
        let conversion_function_id := conversion_function_id_of declarator_name
        if conversion_function_id ≠ AST.null then
          type_t.function (f.set_return_type
            (env.get_conversion_function_name tab conversion_function_id st).2)
        else declarator_type
      else declarator_type
  | _ => declarator_type

mutual
/-- The function `build_scope_declarator_rec`: the full type a declarator
stands for, the wrappers applied from the root of the tree to the name. The
first argument is the recursion budget. -/
def build_scope_declarator_rec (env : collaborators) :
    Nat → scope_store → AST → ScopeId → Option ScopeId → type_t → gather_decl_spec_t → AST →
    outcome declarator_rec_result
  | 0, _, _, _, _, _, _, _ => outcome.out_of_fuel
  | fuel + 1, tab, a, st, parameters_scope, declarator_type, gather_info, declarator_name =>
    match a with
    | AST.null => outcome.internal_error "This function does not admit NULL trees"
    | AST.node kind son0 son1 son2 son3 text =>
      match kind with
      | node_t.AST_DECLARATOR
      | node_t.AST_PARENTHESIZED_ABSTRACT_DECLARATOR
      | node_t.AST_PARENTHESIZED_DECLARATOR => do
          let r ← build_scope_declarator_rec env fuel tab son0 st parameters_scope
            declarator_type gather_info declarator_name
          pure { r with tree := AST.node kind r.tree son1 son2 son3 text }
      | node_t.AST_CONVERSION_DECLARATOR
      | node_t.AST_ABSTRACT_DECLARATOR => do
          let t ← set_pointer_type env tab declarator_type st son0
          if son1 ≠ AST.null then
            let r ← build_scope_declarator_rec env fuel tab son1 st parameters_scope t
              gather_info declarator_name
            pure { r with tree := AST.node kind son0 r.tree son2 son3 text }
          else pure ⟨tab, parameters_scope, t, declarator_name, a⟩
      | node_t.AST_POINTER_DECL => do
          let t ← set_pointer_type env tab declarator_type st son0
          let r ← build_scope_declarator_rec env fuel tab son1 st parameters_scope t
            gather_info declarator_name
          pure { r with tree := AST.node kind son0 r.tree son2 son3 text }
      | node_t.AST_ABSTRACT_ARRAY
      | node_t.AST_DIRECT_NEW_DECLARATOR =>
          let t := set_array_type declarator_type son1
          if son0 ≠ AST.null then do
            let r ← build_scope_declarator_rec env fuel tab son0 st parameters_scope t
              gather_info declarator_name
            pure { r with tree := AST.node kind r.tree son1 son2 son3 text }
          else pure ⟨tab, parameters_scope, t, declarator_name, a⟩
      | node_t.AST_NEW_DECLARATOR => do
          let t ← set_pointer_type env tab declarator_type st son0
          if son0 ≠ AST.null then
            let r ← build_scope_declarator_rec env fuel tab son0 st parameters_scope t
              gather_info declarator_name
            pure { r with tree := AST.node kind r.tree son1 son2 son3 text }
          else pure ⟨tab, parameters_scope, t, declarator_name, a⟩
      | node_t.AST_DECLARATOR_ARRAY => do
          let t := set_array_type declarator_type son1
          let r ← build_scope_declarator_rec env fuel tab son0 st parameters_scope t
            gather_info declarator_name
          pure { r with tree := AST.node kind r.tree son1 son2 son3 text }
      | node_t.AST_ABSTRACT_DECLARATOR_FUNC => do
          let f ← set_function_type env fuel tab declarator_type st parameters_scope
            gather_info son1 son2 son3
          if son0 ≠ AST.null then
            let r ← build_scope_declarator_rec env fuel f.1 son0 st f.2.1 f.2.2
              gather_info declarator_name
            pure { r with tree := AST.node kind r.tree son1 son2 son3 text }
          else pure ⟨f.1, f.2.1, f.2.2, declarator_name, a⟩
      | node_t.AST_DECLARATOR_FUNC => do
          let f ← set_function_type env fuel tab declarator_type st parameters_scope
            gather_info son1 son2 son3
          let r ← build_scope_declarator_rec env fuel f.1 son0 st f.2.1 f.2.2
            gather_info declarator_name
          pure { r with tree := AST.node kind r.tree son1 son2 son3 text }
      | node_t.AST_DECLARATOR_ID_EXPR =>
          pure ⟨tab, parameters_scope, declarator_type, a, a⟩
      | node_t.AST_AMBIGUITY =>
          build_scope_declarator_rec env fuel tab (env.solve_ambiguous_declarator tab a st) st
            parameters_scope declarator_type gather_info declarator_name
      | _ => outcome.internal_error "Unknown node %s"
termination_by structural fuel => fuel
/-- The function `set_function_type`: from `T` to function returning `T`.
The result is the store, the content of `*parameters_scope` and the type. -/
def set_function_type (env : collaborators) :
    Nat → scope_store → type_t → ScopeId → Option ScopeId → gather_decl_spec_t →
    AST → AST → AST → outcome (scope_store × Option ScopeId × type_t)
  | 0, _, _, _, _, _, _, _, _ => outcome.out_of_fuel
  | fuel + 1, tab, declarator_type, st, parameters_scope, gather_info, parameter, cv_qualif,
      except_spec => do
    let returning_type := declarator_type
    let p ← set_function_parameter_clause env fuel tab st parameters_scope parameter
    let cv ← compute_cv_qualifier cv_qualif
    let e ← build_exception_spec env fuel p.1 st except_spec
    pure (e.1, p.2.1,
      type_t.function (function_info_t.mk returning_type p.2.2 cv e.2
        gather_info.is_static gather_info.is_inline gather_info.is_virtual
        gather_info.is_explicit false simple_type_t.null))
termination_by structural fuel => fuel
/-- The function `set_function_parameter_clause`: the parameter list of a
function declarator. The result is the store, the content of `*parameter_sc`
and the list. -/
def set_function_parameter_clause (env : collaborators) :
    Nat → scope_store → ScopeId → Option ScopeId → AST →
    outcome (scope_store × Option ScopeId × parameter_list_t)
  | 0, _, _, _, _ => outcome.out_of_fuel
  | fuel + 1, tab, st, parameter_sc, parameters =>
    if ASTType parameters = node_t.AST_EMPTY_PARAMETER_DECLARATION_CLAUSE then
      pure (tab, parameter_sc, parameter_list_t.nil)
    else do
      let s := new_prototype_scope tab st
      let r ← set_function_parameter_loop env fuel s.1 s.2 (for_each_element parameters)
        parameter_list_t.nil
      pure (r.1, some s.2, r.2)
termination_by structural fuel => fuel
/-- The loop of `set_function_parameter_clause` over the parameter
declarations. -/
def set_function_parameter_loop (env : collaborators) :
    Nat → scope_store → ScopeId → List AST → parameter_list_t →
    outcome (scope_store × parameter_list_t)
  | 0, _, _, _, _ => outcome.out_of_fuel
  | _ + 1, tab, _, [], parameter_list => pure (tab, parameter_list)
  | fuel + 1, tab, parameters_scope, iter :: rest, parameter_list =>
    let parameter_declaration := ASTSon1 iter
    if ASTType parameter_declaration = node_t.AST_VARIADIC_ARG then
      set_function_parameter_loop env fuel tab parameters_scope rest
        (parameter_list.add (parameter_info_t.mk true type_t.null AST.null))
    else do
      let parameter_decl_spec_seq := ASTSon0 parameter_declaration
      let parameter_declarator := ASTSon1 parameter_declaration
      let default_argument := ASTSon2 parameter_declaration
      let d ← build_scope_decl_specifier_seq env tab parameter_decl_spec_seq parameters_scope
        zero_gather_info simple_type_t.null
      if parameter_declarator ≠ AST.null then
        let r ← build_scope_declarator env fuel d.1 parameter_declarator parameters_scope
          d.2.1 d.2.2
        set_function_parameter_loop env fuel r.tab parameters_scope rest
          (parameter_list.add (parameter_info_t.mk false r.declarator_type default_argument))
      else
        set_function_parameter_loop env fuel d.1 parameters_scope rest
          (parameter_list.add
            (parameter_info_t.mk false (simple_type_to_type d.2.2) default_argument))
termination_by structural fuel => fuel
/-- The function `build_exception_spec`: `NULL` without exception
specification, otherwise the sequence of the listed types. -/
def build_exception_spec (env : collaborators) :
    Nat → scope_store → ScopeId → AST → outcome (scope_store × exception_spec_t)
  | 0, _, _, _ => outcome.out_of_fuel
  | fuel + 1, tab, st, a =>
    if a = AST.null then pure (tab, exception_spec_t.null)
    else if ASTSon0 a = AST.null then pure (tab, exception_spec_t.mk type_list_t.nil)
    else do
      let r ← build_exception_spec_loop env fuel tab st (for_each_element (ASTSon0 a))
        type_list_t.nil
      pure (r.1, exception_spec_t.mk r.2)
termination_by structural fuel => fuel
/-- The loop of `build_exception_spec` over the type ids. -/
def build_exception_spec_loop (env : collaborators) :
    Nat → scope_store → ScopeId → List AST → type_list_t → outcome (scope_store × type_list_t)
  | 0, _, _, _, _ => outcome.out_of_fuel
  | _ + 1, tab, _, [], seq => pure (tab, seq)
  | fuel + 1, tab, st, iter :: rest, seq => do
    let type_id := ASTSon1 iter
    let type_specifier_seq := ASTSon0 type_id
    let abstract_decl := ASTSon1 type_id
    let d ← build_scope_decl_specifier_seq env tab type_specifier_seq st zero_gather_info
      simple_type_t.null
    if abstract_decl ≠ AST.null then
      let r ← build_scope_declarator env fuel d.1 abstract_decl st d.2.1 d.2.2
      build_exception_spec_loop env fuel r.tab st rest (seq.add r.declarator_type)
    else
      build_exception_spec_loop env fuel d.1 st rest (seq.add (simple_type_to_type d.2.2))
termination_by structural fuel => fuel
/-- The function `build_scope_declarator`: the composer called without a
place for the parameter scope. -/
def build_scope_declarator (env : collaborators) :
    Nat → scope_store → AST → ScopeId → gather_decl_spec_t → simple_type_t →
    outcome declarator_result
  | 0, _, _, _, _, _ => outcome.out_of_fuel
  | fuel + 1, tab, a, st, gather_info, simple_type_info =>
    build_scope_declarator_with_parameter_scope env fuel tab a st none gather_info
      simple_type_info
termination_by structural fuel => fuel
/-- The function `build_scope_declarator_with_parameter_scope`: compose the
type from the base type and, when the declarator has a name, register it. -/
def build_scope_declarator_with_parameter_scope (env : collaborators) :
    Nat → scope_store → AST → ScopeId → Option ScopeId → gather_decl_spec_t → simple_type_t →
    outcome declarator_result
  | 0, _, _, _, _, _, _ => outcome.out_of_fuel
  | fuel + 1, tab, a, st, parameters_scope, gather_info, simple_type_info => do
    let r ← build_scope_declarator_rec env fuel tab a st parameters_scope
      (simple_type_to_type simple_type_info) gather_info AST.null
    if r.declarator_name ≠ AST.null then
      let declarator_type :=
        fix_conversion_return_type env r.tab st r.declarator_name r.declarator_type
      let e ← build_scope_declarator_name env r.tab r.declarator_name declarator_type
        gather_info st
      pure ⟨e.1, e.2, r.parameters_scope, declarator_type, r.tree⟩
    else pure ⟨r.tab, none, r.parameters_scope, r.declarator_type, r.tree⟩
termination_by structural fuel => fuel
end

/-- The function `get_declarator_name`: the id expression that names a
declarator that is not abstract. -/
def get_declarator_name : AST → outcome AST
  | AST.null => outcome.internal_error "This function does not admit NULL trees"
  | AST.node kind son0 son1 _ _ _ =>
    match kind with
    | node_t.AST_DECLARATOR
    | node_t.AST_PARENTHESIZED_DECLARATOR => get_declarator_name son0
    | node_t.AST_POINTER_DECL => get_declarator_name son1
    | node_t.AST_DECLARATOR_ARRAY => get_declarator_name son0
    | node_t.AST_DECLARATOR_FUNC => get_declarator_name son0
    | node_t.AST_DECLARATOR_ID_EXPR => pure son0
    | _ => outcome.internal_error "Unknown node %s"

/-! ## Simple declarations -/

/-- The definition step of `build_scope_simple_declaration` for a declarator
that is neither `extern` nor of function type: the first entry found for the
declared name must not be defined yet; it becomes defined and receives the
initializer, which is not folded. -/
def define_declared_symbol (env : collaborators) (tab : scope_store) (st : ScopeId)
    (declarator initializer : AST) : outcome scope_store := do
  let declarator_name ← get_declarator_name declarator
  match query_id_expression env tab st declarator_name
      unqualified_lookup_behaviour_t.NOFULL_UNQUALIFIED_LOOKUP with
  | [] => outcome.internal_error "Symbol just declared has not been found in the scope!"
  | entry :: _ =>
      if (get_entry tab entry).defined then
        outcome.running_error "This symbol has already been defined"
      else
        let tab1 := set_entry tab entry { get_entry tab entry with defined := true }
        if initializer ≠ AST.null then
          pure (set_entry tab1 entry { get_entry tab1 entry with expression_value := initializer })
        else pure tab1

/-- The init-declarator after `solve_ambiguous_init_declarator` has replaced
it when it is ambiguous. -/
def resolved_init_declarator (env : collaborators) (tab : scope_store) (st : ScopeId)
    (init_declarator : AST) : AST :=
  if ASTType init_declarator = node_t.AST_AMBIGUITY then
    env.solve_ambiguous_init_declarator tab init_declarator st
  else init_declarator

/-- The body of the loop of `build_scope_simple_declaration` over the
init-declarators. -/
def build_scope_init_declarator (env : collaborators) (fuel : Nat)
    (gather_info : gather_decl_spec_t) (simple_type_info : simple_type_t) (st : ScopeId)
    (tab : scope_store) (iter : AST) : outcome scope_store := do
  let init_declarator := resolved_init_declarator env tab st (ASTSon1 iter)
  let declarator := ASTSon0 init_declarator
  let initializer := ASTSon1 init_declarator
  let r ← build_scope_declarator_with_parameter_scope env fuel tab declarator st none
    gather_info simple_type_info
  if !gather_info.is_extern && !r.declarator_type.is_function then
    define_declared_symbol env r.tab st r.tree initializer
  else if initializer ≠ AST.null then
    outcome.running_error "An extern symbol cannot be initialized"
  else pure r.tab

/-- The function `build_scope_simple_declaration`. -/
def build_scope_simple_declaration (env : collaborators) (fuel : Nat) (tab : scope_store)
    (a : AST) (st : ScopeId) : outcome scope_store :=
  if ASTType a = node_t.AST_EMPTY_DECL then pure tab
  else do
    let d ←
      if ASTSon0 a ≠ AST.null then
        build_scope_decl_specifier_seq env tab (ASTSon0 a) st zero_gather_info simple_type_t.null
      else pure (tab, zero_gather_info, simple_type_t.null)
    if d.2.2 ≠ simple_type_t.null ∧ ASTSon1 a ≠ AST.null then
      (for_each_element (ASTSon1 a)).foldlM
        (build_scope_init_declarator env fuel d.2.1 d.2.2 st) d.1
    else pure d.1

/-! ## Using directives -/

/-- The search loop of `build_scope_using_directive`: whether the namespace is
among the used namespaces. -/
def already_used : List ScopeId → ScopeId → Bool
  | [], _ => false
  | x :: rest, related_scope => if x = related_scope then true else already_used rest related_scope

/-- Search, then `P_LIST_ADD(st->use_namespace, st->num_used_namespaces, ns)`
unless the namespace is already used. -/
def use_namespace_once (tab : scope_store) (st : ScopeId) (ns : ScopeId) : scope_store :=
  if already_used (get_scope tab st).use_namespace ns then tab
  else
    set_scope tab st
      { get_scope tab st with use_namespace := (get_scope tab st).use_namespace ++ [ns] }

/-- The function `build_scope_using_directive`. The second loop runs over the
used namespaces of the named namespace as they are when it starts: when the
directive stands in the named namespace itself the loop adds nothing, each
candidate being already present, so the list it reads does not change under
it. A namespace symbol without a scope, which the source dereferences, stops
the run. -/
def build_scope_using_directive (env : collaborators) (tab : scope_store) (a : AST)
    (st : ScopeId) : outcome scope_store :=
  let global_op := ASTSon0 a
  let nested_name := ASTSon1 a
  let name := ASTSon2 a
  match env.query_nested_name tab st global_op nested_name name
      unqualified_lookup_behaviour_t.FULL_UNQUALIFIED_LOOKUP with
  | [] => outcome.internal_error "Namespace %s not found"
  | entry :: next =>
      if next ≠ [] ∨ (get_entry tab entry).kind ≠ cxx_symbol_kind.SK_NAMESPACE then
        outcome.internal_error "Symbol %s is not a namespace"
      else
        match (get_entry tab entry).related_scope with
        | none => outcome.internal_error "namespace symbol without related scope"
        | some related_scope =>
            let tab1 := use_namespace_once tab st related_scope
            pure ((get_scope tab1 related_scope).use_namespace.foldl
              (fun t ns => use_namespace_once t st ns) tab1)

/-! ## Templates -/

/-- The placeholder type of the type template parameter at a position. -/
def type_template_parameter_type (num_parameter : Nat) : type_t :=
  type_t.direct (simple_type_t.mk
    { zero_simple_type_fields with
        kind := simple_type_kind_t.STK_TYPE_TEMPLATE_PARAMETER,
        template_parameter_num := num_parameter }
    class_info_t.null type_t.null template_argument_list_t.null)

/-- The function `build_scope_type_template_parameter`: the descriptor of a
parameter `class [name] [= type_id]`; a named parameter is registered in the
template scope. -/
def build_scope_type_template_parameter (tab : scope_store) (a : AST) (st : ScopeId)
    (num_parameter : Nat) : scope_store × template_parameter_t :=
  let new_type := type_template_parameter_type num_parameter
  let name := ASTSon0 a
  let type_id := ASTSon1 a
  let tab1 :=
    if name ≠ AST.null then
      let r := new_symbol tab st (ASTText name)
      set_entry r.1 r.2
        { get_entry r.1 r.2 with
            type_information := new_type, kind := cxx_symbol_kind.SK_TEMPLATE_PARAMETER }
    else tab
  (tab1, { type_info := new_type, default_argument := type_id })

/-- The completion loop of `build_scope_template_arguments`: for the positions
from `num_arguments` up to the number of parameters of the primary template,
the default argument of the parameter is appended to the argument list tree;
a parameter without default argument stops the run. The descriptor read at a
position the descriptor list does not have is a zeroed one. -/
def complete_default_arguments (primary_template : scope_entry_t) (default_arg_list : AST)
    (num_arguments : Nat) : outcome AST :=
  (List.range' num_arguments (primary_template.num_template_parameters - num_arguments)).foldlM
    (fun list k =>
      let default_argument :=
        ((primary_template.template_parameter_info[k]?).getD
          { type_info := type_t.null, default_argument := AST.null }).default_argument
      if default_argument = AST.null then
        outcome.internal_error "Parameter %d of template %s has no default argument"
      else pure (ASTMake2 node_t.AST_NODE_LIST list default_argument ""))
    default_arg_list

/-- The loop of `build_scope_template_arguments` over the template
arguments. -/
def build_scope_template_argument_loop (env : collaborators) (fuel : Nat) (st : ScopeId) :
    List AST → scope_store → template_arguments_t → outcome (scope_store × template_arguments_t)
  | [], tab, arguments => pure (tab, arguments)
  | iter :: rest, tab, arguments =>
    let template_argument := ASTSon1 iter
    match ASTType template_argument with
    | node_t.AST_TEMPLATE_TYPE_ARGUMENT => do
        let type_template_argument := ASTSon0 template_argument
        let type_specifier_seq := ASTSon0 type_template_argument
        let abstract_decl := ASTSon1 type_template_argument
        let d ← build_scope_decl_specifier_seq env tab type_specifier_seq st zero_gather_info
          simple_type_t.null
        if abstract_decl ≠ AST.null then
          let r ← build_scope_declarator env fuel d.1 abstract_decl st d.2.1 d.2.2
          build_scope_template_argument_loop env fuel st rest r.tab
            (arguments.add (template_argument_t.mk template_argument_kind_t.TAK_TYPE
              r.declarator_type AST.null))
        else
          build_scope_template_argument_loop env fuel st rest d.1
            (arguments.add (template_argument_t.mk template_argument_kind_t.TAK_TYPE
              (simple_type_to_type d.2.2) AST.null))
    | node_t.AST_TEMPLATE_EXPRESSION_ARGUMENT =>
        let expr_template_argument := ASTSon0 template_argument
        let constant_expr := env.evaluate_constant_expression tab expr_template_argument st
        build_scope_template_argument_loop env fuel st rest tab
          (arguments.add (template_argument_t.mk template_argument_kind_t.TAK_NONTYPE
            type_t.null (env.tree_from_literal_value constant_expr)))
    | node_t.AST_AMBIGUITY => outcome.internal_error "Ambiguous node"
    | _ => outcome.internal_error "Unexpected node %s"

/-- The function `build_scope_template_arguments`. The result is the store,
the argument list `*template_arguments`, and the template id, whose argument
list tree the function extends with the default arguments. -/
def build_scope_template_arguments (env : collaborators) (fuel : Nat) (tab : scope_store)
    (class_head_id : AST) (st : ScopeId) :
    outcome (scope_store × template_argument_list_t × AST) :=
  let num_arguments := (for_each_element (ASTSon1 class_head_id)).length
  let template_name := ASTSon0 class_head_id
  let templates_list := env.query_unqualified_name tab st (ASTText template_name)
  match templates_list.find?
      (fun e => (get_entry tab e).kind = cxx_symbol_kind.SK_TEMPLATE_PRIMARY_CLASS) with
  | none => outcome.internal_error "Primary template for %s not found"
  | some primary_template => do
      let class_head_id1 ←
        if (get_entry tab primary_template).num_template_parameters > num_arguments then do
          let default_arg_list ← complete_default_arguments (get_entry tab primary_template)
            (ASTSon1 class_head_id) num_arguments
          pure (setSon1 class_head_id default_arg_list)
        else pure class_head_id
      let r ← build_scope_template_argument_loop env fuel st
        (for_each_element (ASTSon1 class_head_id1)) tab template_arguments_t.nil
      pure (r.1, template_argument_list_t.mk r.2, class_head_id1)

/-! ## Scopes of classes, functions and blocks -/

/-- A dereference of a `NULL` pointer stops the run; the outcome is kept apart
from the errors the source raises by its message. -/
def null_dereference {α : Type} : outcome α := outcome.internal_error "NULL dereference"

/-- The constructor `new_class_scope(st)`. -/
def new_class_scope (tab : scope_store) (st : ScopeId) : scope_store × ScopeId :=
  new_scope tab scope_kind_t.CLASS_SCOPE (some st) none none

/-- The constructor `new_function_scope(st, prototype_scope)`. -/
def new_function_scope (tab : scope_store) (st : ScopeId) (prototype_scope : Option ScopeId) :
    scope_store × ScopeId :=
  new_scope tab scope_kind_t.FUNCTION_SCOPE (some st) prototype_scope none

/-- The constructor `new_block_scope(st, prototype_scope, function_scope)`. -/
def new_block_scope (tab : scope_store) (st : ScopeId)
    (prototype_scope function_scope : Option ScopeId) : scope_store × ScopeId :=
  new_scope tab scope_kind_t.BLOCK_SCOPE (some st) prototype_scope function_scope

/-- The block scope `new_block_scope(st, st->prototype_scope,
st->function_scope)` every statement handler opens. -/
def open_block_scope (tab : scope_store) (st : ScopeId) : scope_store × ScopeId :=
  new_block_scope tab st (get_scope tab st).prototype_scope (get_scope tab st).function_scope

/-! ## Class specifiers -/

/-- Field `class_info` of a simple type. -/
def simple_type_t.class_info : simple_type_t → class_info_t
  | simple_type_t.null => class_info_t.null
  | simple_type_t.mk _ c _ _ => c

/-- The assignments `simple_type_info->class_info = ...` and
`simple_type_info->kind = STK_CLASS`. -/
def simple_type_t.set_class_info : simple_type_t → class_info_t → simple_type_t
  | simple_type_t.null, _ => simple_type_t.null
  | simple_type_t.mk f _ a t, c =>
      simple_type_t.mk { f with kind := simple_type_kind_t.STK_CLASS } c a t

/-- Assignment to the field `template_arguments` of a simple type. -/
def simple_type_t.set_template_arguments :
    simple_type_t → template_argument_list_t → simple_type_t
  | simple_type_t.null, _ => simple_type_t.null
  | simple_type_t.mk f c a _, t => simple_type_t.mk f c a t

/-- The macro `P_LIST_ADD` on the conversion functions of a class. -/
def conversion_list_t.add :
    conversion_list_t → type_t → cv_qualifier_t → conversion_list_t
  | conversion_list_t.nil, t, cv => conversion_list_t.cons t cv conversion_list_t.nil
  | conversion_list_t.cons h c tail, t, cv =>
      conversion_list_t.cons h c (conversion_list_t.add tail t cv)

/-- The statement `P_LIST_ADD(class_info->base_classes_list, ..., base_class)`. -/
def class_info_t.add_base : class_info_t → type_t → class_info_t
  | class_info_t.null, _ => class_info_t.null
  | class_info_t.mk s b c d o v, t => class_info_t.mk s (b.add t) c d o v

/-- The statement `P_LIST_ADD(class_type->constructor_list, ..., entry)`. -/
def class_info_t.add_constructor : class_info_t → EntryId → class_info_t
  | class_info_t.null, _ => class_info_t.null
  | class_info_t.mk s b c d o v, e => class_info_t.mk s b (c ++ [e]) d o v

/-- The statement `class_type->destructor = entry`. -/
def class_info_t.set_destructor : class_info_t → EntryId → class_info_t
  | class_info_t.null, _ => class_info_t.null
  | class_info_t.mk s b c _ o v, e => class_info_t.mk s b c (some e) o v

/-- The statement `P_LIST_ADD(class_type->operator_function_list, ..., entry)`. -/
def class_info_t.add_operator_function : class_info_t → EntryId → class_info_t
  | class_info_t.null, _ => class_info_t.null
  | class_info_t.mk s b c d o v, e => class_info_t.mk s b c d (o ++ [e]) v

/-- The statement `P_LIST_ADD(class_type->conversion_function_list, ...,
new_conversion)`. -/
def class_info_t.add_conversion_function :
    class_info_t → type_t → cv_qualifier_t → class_info_t
  | class_info_t.null, _, _ => class_info_t.null
  | class_info_t.mk s b c d o v, t, cv => class_info_t.mk s b c d o (v.add t cv)

/-- The children `global_op`, `nested_name_specifier` and `name` of a base
specifier, by its kind. -/
def base_specifier_name (base_specifier : AST) : outcome (AST × AST × AST) :=
  if ASTType base_specifier = node_t.AST_BASE_SPECIFIER then
    pure (ASTSon0 base_specifier, ASTSon1 base_specifier, ASTSon2 base_specifier)
  else if ASTType base_specifier = node_t.AST_BASE_SPECIFIER_ACCESS
      ∨ ASTType base_specifier = node_t.AST_BASE_SPECIFIER_VIRTUAL
      ∨ ASTType base_specifier = node_t.AST_BASE_SPECIFIER_ACCESS_VIRTUAL then
    pure (ASTSon1 base_specifier, ASTSon2 base_specifier, ASTSon3 base_specifier)
  else outcome.internal_error "Unexpected node %s"

/-- One iteration of the loop of `build_scope_base_clause`: the base class is
looked up among the class symbols; its scope becomes a base scope of the class
scope and its type a base of the class. -/
def build_scope_base_specifier (env : collaborators) (st class_scope : ScopeId)
    (s : scope_store × class_info_t) (iter : AST) : outcome (scope_store × class_info_t) := do
  let base_specifier := ASTSon1 iter
  let n ← base_specifier_name base_specifier
  let result_list := filter_symbol_kind_set s.1
    (env.query_nested_name s.1 st n.1 n.2.1 n.2.2
      unqualified_lookup_behaviour_t.FULL_UNQUALIFIED_LOOKUP)
    [cxx_symbol_kind.SK_CLASS, cxx_symbol_kind.SK_TEMPLATE_PRIMARY_CLASS,
      cxx_symbol_kind.SK_TEMPLATE_SPECIALIZED_CLASS]
  match result_list with
  | [] => outcome.internal_error "Base class not found!"
  | entry :: _ =>
      let tab1 := set_scope s.1 class_scope
        { get_scope s.1 class_scope with
            base_scope := (get_scope s.1 class_scope).base_scope ++
              [(get_entry s.1 entry).related_scope] }
      pure (tab1, s.2.add_base (get_entry s.1 entry).type_information)

/-- The function `build_scope_base_clause`. -/
def build_scope_base_clause (env : collaborators) (tab : scope_store) (base_clause : AST)
    (st class_scope : ScopeId) (class_info : class_info_t) :
    outcome (scope_store × class_info_t) :=
  (for_each_element (ASTSon0 base_clause)).foldlM
    (build_scope_base_specifier env st class_scope) (tab, class_info)

/-- The bases of a class in `gather_type_spec_from_class_specifier`: the base
clause, if there is one, is processed. -/
def class_bases (env : collaborators) (tab : scope_store) (base_clause : AST)
    (st class_scope : ScopeId) (class_info : class_info_t) :
    outcome (scope_store × class_info_t) :=
  if base_clause ≠ AST.null then
    build_scope_base_clause env tab base_clause st class_scope class_info
  else pure (tab, class_info)

/-- What the part of `gather_type_spec_from_class_specifier` before the member
specification leaves behind: the store, the record `*simple_type_info`, the
class symbol `class_entry` (`NULL` for an unnamed class) and the class
scope. -/
structure class_head_result where
  tab : scope_store
  simple_type_info : simple_type_t
  class_entry : Option EntryId
  inner_scope : ScopeId
  deriving DecidableEq, Repr

/-- The name of a class in `gather_type_spec_from_class_specifier`, with the
store and the record of the caller: for a template id the template arguments
are processed and stored in the record. -/
def class_head_name (env : collaborators) (fuel : Nat) (tab : scope_store)
    (class_head_identifier : AST) (st : ScopeId) (simple_type_info : simple_type_t) :
    outcome (String × scope_store × simple_type_t) :=
  if ASTType class_head_identifier = node_t.AST_SYMBOL then
    pure (ASTText class_head_identifier, tab, simple_type_info)
  else do
    let r ← build_scope_template_arguments env fuel tab class_head_identifier st
    pure (ASTText (ASTSon0 class_head_identifier), r.1,
      simple_type_info.set_template_arguments r.2.1)

/-- The symbol of a class of the given name: the symbol found by lookup when
it is the only one and a class, otherwise a new class symbol. -/
def class_symbol (env : collaborators) (tab : scope_store) (st : ScopeId) (name : String) :
    scope_store × EntryId :=
  match env.query_unqualified_name tab st name with
  | [e] =>
      if (get_entry tab e).kind = cxx_symbol_kind.SK_CLASS then (tab, e)
      else
        (set_entry (new_symbol tab st name).1 (new_symbol tab st name).2
          { get_entry (new_symbol tab st name).1 (new_symbol tab st name).2 with
              kind := cxx_symbol_kind.SK_CLASS }, (new_symbol tab st name).2)
  | _ =>
      (set_entry (new_symbol tab st name).1 (new_symbol tab st name).2
        { get_entry (new_symbol tab st name).1 (new_symbol tab st name).2 with
            kind := cxx_symbol_kind.SK_CLASS }, (new_symbol tab st name).2)

/-- The registration of the name of a class in
`gather_type_spec_from_class_specifier`: the class symbol receives the class
type and the class scope, and the record of the caller then refers to the
symbol. -/
def register_class_name (env : collaborators) (fuel : Nat) (tab : scope_store)
    (class_head_identifier : AST) (st inner_scope : ScopeId) (simple_type_info : simple_type_t) :
    outcome (scope_store × simple_type_t × Option EntryId) :=
  if class_head_identifier ≠ AST.null then
    if ASTType class_head_identifier = node_t.AST_SYMBOL
        ∨ ASTType class_head_identifier = node_t.AST_TEMPLATE_ID then do
      let n ← class_head_name env fuel tab class_head_identifier st simple_type_info
      let r := class_symbol env n.2.1 st n.1
      let tab1 := set_entry r.1 r.2
        { get_entry r.1 r.2 with
            type_information := copy_type (simple_type_to_type n.2.2),
            related_scope := some inner_scope }
      pure (tab1, set_user_defined zero_simple_type r.2, some r.2)
    else outcome.internal_error "Unknown node %s"
  else pure (tab, simple_type_info, none)

/-- The part of `gather_type_spec_from_class_specifier` before the member
specification: the class scope, the bases, the name. From here on the record
`*simple_type_info` is handed to the members, which make types of it and write
to it: it goes by the name of the class scope. The type the class symbol was
given is a copy made before (line 1000) and has no name. -/
def class_specifier_head (env : collaborators) (fuel : Nat) (tab : scope_store) (a : AST)
    (st : ScopeId) (simple_type_info : simple_type_t) : outcome class_head_result := do
  let class_head := ASTSon0 a
  let base_clause := ASTSon3 class_head
  let class_head_identifier := ASTSon2 class_head
  let s := new_class_scope tab st
  let inner_scope := s.2
  let class_info := class_info_t.mk (some inner_scope) type_list_t.nil [] none []
    conversion_list_t.nil
  let b ← class_bases env s.1 base_clause st inner_scope class_info
  let r ← register_class_name env fuel b.1 class_head_identifier st inner_scope
    (simple_type_info.set_class_info b.2)
  pure ⟨r.1, r.2.1.update (fun f => { f with address := some inner_scope }), r.2.2,
    inner_scope⟩

/-- The access a member specification starts with: private for the class key
`class`, public otherwise (for unions and structs). -/
def initial_access (class_key : AST) : access_specifier_t :=
  if ASTType class_key = node_t.AST_CLASS_KEY_CLASS then access_specifier_t.AS_PRIVATE
  else access_specifier_t.AS_PUBLIC

/-- The update of `current_access` by the access specifier of a member
specification node. -/
def update_access (access_spec : AST) (current_access : access_specifier_t) :
    outcome access_specifier_t :=
  if access_spec ≠ AST.null then
    if ASTType access_spec = node_t.AST_PRIVATE_SPEC then pure access_specifier_t.AS_PRIVATE
    else if ASTType access_spec = node_t.AST_PUBLIC_SPEC then pure access_specifier_t.AS_PUBLIC
    else if ASTType access_spec = node_t.AST_PROTECTED_SPEC then
      pure access_specifier_t.AS_PROTECTED
    else outcome.internal_error "Unknown node type %s"
  else pure current_access

/-- The loop `while (member_specification != NULL)` of
`gather_type_spec_from_class_specifier`; `member` is what is done with a
member declaration under the current access. -/
def member_specification_loop {σ : Type}
    (member : σ → AST → access_specifier_t → outcome σ) :
    AST → access_specifier_t → σ → outcome σ
  | AST.null, _, s => pure s
  | AST.node _ son0 son1 son2 _ _, current_access, s => do
      let current_access ← update_access son0 current_access
      if son1 ≠ AST.null then do
        let s1 ← member s son1 current_access
        member_specification_loop member son2 current_access s1
      else member_specification_loop member son2 current_access s

/-- The end of `gather_type_spec_from_class_specifier`: a named class is
completely defined. -/
def class_specifier_finish (h : class_head_result) (m : scope_store × simple_type_t) :
    scope_store × simple_type_t :=
  match h.class_entry with
  | some class_entry =>
      (set_entry m.1 class_entry { get_entry m.1 class_entry with defined := true }, m.2)
  | none => m

/-! ## Function definitions -/

/-- The processing of an optional decl-specifier-seq, as at the start of a
function definition or of a member declaration: without one, the flags are
zeroed and there is no type. -/
def optional_decl_specifier_seq (env : collaborators) (tab : scope_store)
    (decl_specifier_seq : AST) (st : ScopeId) :
    outcome (scope_store × gather_decl_spec_t × simple_type_t) :=
  if decl_specifier_seq ≠ AST.null then
    build_scope_decl_specifier_seq env tab decl_specifier_seq st zero_gather_info
      simple_type_t.null
  else pure (tab, zero_gather_info, simple_type_t.null)

/-- The pseudo variable `this` of a member function that is not static: a
symbol of the scope of the function, of type pointer to the class type, the
pointee carrying the cv-qualification of the member function. The pointee is
made of the record `class_type` itself, so the cv-qualification is written to
that record, through the pointer (lines 2288-2292, 2407-2411): the types of
`this` of the other member functions of the class and their fields
`class_type`, which hold the same record, show it too. -/
def introduce_this (tab : scope_store) (related_scope : ScopeId) (class_type : simple_type_t)
    (cv_qualifier : cv_qualifier_t) : scope_store :=
  let pointee := class_type.update (fun f => { f with cv_qualifier := cv_qualifier })
  let this_type := type_t.pointer (simple_type_to_type pointee) CV_NONE
  let r := new_symbol (write_record tab pointee) related_scope "this"
  set_entry r.1 r.2
    { get_entry r.1 r.2 with kind := cxx_symbol_kind.SK_VARIABLE, type_information := this_type }

/-- The scope of a function that is being defined,
`new_function_scope(st, parameter_scope)`, linked to the symbol of the
function. -/
def open_function_scope (tab : scope_store) (st : ScopeId) (parameter_scope : Option ScopeId)
    (entry : EntryId) : scope_store × ScopeId :=
  let s := new_function_scope tab st parameter_scope
  (set_entry s.1 entry { get_entry s.1 entry with related_scope := some s.2 }, s.2)

/-- The part of `build_scope_function_definition` for a function that was
declared as a member: unless it is static, `this` is introduced in the scope
of the function. The record `class_type` is reached through the function type
of the entry, so the cv-qualification written through the type of `this` is
written there. -/
def introduce_this_of_member (tab : scope_store) (entry : EntryId) (f : function_info_t)
    (inner_scope : ScopeId) : scope_store :=
  if f.is_member && !f.is_static then
    let class_type := f.class_type.update (fun c => { c with cv_qualifier := f.cv_qualifier })
    let tab_f := set_entry tab entry
      { get_entry tab entry with
          type_information := type_t.function (f.set_class_type class_type) }
    introduce_this tab_f inner_scope f.class_type f.cv_qualifier
  else tab

/-- The function `build_scope_function_definition`; the result is the store
and the entry of the function. -/
def build_scope_function_definition (env : collaborators) (fuel : Nat) (tab : scope_store)
    (a : AST) (st : ScopeId) : outcome (scope_store × EntryId) := do
  let d ← optional_decl_specifier_seq env tab (ASTSon0 a) st
  let r ← build_scope_declarator_with_parameter_scope env fuel d.1 (ASTSon1 a) st none
    d.2.1 d.2.2
  match r.entry with
  | none => outcome.internal_error "This function does not exist!"
  | some entry =>
      if (get_entry r.tab entry).kind ≠ cxx_symbol_kind.SK_FUNCTION then
        outcome.internal_error "This is not a function!!!"
      else
        let function_body := ASTSon3 a
        let statement := ASTSon0 function_body
        let s := open_function_scope r.tab st r.parameters_scope entry
        match (get_entry s.1 entry).type_information.function_info with
        | none => null_dereference
        | some f => do
            let tab3 ← env.build_scope_statement (introduce_this_of_member s.1 entry f s.2)
              statement s.2
            pure (set_entry tab3 entry { get_entry tab3 entry with defined := true }, entry)

/-! ## Members -/

/-- A `class_info_t*` that is not `NULL`, taken through a class symbol
(`...->user_defined_type->type_information->type->class_info`): the symbol,
and the class scope of the record it held when the pointer was taken. Every
class specifier makes one record and one class scope (lines 943-950), so the
class scope tells the record from the one another class specifier has given
to the same symbol since (line 1000). -/
structure class_info_pointer where
  class_entry : EntryId
  inner_scope : Option ScopeId
  deriving DecidableEq, Repr

/-- The class a member belongs to, as read by the two member functions from
`class_info`: the name of the class symbol and the pointer `class_type` to the
class record the symbol holds at this moment, or the empty name and `NULL` for
a record that is not `STK_USER_DEFINED`. -/
def class_of_member (tab : scope_store) (class_info : simple_type_t) :
    outcome (String × Option class_info_pointer) :=
  if class_info.fields.kind = simple_type_kind_t.STK_USER_DEFINED then
    match class_info.fields.user_defined_type with
    | none => null_dereference
    | some class_entry =>
        match (get_entry tab class_entry).type_information with
        | type_t.direct (simple_type_t.mk _ (class_info_t.mk s _ _ _ _ _) _ _) =>
            pure ((get_entry tab class_entry).symbol_name, some ⟨class_entry, s⟩)
        | type_t.direct (simple_type_t.mk _ class_info_t.null _ _) =>
            pure ((get_entry tab class_entry).symbol_name, none)
        | _ => null_dereference
  else pure ("", none)

/-- An update of the class record the pointer `class_type` was taken to. While
the class symbol holds that record, the update shows in the type of the
symbol. When the symbol has been given the record of another class specifier
since the pointer was taken, the record that is written is no longer part of
the symbol table, which stays as it is. A `NULL` pointer cannot be written
through. -/
def update_class_type (tab : scope_store) (class_type : Option class_info_pointer)
    (g : class_info_t → class_info_t) : outcome scope_store :=
  match class_type with
  | none => null_dereference
  | some p =>
      match (get_entry tab p.class_entry).type_information with
      | type_t.direct (simple_type_t.mk f (class_info_t.mk s b c d o v) al ta) =>
          if s = p.inner_scope then
            pure (set_entry tab p.class_entry
              { get_entry tab p.class_entry with
                  type_information :=
                    type_t.direct (simple_type_t.mk f (g (class_info_t.mk s b c d o v)) al ta) })
          else pure tab
      | _ => pure tab

/-- The switch on the declarator name that the two member functions carry in
the same words: a constructor, the destructor, an operator function or a
conversion function is recorded in the class record `class_type` points to. -/
def record_member_function (tab : scope_store) (class_name : String)
    (class_type : Option class_info_pointer) (declarator_name : AST) (entry : EntryId) :
    outcome scope_store :=
  if ASTType declarator_name = node_t.AST_SYMBOL then
    if ASTText declarator_name = class_name then
      update_class_type tab class_type (fun c => c.add_constructor entry)
    else pure tab
  else if ASTType declarator_name = node_t.AST_DESTRUCTOR_ID then
    update_class_type tab class_type (fun c => c.set_destructor entry)
  else if ASTType declarator_name = node_t.AST_OPERATOR_FUNCTION_ID then
    update_class_type tab class_type (fun c => c.add_operator_function entry)
  else if ASTType declarator_name = node_t.AST_CONVERSION_FUNCTION_ID then
    match (get_entry tab entry).type_information.function_info with
    | none => null_dereference
    | some f =>
        update_class_type tab class_type
          (fun c => c.add_conversion_function f.return_type f.cv_qualifier)
  else outcome.internal_error "Unknown node %s"

/-- The function `build_scope_member_function_definition`. The pointer
`class_type` is taken before the function definition is processed (lines
2346-2351) and written through after it (lines 2359-2397). The result is the
store and the record `*class_info`, which the type of `this` points to and
which so receives the cv-qualification of the member function. -/
def build_scope_member_function_definition (env : collaborators) (fuel : Nat)
    (tab : scope_store) (a : AST) (st : ScopeId) (_current_access : access_specifier_t)
    (class_info : simple_type_t) : outcome (scope_store × simple_type_t) := do
  let c ← class_of_member tab class_info
  let declarator := ASTSon1 a
  let declarator_name ← get_declarator_name declarator
  let r ← build_scope_function_definition env fuel tab a st
  let entry := r.2
  let tab1 ← record_member_function r.1 c.1 c.2 declarator_name entry
  match (get_entry tab1 entry).type_information.function_info with
  | none => null_dereference
  | some f =>
      let tab2 := set_entry tab1 entry
        { get_entry tab1 entry with
            type_information := type_t.function (f.set_member class_info) }
      if !f.is_static then
        match (get_entry tab2 entry).related_scope with
        | none => null_dereference
        | some related_scope =>
            pure (introduce_this tab2 related_scope class_info f.cv_qualifier,
              class_info.update (fun c => { c with cv_qualifier := f.cv_qualifier }))
      else pure (tab2, class_info)

/-- One iteration of the loop of `build_scope_simple_member_declaration` over
the member declarators. -/
def build_scope_member_declarator (env : collaborators) (fuel : Nat) (a : AST) (st : ScopeId)
    (gather_info : gather_decl_spec_t) (simple_type_info class_info : simple_type_t)
    (tab : scope_store) (iter : AST) : outcome scope_store :=
  let declarator := ASTSon1 iter
  if ASTType declarator = node_t.AST_MEMBER_DECLARATOR then do
    let r ← build_scope_declarator env fuel tab (ASTSon0 declarator) st gather_info
      simple_type_info
    match r.entry with
    | none => null_dereference
    | some entry =>
        if env.type_kind_equals_SK_FUNCTION (get_entry r.tab entry).type_information then
          match (get_entry r.tab entry).type_information.function_info with
          | none => null_dereference
          | some f => do
              let tab1 := set_entry r.tab entry
                { get_entry r.tab entry with
                    type_information := type_t.function (f.set_member class_info) }
              let c ← class_of_member tab1 class_info
              let declarator_name ← get_declarator_name (ASTSon1 a)
              record_member_function tab1 c.1 c.2 declarator_name entry
        else pure r.tab
  else outcome.internal_error "Unhandled node %s"

/-- The function `build_scope_simple_member_declaration`. -/
def build_scope_simple_member_declaration (env : collaborators) (fuel : Nat)
    (tab : scope_store) (a : AST) (st : ScopeId) (_current_access : access_specifier_t)
    (class_info : simple_type_t) : outcome scope_store := do
  let d ← optional_decl_specifier_seq env tab (ASTSon0 a) st
  if ASTSon1 a ≠ AST.null then
    (for_each_element (ASTSon1 a)).foldlM
      (build_scope_member_declarator env fuel a st d.2.1 d.2.2 class_info) d.1
  else pure d.1

/-- The function `build_scope_member_declaration`. -/
def build_scope_member_declaration (env : collaborators) (fuel : Nat) (tab : scope_store)
    (a : AST) (st : ScopeId) (current_access : access_specifier_t)
    (class_info : simple_type_t) : outcome (scope_store × simple_type_t) :=
  if ASTType a = node_t.AST_MEMBER_DECLARATION then do
    let t ← build_scope_simple_member_declaration env fuel tab a st current_access class_info
    pure (t, class_info)
  else if ASTType a = node_t.AST_FUNCTION_DEFINITION then
    build_scope_member_function_definition env fuel tab a st current_access class_info
  else outcome.internal_error "Unsupported node %s"

/-- The function `gather_type_spec_from_class_specifier`: the head, the loop
over the member specification, in which every member declaration is signed up
in the class scope under the current access, and the end. -/
def gather_type_spec_from_class_specifier (env : collaborators) (fuel : Nat)
    (tab : scope_store) (a : AST) (st : ScopeId) (simple_type_info : simple_type_t) :
    outcome (scope_store × simple_type_t) := do
  let h ← class_specifier_head env fuel tab a st simple_type_info
  let class_key := ASTSon0 (ASTSon0 a)
  let m ← member_specification_loop
    (fun (s : scope_store × simple_type_t) member current_access =>
      build_scope_member_declaration env fuel s.1 member h.inner_scope current_access s.2)
    (ASTSon1 a) (initial_access class_key) (h.tab, h.simple_type_info)
  pure (class_specifier_finish h m)

/-! ## Statements -/

/-- The function `build_scope_condition`: a condition that declares something
registers it in the scope, the expression as the value of the symbol. -/
def build_scope_condition (env : collaborators) (fuel : Nat) (tab : scope_store) (a : AST)
    (st : ScopeId) : outcome scope_store :=
  if ASTSon0 a ≠ AST.null ∧ ASTSon1 a ≠ AST.null then
    let type_specifier_seq :=
      if ASTType (ASTSon0 a) = node_t.AST_AMBIGUITY then
        env.solve_ambiguous_type_spec_seq tab (ASTSon0 a) st
      else ASTSon0 a
    let declarator := ASTSon1 a
    if ASTType declarator = node_t.AST_AMBIGUITY then
      outcome.internal_error "Unexpected ambiguity"
    else do
      let d ← build_scope_decl_specifier_seq env tab type_specifier_seq st zero_gather_info
        simple_type_t.null
      let r ← build_scope_declarator env fuel d.1 declarator st d.2.1 d.2.2
      let expression := env.solve_possibly_ambiguous_expression r.tab (ASTSon2 a) st
      match r.entry with
      | none => null_dereference
      | some entry =>
          pure (set_entry r.tab entry
            { get_entry r.tab entry with expression_value := expression })
  else pure tab

/-- The function `build_scope_compound_statement`. -/
def build_scope_compound_statement (env : collaborators) (tab : scope_store) (a : AST)
    (st : ScopeId) : outcome scope_store :=
  let block_scope := open_block_scope tab st
  let list := ASTSon0 a
  if list ≠ AST.null then
    (for_each_element list).foldlM
      (fun t iter => env.build_scope_statement t (ASTSon1 iter) block_scope.2) block_scope.1
  else pure block_scope.1

/-- The function `build_scope_while_statement`. -/
def build_scope_while_statement (env : collaborators) (fuel : Nat) (tab : scope_store)
    (a : AST) (st : ScopeId) : outcome scope_store := do
  let block_scope := open_block_scope tab st
  let t ← build_scope_condition env fuel block_scope.1 (ASTSon0 a) block_scope.2
  if ASTSon1 a ≠ AST.null then env.build_scope_statement t (ASTSon1 a) block_scope.2
  else pure t

/-- The function `build_scope_ambiguity_handler`. -/
def build_scope_ambiguity_handler (env : collaborators) (tab : scope_store) (a : AST)
    (st : ScopeId) : outcome scope_store :=
  env.build_scope_statement tab (env.solve_ambiguous_statement tab a st) st

/-- The function `build_scope_declaration_statement`. -/
def build_scope_declaration_statement (env : collaborators) (tab : scope_store) (a : AST)
    (st : ScopeId) : outcome scope_store :=
  env.build_scope_declaration tab (ASTSon0 a) st

/-- The function `build_scope_if_else_statement`. -/
def build_scope_if_else_statement (env : collaborators) (fuel : Nat) (tab : scope_store)
    (a : AST) (st : ScopeId) : outcome scope_store := do
  let block_scope := open_block_scope tab st
  let t ← build_scope_condition env fuel block_scope.1 (ASTSon0 a) block_scope.2
  let t1 ← env.build_scope_statement t (ASTSon1 a) block_scope.2
  if ASTSon2 a ≠ AST.null then env.build_scope_statement t1 (ASTSon2 a) block_scope.2
  else pure t1

/-- The condition of a for statement, which may be missing. -/
def optional_condition (env : collaborators) (fuel : Nat) (tab : scope_store)
    (condition : AST) (st : ScopeId) : outcome scope_store :=
  if condition ≠ AST.null then build_scope_condition env fuel tab condition st
  else pure tab

/-- The function `build_scope_for_statement`. The resolution of an ambiguous
for-init-statement is all that is done with it; it changes nothing that is
read afterwards. -/
def build_scope_for_statement (env : collaborators) (fuel : Nat) (tab : scope_store)
    (a : AST) (st : ScopeId) : outcome scope_store := do
  let condition := ASTSon1 a
  let statement := ASTSon3 a
  let block_scope := open_block_scope tab st
  let t ← optional_condition env fuel block_scope.1 condition block_scope.2
  env.build_scope_statement t statement block_scope.2

/-- The function `build_scope_switch_statement`. -/
def build_scope_switch_statement (env : collaborators) (fuel : Nat) (tab : scope_store)
    (a : AST) (st : ScopeId) : outcome scope_store := do
  let block_scope := open_block_scope tab st
  let t ← build_scope_condition env fuel block_scope.1 (ASTSon0 a) block_scope.2
  env.build_scope_statement t (ASTSon1 a) block_scope.2

/-- The functions `build_scope_labeled_statement` and
`build_scope_default_statement`, which read alike. -/
def build_scope_labeled_statement (env : collaborators) (tab : scope_store) (a : AST)
    (st : ScopeId) : outcome scope_store :=
  env.build_scope_statement tab (ASTSon0 a) st

/-- The function `build_scope_case_statement`. -/
def build_scope_case_statement (env : collaborators) (tab : scope_store) (a : AST)
    (st : ScopeId) : outcome scope_store :=
  env.build_scope_statement tab (ASTSon1 a) st

/-- The declarator of an exception declaration, which can be null. -/
def exception_declarator (env : collaborators) (fuel : Nat) (tab : scope_store)
    (declarator : AST) (st : ScopeId) (gather_info : gather_decl_spec_t)
    (type_info : simple_type_t) : outcome scope_store :=
  if declarator ≠ AST.null then do
    let r ← build_scope_declarator env fuel tab declarator st gather_info type_info
    pure r.tab
  else pure tab

/-- One iteration of the loop of `build_scope_try_block` over the handlers. -/
def build_scope_handler (env : collaborators) (fuel : Nat) (st : ScopeId) (tab : scope_store)
    (iter : AST) : outcome scope_store :=
  let handler := ASTSon1 iter
  if ASTType handler = node_t.AST_ANY_EXCEPTION then pure tab
  else do
    let exception_declaration := ASTSon0 handler
    let compound_statement := ASTSon1 handler
    let block_scope := open_block_scope tab st
    let type_specifier_seq := ASTSon0 exception_declaration
    let declarator := ASTSon1 exception_declaration
    let d ← build_scope_decl_specifier_seq env block_scope.1 type_specifier_seq block_scope.2
      zero_gather_info simple_type_t.null
    let t ← exception_declarator env fuel d.1 declarator block_scope.2 d.2.1 d.2.2
    env.build_scope_statement t compound_statement st

/-- The function `build_scope_try_block`. -/
def build_scope_try_block (env : collaborators) (fuel : Nat) (tab : scope_store) (a : AST)
    (st : ScopeId) : outcome scope_store := do
  let t ← env.build_scope_statement tab (ASTSon0 a) st
  (for_each_element (ASTSon1 a)).foldlM (build_scope_handler env fuel st) t

/-- The function `build_scope_do_statement`. -/
def build_scope_do_statement (env : collaborators) (tab : scope_store) (a : AST)
    (st : ScopeId) : outcome scope_store :=
  env.build_scope_statement tab (ASTSon0 a) st

/-- The function `build_scope_statement`: the handler of the table
`stmt_scope_handlers` for the kind of the statement. The handlers
`solve_expression_ambiguities`, `build_scope_return_statement` and
`build_scope_null` leave the symbol table as it is, as does a kind without
handler, for which a warning is printed. -/
def build_scope_statement (env : collaborators) (fuel : Nat) (tab : scope_store) (a : AST)
    (st : ScopeId) : outcome scope_store :=
  if ASTType a = node_t.AST_AMBIGUITY then build_scope_ambiguity_handler env tab a st
  else if ASTType a = node_t.AST_EXPRESSION_STATEMENT then pure tab
  else if ASTType a = node_t.AST_DECLARATION_STATEMENT then
    build_scope_declaration_statement env tab a st
  else if ASTType a = node_t.AST_COMPOUND_STATEMENT then
    build_scope_compound_statement env tab a st
  else if ASTType a = node_t.AST_DO_STATEMENT then build_scope_do_statement env tab a st
  else if ASTType a = node_t.AST_WHILE_STATEMENT then
    build_scope_while_statement env fuel tab a st
  else if ASTType a = node_t.AST_IF_ELSE_STATEMENT then
    build_scope_if_else_statement env fuel tab a st
  else if ASTType a = node_t.AST_FOR_STATEMENT then build_scope_for_statement env fuel tab a st
  else if ASTType a = node_t.AST_LABELED_STATEMENT then
    build_scope_labeled_statement env tab a st
  else if ASTType a = node_t.AST_DEFAULT_STATEMENT then
    build_scope_labeled_statement env tab a st
  else if ASTType a = node_t.AST_CASE_STATEMENT then build_scope_case_statement env tab a st
  else if ASTType a = node_t.AST_RETURN_STATEMENT then pure tab
  else if ASTType a = node_t.AST_TRY_BLOCK then build_scope_try_block env fuel tab a st
  else if ASTType a = node_t.AST_SWITCH_STATEMENT then
    build_scope_switch_statement env fuel tab a st
  else pure tab

/-! ## Template declarations -/

/-- The function `build_scope_nontype_template_parameter`: the descriptor of
a parameter `decl_specifier_seq [declarator] [= expression]`. The default
argument of the descriptor is left as allocated. The assignment to
`template_parameter_num` is a store through the pointer to the record of the
decl-specifier-seq: the declarator is composed over the record as written,
and the types the symbol table holds of the record show the store when the
parameter is done. -/
def build_scope_nontype_template_parameter (env : collaborators) (fuel : Nat)
    (tab : scope_store) (a : AST) (st : ScopeId) (num_parameter : Nat) :
    outcome (scope_store × template_parameter_t) := do
  let decl_specifier_seq := ASTSon0 a
  let parameter_declarator := ASTSon1 a
  let d ← build_scope_decl_specifier_seq env tab decl_specifier_seq st zero_gather_info
    simple_type_t.null
  if d.2.2 = simple_type_t.null then null_dereference
  else
    let simple_type_info :=
      d.2.2.update (fun f => { f with template_parameter_num := num_parameter })
    if parameter_declarator ≠ AST.null then do
      let r ← build_scope_declarator env fuel d.1 parameter_declarator st d.2.1
        simple_type_info
      let tab1 :=
        match r.entry with
        | some entry =>
            set_entry r.tab entry
              { get_entry r.tab entry with kind := cxx_symbol_kind.SK_TEMPLATE_PARAMETER }
        | none => r.tab
      pure (write_record tab1 simple_type_info,
        { type_info := r.declarator_type, default_argument := AST.null })
    else
      pure (write_record d.1 simple_type_info,
        { type_info := simple_type_to_type simple_type_info, default_argument := AST.null })

/-- The function `build_scope_template_parameter`. The first argument is the
recursion budget: an ambiguous parameter is resolved and the function starts
again. -/
def build_scope_template_parameter (env : collaborators) :
    Nat → scope_store → AST → ScopeId → Nat → outcome (scope_store × template_parameter_t)
  | 0, _, _, _, _ => outcome.out_of_fuel
  | fuel + 1, tab, a, st, num_parameter =>
    if ASTType a = node_t.AST_PARAMETER_DECL then
      build_scope_nontype_template_parameter env fuel tab a st num_parameter
    else if ASTType a = node_t.AST_TYPE_PARAMETER_CLASS
        ∨ ASTType a = node_t.AST_TYPE_PARAMETER_TYPENAME then
      pure (build_scope_type_template_parameter tab a st num_parameter)
    else if ASTType a = node_t.AST_TYPE_PARAMETER_TEMPLATE then
      outcome.internal_error "Node template template-parameters still not supported"
    else if ASTType a = node_t.AST_AMBIGUITY then
      build_scope_template_parameter env fuel tab
        (env.solve_parameter_declaration_vs_type_parameter_class a) st num_parameter
    else outcome.internal_error "Unknown node type %s"

/-- The function `build_scope_template_parameter_list`: the descriptors of the
parameters, each built at the position `*num_parameters` has when its turn
comes; the count is the length of the result. The macro `P_LIST_ADD` stores
the grown array in the copy of `template_param_info` the function received, so
what the pointer of the caller designates afterwards depends on the
allocator; the descriptors are handed to the caller here. -/
def build_scope_template_parameter_list (env : collaborators) (fuel : Nat) (tab : scope_store)
    (a : AST) (st : ScopeId) : outcome (scope_store × List template_parameter_t) :=
  (for_each_element a).foldlM
    (fun (s : scope_store × List template_parameter_t) iter => do
      let r ← build_scope_template_parameter env fuel s.1 (ASTSon1 iter) st s.2.length
      pure (r.1, s.2 ++ [r.2]))
    (tab, [])

/-- The statements `template_scope->template_scope = st->template_scope;
st->template_scope = template_scope`. -/
def push_template_scope (tab : scope_store) (st template_scope : ScopeId) : scope_store :=
  let tab1 := set_scope tab template_scope
    { get_scope tab template_scope with template_scope := (get_scope tab st).template_scope }
  set_scope tab1 st { get_scope tab1 st with template_scope := some template_scope }

/-- The statements `st->template_scope = template_scope->template_scope;
template_scope->template_scope = NULL`. -/
def pop_template_scope (tab : scope_store) (st template_scope : ScopeId) : scope_store :=
  let tab1 := set_scope tab st
    { get_scope tab st with template_scope := (get_scope tab template_scope).template_scope }
  set_scope tab1 template_scope { get_scope tab1 template_scope with template_scope := none }

/-- The function `build_scope_template_function_definition`. -/
def build_scope_template_function_definition (env : collaborators) (fuel : Nat)
    (tab : scope_store) (a : AST) (st template_scope : ScopeId) : outcome scope_store := do
  let r ← build_scope_function_definition env fuel (push_template_scope tab st template_scope)
    a st
  pure (pop_template_scope r.1 st template_scope)

/-- The part of `build_scope_template_simple_declaration` that looks at what
the decl-specifier-seq declared: a class symbol becomes a primary template, or
a specialization when its type has template arguments, and receives the
template parameters. -/
def register_template_class (tab : scope_store) (simple_type_info : simple_type_t)
    (num_parameters : Nat) (template_param_info : List template_parameter_t) :
    outcome scope_store :=
  if simple_type_info = simple_type_t.null then null_dereference
  else if simple_type_info.fields.kind = simple_type_kind_t.STK_USER_DEFINED then
    match simple_type_info.fields.user_defined_type with
    | none => null_dereference
    | some entry =>
        if (get_entry tab entry).kind = cxx_symbol_kind.SK_CLASS then
          match (get_entry tab entry).type_information with
          | type_t.direct (simple_type_t.mk _ _ _ template_arguments) =>
              pure (set_entry tab entry
                { get_entry tab entry with
                    kind :=
                      if template_arguments = template_argument_list_t.null then
                        cxx_symbol_kind.SK_TEMPLATE_PRIMARY_CLASS
                      else cxx_symbol_kind.SK_TEMPLATE_SPECIALIZED_CLASS,
                    num_template_parameters := num_parameters,
                    template_parameter_info := template_param_info })
          | _ => null_dereference
        else pure tab
  else pure tab

/-- The definition step of `build_scope_template_simple_declaration`, as in
`build_scope_simple_declaration` but without the initializer. -/
def define_template_symbol (env : collaborators) (tab : scope_store) (st : ScopeId)
    (declarator : AST) : outcome scope_store := do
  let declarator_name ← get_declarator_name declarator
  match query_id_expression env tab st declarator_name
      unqualified_lookup_behaviour_t.NOFULL_UNQUALIFIED_LOOKUP with
  | [] => outcome.internal_error "Symbol just declared has not been found in the scope!"
  | found :: _ =>
      if (get_entry tab found).defined then
        outcome.running_error "This symbol has already been defined"
      else pure (set_entry tab found { get_entry tab found with defined := true })

/-- The statement `if (entry->kind == SK_FUNCTION) entry->kind =
SK_TEMPLATE_FUNCTION`. -/
def mark_template_function (tab : scope_store) (entry : EntryId) : scope_store :=
  if (get_entry tab entry).kind = cxx_symbol_kind.SK_FUNCTION then
    set_entry tab entry
      { get_entry tab entry with kind := cxx_symbol_kind.SK_TEMPLATE_FUNCTION }
  else tab

/-- The part of `build_scope_template_simple_declaration` for the one
declarator a template declaration may have. -/
def build_scope_template_declarator (env : collaborators) (fuel : Nat) (tab : scope_store)
    (init_declarator_list : AST) (st template_scope : ScopeId)
    (gather_info : gather_decl_spec_t) (simple_type_info : simple_type_t) :
    outcome scope_store :=
  if ASTSon0 init_declarator_list ≠ AST.null then
    outcome.running_error "In template declarations only one declarator is valid"
  else do
    let init_declarator := ASTSon1 init_declarator_list
    let declarator := ASTSon0 init_declarator
    let r ← build_scope_declarator env fuel (push_template_scope tab st template_scope)
      declarator st gather_info simple_type_info
    match r.entry with
    | none => null_dereference
    | some entry =>
        if !gather_info.is_extern && !r.declarator_type.is_function then
          define_template_symbol env
            (mark_template_function (pop_template_scope r.tab st template_scope) entry) st
            r.tree
        else pure (mark_template_function (pop_template_scope r.tab st template_scope) entry)

/-- The decl-specifier-seq of a template declaration, processed with the
template scope pushed on the scope: a class specifier in it is declared in
the scope, not in the template scope. -/
def template_decl_specifier_seq (env : collaborators) (tab : scope_store)
    (decl_specifier_seq : AST) (st template_scope : ScopeId) :
    outcome (scope_store × gather_decl_spec_t × simple_type_t) :=
  if decl_specifier_seq ≠ AST.null then do
    let r ← build_scope_decl_specifier_seq env (push_template_scope tab st template_scope)
      decl_specifier_seq st zero_gather_info simple_type_t.null
    pure (pop_template_scope r.1 st template_scope, r.2.1, r.2.2)
  else pure (tab, zero_gather_info, simple_type_t.null)

/-- The function `build_scope_template_simple_declaration`. -/
def build_scope_template_simple_declaration (env : collaborators) (fuel : Nat)
    (tab : scope_store) (a : AST) (st template_scope : ScopeId) (num_parameters : Nat)
    (template_param_info : List template_parameter_t) : outcome scope_store := do
  let decl_specifier_seq := ASTSon0 a
  let init_declarator_list := ASTSon1 a
  let d ← template_decl_specifier_seq env tab decl_specifier_seq st template_scope
  let tab1 ← register_template_class d.1 d.2.2 num_parameters template_param_info
  if init_declarator_list ≠ AST.null then
    build_scope_template_declarator env fuel tab1 init_declarator_list st template_scope
      d.2.1 d.2.2
  else pure tab1

/-- The function `build_scope_template_declaration`. -/
def build_scope_template_declaration (env : collaborators) (fuel : Nat) (tab : scope_store)
    (a : AST) (st : ScopeId) : outcome scope_store := do
  let template_scope := new_template_scope tab st
  let p ← build_scope_template_parameter_list env fuel template_scope.1 (ASTSon0 a)
    template_scope.2
  if ASTType (ASTSon1 a) = node_t.AST_FUNCTION_DEFINITION then
    build_scope_template_function_definition env fuel p.1 (ASTSon1 a) st template_scope.2
  else if ASTType (ASTSon1 a) = node_t.AST_SIMPLE_DECLARATION then
    build_scope_template_simple_declaration env fuel p.1 (ASTSon1 a) st template_scope.2
      p.2.length p.2
  else outcome.internal_error "Unknown node type %s"

/-- The function `build_scope_explicit_template_specialization`: there are no
template parameters. -/
def build_scope_explicit_template_specialization (env : collaborators) (fuel : Nat)
    (tab : scope_store) (a : AST) (st : ScopeId) : outcome scope_store :=
  let template_scope := new_template_scope tab st
  if ASTType (ASTSon0 a) = node_t.AST_FUNCTION_DEFINITION then
    build_scope_template_function_definition env fuel template_scope.1 (ASTSon1 a) st
      template_scope.2
  else if ASTType (ASTSon0 a) = node_t.AST_SIMPLE_DECLARATION then
    build_scope_template_simple_declaration env fuel template_scope.1 (ASTSon0 a) st
      template_scope.2 0 []
  else outcome.internal_error "Unknown node type %s"

/-! ## Declarations -/

/-- The function `build_scope_declaration_sequence`. -/
def build_scope_declaration_sequence (env : collaborators) (tab : scope_store) (list : AST)
    (st : ScopeId) : outcome scope_store :=
  (for_each_element list).foldlM (fun t iter => env.build_scope_declaration t (ASTSon1 iter) st)
    tab

/-- The symbol of a namespace definition: the first symbol found by lookup
when it is a namespace, otherwise a new namespace symbol linked to a new
namespace scope. -/
def register_namespace (env : collaborators) (tab : scope_store) (namespace_name : AST)
    (st : ScopeId) : scope_store × EntryId :=
  let list := env.query_unqualified_name tab st (ASTText namespace_name)
  let create : scope_store × EntryId :=
    let namespace_scope := new_namespace_scope tab (some st)
    let r := new_symbol namespace_scope.1 st (ASTText namespace_name)
    (set_entry r.1 r.2
      { get_entry r.1 r.2 with
          kind := cxx_symbol_kind.SK_NAMESPACE, related_scope := some namespace_scope.2 }, r.2)
  match list with
  | entry :: _ =>
      if (get_entry tab entry).kind = cxx_symbol_kind.SK_NAMESPACE then (tab, entry) else create
  | [] => create

/-- The function `build_scope_namespace_definition`. Nothing is done for an
unnamed namespace. A namespace symbol without a scope would hand `NULL` on as
the scope of the declarations, which stops the run at the first of them. -/
def build_scope_namespace_definition (env : collaborators) (tab : scope_store) (a : AST)
    (st : ScopeId) : outcome scope_store :=
  let namespace_name := ASTSon0 a
  if namespace_name ≠ AST.null then
    let list := env.query_unqualified_name tab st (ASTText namespace_name)
    let check_list := filter_symbol_non_kind tab list cxx_symbol_kind.SK_NAMESPACE
    if check_list ≠ [] then
      outcome.running_error "Identifier %s has already been declared as another symbol kind"
    else
      let r := register_namespace env tab namespace_name st
      match (get_entry r.1 r.2).related_scope with
      | none => if ASTSon1 a = AST.null then pure r.1 else null_dereference
      | some related_scope => build_scope_declaration_sequence env r.1 (ASTSon1 a) related_scope
  else pure tab

/-- The function `build_scope_linkage_specifier`. The variable
`current_linkage`, saved, set and restored here, is read nowhere in the file
and is left out. -/
def build_scope_linkage_specifier (env : collaborators) (tab : scope_store) (a : AST)
    (st : ScopeId) : outcome scope_store :=
  let declaration_sequence := ASTSon1 a
  if declaration_sequence = AST.null then pure tab
  else build_scope_declaration_sequence env tab declaration_sequence st

/-- The function `build_scope_linkage_specifier_declaration`. -/
def build_scope_linkage_specifier_declaration (env : collaborators) (tab : scope_store)
    (a : AST) (st : ScopeId) : outcome scope_store :=
  env.build_scope_declaration tab (ASTSon1 a) st

/-- The function `build_scope_declaration`. -/
def build_scope_declaration (env : collaborators) (fuel : Nat) (tab : scope_store) (a : AST)
    (st : ScopeId) : outcome scope_store :=
  if ASTType a = node_t.AST_SIMPLE_DECLARATION then build_scope_simple_declaration env fuel tab a st
  else if ASTType a = node_t.AST_NAMESPACE_DEFINITION then
    build_scope_namespace_definition env tab a st
  else if ASTType a = node_t.AST_FUNCTION_DEFINITION then do
    let r ← build_scope_function_definition env fuel tab a st
    pure r.1
  else if ASTType a = node_t.AST_LINKAGE_SPEC then build_scope_linkage_specifier env tab a st
  else if ASTType a = node_t.AST_LINKAGE_SPEC_DECL then
    build_scope_linkage_specifier_declaration env tab a st
  else if ASTType a = node_t.AST_EXPORT_TEMPLATE_DECLARATION
      ∨ ASTType a = node_t.AST_TEMPLATE_DECLARATION then
    build_scope_template_declaration env fuel tab a st
  else if ASTType a = node_t.AST_EXPLICIT_INSTANTIATION then pure tab
  else if ASTType a = node_t.AST_EXPLICIT_SPECIALIZATION then
    build_scope_explicit_template_specialization env fuel tab a st
  else if ASTType a = node_t.AST_USING_DIRECTIVE then build_scope_using_directive env tab a st
  else if ASTType a = node_t.AST_AMBIGUITY then
    env.build_scope_declaration tab (env.solve_ambiguous_declaration tab a st) st
  else outcome.internal_error "A declaration of kind %s is still unsupported"

/-- The collaborators in which the three entry points of the file are the
functions of the file themselves, to the depth of the recursion budget: at
depth zero they run out of fuel, at a greater depth they are the functions
over the collaborators of the depth before. -/
def tie (env : collaborators) : Nat → collaborators
  | 0 =>
    { env with
        gather_type_spec_from_class_specifier := fun _ _ _ _ => outcome.out_of_fuel
        build_scope_declaration := fun _ _ _ => outcome.out_of_fuel
        build_scope_statement := fun _ _ _ => outcome.out_of_fuel }
  | fuel + 1 =>
    { env with
        gather_type_spec_from_class_specifier := fun tab a st simple_type_info =>
          gather_type_spec_from_class_specifier (tie env fuel) fuel tab a st simple_type_info
        build_scope_declaration := fun tab a st =>
          build_scope_declaration (tie env fuel) fuel tab a st
        build_scope_statement := fun tab a st =>
          build_scope_statement (tie env fuel) fuel tab a st }

/-- The store before the global scope is created. -/
def empty_store : scope_store := { scopes := [], entries := [] }

/-- The function `build_scope_translation_unit`: the global scope is created,
without enclosing scope, and the declarations are processed in it. The result
is the symbol table; the first argument bounds the depth of the recursion. -/
def build_scope_translation_unit (env : collaborators) (fuel : Nat) (a : AST) :
    outcome scope_store :=
  let list := ASTSon0 a
  if list = AST.null then pure empty_store
  else
    let global_scope := new_namespace_scope empty_store none
    build_scope_declaration_sequence (tie env fuel) global_scope.1 list global_scope.2

/-! ## Statements in the words of the specification -/

/-- The first occurrences of the elements of a list, in order. -/
def first_occurrences : List ScopeId → List ScopeId
  | [] => []
  | x :: rest => x :: (first_occurrences rest).filter (fun y => decide (y ≠ x))

/-- The list with one more namespace at its end, unless it is already there. -/
def append_absent (l : List ScopeId) (x : ScopeId) : List ScopeId :=
  if x ∈ l then l else l ++ [x]

/-- The used-namespace list after `using namespace N`, in the words of the
specification: the previous list, followed by the scope of `N` if it was not
already present, followed by each namespace used by `N` that was not already
present, in order. -/
def used_namespaces_after (previous : List ScopeId) (n : ScopeId) (used_by_n : List ScopeId) :
    List ScopeId :=
  previous ++ (first_occurrences (n :: used_by_n)).filter (fun y => decide (y ∉ previous))

/-- The value of an enumerator, in the words of the specification: the
constant value of its initializer if it has one, otherwise the value of the
previous enumerator plus one. -/
def enumerator_value (evaluate : AST → Int) (previous : Int) (enumerator : AST) : Int :=
  if ASTSon1 enumerator = AST.null then previous + 1 else evaluate (ASTSon1 enumerator)

/-- The values of the enumerators of a list, the value before the first one
being `previous`; `evaluate k` folds an initializer at the moment the `k`-th
enumerator is processed. -/
def enumerator_values (evaluate : Nat → AST → Int) : Nat → Int → List AST → List Int
  | _, _, [] => []
  | k, previous, enumerator :: rest =>
      enumerator_value (evaluate k) previous enumerator ::
        enumerator_values evaluate (k + 1) (enumerator_value (evaluate k) previous enumerator) rest

/-! ## Sample trees and collaborators -/

/-- Lookup of a name in a scope and then outwards in the enclosing scopes. -/
def query_outwards (tab : scope_store) (name : String) : Nat → ScopeId → List EntryId
  | 0, _ => []
  | fuel + 1, st =>
      match query_in_current_scope tab st name with
      | [] =>
          match (get_scope tab st).contained_in with
          | none => []
          | some outer => query_outwards tab name fuel outer
      | found => found

/-- The value of a decimal literal. -/
def decimal_value (text : String) : Int :=
  Int.ofNat (text.data.foldl (fun n c => 10 * n + (c.toNat - 48)) 0)

/-- The tree of a literal value: a decimal literal. -/
def literal_tree (v : Int) : AST :=
  ASTLeaf node_t.AST_DECIMAL_LITERAL (toString v)

/-- Sample collaborators: unqualified names are looked up outwards through
the enclosing scopes, qualified names are not resolved, constants are decimal
literals, ambiguous nodes are left as they are, the kind of a type equals
`SK_FUNCTION` for the function types, and the three entry points of the file
are refused (`tie` puts the functions of the file in their place). -/
def sample_collaborators : collaborators :=
  { query_unqualified_name := fun tab st name => query_outwards tab name (tab.scopes.length + 1) st
    query_nested_name := fun tab st global_op nested_name name _ =>
      if global_op = AST.null ∧ nested_name = AST.null then
        query_outwards tab (ASTText name) (tab.scopes.length + 1) st
      else []
    query_nested_name_spec := fun _ _ _ _ => []
    query_id_expression_other := fun _ _ _ _ => []
    filter_simple_type_specifier := fun tab l =>
      l.find? (fun e =>
        [cxx_symbol_kind.SK_CLASS, cxx_symbol_kind.SK_ENUM, cxx_symbol_kind.SK_TYPEDEF,
          cxx_symbol_kind.SK_TEMPLATE_PARAMETER, cxx_symbol_kind.SK_TEMPLATE_PRIMARY_CLASS,
          cxx_symbol_kind.SK_TEMPLATE_SPECIALIZED_CLASS].contains (get_entry tab e).kind)
    evaluate_constant_expression := fun _ e _ => decimal_value (ASTText e)
    tree_from_literal_value := literal_tree
    solve_ambiguous_declarator := fun _ a _ => a
    solve_ambiguous_init_declarator := fun _ a _ => a
    get_conversion_function_name := fun _ _ _ => ("operator", type_t.null)
    solve_ambiguous_declaration := fun _ a _ => a
    solve_ambiguous_statement := fun _ a _ => a
    solve_ambiguous_type_spec_seq := fun _ a _ => a
    solve_possibly_ambiguous_expression := fun _ a _ => a
    solve_parameter_declaration_vs_type_parameter_class := fun a => a
    type_kind_equals_SK_FUNCTION := fun t => t.is_function
    gather_type_spec_from_class_specifier := fun _ _ _ _ =>
      outcome.internal_error "class specifier"
    build_scope_declaration := fun _ _ _ => outcome.internal_error "declaration"
    build_scope_statement := fun _ _ _ => outcome.internal_error "statement" }

/-- A store with the global scope alone. -/
def global_store : scope_store :=
  { scopes := [empty_scope scope_kind_t.NAMESPACE_SCOPE none], entries := [] }

/-- The leaf of a name. -/
def symbol (name : String) : AST := ASTLeaf node_t.AST_SYMBOL name

/-- The declarator id of a plain name. -/
def declarator_id (name : String) : AST :=
  AST.node node_t.AST_DECLARATOR_ID_EXPR (symbol name) AST.null AST.null AST.null ""

/-- The list tree with one element. -/
def list1 (x : AST) : AST := ASTMake2 node_t.AST_NODE_LIST AST.null x ""

/-- The list tree with two elements. -/
def list2 (x y : AST) : AST := ASTMake2 node_t.AST_NODE_LIST (list1 x) y ""

/-- A decimal literal. -/
def literal (text : String) : AST := ASTLeaf node_t.AST_DECIMAL_LITERAL text

/-- A pointer operator `*` without nested name and without cv-qualifiers. -/
def plain_pointer_spec : AST := ASTLeaf node_t.AST_POINTER_SPEC ""

/-- The declarator `(*f)[e]`: an array declarator around the parenthesized
pointer declarator of the given declarator id. -/
def pointer_to_array_declarator (f e : AST) : AST :=
  AST.node node_t.AST_DECLARATOR_ARRAY
    (AST.node node_t.AST_PARENTHESIZED_DECLARATOR
      (AST.node node_t.AST_POINTER_DECL plain_pointer_spec f AST.null AST.null "")
      AST.null AST.null AST.null "")
    e AST.null AST.null ""

/-- The declarator `f()`: a function declarator with an explicitly empty
parameter clause, without cv-qualifiers and exception specification. -/
def empty_function_declarator (f : AST) : AST :=
  AST.node node_t.AST_DECLARATOR_FUNC f
    (ASTLeaf node_t.AST_EMPTY_PARAMETER_DECLARATION_CLAUSE "") AST.null AST.null ""

/-- The type `Function(returns T, no parameters)` of a declaration whose
specifiers are `gather_info`. -/
def function_without_parameters (returning_type : type_t) (gather_info : gather_decl_spec_t) :
    type_t :=
  type_t.function (function_info_t.mk returning_type parameter_list_t.nil CV_NONE
    exception_spec_t.null gather_info.is_static gather_info.is_inline gather_info.is_virtual
    gather_info.is_explicit false simple_type_t.null)

/-- A decl-specifier-seq made of a builtin type specifier preceded by the
given specifiers. -/
def decl_specifier_seq (before : AST) (type_spec : node_t) : AST :=
  AST.node node_t.AST_DECL_SPECIFIER_SEQ before (ASTLeaf type_spec "") AST.null AST.null ""

/-- The simple declaration `specifiers type name;` or, with an initializer,
`specifiers type name = initializer;`. -/
def simple_declaration (before : AST) (type_spec : node_t) (name : String)
    (initializer : AST) : AST :=
  AST.node node_t.AST_SIMPLE_DECLARATION (decl_specifier_seq before type_spec)
    (list1 (AST.node node_t.AST_INIT_DECLARATOR
      (AST.node node_t.AST_DECLARATOR (declarator_id name) AST.null AST.null AST.null "")
      initializer AST.null AST.null ""))
    AST.null AST.null ""

/-- The declaration `int x;`. -/
def int_x : AST := simple_declaration AST.null node_t.AST_INT_TYPE "x" AST.null

/-- The declaration `extern int x;`. -/
def extern_int_x : AST :=
  simple_declaration (list1 (ASTLeaf node_t.AST_EXTERN_SPEC "")) node_t.AST_INT_TYPE "x" AST.null

/-- A namespace symbol of the global scope. -/
def namespace_entry (name : String) (related_scope : ScopeId) : scope_entry_t :=
  { zero_entry with
      symbol_name := name, kind := cxx_symbol_kind.SK_NAMESPACE, scope := 0,
      related_scope := some related_scope, defined := false }

/-- A store with the global scope (0), the namespaces `N1` (scope 1), `N2`
(scope 2) and `N3` (scope 3) declared in it, and a further scope `S` (4)
enclosed in the global scope; `N1` already uses `N2`. -/
def namespaces_store : scope_store :=
  { scopes :=
      [ { empty_scope scope_kind_t.NAMESPACE_SCOPE none with hash := [2, 1, 0] },
        { empty_scope scope_kind_t.NAMESPACE_SCOPE (some 0) with use_namespace := [2] },
        empty_scope scope_kind_t.NAMESPACE_SCOPE (some 0),
        empty_scope scope_kind_t.NAMESPACE_SCOPE (some 0),
        empty_scope scope_kind_t.NAMESPACE_SCOPE (some 0) ],
    entries := [namespace_entry "N1" 1, namespace_entry "N2" 2, namespace_entry "N3" 3] }

/-- The store `namespaces_store` after `using namespace N1` in `S`. -/
def namespaces_store_after_use : scope_store :=
  { namespaces_store with
      scopes := namespaces_store.scopes.set 4
        { empty_scope scope_kind_t.NAMESPACE_SCOPE (some 0) with use_namespace := [1, 2] } }

/-- The store `namespaces_store_after_use` after `using namespace N3` in
`N1`. -/
def namespaces_store_after_later_use : scope_store :=
  { namespaces_store_after_use with
      scopes := namespaces_store_after_use.scopes.set 1
        { empty_scope scope_kind_t.NAMESPACE_SCOPE (some 0) with use_namespace := [2, 3] } }

/-- The directive `using namespace name;`. -/
def using_directive (name : String) : AST :=
  AST.node node_t.AST_USING_DIRECTIVE AST.null AST.null (symbol name) AST.null ""

/-- The record of a function without qualifiers whose parameters have the
given types and no default argument. -/
def function_record (returning_type : type_t) (parameters : List type_t) : function_info_t :=
  function_info_t.mk returning_type
    (parameters.foldl (fun l t => l.add (parameter_info_t.mk false t AST.null))
      parameter_list_t.nil)
    CV_NONE exception_spec_t.null false false false false false simple_type_t.null

/-- The function record of `void f(int)`. -/
def void_of_int : function_info_t :=
  function_record (type_t.direct (builtin_simple_type builtin_type_t.BT_VOID))
    [type_t.direct (builtin_simple_type builtin_type_t.BT_INT)]

/-- The function record of `void f(double)`. -/
def void_of_double : function_info_t :=
  function_record (type_t.direct (builtin_simple_type builtin_type_t.BT_VOID))
    [type_t.direct (builtin_simple_type builtin_type_t.BT_DOUBLE)]

/-- The global store after `void f(int)` has been registered in the global
scope. -/
def store_with_f : scope_store :=
  (register_function sample_collaborators global_store (symbol "f")
    (type_t.function void_of_int) 0).1

/-- An entry is a function whose parameter-type list is structurally equal
to the one of the declared function. -/
def same_function (tab : scope_store) (f : function_info_t) (e : EntryId) : Prop :=
  (get_entry tab e).kind = cxx_symbol_kind.SK_FUNCTION ∧
    ∃ g, (get_entry tab e).type_information = type_t.function g ∧
      equivalent_parameter_lists f.parameter_list.toList g.parameter_list.toList = true

/-- The store in which the initializer of the `k`-th enumerator of the list
is folded: the enumerators before it have been processed and its own symbol
has been created. -/
def store_at_enumerator (env : collaborators) (st : ScopeId) (target : Option EntryId)
    (iters : List AST) (s : enum_state) (k : Nat) : scope_store :=
  let s1 := enumerator_loop env st target (iters.take k) s
  let r := new_symbol s1.tab st (ASTText (ASTSon0 (ASTSon1 (iters.getD k AST.null))))
  set_entry r.1 r.2 { get_entry r.1 r.2 with kind := cxx_symbol_kind.SK_ENUMERATOR }

/-- Name, kind and value of an entry. -/
def entry_summary (e : scope_entry_t) : String × cxx_symbol_kind × AST :=
  (e.symbol_name, e.kind, e.expression_value)

/-- The enum specifier `enum E { A, B, C = 5, D }`. -/
def enum_E : AST :=
  AST.node node_t.AST_ENUM_SPECIFIER (symbol "E")
    (ASTMake2 node_t.AST_NODE_LIST
      (ASTMake2 node_t.AST_NODE_LIST
        (list2 (ASTMake2 node_t.AST_ENUM_DEF (symbol "A") AST.null "")
          (ASTMake2 node_t.AST_ENUM_DEF (symbol "B") AST.null ""))
        (ASTMake2 node_t.AST_ENUM_DEF (symbol "C") (literal "5") "") "")
      (ASTMake2 node_t.AST_ENUM_DEF (symbol "D") AST.null "") "")
    AST.null AST.null ""

/-- The type `int` as composed from the specifier `int`. -/
def int_type : type_t := type_t.direct (builtin_simple_type builtin_type_t.BT_INT)

/-- The store after a variable `x` of type `int` has been registered in the
scope. -/
def store_with_variable (tab : scope_store) (st : ScopeId) : scope_store :=
  set_entry (new_symbol tab st "x").1 tab.entries.length
    { get_entry (new_symbol tab st "x").1 tab.entries.length with
        kind := cxx_symbol_kind.SK_VARIABLE, type_information := int_type }

/-- The declarator `x` of the declarations `int x;` and `extern int x;`. -/
def declarator_x : AST :=
  AST.node node_t.AST_DECLARATOR (declarator_id "x") AST.null AST.null AST.null ""

/-- The list node of the init-declarator `x = 3` of the declaration
`int x = 3;`. -/
def init_declarator_x_3 : AST :=
  list1 (AST.node node_t.AST_INIT_DECLARATOR declarator_x (literal "3") AST.null AST.null "")

/-- What the composer leaves for the declarator `x` of type `int` in the
global store: the variable `x` is registered and not yet defined. -/
def declared_x : declarator_result :=
  { tab := store_with_variable global_store 0, entry := some 0, parameters_scope := none,
    declarator_type := int_type, tree := declarator_x }

/-- The type id of a builtin type without abstract declarator. -/
def builtin_type_id (type_spec : node_t) : AST :=
  AST.node node_t.AST_TYPE_ID (decl_specifier_seq AST.null type_spec) AST.null AST.null AST.null ""

/-- The template argument made of a type id. -/
def template_type_argument (type_id : AST) : AST :=
  AST.node node_t.AST_TEMPLATE_TYPE_ARGUMENT type_id AST.null AST.null AST.null ""

/-- The type parameter `class name` or, with a type id, `class name = type_id`. -/
def type_parameter_class (name : String) (type_id : AST) : AST :=
  AST.node node_t.AST_TYPE_PARAMETER_CLASS (symbol name) type_id AST.null AST.null ""

/-- The store after `template<class P, class Q = int> class A`: the global
scope (0) holds the primary template `A`, whose parameter descriptors are the
ones `build_scope_type_template_parameter` makes for `class P` and
`class Q = int` at the positions 0 and 1; the template scope (1) holds `P`
and `Q`. -/
def primary_template_store : scope_store :=
  let s0 : scope_store :=
    { scopes := [{ empty_scope scope_kind_t.NAMESPACE_SCOPE none with hash := [0] },
        empty_scope scope_kind_t.TEMPLATE_SCOPE (some 0)],
      entries := [{ zero_entry with
        symbol_name := "A", kind := cxx_symbol_kind.SK_TEMPLATE_PRIMARY_CLASS, scope := 0,
        defined := true }] }
  let p := build_scope_type_template_parameter s0 (type_parameter_class "P" AST.null) 1 0
  let q := build_scope_type_template_parameter p.1
    (type_parameter_class "Q" (builtin_type_id node_t.AST_INT_TYPE)) 1 1
  set_entry q.1 0
    { get_entry q.1 0 with num_template_parameters := 2, template_parameter_info := [p.2, q.2] }

/-- The template id `A<char>`. -/
def template_id_A_char : AST :=
  AST.node node_t.AST_TEMPLATE_ID (symbol "A")
    (list1 (template_type_argument (builtin_type_id node_t.AST_CHAR_TYPE))) AST.null AST.null ""

/-- The store after `template<class P, class Q> class A`: as
`primary_template_store`, but the second parameter has no default argument. -/
def primary_template_without_default : scope_store :=
  let s0 : scope_store :=
    { scopes := [{ empty_scope scope_kind_t.NAMESPACE_SCOPE none with hash := [0] },
        empty_scope scope_kind_t.TEMPLATE_SCOPE (some 0)],
      entries := [{ zero_entry with
        symbol_name := "A", kind := cxx_symbol_kind.SK_TEMPLATE_PRIMARY_CLASS, scope := 0,
        defined := true }] }
  let p := build_scope_type_template_parameter s0 (type_parameter_class "P" AST.null) 1 0
  let q := build_scope_type_template_parameter p.1 (type_parameter_class "Q" AST.null) 1 1
  set_entry q.1 0
    { get_entry q.1 0 with num_template_parameters := 2, template_parameter_info := [p.2, q.2] }

/-- The declarator id `~name` of a destructor. -/
def destructor_declarator_id (name : String) : AST :=
  AST.node node_t.AST_DECLARATOR_ID_EXPR
    (AST.node node_t.AST_DESTRUCTOR_ID (symbol name) AST.null AST.null AST.null "")
    AST.null AST.null AST.null ""

/-- The declarator `~A()` of the declaration of a destructor. -/
def destructor_declarator : AST :=
  AST.node node_t.AST_DECLARATOR (empty_function_declarator (destructor_declarator_id "A"))
    AST.null AST.null AST.null ""

/-- The declarator id `N::name` of a qualified name. -/
def qualified_declarator_id (nested_name : String) (name : String) : AST :=
  AST.node node_t.AST_DECLARATOR_ID_EXPR
    (AST.node node_t.AST_QUALIFIED_ID AST.null (symbol nested_name) (symbol name) AST.null "")
    AST.null AST.null AST.null ""

/-- A simple declaration made of a type specifier alone, as `enum E { A };`. -/
def type_declaration (type_spec : AST) : AST :=
  AST.node node_t.AST_SIMPLE_DECLARATION
    (AST.node node_t.AST_DECL_SPECIFIER_SEQ AST.null type_spec AST.null AST.null "")
    AST.null AST.null AST.null ""

/-- The enum specifier `enum E { A, A }`. -/
def enum_E_A_A : AST :=
  AST.node node_t.AST_ENUM_SPECIFIER (symbol "E")
    (list2 (ASTMake2 node_t.AST_ENUM_DEF (symbol "A") AST.null "")
      (ASTMake2 node_t.AST_ENUM_DEF (symbol "A") AST.null ""))
    AST.null AST.null ""

/-- The enum specifier `enum E { A }`. -/
def enum_E_A : AST :=
  AST.node node_t.AST_ENUM_SPECIFIER (symbol "E")
    (list1 (ASTMake2 node_t.AST_ENUM_DEF (symbol "A") AST.null ""))
    AST.null AST.null ""

/-- The declaration `int E;`. -/
def int_E : AST := simple_declaration AST.null node_t.AST_INT_TYPE "E" AST.null

/-- The kinds of the entries a name maps to in a scope, the most recently
inserted first. -/
def kinds_of_name (tab : scope_store) (st : ScopeId) (name : String) : List cxx_symbol_kind :=
  (query_in_current_scope tab st name).map (fun e => (get_entry tab e).kind)

/-- The declaration `extern int x = 3;`. -/
def extern_int_x_3 : AST :=
  simple_declaration (list1 (ASTLeaf node_t.AST_EXTERN_SPEC "")) node_t.AST_INT_TYPE "x"
    (literal "3")

/-- The declaration `extern x = 3;`: the storage class specifier and no type
specifier. -/
def extern_x_3 : AST :=
  AST.node node_t.AST_SIMPLE_DECLARATION
    (AST.node node_t.AST_DECL_SPECIFIER_SEQ (list1 (ASTLeaf node_t.AST_EXTERN_SPEC ""))
      AST.null AST.null AST.null "")
    init_declarator_x_3 AST.null AST.null ""

/-- The nodes of a declarator from its root down to its name, and the
declarator-id node it ends in: defined for the trees built from
`AST_DECLARATOR`, `AST_PARENTHESIZED_DECLARATOR`, `AST_POINTER_DECL`,
`AST_DECLARATOR_ARRAY` and `AST_DECLARATOR_FUNC` nodes that end in an
`AST_DECLARATOR_ID_EXPR`. -/
def declarator_spine : AST → Option (List AST × AST)
  | AST.null => none
  | AST.node kind son0 son1 son2 son3 text =>
    if kind = node_t.AST_DECLARATOR_ID_EXPR then
      some ([], AST.node kind son0 son1 son2 son3 text)
    else if kind = node_t.AST_DECLARATOR ∨ kind = node_t.AST_PARENTHESIZED_DECLARATOR
        ∨ kind = node_t.AST_DECLARATOR_ARRAY ∨ kind = node_t.AST_DECLARATOR_FUNC then
      (declarator_spine son0).map
        (fun r => (AST.node kind son0 son1 son2 son3 text :: r.1, r.2))
    else if kind = node_t.AST_POINTER_DECL then
      (declarator_spine son1).map
        (fun r => (AST.node kind son0 son1 son2 son3 text :: r.1, r.2))
    else none

/-- The wrapper of a declarator node, in the words of the specification: a
pointer declarator wraps the type in Pointer (or Reference, or pointer to
member), an array declarator in Array, a function declarator in Function; the
other nodes add no wrapper. The state is the store, the parameter scope and
the type composed so far. -/
def apply_declarator_wrapper (env : collaborators) (fuel : Nat) (st : ScopeId)
    (gather_info : gather_decl_spec_t) (s : scope_store × Option ScopeId × type_t)
    (node : AST) : outcome (scope_store × Option ScopeId × type_t) :=
  if ASTType node = node_t.AST_POINTER_DECL then do
    let t ← set_pointer_type env s.1 s.2.2 st (ASTSon0 node)
    pure (s.1, s.2.1, t)
  else if ASTType node = node_t.AST_DECLARATOR_ARRAY then
    pure (s.1, s.2.1, set_array_type s.2.2 (ASTSon1 node))
  else if ASTType node = node_t.AST_DECLARATOR_FUNC then
    set_function_type env fuel s.1 s.2.2 st s.2.1 gather_info (ASTSon1 node) (ASTSon2 node)
      (ASTSon3 node)
  else pure s

/-- The wrappers of the nodes applied one after the other, from the root of
the declarator to its name, so that the wrapper of the last node is the
outermost constructor of the result. The recursion budget decreases with each
node, as it does in the composer. -/
def apply_declarator_wrappers (env : collaborators) (st : ScopeId)
    (gather_info : gather_decl_spec_t) :
    Nat → List AST → scope_store × Option ScopeId × type_t →
    outcome (scope_store × Option ScopeId × type_t)
  | _, [], s => pure s
  | 0, _ :: _, _ => outcome.out_of_fuel
  | fuel + 1, node :: rest, s => do
    let s1 ← apply_declarator_wrapper env fuel st gather_info s node
    apply_declarator_wrappers env st gather_info fuel rest s1

/-- The declarator `(*f)[3]`. -/
def pointer_to_array_f : AST :=
  pointer_to_array_declarator (declarator_id "f") (literal "3")

/-- A member declaration `type name;` of a class. -/
def member_declaration (type_spec : node_t) (name : String) : AST :=
  AST.node node_t.AST_MEMBER_DECLARATION (decl_specifier_seq AST.null type_spec)
    (list1 (AST.node node_t.AST_MEMBER_DECLARATOR
      (AST.node node_t.AST_DECLARATOR (declarator_id name) AST.null AST.null AST.null "")
      AST.null AST.null AST.null ""))
    AST.null AST.null ""

/-- The member specification `int x; public: int y;`. -/
def members_x_public_y : AST :=
  AST.node node_t.AST_MEMBER_SPEC AST.null (member_declaration node_t.AST_INT_TYPE "x")
    (AST.node node_t.AST_MEMBER_SPEC (ASTLeaf node_t.AST_PUBLIC_SPEC "")
      (member_declaration node_t.AST_INT_TYPE "y") AST.null AST.null "")
    AST.null ""

/-- The class specifier `key name { members }` without bases. -/
def class_specifier (class_key : node_t) (name : String) (members : AST) : AST :=
  AST.node node_t.AST_CLASS_SPECIFIER
    (AST.node node_t.AST_CLASS_HEAD (ASTLeaf class_key "") AST.null (symbol name) AST.null "")
    members AST.null AST.null ""

/-- The base clause `: name` of a class head, with one base specifier, a
plain name. -/
def base_clause (name : String) : AST :=
  AST.node node_t.AST_BASE_CLAUSE
    (list1 (AST.node node_t.AST_BASE_SPECIFIER AST.null AST.null (symbol name) AST.null ""))
    AST.null AST.null AST.null ""

/-- The class information of a class without bases and member functions, with
its class scope. -/
def empty_class_info (inner_scope : ScopeId) : class_info_t :=
  class_info_t.mk (some inner_scope) type_list_t.nil [] none [] conversion_list_t.nil

/-- The template parameter `type name` or, with a default argument,
`type name = default_argument`, which is not a type parameter. -/
def nontype_parameter (type_spec : node_t) (name : String) (default_argument : AST) : AST :=
  AST.node node_t.AST_PARAMETER_DECL (decl_specifier_seq AST.null type_spec)
    (AST.node node_t.AST_DECLARATOR (declarator_id name) AST.null AST.null AST.null "")
    default_argument AST.null ""

/-- The template declaration `template<parameters> class_specifier;`. -/
def template_class_declaration (parameters : AST) (class_specifier : AST) : AST :=
  AST.node node_t.AST_TEMPLATE_DECLARATION parameters (type_declaration class_specifier)
    AST.null AST.null ""

/-- The declaration `template<int N = 3> class A { };`. -/
def template_int_N_3_class_A : AST :=
  template_class_declaration (list1 (nontype_parameter node_t.AST_INT_TYPE "N" (literal "3")))
    (class_specifier node_t.AST_CLASS_KEY_CLASS "A" AST.null)

/-- The template id `A<>`. -/
def template_id_A_empty : AST :=
  AST.node node_t.AST_TEMPLATE_ID (symbol "A") AST.null AST.null AST.null ""

/-- The store a run ends with; the empty store for a run that stopped. -/
def outcome.store : outcome scope_store → scope_store
  | outcome.ok tab => tab
  | _ => { scopes := [], entries := [] }

/-- The store after `template<int N = 3> class A { };` in the global scope. -/
@[irreducible] def store_after_template_int_N_3 : scope_store :=
  (build_scope_template_declaration (tie sample_collaborators 1) 8 global_store
    template_int_N_3_class_A 0).store

/-- The ordinal position a parameter descriptor carries, when its type is a
Direct type: the field `template_parameter_num` of the simple type. -/
def template_parameter_t.ordinal (d : template_parameter_t) : Option Nat :=
  match d.type_info with
  | type_t.direct (simple_type_t.mk f _ _ _) => some f.template_parameter_num
  | _ => none

/-- The template parameter list `class T, int N`. -/
def parameters_T_N : AST :=
  list2 (type_parameter_class "T" AST.null) (nontype_parameter node_t.AST_INT_TYPE "N" AST.null)

/-- The result of a run; the given value for a run that stopped. -/
def outcome.value_or {α : Type} (x : outcome α) (d : α) : α :=
  match x with
  | outcome.ok v => v
  | _ => d

/-- The store and the descriptors after the parameter list `class T, int N`
has been processed in a template scope (1) enclosed in the global scope. -/
@[irreducible] def parameters_T_N_result : scope_store × List template_parameter_t :=
  (build_scope_template_parameter_list sample_collaborators 8
    (new_template_scope global_store 0).1 parameters_T_N 1).value_or (global_store, [])

/-- Field `constructor_list` of a class. -/
def class_info_t.constructor_list : class_info_t → List EntryId
  | class_info_t.null => []
  | class_info_t.mk _ _ c _ _ _ => c

/-- Field `destructor` of a class. -/
def class_info_t.destructor : class_info_t → Option EntryId
  | class_info_t.null => none
  | class_info_t.mk _ _ _ d _ _ => d

/-- Field `operator_function_list` of a class. -/
def class_info_t.operator_function_list : class_info_t → List EntryId
  | class_info_t.null => []
  | class_info_t.mk _ _ _ _ o _ => o

/-- The conversion functions as a list of conversion types with their
cv-qualifiers. -/
def conversion_list_t.toList : conversion_list_t → List (type_t × cv_qualifier_t)
  | conversion_list_t.nil => []
  | conversion_list_t.cons t cv tail => (t, cv) :: conversion_list_t.toList tail

/-- Field `conversion_function_list` of a class. -/
def class_info_t.conversion_function_list : class_info_t → List (type_t × cv_qualifier_t)
  | class_info_t.null => []
  | class_info_t.mk _ _ _ _ _ v => v.toList

/-- The function definition `specifiers declarator { }`, without constructor
initializer and with an empty compound statement as body. -/
def function_definition (decl_specifier_seq declarator : AST) : AST :=
  AST.node node_t.AST_FUNCTION_DEFINITION decl_specifier_seq declarator AST.null
    (AST.node node_t.AST_FUNCTION_BODY
      (AST.node node_t.AST_COMPOUND_STATEMENT AST.null AST.null AST.null AST.null "")
      AST.null AST.null AST.null "")
    ""

/-- The declarator `id()` of a function without parameters. -/
def function_declarator (id_expression : AST) : AST :=
  AST.node node_t.AST_DECLARATOR
    (empty_function_declarator
      (AST.node node_t.AST_DECLARATOR_ID_EXPR id_expression AST.null AST.null AST.null ""))
    AST.null AST.null AST.null ""

/-- The member function definition `~A() { }`. -/
def destructor_A : AST :=
  function_definition AST.null
    (function_declarator
      (AST.node node_t.AST_DESTRUCTOR_ID (symbol "A") AST.null AST.null AST.null ""))

/-- The member function definition `void f() { }`. -/
def void_f : AST :=
  function_definition (decl_specifier_seq AST.null node_t.AST_VOID_TYPE)
    (function_declarator (symbol "f"))

/-- The member function definition `static void g() { }`. -/
def static_void_g : AST :=
  function_definition
    (decl_specifier_seq (list1 (ASTLeaf node_t.AST_STATIC_SPEC "")) node_t.AST_VOID_TYPE)
    (function_declarator (symbol "g"))

/-- The store, the record of the caller, the class symbol and the class
scope after the head of `class A` has been processed in the global scope. -/
@[irreducible] def class_A_head : class_head_result :=
  (class_specifier_head sample_collaborators 8 global_store
    (class_specifier node_t.AST_CLASS_KEY_CLASS "A" AST.null) 0 zero_simple_type).value_or
    ⟨global_store, simple_type_t.null, none, 0⟩

/-- The function record of `void name()`, static or not, before the function
is marked as a member. -/
def void_function_record (static_function : Bool) : function_info_t :=
  function_info_t.mk (type_t.direct (builtin_simple_type builtin_type_t.BT_VOID))
    parameter_list_t.nil CV_NONE exception_spec_t.null static_function false false false false
    simple_type_t.null

/-- The store and the record of the class after the member function
definition `void f() { }` has been processed in the scope of `class A`. -/
@[irreducible] def void_f_member : scope_store × simple_type_t :=
  (build_scope_member_function_definition (tie sample_collaborators 3) 8 class_A_head.tab
    void_f class_A_head.inner_scope access_specifier_t.AS_PRIVATE
    class_A_head.simple_type_info).value_or (global_store, simple_type_t.null)

/-- The store after the member function definition `static void g() { }` has
been processed in the scope of `class A`. -/
@[irreducible] def static_void_g_member : scope_store :=
  ((build_scope_member_function_definition (tie sample_collaborators 3) 8 class_A_head.tab
    static_void_g class_A_head.inner_scope access_specifier_t.AS_PRIVATE
    class_A_head.simple_type_info).bind (fun r => outcome.ok r.1)).store

/-- The function definition `specifiers declarator { statement }`, whose body
is a compound statement with one statement. -/
def function_definition_with (decl_specifier_seq declarator statement : AST) : AST :=
  AST.node node_t.AST_FUNCTION_DEFINITION decl_specifier_seq declarator AST.null
    (AST.node node_t.AST_FUNCTION_BODY
      (AST.node node_t.AST_COMPOUND_STATEMENT (list1 statement) AST.null AST.null AST.null "")
      AST.null AST.null AST.null "")
    ""

/-- The declaration statement of a declaration. -/
def declaration_statement (declaration : AST) : AST :=
  AST.node node_t.AST_DECLARATION_STATEMENT declaration AST.null AST.null AST.null ""

/-- The member specification made of one member declaration, without access
specifier. -/
def one_member (member : AST) : AST :=
  AST.node node_t.AST_MEMBER_SPEC AST.null member AST.null AST.null ""

/-- The class specifier `class A { void f() { class A { }; } }`, in which a
member function declares a local class named like the class. -/
def class_A_with_local_class_A : AST :=
  class_specifier node_t.AST_CLASS_KEY_CLASS "A"
    (one_member
      (function_definition_with (decl_specifier_seq AST.null node_t.AST_VOID_TYPE)
        (function_declarator (symbol "f"))
        (declaration_statement
          (type_declaration (class_specifier node_t.AST_CLASS_KEY_CLASS "A" AST.null)))))

/-- The store after `class A { void f() { class A { }; } }` has been
processed in the global scope. -/
@[irreducible] def store_after_class_A_with_local_class_A : scope_store :=
  ((gather_type_spec_from_class_specifier (tie sample_collaborators 6) 8 global_store
    class_A_with_local_class_A 0 zero_simple_type).bind (fun r => outcome.ok r.1)).store

/-- The declaration `class name;`, made of an elaborated type specifier. -/
def forward_class_declaration (name : String) : AST :=
  type_declaration
    (AST.node node_t.AST_ELABORATED_TYPE_CLASS (ASTLeaf node_t.AST_CLASS_KEY_CLASS "")
      AST.null AST.null (symbol name) "")

/-- The store after `class A;` has been processed in the global scope. -/
@[irreducible] def store_with_class_A_declared : scope_store :=
  (build_scope_simple_declaration sample_collaborators 3 global_store
    (forward_class_declaration "A") 0).store

/-- The class specifier `class A { int x; public: int y; }`. -/
def class_A_x_y : AST := class_specifier node_t.AST_CLASS_KEY_CLASS "A" members_x_public_y

/-- What the head of `class A { int x; public: int y; }` leaves behind after
`class A;`. -/
@[irreducible] def class_A_x_y_head : class_head_result :=
  (class_specifier_head (tie sample_collaborators 3) 8 store_with_class_A_declared
    class_A_x_y 0 zero_simple_type).value_or ⟨global_store, simple_type_t.null, none, 0⟩

/-- The store and the record of the class after the members of
`class A { int x; public: int y; }`. -/
@[irreducible] def class_A_x_y_members : scope_store × simple_type_t :=
  (member_specification_loop
    (fun (s : scope_store × simple_type_t) member current_access =>
      build_scope_member_declaration (tie sample_collaborators 3) 8 s.1 member
        class_A_x_y_head.inner_scope current_access s.2)
    (ASTSon1 class_A_x_y) (initial_access (ASTSon0 (ASTSon0 class_A_x_y)))
    (class_A_x_y_head.tab, class_A_x_y_head.simple_type_info)).value_or
    (global_store, simple_type_t.null)

/-- The class specifier `key id { members }` without bases, whose name is the
given tree: a plain name or a template id. -/
def class_specifier_named (class_key : node_t) (id : AST) (members : AST) : AST :=
  AST.node node_t.AST_CLASS_SPECIFIER
    (AST.node node_t.AST_CLASS_HEAD (ASTLeaf class_key "") AST.null id AST.null "")
    members AST.null AST.null ""

/-- The template id `A<char, double>`. -/
def template_id_A_char_double : AST :=
  AST.node node_t.AST_TEMPLATE_ID (symbol "A")
    (list2 (template_type_argument (builtin_type_id node_t.AST_CHAR_TYPE))
      (template_type_argument (builtin_type_id node_t.AST_DOUBLE_TYPE)))
    AST.null AST.null ""

/-- The declaration `template<class T> class A<char, double> { };`. -/
def template_class_A_char_double : AST :=
  template_class_declaration (list1 (type_parameter_class "T" AST.null))
    (class_specifier_named node_t.AST_CLASS_KEY_CLASS template_id_A_char_double AST.null)

/-- The declaration `template<class T, int N> class A { };`. -/
def template_class_A : AST :=
  template_class_declaration parameters_T_N (class_specifier node_t.AST_CLASS_KEY_CLASS "A" AST.null)

/-- The store after `template<class T, int N> class A { };` in the global
scope. -/
@[irreducible] def store_after_template_class_A : scope_store :=
  (build_scope_template_declaration (tie sample_collaborators 2) 8 global_store
    template_class_A 0).store

/-- The simple declaration `class A { };` of the template declaration
`template<class T, int N> class A { };`. -/
def declaration_class_A : AST :=
  type_declaration (class_specifier node_t.AST_CLASS_KEY_CLASS "A" AST.null)

/-! ## Invariants of the symbol table -/

/-- A property of the value of an outcome: it holds when the outcome is a
value, and nothing is said of a run that stops. -/
def outcome.holds {α : Type} (x : outcome α) (P : α → Prop) : Prop :=
  ∀ r, x = outcome.ok r → P r

/-- A well-formed symbol table: the scope a symbol is linked to exists, and
every scope has an enclosing scope that was created before it, but the first
one, which has none. -/
def store_wf (tab : scope_store) : Prop :=
  (∀ e s, (get_entry tab e).related_scope = some s → s < tab.scopes.length) ∧
  (∀ s, s < tab.scopes.length →
    ((get_scope tab s).contained_in = none ∧ s = 0) ∨
      ∃ p, (get_scope tab s).contained_in = some p ∧ p < s)

/-- What a run in the scope `st` may do to the symbol table: scopes and
symbols are only added, a symbol that is defined stays defined, and a
well-formed table in which `st` exists stays well-formed and has, when the run
is over, the template scope link of every scope it had as it was. -/
structure steps (st : ScopeId) (tab tab' : scope_store) : Prop where
  scopes_le : tab.scopes.length ≤ tab'.scopes.length
  entries_le : tab.entries.length ≤ tab'.entries.length
  defined_mono : ∀ e, (get_entry tab e).defined = true → (get_entry tab' e).defined = true
  wf : store_wf tab → st < tab.scopes.length → store_wf tab'
  links : store_wf tab → st < tab.scopes.length → ∀ s, s < tab.scopes.length →
    (get_scope tab' s).template_scope = (get_scope tab s).template_scope

/-- What every step does to the symbol table, also a step that changes the
template scope link of a scope: scopes and symbols are only added, and a
symbol that is defined stays defined. -/
structure grows (tab tab' : scope_store) : Prop where
  scopes_le : tab.scopes.length ≤ tab'.scopes.length
  entries_le : tab.entries.length ≤ tab'.entries.length
  defined_mono : ∀ e, (get_entry tab e).defined = true → (get_entry tab' e).defined = true

/-- The three entry points among the collaborators do to the symbol table
what a run may do. -/
structure env_ok (env : collaborators) : Prop where
  class_specifier : ∀ tab a st simple_type_info,
    (env.gather_type_spec_from_class_specifier tab a st simple_type_info).holds
      (fun r => steps st tab r.1)
  declaration : ∀ tab a st, (env.build_scope_declaration tab a st).holds (steps st tab)
  statement : ∀ tab a st, (env.build_scope_statement tab a st).holds (steps st tab)

/-- The scope reached from a scope by going `n` times to the enclosing
scope. -/
def enclosing_scope (tab : scope_store) : Nat → ScopeId → Option ScopeId
  | 0, s => some s
  | n + 1, s =>
      match (get_scope tab s).contained_in with
      | none => none
      | some p => enclosing_scope tab n p

/-- What the eight functions of the composer do to the symbol table, for one
recursion budget. -/
def composer_steps (env : collaborators) (fuel : Nat) : Prop :=
  (∀ tab a st ps ty g name,
    (build_scope_declarator_rec env fuel tab a st ps ty g name).holds
      (fun r => steps st tab r.tab)) ∧
  (∀ tab ty st ps g p cv ex,
    (set_function_type env fuel tab ty st ps g p cv ex).holds (fun r => steps st tab r.1)) ∧
  (∀ tab st ps p,
    (set_function_parameter_clause env fuel tab st ps p).holds (fun r => steps st tab r.1)) ∧
  (∀ tab st l pl,
    (set_function_parameter_loop env fuel tab st l pl).holds (fun r => steps st tab r.1)) ∧
  (∀ tab st a,
    (build_exception_spec env fuel tab st a).holds (fun r => steps st tab r.1)) ∧
  (∀ tab st l seq,
    (build_exception_spec_loop env fuel tab st l seq).holds (fun r => steps st tab r.1)) ∧
  (∀ tab a st g ti,
    (build_scope_declarator env fuel tab a st g ti).holds (fun r => steps st tab r.tab)) ∧
  (∀ tab a st ps g ti,
    (build_scope_declarator_with_parameter_scope env fuel tab a st ps g ti).holds
      (fun r => steps st tab r.tab))

/-- What a run does to the symbol table when it pushes the template scope
`ts` on the scope `st` and pops it again: scopes and symbols are only added
and a symbol that is defined stays defined; a well-formed table in which the
two scopes exist and differ, and in which the template scope has no template
scope link, stays well-formed and has, when the run is over, the template scope
link of every scope it had as it was. -/
structure template_steps (st ts : ScopeId) (tab tab' : scope_store) : Prop where
  grows : grows tab tab'
  wf : store_wf tab → st < tab.scopes.length → ts < tab.scopes.length → st ≠ ts →
    (get_scope tab ts).template_scope = none → store_wf tab'
  links : store_wf tab → st < tab.scopes.length → ts < tab.scopes.length → st ≠ ts →
    (get_scope tab ts).template_scope = none → ∀ s, s < tab.scopes.length →
      (get_scope tab' s).template_scope = (get_scope tab s).template_scope

/-! ## Further samples -/

/-- The global scope (0) with a template scope (1) pushed on it, and a second
template scope (2) created in it. -/
def nested_template_store : scope_store :=
  (new_template_scope (push_template_scope (new_template_scope global_store 0).1 0 1) 0).1

/-- The store after the function definition `void f() { }` of a template
declaration, in the global scope of `nested_template_store` with the template
scope 2. -/
@[irreducible] def store_after_template_void_f : scope_store :=
  (build_scope_template_function_definition (tie sample_collaborators 3) 8
    nested_template_store void_f 0 2).store

/-- The store after the simple declaration `class A { };` of a template
declaration, in the global scope of `nested_template_store` with the template
scope 2. -/
@[irreducible] def store_after_template_declaration_class_A : scope_store :=
  (build_scope_template_simple_declaration (tie sample_collaborators 3) 8
    nested_template_store declaration_class_A 0 2 0 []).store

/-- The store after `enum E { A };` in the global scope. -/
@[irreducible] def store_after_enum_E_A : scope_store :=
  (build_scope_simple_declaration (tie sample_collaborators 1) 3 global_store
    (type_declaration enum_E_A) 0).store

/-- The store after `enum E { A };` has been processed twice in the global
scope. -/
@[irreducible] def store_after_enum_E_A_twice : scope_store :=
  (build_scope_simple_declaration (tie sample_collaborators 1) 3 store_after_enum_E_A
    (type_declaration enum_E_A) 0).store

/-- The store after `class A { };` in the global scope. -/
@[irreducible] def store_after_class_A : scope_store :=
  (build_scope_simple_declaration (tie sample_collaborators 2) 8 global_store
    declaration_class_A 0).store

/-- The store after `class A { };` has been processed twice in the global
scope. -/
@[irreducible] def store_after_class_A_twice : scope_store :=
  (build_scope_simple_declaration (tie sample_collaborators 2) 8 store_after_class_A
    declaration_class_A 0).store

/-- The declarator `E`. -/
def declarator_E : AST :=
  AST.node node_t.AST_DECLARATOR (declarator_id "E") AST.null AST.null AST.null ""

/-- The translation unit of a list of declarations. -/
def translation_unit (declarations : AST) : AST :=
  AST.node node_t.AST_TRANSLATION_UNIT declarations AST.null AST.null AST.null ""

/-- The namespace definition `namespace name { declarations }`. -/
def namespace_definition (name : String) (declarations : AST) : AST :=
  AST.node node_t.AST_NAMESPACE_DEFINITION (symbol name) declarations AST.null AST.null ""

/-- The translation unit `namespace N { void f() { } }`. -/
def namespace_N_void_f : AST :=
  translation_unit (list1 (namespace_definition "N" (list1 void_f)))

/-- The symbol table of the translation unit `namespace N { void f() { } }`:
the global scope (0), the scope of `N` (1), the function scope of `f` (2) and
the block scope of its body (3). -/
@[irreducible] def store_after_namespace_N_void_f : scope_store :=
  (build_scope_translation_unit sample_collaborators 12 namespace_N_void_f).store

/-! ## Further statements in the words of the specification, and samples -/

/-- The token of each overloadable operator, by the kind of its node, in the
words of the specification: the canonical name of an operator function is the
text `operator ` followed by this token. -/
def operator_tokens : List (node_t × String) :=
  [(node_t.AST_NEW_OPERATOR, "new"), (node_t.AST_DELETE_OPERATOR, "delete"),
    (node_t.AST_NEW_ARRAY_OPERATOR, "new[]"), (node_t.AST_DELETE_ARRAY_OPERATOR, "delete[]"),
    (node_t.AST_ADD_OPERATOR, "+"), (node_t.AST_MINUS_OPERATOR, "-"),
    (node_t.AST_MULT_OPERATOR, "*"), (node_t.AST_DIV_OPERATOR, "/"),
    (node_t.AST_MOD_OPERATOR, "%"), (node_t.AST_BITWISE_XOR_OPERATOR, "^"),
    (node_t.AST_BITWISE_AND_OPERATOR, "&"), (node_t.AST_BITWISE_OR_OPERATOR, "|"),
    (node_t.AST_BITWISE_NEG_OPERATOR, "~"), (node_t.AST_LOGICAL_NOT_OPERATOR, "!"),
    (node_t.AST_ASSIGNMENT_OPERATOR, "="), (node_t.AST_LOWER_OPERATOR, "<"),
    (node_t.AST_GREATER_OPERATOR, ">"), (node_t.AST_ADD_ASSIGN_OPERATOR, "+="),
    (node_t.AST_SUB_ASSIGN_OPERATOR, "-="), (node_t.AST_MUL_ASSIGN_OPERATOR, "*="),
    (node_t.AST_DIV_ASSIGN_OPERATOR, "/="), (node_t.AST_MOD_ASSIGN_OPERATOR, "%="),
    (node_t.AST_XOR_ASSIGN_OPERATOR, "^="), (node_t.AST_AND_ASSIGN_OPERATOR, "&="),
    (node_t.AST_OR_ASSIGN_OPERATOR, "|="), (node_t.AST_LEFT_OPERATOR, "<<"),
    (node_t.AST_RIGHT_OPERATOR, ">>"), (node_t.AST_LEFT_ASSIGN_OPERATOR, "<<="),
    (node_t.AST_RIGHT_ASSIGN_OPERATOR, ">>="), (node_t.AST_EQUAL_OPERATOR, "=="),
    (node_t.AST_DIFFERENT_OPERATOR, "!="), (node_t.AST_LESS_OR_EQUAL_OPERATOR, "<="),
    (node_t.AST_GREATER_OR_EQUAL_OPERATOR, ">="), (node_t.AST_LOGICAL_AND_OPERATOR, "&&"),
    (node_t.AST_LOGICAL_OR_OPERATOR, "||"), (node_t.AST_INCREMENT_OPERATOR, "++"),
    (node_t.AST_DECREMENT_OPERATOR, "--"), (node_t.AST_COMMA_OPERATOR, ","),
    (node_t.AST_POINTER_OPERATOR, "->"), (node_t.AST_POINTER_DERREF_OPERATOR, "->*"),
    (node_t.AST_FUNCTION_CALL_OPERATOR, "()"), (node_t.AST_SUBSCRIPT_OPERATOR, "[]")]

/-- The operator function id `operator @` of the operator of a kind. -/
def operator_function_id (operator : node_t) : AST :=
  AST.node node_t.AST_OPERATOR_FUNCTION_ID (ASTLeaf operator "") AST.null AST.null AST.null ""

/-- The specifier `long`. -/
def long_specifier : AST := ASTLeaf node_t.AST_LONG_TYPE ""

/-- The decl-specifier-seq `long int`. -/
def long_int : AST := decl_specifier_seq (list1 long_specifier) node_t.AST_INT_TYPE

/-- The decl-specifier-seq `long long int`. -/
def long_long_int : AST :=
  decl_specifier_seq (list2 long_specifier long_specifier) node_t.AST_INT_TYPE

/-- The decl-specifier-seq `int long long`. -/
def int_long_long : AST :=
  AST.node node_t.AST_DECL_SPECIFIER_SEQ AST.null (ASTLeaf node_t.AST_INT_TYPE "")
    (list2 long_specifier long_specifier) AST.null ""

/-- The decl-specifier-seq `long int long`. -/
def long_int_long : AST :=
  AST.node node_t.AST_DECL_SPECIFIER_SEQ (list1 long_specifier)
    (ASTLeaf node_t.AST_INT_TYPE "") (list1 long_specifier) AST.null ""

/-- The field `is_long` of the base type a decl-specifier-seq gives in the
global scope, when it gives one. -/
def long_count (a : AST) : Option Nat :=
  match build_scope_decl_specifier_seq sample_collaborators global_store a 0 zero_gather_info
      simple_type_t.null with
  | outcome.ok r => some r.2.2.fields.is_long
  | _ => none

/-- The empty compound statement `{ }`. -/
def empty_compound_statement : AST :=
  AST.node node_t.AST_COMPOUND_STATEMENT AST.null AST.null AST.null AST.null ""

/-- The statement `for (int i = 0; ; ) { }`. -/
def for_int_i : AST :=
  AST.node node_t.AST_FOR_STATEMENT
    (simple_declaration AST.null node_t.AST_INT_TYPE "i" (literal "0"))
    AST.null AST.null empty_compound_statement ""

/-- The try block `try { } catch (int e) { }`. -/
def try_catch_int_e : AST :=
  AST.node node_t.AST_TRY_BLOCK empty_compound_statement
    (list1 (AST.node node_t.AST_HANDLER
      (AST.node node_t.AST_EXCEPTION_DECLARATION
        (decl_specifier_seq AST.null node_t.AST_INT_TYPE)
        (AST.node node_t.AST_DECLARATOR (declarator_id "e") AST.null AST.null AST.null "")
        AST.null AST.null "")
      empty_compound_statement AST.null AST.null ""))
    AST.null AST.null ""

/-- The store after `try { } catch (int e) { }` in the global scope. -/
@[irreducible] def store_after_try_catch_int_e : scope_store :=
  (build_scope_try_block (tie sample_collaborators 2) 8 global_store try_catch_int_e 0).store

/-- The new-declarator `*` of the new-type-id `int*`. -/
def new_declarator_pointer : AST :=
  AST.node node_t.AST_NEW_DECLARATOR plain_pointer_spec AST.null AST.null AST.null ""

/-- Sample collaborators in which the conversion function id names the type
`int`: `get_conversion_function_name` gives the name `operator int` and the
type `int`. -/
def conversion_collaborators : collaborators :=
  { sample_collaborators with
      get_conversion_function_name := fun _ _ _ => ("operator int", int_type) }

/-- The declarator `operator int()` of a conversion function. -/
def conversion_function_declarator : AST :=
  function_declarator
    (AST.node node_t.AST_CONVERSION_FUNCTION_ID (ASTLeaf node_t.AST_INT_TYPE "") AST.null
      AST.null AST.null "")

/-- What `build_scope_declarator_rec` leaves for `operator int()` without
decl-specifiers in the global scope. -/
def conversion_function_composed : declarator_rec_result :=
  { tab := global_store, parameters_scope := none,
    declarator_type := function_without_parameters (simple_type_to_type simple_type_t.null)
      zero_gather_info,
    declarator_name := ASTSon0 (ASTSon0 conversion_function_declarator),
    tree := conversion_function_declarator }

/-- The list node of the init-declarator `E` of the declaration `int E;`. -/
def init_declarator_E : AST := ASTSon1 int_E

/-- What `build_scope_declarator_with_parameter_scope` leaves for the
declarator `E` of `int E;` after `enum E { A };` in the global scope. -/
@[irreducible] def declared_E : declarator_result :=
  (build_scope_declarator_with_parameter_scope sample_collaborators 3 store_after_enum_E_A
    declarator_E 0 none zero_gather_info (builtin_simple_type builtin_type_t.BT_INT)).value_or
    ⟨store_after_enum_E_A, none, none, type_t.null, AST.null⟩

/-- The store after `enum E { A };` and `int E;` in the global scope. -/
@[irreducible] def store_after_enum_E_A_int_E : scope_store :=
  (build_scope_init_declarator sample_collaborators 3 zero_gather_info
    (builtin_simple_type builtin_type_t.BT_INT) 0 store_after_enum_E_A init_declarator_E).store

/-- The store after `class B { };` in the global scope. -/
@[irreducible] def store_after_class_B : scope_store :=
  (build_scope_simple_declaration (tie sample_collaborators 2) 8 global_store
    (type_declaration (class_specifier node_t.AST_CLASS_KEY_CLASS "B" AST.null)) 0).store

/-- The simple type specifier that names a type by a plain name. -/
def simple_type_specifier (name : String) : AST :=
  AST.node node_t.AST_SIMPLE_TYPE_SPECIFIER AST.null AST.null (symbol name) AST.null ""

/-- The simple declaration `B f();` of the template declaration
`template<class T> B f();`, in which `B` is named as the return type. -/
def declaration_B_f : AST :=
  AST.node node_t.AST_SIMPLE_DECLARATION
    (AST.node node_t.AST_DECL_SPECIFIER_SEQ AST.null (simple_type_specifier "B") AST.null
      AST.null "")
    (list1 (AST.node node_t.AST_INIT_DECLARATOR (function_declarator (symbol "f")) AST.null
      AST.null AST.null ""))
    AST.null AST.null ""

/-- The declaration `template<class T> B f();`. -/
def template_B_f : AST :=
  AST.node node_t.AST_TEMPLATE_DECLARATION (list1 (type_parameter_class "T" AST.null))
    declaration_B_f AST.null AST.null ""

/-- The store after `class B { };` and `template<class T> B f();` in the
global scope. -/
@[irreducible] def store_after_template_B_f : scope_store :=
  (build_scope_template_declaration (tie sample_collaborators 2) 8 store_after_class_B
    template_B_f 0).store

/-- Field `inner_scope` of a class record. -/
def class_info_t.inner_scope : class_info_t → Option ScopeId
  | class_info_t.null => none
  | class_info_t.mk s _ _ _ _ _ => s

/-- The member specification made of two member declarations, without access
specifiers. -/
def two_members (first second : AST) : AST :=
  AST.node node_t.AST_MEMBER_SPEC AST.null first (one_member second) AST.null ""

/-- The class specifier `class A { void f() { } void f() { } }`. -/
def class_A_f_f : AST :=
  class_specifier node_t.AST_CLASS_KEY_CLASS "A" (two_members void_f void_f)

/-- The store after `class A { void f() { } void f() { } }` has been processed
in the global scope. -/
@[irreducible] def store_after_class_A_f_f : scope_store :=
  ((gather_type_spec_from_class_specifier (tie sample_collaborators 6) 8 global_store
    class_A_f_f 0 zero_simple_type).bind (fun r => outcome.ok r.1)).store

/-- What the declarator of `void f() { }` leaves behind when the function
definition is processed in the scope of `class A`. -/
@[irreducible] def void_f_declared : declarator_result :=
  (build_scope_declarator_with_parameter_scope (tie sample_collaborators 3) 8
    class_A_head.tab (ASTSon1 void_f) class_A_head.inner_scope none zero_gather_info
    (builtin_simple_type builtin_type_t.BT_VOID)).value_or
    ⟨global_store, none, none, type_t.null, AST.null⟩

/-- The store after the body of `void f() { }` has been processed in the scope
of the function, in `class A`. -/
@[irreducible] def void_f_body : scope_store :=
  ((tie sample_collaborators 3).build_scope_statement
    (open_function_scope void_f_declared.tab class_A_head.inner_scope
      void_f_declared.parameters_scope 1).1
    (ASTSon0 (ASTSon3 void_f)) void_f_declared.tab.scopes.length).store

/-! ## Samples for the classes of template declarations -/

/-- The template arguments of the class type a symbol holds: the field
`template_arguments` of the record of a Direct type. -/
def type_t.template_arguments : type_t → Option template_argument_list_t
  | type_t.direct (simple_type_t.mk _ _ _ t) => some t
  | _ => none

/-- The member function definition `void f() { class A { }; }`. -/
def void_f_with_local_class_A : AST :=
  function_definition_with (decl_specifier_seq AST.null node_t.AST_VOID_TYPE)
    (function_declarator (symbol "f"))
    (declaration_statement
      (type_declaration (class_specifier node_t.AST_CLASS_KEY_CLASS "A" AST.null)))

/-- The declaration
`template<class T> class A<char, double> { void f() { class A { }; } };`. -/
def specialization_A_with_local_class_A : AST :=
  template_class_declaration (list1 (type_parameter_class "T" AST.null))
    (class_specifier_named node_t.AST_CLASS_KEY_CLASS template_id_A_char_double
      (one_member void_f_with_local_class_A))

/-- The global scope with the primary template
`template<class P, class Q = int> class A`, and a namespace scope (2) enclosed
in it. -/
def primary_template_store_with_namespace : scope_store :=
  (new_namespace_scope primary_template_store (some 0)).1

/-- The store after
`template<class T> class A<char, double> { void f() { class A { }; } };` has
been processed in the namespace scope. -/
@[irreducible] def store_after_specialization_A_with_local_class_A : scope_store :=
  (build_scope_template_declaration (tie sample_collaborators 6) 8
    primary_template_store_with_namespace specialization_A_with_local_class_A 2).store

/-- The store after `template<class T> class A<char, double> { };` has been
processed in the namespace scope. -/
@[irreducible] def store_after_specialization_A_in_namespace : scope_store :=
  (build_scope_template_declaration (tie sample_collaborators 6) 8
    primary_template_store_with_namespace template_class_A_char_double 2).store

/-- The store and the descriptors after the parameter list `class T` of
`template<class T> class A<char, double> { };` has been processed in a
template scope (2) of the global scope, which holds the primary template. -/
@[irreducible] def parameters_T_result : scope_store × List template_parameter_t :=
  (build_scope_template_parameter_list (tie sample_collaborators 9) 8
    (new_template_scope primary_template_store 0).1 (list1 (type_parameter_class "T" AST.null))
    2).value_or (global_store, [])

/-- The class specifier `class A<char, double> { int x; public: int y; }`. -/
def class_A_char_double_x_y : AST :=
  class_specifier_named node_t.AST_CLASS_KEY_CLASS template_id_A_char_double members_x_public_y

/-- What the head of `class A<char, double> { int x; public: int y; }` leaves
behind in the global scope, on which the template scope is pushed. -/
@[irreducible] def specialization_A_head : class_head_result :=
  (class_specifier_head (tie sample_collaborators 8) 8
    (push_template_scope parameters_T_result.1 0 2) class_A_char_double_x_y 0
    zero_simple_type).value_or ⟨global_store, simple_type_t.null, none, 0⟩

/-- The store and the record after the members of
`class A<char, double> { int x; public: int y; }`. -/
@[irreducible] def specialization_A_members : scope_store × simple_type_t :=
  (member_specification_loop
    (fun (s : scope_store × simple_type_t) member current_access =>
      build_scope_member_declaration (tie sample_collaborators 8) 8 s.1 member
        specialization_A_head.inner_scope current_access s.2)
    members_x_public_y access_specifier_t.AS_PRIVATE
    (specialization_A_head.tab, specialization_A_head.simple_type_info)).value_or
    (global_store, simple_type_t.null)

/-- The store after
`template<class T> class A<char, double> { int x; public: int y; };` in the
global scope, which holds the primary template. -/
@[irreducible] def store_after_specialization_A_x_y : scope_store :=
  (build_scope_template_declaration (tie sample_collaborators 9) 8 primary_template_store
    (template_class_declaration (list1 (type_parameter_class "T" AST.null))
      class_A_char_double_x_y) 0).store
/-! ## Properties -/

@[simp] theorem outcome.pure_eq {α : Type} (a : α) : (pure a : outcome α) = outcome.ok a := rfl

@[simp] theorem outcome.ok_bind {α β : Type} (a : α) (f : α → outcome β) :
    (outcome.ok a >>= f) = f a := rfl

@[simp] theorem outcome.internal_error_bind {α β : Type} (m : String) (f : α → outcome β) :
    (outcome.internal_error m >>= f) = outcome.internal_error m := rfl

@[simp] theorem outcome.running_error_bind {α β : Type} (m : String) (f : α → outcome β) :
    (outcome.running_error m >>= f) = outcome.running_error m := rfl

@[simp] theorem outcome.out_of_fuel_bind {α β : Type} (f : α → outcome β) :
    ((outcome.out_of_fuel : outcome α) >>= f) = outcome.out_of_fuel := rfl

/-- C1: composing any base type `T` with the declarator `(*f)[e]` (an array
declarator around the parenthesized plain pointer declarator of the declarator
id `f`) gives the type Pointer(Array(T, e)), reports the declarator id node
`f` as the name, and changes neither the store nor the tree; with `int` and
`3` the type is Pointer to Array[3] of Builtin(int). Any recursion budget of
at least four suffices. -/
theorem declarator_rec_pointer_to_array (env : collaborators) (fuel : Nat) (tab : scope_store)
    (st : ScopeId) (parameters_scope : Option ScopeId) (T : type_t) (e : AST)
    (gather_info : gather_decl_spec_t) (declarator_name id son1 son2 son3 : AST)
    (text : String) :
    build_scope_declarator_rec env (fuel + 4) tab
        (pointer_to_array_declarator
          (AST.node node_t.AST_DECLARATOR_ID_EXPR id son1 son2 son3 text) e)
        st parameters_scope T gather_info declarator_name
      = outcome.ok
          { tab := tab, parameters_scope := parameters_scope,
            declarator_type := type_t.pointer (type_t.array T e) CV_NONE,
            declarator_name := AST.node node_t.AST_DECLARATOR_ID_EXPR id son1 son2 son3 text,
            tree := pointer_to_array_declarator
              (AST.node node_t.AST_DECLARATOR_ID_EXPR id son1 son2 son3 text) e }
    ∧ build_scope_declarator_rec env (fuel + 4) tab
        (pointer_to_array_declarator (declarator_id "f") (literal "3"))
        st parameters_scope (simple_type_to_type (builtin_simple_type builtin_type_t.BT_INT))
        gather_info declarator_name
      = outcome.ok
          { tab := tab, parameters_scope := parameters_scope,
            declarator_type :=
              type_t.pointer
                (type_t.array (type_t.direct (builtin_simple_type builtin_type_t.BT_INT))
                  (literal "3")) CV_NONE,
            declarator_name := declarator_id "f",
            tree := pointer_to_array_declarator (declarator_id "f") (literal "3") } :=
  ⟨rfl, rfl⟩

/-- C2: composing any base type `T` with the function declarator `f()` whose
parameter clause is `AST_EMPTY_PARAMETER_DECLARATION_CLAUSE` gives a Function
type whose return type is `T` and whose parameter list is empty: no
parameter, no ellipsis entry. No prototype scope is created and the store is
unchanged. Any recursion budget of at least three suffices. -/
theorem declarator_rec_empty_parameter_clause (env : collaborators) (fuel : Nat)
    (tab : scope_store) (st : ScopeId) (parameters_scope : Option ScopeId) (T : type_t)
    (gather_info : gather_decl_spec_t) (declarator_name id son1 son2 son3 : AST)
    (text : String) :
    build_scope_declarator_rec env (fuel + 3) tab
        (empty_function_declarator
          (AST.node node_t.AST_DECLARATOR_ID_EXPR id son1 son2 son3 text))
        st parameters_scope T gather_info declarator_name
      = outcome.ok
          { tab := tab, parameters_scope := parameters_scope,
            declarator_type := function_without_parameters T gather_info,
            declarator_name := AST.node node_t.AST_DECLARATOR_ID_EXPR id son1 son2 son3 text,
            tree := empty_function_declarator
              (AST.node node_t.AST_DECLARATOR_ID_EXPR id son1 son2 son3 text) }
    ∧ (function_without_parameters T gather_info).function_info.map
          function_info_t.return_type = some T
    ∧ (function_without_parameters T gather_info).function_info.map
          function_info_t.num_parameters = some 0
    ∧ (function_without_parameters T gather_info).function_info.map
          (fun f => f.parameter_list.toList) = some [] :=
  ⟨rfl, rfl, rfl, rfl⟩

theorem already_used_eq (l : List ScopeId) (x : ScopeId) : already_used l x = decide (x ∈ l) := by
  induction l with
  | nil => simp [already_used]
  | cons y ys ih =>
    by_cases h : y = x
    · simp [already_used, h]
    · have h' : ¬ x = y := fun e => h e.symm
      simp [already_used, h, h', ih]

theorem get_scope_set_scope (tab : scope_store) (st s' : ScopeId) (s : scope_t) :
    get_scope (set_scope tab st s) s' =
      if st = s' ∧ st < tab.scopes.length then s else get_scope tab s' := by
  unfold get_scope set_scope
  simp only [List.getElem?_set]
  by_cases h : st = s'
  · subst h
    by_cases h2 : st < tab.scopes.length
    · simp [h2]
    · simp [h2, List.getElem?_eq_none (Nat.le_of_not_lt h2)]
  · simp [h]

theorem use_namespace_once_entries (tab : scope_store) (st x : ScopeId) :
    (use_namespace_once tab st x).entries = tab.entries := by
  unfold use_namespace_once set_scope
  split <;> rfl

theorem use_namespace_once_length (tab : scope_store) (st x : ScopeId) :
    (use_namespace_once tab st x).scopes.length = tab.scopes.length := by
  unfold use_namespace_once set_scope
  split <;> simp

theorem use_namespace_once_other (tab : scope_store) (st x s : ScopeId) (h : s ≠ st) :
    get_scope (use_namespace_once tab st x) s = get_scope tab s := by
  unfold use_namespace_once
  split
  · rfl
  · rw [get_scope_set_scope]
    simp [Ne.symm h]

theorem use_namespace_once_same (tab : scope_store) (st x : ScopeId)
    (h : st < tab.scopes.length) :
    get_scope (use_namespace_once tab st x) st =
      { get_scope tab st with
          use_namespace := append_absent (get_scope tab st).use_namespace x } := by
  unfold use_namespace_once append_absent
  rw [already_used_eq]
  by_cases hx : x ∈ (get_scope tab st).use_namespace
  · simp [hx]
  · simp [hx, get_scope_set_scope, h]

theorem fold_use_namespace_entries (st : ScopeId) (xs : List ScopeId) (tab : scope_store) :
    (xs.foldl (fun t ns => use_namespace_once t st ns) tab).entries = tab.entries := by
  induction xs generalizing tab with
  | nil => rfl
  | cons x xs ih => simp [List.foldl, ih, use_namespace_once_entries]

theorem fold_use_namespace_length (st : ScopeId) (xs : List ScopeId) (tab : scope_store) :
    (xs.foldl (fun t ns => use_namespace_once t st ns) tab).scopes.length = tab.scopes.length := by
  induction xs generalizing tab with
  | nil => rfl
  | cons x xs ih => simp [List.foldl, ih, use_namespace_once_length]

theorem fold_use_namespace_other (st s : ScopeId) (h : s ≠ st) (xs : List ScopeId)
    (tab : scope_store) :
    get_scope (xs.foldl (fun t ns => use_namespace_once t st ns) tab) s = get_scope tab s := by
  induction xs generalizing tab with
  | nil => rfl
  | cons x xs ih => simp [List.foldl, ih, use_namespace_once_other _ _ _ _ h]

theorem fold_use_namespace_same (st : ScopeId) (xs : List ScopeId) (tab : scope_store)
    (h : st < tab.scopes.length) :
    get_scope (xs.foldl (fun t ns => use_namespace_once t st ns) tab) st =
      { get_scope tab st with
          use_namespace := xs.foldl append_absent (get_scope tab st).use_namespace } := by
  induction xs generalizing tab with
  | nil => rfl
  | cons x xs ih =>
    simp only [List.foldl]
    rw [ih _ (by rw [use_namespace_once_length]; exact h), use_namespace_once_same _ _ _ h]

theorem fold_append_absent_eq (xs l : List ScopeId) :
    xs.foldl append_absent l =
      l ++ (first_occurrences xs).filter (fun y => decide (y ∉ l)) := by
  induction xs generalizing l with
  | nil => simp [first_occurrences]
  | cons x xs ih =>
    simp only [List.foldl, first_occurrences]
    rw [ih]
    unfold append_absent
    by_cases hx : x ∈ l
    · simp only [hx, if_true, List.filter_cons, not_true_eq_false, decide_False, Bool.false_eq_true,
        if_false, List.filter_filter]
      congr 1
      apply List.filter_congr
      intro y _
      by_cases hy : y ∈ l
      · simp [hy]
      · have : y ≠ x := fun e => hy (e ▸ hx)
        simp [hy, this]
    · simp only [hx, if_false, List.filter_cons, not_false_eq_true, decide_True, if_true,
        List.filter_filter, List.append_assoc, List.singleton_append]
      congr 2
      apply List.filter_congr
      intro y _
      by_cases hy : y ∈ l
      · simp [hy]
      · by_cases hyx : y = x
        · simp [hyx]
        · simp [hy, hyx]

theorem fold_append_absent_of_subset (xs l : List ScopeId) (h : ∀ x ∈ xs, x ∈ l) :
    xs.foldl append_absent l = l := by
  induction xs generalizing l with
  | nil => rfl
  | cons x xs ih =>
    have hx : x ∈ l := h x (List.mem_cons_self _ _)
    simp only [List.foldl, append_absent, hx, if_true]
    exact ih l (fun y hy => h y (List.mem_cons_of_mem _ hy))

theorem append_absent_nodup (l : List ScopeId) (x : ScopeId) (h : l.Nodup) :
    (append_absent l x).Nodup := by
  unfold append_absent
  by_cases hx : x ∈ l
  · simp [hx, h]
  · simp only [hx, if_false]
    rw [List.nodup_append]
    refine ⟨h, List.nodup_singleton x, ?_⟩
    intro a ha hb
    simp at hb
    exact hx (hb ▸ ha)

theorem fold_append_absent_nodup (xs l : List ScopeId) (h : l.Nodup) :
    (xs.foldl append_absent l).Nodup := by
  induction xs generalizing l with
  | nil => exact h
  | cons x xs ih => exact ih _ (append_absent_nodup l x h)

theorem mem_append_absent (l : List ScopeId) (x y : ScopeId) :
    y ∈ append_absent l x ↔ y ∈ l ∨ y = x := by
  unfold append_absent
  by_cases hx : x ∈ l
  · simp only [hx, if_true]
    constructor
    · exact Or.inl
    · rintro (h | h)
      · exact h
      · exact h ▸ hx
  · simp [hx]

theorem mem_fold_append_absent (xs l : List ScopeId) (y : ScopeId) :
    y ∈ xs.foldl append_absent l ↔ y ∈ l ∨ y ∈ xs := by
  induction xs generalizing l with
  | nil => simp
  | cons x xs ih =>
    simp only [List.foldl, ih, mem_append_absent, List.mem_cons]
    tauto

theorem using_directive_result (env : collaborators) (tab : scope_store) (a : AST)
    (st entry n : ScopeId)
    (h_lookup : env.query_nested_name tab st (ASTSon0 a) (ASTSon1 a) (ASTSon2 a)
      unqualified_lookup_behaviour_t.FULL_UNQUALIFIED_LOOKUP = [entry])
    (h_kind : (get_entry tab entry).kind = cxx_symbol_kind.SK_NAMESPACE)
    (h_scope : (get_entry tab entry).related_scope = some n) :
    build_scope_using_directive env tab a st =
      outcome.ok ((get_scope (use_namespace_once tab st n) n).use_namespace.foldl
        (fun t ns => use_namespace_once t st ns) (use_namespace_once tab st n)) := by
  unfold build_scope_using_directive
  simp [h_lookup, h_kind, h_scope]

/-- C8: when `using namespace N` is processed in a scope `S` and the name
resolves to the single namespace symbol `N`, the directive succeeds and the
used-namespace list of `S` becomes its previous list, followed by the scope
of `N` if it was not already present, followed by each namespace used by `N`
at that moment that was not already present, in order. A list without
duplicates stays without duplicates, nothing is removed, and the list then
contains `N` and every namespace `N` had already imported. -/
theorem using_directive_used_namespaces (env : collaborators) (tab : scope_store) (a : AST)
    (st entry n : ScopeId)
    (h_valid : st < tab.scopes.length)
    (h_lookup : env.query_nested_name tab st (ASTSon0 a) (ASTSon1 a) (ASTSon2 a)
      unqualified_lookup_behaviour_t.FULL_UNQUALIFIED_LOOKUP = [entry])
    (h_kind : (get_entry tab entry).kind = cxx_symbol_kind.SK_NAMESPACE)
    (h_scope : (get_entry tab entry).related_scope = some n) :
    ∃ tab', build_scope_using_directive env tab a st = outcome.ok tab' ∧
      (get_scope tab' st).use_namespace =
        used_namespaces_after (get_scope tab st).use_namespace n (get_scope tab n).use_namespace ∧
      ((get_scope tab st).use_namespace.Nodup → (get_scope tab' st).use_namespace.Nodup) ∧
      (∀ x ∈ (get_scope tab st).use_namespace, x ∈ (get_scope tab' st).use_namespace) ∧
      n ∈ (get_scope tab' st).use_namespace ∧
      (∀ x ∈ (get_scope tab n).use_namespace, x ∈ (get_scope tab' st).use_namespace) := by
  refine ⟨_, using_directive_result env tab a st entry n h_lookup h_kind h_scope, ?_⟩
  have h1 : st < (use_namespace_once tab st n).scopes.length := by
    rw [use_namespace_once_length]; exact h_valid
  have key : (get_scope ((get_scope (use_namespace_once tab st n) n).use_namespace.foldl
        (fun t ns => use_namespace_once t st ns) (use_namespace_once tab st n)) st).use_namespace
      = (n :: (get_scope tab n).use_namespace).foldl append_absent
          (get_scope tab st).use_namespace := by
    rw [fold_use_namespace_same _ _ _ h1, use_namespace_once_same _ _ _ h_valid]
    simp only [List.foldl]
    by_cases hn : n = st
    · subst hn
      rw [use_namespace_once_same _ _ _ h_valid]
      simp only
      rw [fold_append_absent_of_subset _ _ (fun x hx => hx),
        fold_append_absent_of_subset _ _
          (fun x hx => (mem_append_absent _ _ _).mpr (Or.inl hx))]
    · rw [use_namespace_once_other _ _ _ _ hn]
  rw [key]
  refine ⟨?_, ?_, ?_, ?_, ?_⟩
  · rw [fold_append_absent_eq]; rfl
  · exact fold_append_absent_nodup _ _
  · intro x hx
    exact (mem_fold_append_absent _ _ _).mpr (Or.inl hx)
  · exact (mem_fold_append_absent _ _ _).mpr (Or.inr (List.mem_cons_self _ _))
  · intro x hx
    exact (mem_fold_append_absent _ _ _).mpr (Or.inr (List.mem_cons_of_mem _ hx))

theorem using_directive_used_namespaces_witness :
    (4 < namespaces_store.scopes.length ∧
      sample_collaborators.query_nested_name namespaces_store 4
        (ASTSon0 (using_directive "N1")) (ASTSon1 (using_directive "N1"))
        (ASTSon2 (using_directive "N1"))
        unqualified_lookup_behaviour_t.FULL_UNQUALIFIED_LOOKUP = [0] ∧
      (get_entry namespaces_store 0).kind = cxx_symbol_kind.SK_NAMESPACE ∧
      (get_entry namespaces_store 0).related_scope = some 1) ∧
    build_scope_using_directive sample_collaborators namespaces_store (using_directive "N1") 4
      = outcome.ok namespaces_store_after_use ∧
    ∃ tab', build_scope_using_directive sample_collaborators namespaces_store
        (using_directive "N1") 4 = outcome.ok tab' ∧
      (get_scope tab' 4).use_namespace =
        used_namespaces_after (get_scope namespaces_store 4).use_namespace 1
          (get_scope namespaces_store 1).use_namespace ∧
      ((get_scope namespaces_store 4).use_namespace.Nodup →
        (get_scope tab' 4).use_namespace.Nodup) ∧
      (∀ x ∈ (get_scope namespaces_store 4).use_namespace, x ∈ (get_scope tab' 4).use_namespace) ∧
      1 ∈ (get_scope tab' 4).use_namespace ∧
      (∀ x ∈ (get_scope namespaces_store 1).use_namespace,
        x ∈ (get_scope tab' 4).use_namespace) :=
  ⟨by decide, by decide,
    using_directive_used_namespaces sample_collaborators namespaces_store (using_directive "N1")
      4 0 1 (by decide) (by decide) (by decide) (by decide)⟩

theorem using_directive_ok_inv (env : collaborators) (tab tab' : scope_store) (a : AST)
    (T : ScopeId) (h : build_scope_using_directive env tab a T = outcome.ok tab') :
    ∃ n, tab' = (get_scope (use_namespace_once tab T n) n).use_namespace.foldl
        (fun t ns => use_namespace_once t T ns) (use_namespace_once tab T n) := by
  cases hl : env.query_nested_name tab T (ASTSon0 a) (ASTSon1 a) (ASTSon2 a)
      unqualified_lookup_behaviour_t.FULL_UNQUALIFIED_LOOKUP with
  | nil => simp [build_scope_using_directive, hl] at h
  | cons entry next =>
    simp only [build_scope_using_directive, hl] at h
    split_ifs at h with hc
    cases hr : (get_entry tab entry).related_scope with
    | none => simp [hr] at h
    | some n =>
      simp only [hr, outcome.pure_eq, outcome.ok.injEq] at h
      exact ⟨n, h.symm⟩

/-- C9: a using directive processed in a scope `T` leaves every symbol entry
and every scope other than `T` as it was, and in `T` changes nothing but the
used-namespace list: a scope `S` that processed `using N1` earlier does not
gain `N3` when `N1` later processes `using N3`. -/
theorem using_directive_frame (env : collaborators) (tab tab' : scope_store) (a : AST)
    (T : ScopeId) (h : build_scope_using_directive env tab a T = outcome.ok tab') :
    tab'.entries = tab.entries ∧
    tab'.scopes.length = tab.scopes.length ∧
    (∀ S, S ≠ T → get_scope tab' S = get_scope tab S) ∧
    (∀ S n3, S ≠ T → n3 ∉ (get_scope tab S).use_namespace →
      n3 ∉ (get_scope tab' S).use_namespace) ∧
    { get_scope tab' T with use_namespace := [] } = { get_scope tab T with use_namespace := [] } := by
  obtain ⟨n, rfl⟩ := using_directive_ok_inv env tab tab' a T h
  refine ⟨?_, ?_, ?_, ?_, ?_⟩
  · rw [fold_use_namespace_entries, use_namespace_once_entries]
  · rw [fold_use_namespace_length, use_namespace_once_length]
  · intro S hS
    rw [fold_use_namespace_other _ _ hS, use_namespace_once_other _ _ _ _ hS]
  · intro S n3 hS hn
    rw [fold_use_namespace_other _ _ hS, use_namespace_once_other _ _ _ _ hS]
    exact hn
  · by_cases hT : T < tab.scopes.length
    · rw [fold_use_namespace_same _ _ _
        (by rw [use_namespace_once_length]; exact hT),
        use_namespace_once_same _ _ _ hT]
    · have e1 : ∀ t : scope_store, t.scopes.length = tab.scopes.length →
          get_scope t T = empty_scope scope_kind_t.NAMESPACE_SCOPE none := by
        intro t ht
        unfold get_scope
        rw [List.getElem?_eq_none (by rw [ht]; exact Nat.le_of_not_lt hT)]
        rfl
      rw [e1 _ (by rw [fold_use_namespace_length, use_namespace_once_length]), e1 _ rfl]

theorem using_directive_frame_witness :
    build_scope_using_directive sample_collaborators namespaces_store_after_use
        (using_directive "N3") 1 = outcome.ok namespaces_store_after_later_use ∧
    (get_scope namespaces_store_after_later_use 1).use_namespace = [2, 3] ∧
    (get_scope namespaces_store_after_later_use 4).use_namespace = [1, 2] ∧
    (namespaces_store_after_later_use.entries = namespaces_store_after_use.entries ∧
      namespaces_store_after_later_use.scopes.length = namespaces_store_after_use.scopes.length ∧
      (∀ S, S ≠ 1 →
        get_scope namespaces_store_after_later_use S = get_scope namespaces_store_after_use S) ∧
      (∀ S n3, S ≠ 1 → n3 ∉ (get_scope namespaces_store_after_use S).use_namespace →
        n3 ∉ (get_scope namespaces_store_after_later_use S).use_namespace) ∧
      { get_scope namespaces_store_after_later_use 1 with use_namespace := [] } =
        { get_scope namespaces_store_after_use 1 with use_namespace := [] }) :=
  ⟨by decide, by decide, by decide,
    using_directive_frame sample_collaborators namespaces_store_after_use
      namespaces_store_after_later_use (using_directive "N3") 1 (by decide)⟩

theorem same_function_iff (tab : scope_store) (f : function_info_t) (e : EntryId) :
    same_function tab f e ↔
      ((get_entry tab e).kind = cxx_symbol_kind.SK_FUNCTION ∧
        overloaded_function (some f) (get_entry tab e).type_information.function_info = false) := by
  unfold same_function
  constructor
  · rintro ⟨hk, g, hg, he⟩
    refine ⟨hk, ?_⟩
    rw [hg]
    simp [type_t.function_info, overloaded_function, he]
  · rintro ⟨hk, ho⟩
    refine ⟨hk, ?_⟩
    cases ht : (get_entry tab e).type_information with
    | function g =>
      refine ⟨g, rfl, ?_⟩
      rw [ht] at ho
      simpa [type_t.function_info, overloaded_function] using ho
    | null => rw [ht] at ho; simp [type_t.function_info, overloaded_function] at ho
    | direct _ => rw [ht] at ho; simp [type_t.function_info, overloaded_function] at ho
    | pointer _ _ => rw [ht] at ho; simp [type_t.function_info, overloaded_function] at ho
    | pointer_to_member _ _ _ =>
      rw [ht] at ho; simp [type_t.function_info, overloaded_function] at ho
    | reference _ => rw [ht] at ho; simp [type_t.function_info, overloaded_function] at ho
    | array _ _ => rw [ht] at ho; simp [type_t.function_info, overloaded_function] at ho

theorem find_function_declaration_loop_some (tab : scope_store) (f : function_info_t)
    (l : List EntryId) (ov : Bool) (h : ∃ e ∈ l, same_function tab f e) :
    ∃ e, (find_function_declaration_loop tab (some f) l ov).1 = some e ∧ e ∈ l ∧
      same_function tab f e := by
  induction l generalizing ov with
  | nil => obtain ⟨e, he, _⟩ := h; cases he
  | cons x xs ih =>
    by_cases hx : same_function tab f x
    · refine ⟨x, ?_, List.mem_cons_self _ _, hx⟩
      have hx' := (same_function_iff tab f x).mp hx
      simp [find_function_declaration_loop, hx'.1, hx'.2]
    · have hrest : ∃ e ∈ xs, same_function tab f e := by
        obtain ⟨e, he, hs⟩ := h
        rcases List.mem_cons.mp he with rfl | he'
        · exact absurd hs hx
        · exact ⟨e, he', hs⟩
      by_cases hk : (get_entry tab x).kind = cxx_symbol_kind.SK_FUNCTION
      · have ho : overloaded_function (some f)
            (get_entry tab x).type_information.function_info = true := by
          by_contra hc
          exact hx ((same_function_iff tab f x).mpr ⟨hk, by simpa using hc⟩)
        obtain ⟨e, h1, h2, h3⟩ := ih true hrest
        refine ⟨e, ?_, List.mem_cons_of_mem _ h2, h3⟩
        simp [find_function_declaration_loop, hk, ho, h1]
      · obtain ⟨e, h1, h2, h3⟩ := ih ov hrest
        refine ⟨e, ?_, List.mem_cons_of_mem _ h2, h3⟩
        simp [find_function_declaration_loop, hk, h1]

theorem find_function_declaration_loop_none (tab : scope_store) (f : function_info_t)
    (l : List EntryId) (ov : Bool) (h : ∀ e ∈ l, ¬ same_function tab f e) :
    (find_function_declaration_loop tab (some f) l ov).1 = none := by
  induction l generalizing ov with
  | nil => rfl
  | cons x xs ih =>
    have hx := h x (List.mem_cons_self _ _)
    have hrest : ∀ e ∈ xs, ¬ same_function tab f e :=
      fun e he => h e (List.mem_cons_of_mem _ he)
    by_cases hk : (get_entry tab x).kind = cxx_symbol_kind.SK_FUNCTION
    · have ho : overloaded_function (some f)
          (get_entry tab x).type_information.function_info = true := by
        by_contra hc
        exact hx ((same_function_iff tab f x).mpr ⟨hk, by simpa using hc⟩)
      simp [find_function_declaration_loop, hk, ho, ih true hrest]
    · simp [find_function_declaration_loop, hk, ih ov hrest]

theorem mem_query_in_current_scope (tab : scope_store) (st : ScopeId) (name : String)
    (e : EntryId) :
    e ∈ query_in_current_scope tab st name ↔
      e ∈ (get_scope tab st).hash ∧ (get_entry tab e).symbol_name = name := by
  simp [query_in_current_scope, List.mem_filter]

theorem query_symbol_in_scope (env : collaborators) (tab : scope_store) (st : ScopeId)
    (id_expr : AST) (h : ASTType id_expr = node_t.AST_SYMBOL) :
    query_id_expression env tab st id_expr
        unqualified_lookup_behaviour_t.NOFULL_UNQUALIFIED_LOOKUP
      = query_in_current_scope tab st (ASTText id_expr) := by
  simp [query_id_expression, h]

/-- C5: when the scope already holds, under the declared name, an entry of
kind Function whose parameter-type list is structurally equal to the declared
one, `register_function` returns such an existing entry of that scope and
leaves the store as it is: no entry is added. When only one entry qualifies,
it is the one returned, so registering `void f(int)` twice yields one entry
and the second call returns the first. -/
theorem register_function_redeclaration (env : collaborators) (tab : scope_store)
    (declarator_id : AST) (f : function_info_t) (st : ScopeId) (e0 : EntryId)
    (h_symbol : ASTType declarator_id = node_t.AST_SYMBOL)
    (h_scope : e0 ∈ (get_scope tab st).hash)
    (h_name : (get_entry tab e0).symbol_name = ASTText declarator_id)
    (h_same : same_function tab f e0) :
    ∃ e, register_function env tab declarator_id (type_t.function f) st = (tab, e) ∧
      e ∈ (get_scope tab st).hash ∧
      (get_entry tab e).symbol_name = ASTText declarator_id ∧
      same_function tab f e ∧
      ((∀ e', e' ∈ (get_scope tab st).hash →
          (get_entry tab e').symbol_name = ASTText declarator_id →
          same_function tab f e' → e' = e0) → e = e0) := by
  have hq := query_symbol_in_scope env tab st declarator_id h_symbol
  obtain ⟨e, h1, h2, h3⟩ := find_function_declaration_loop_some tab f
    (query_in_current_scope tab st (ASTText declarator_id)) false
    ⟨e0, (mem_query_in_current_scope _ _ _ _).mpr ⟨h_scope, h_name⟩, h_same⟩
  have h2' := (mem_query_in_current_scope _ _ _ _).mp h2
  refine ⟨e, ?_, h2'.1, h2'.2, h3, fun hu => hu e h2'.1 h2'.2 h3⟩
  simp [register_function, find_function_declaration, hq, type_t.function_info, h1]

theorem register_function_redeclaration_witness :
    (ASTType (symbol "f") = node_t.AST_SYMBOL ∧ 0 ∈ (get_scope store_with_f 0).hash ∧
      (get_entry store_with_f 0).symbol_name = ASTText (symbol "f") ∧
      same_function store_with_f void_of_int 0) ∧
    store_with_f.entries.length = 1 ∧
    register_function sample_collaborators store_with_f (symbol "f")
      (type_t.function void_of_int) 0 = (store_with_f, 0) ∧
    ∃ e, register_function sample_collaborators store_with_f (symbol "f")
        (type_t.function void_of_int) 0 = (store_with_f, e) ∧
      e ∈ (get_scope store_with_f 0).hash ∧
      (get_entry store_with_f e).symbol_name = ASTText (symbol "f") ∧
      same_function store_with_f void_of_int e ∧
      ((∀ e', e' ∈ (get_scope store_with_f 0).hash →
          (get_entry store_with_f e').symbol_name = ASTText (symbol "f") →
          same_function store_with_f void_of_int e' → e' = 0) → e = 0) :=
  ⟨⟨by decide, by decide, by decide, by decide, _, rfl, by decide⟩, by decide, by decide,
    register_function_redeclaration sample_collaborators store_with_f (symbol "f") void_of_int
      0 0 (by decide) (by decide) (by decide) ⟨by decide, _, rfl, by decide⟩⟩

theorem get_entry_set_entry (tab : scope_store) (e e' : EntryId) (v : scope_entry_t) :
    get_entry (set_entry tab e v) e' =
      if e = e' ∧ e < tab.entries.length then v else get_entry tab e' := by
  unfold get_entry set_entry
  simp only [List.getElem?_set]
  by_cases h : e = e'
  · subst h
    by_cases h2 : e < tab.entries.length
    · simp [h2]
    · simp [h2, List.getElem?_eq_none (Nat.le_of_not_lt h2)]
  · simp [h]

theorem get_scope_set_entry (tab : scope_store) (e : EntryId) (v : scope_entry_t)
    (s : ScopeId) : get_scope (set_entry tab e v) s = get_scope tab s := rfl

theorem new_symbol_id (tab : scope_store) (sc : ScopeId) (name : String) :
    (new_symbol tab sc name).2 = tab.entries.length := rfl

theorem new_symbol_entries (tab : scope_store) (sc : ScopeId) (name : String) :
    (new_symbol tab sc name).1.entries =
      tab.entries ++ [{ zero_entry with symbol_name := name, scope := sc }] := rfl

theorem get_entry_new_symbol_old (tab : scope_store) (sc : ScopeId) (name : String)
    (e : EntryId) (h : e < tab.entries.length) :
    get_entry (new_symbol tab sc name).1 e = get_entry tab e := by
  unfold get_entry
  rw [new_symbol_entries, List.getElem?_append_left h]

theorem get_scope_new_symbol_same (tab : scope_store) (sc : ScopeId) (name : String)
    (h : sc < tab.scopes.length) :
    get_scope (new_symbol tab sc name).1 sc =
      { get_scope tab sc with hash := tab.entries.length :: (get_scope tab sc).hash } := by
  unfold new_symbol get_scope
  simp [List.getElem?_set, h]

theorem get_scope_new_symbol_other (tab : scope_store) (sc s : ScopeId) (name : String)
    (h : s ≠ sc) : get_scope (new_symbol tab sc name).1 s = get_scope tab s := by
  unfold new_symbol get_scope
  simp [List.getElem?_set, Ne.symm h]

/-- C6: when no entry of kind Function held by the scope under the declared
name has a parameter-type list structurally equal to the declared one,
`register_function` adds exactly one entry, at the end of the entries: it has
the declared name, kind Function and the declared type. The older entries are
unchanged, the new entry is put in front of the symbols of the scope, which
keeps all the symbols it had, and the other scopes are unchanged. -/
theorem register_function_overload (env : collaborators) (tab : scope_store)
    (declarator_id : AST) (f : function_info_t) (st : ScopeId)
    (h_symbol : ASTType declarator_id = node_t.AST_SYMBOL)
    (h_none : ∀ e, e ∈ (get_scope tab st).hash →
      (get_entry tab e).symbol_name = ASTText declarator_id → ¬ same_function tab f e) :
    (register_function env tab declarator_id (type_t.function f) st).2 = tab.entries.length ∧
    (register_function env tab declarator_id (type_t.function f) st).1.entries =
      tab.entries ++
        [{ zero_entry with
            symbol_name := ASTText declarator_id, scope := st,
            kind := cxx_symbol_kind.SK_FUNCTION, type_information := type_t.function f }] ∧
    (st < tab.scopes.length →
      (get_scope (register_function env tab declarator_id (type_t.function f) st).1 st).hash =
        tab.entries.length :: (get_scope tab st).hash) ∧
    (∀ s, s ≠ st →
      get_scope (register_function env tab declarator_id (type_t.function f) st).1 s =
        get_scope tab s) := by
  have hq := query_symbol_in_scope env tab st declarator_id h_symbol
  have hfind : (find_function_declaration env tab st declarator_id (type_t.function f)).1
      = none := by
    simp only [find_function_declaration, hq, type_t.function_info]
    apply find_function_declaration_loop_none
    intro e he
    have := (mem_query_in_current_scope _ _ _ _).mp he
    exact h_none e this.1 this.2
  have hreg : register_function env tab declarator_id (type_t.function f) st =
      (set_entry (new_symbol tab st (ASTText declarator_id)).1 tab.entries.length
        { get_entry (new_symbol tab st (ASTText declarator_id)).1 tab.entries.length with
            kind := cxx_symbol_kind.SK_FUNCTION, type_information := type_t.function f },
        tab.entries.length) := by
    simp [register_function, hfind, new_symbol_id]
  rw [hreg]
  refine ⟨rfl, ?_, ?_, ?_⟩
  · simp [set_entry, new_symbol_entries, get_entry, List.set_append]
  · intro hst
    rw [get_scope_set_entry, get_scope_new_symbol_same _ _ _ hst]
  · intro s hs
    rw [get_scope_set_entry, get_scope_new_symbol_other _ _ _ _ hs]

theorem register_function_overload_witness :
    (ASTType (symbol "f") = node_t.AST_SYMBOL ∧
      ∀ e, e ∈ (get_scope store_with_f 0).hash →
        (get_entry store_with_f e).symbol_name = ASTText (symbol "f") →
        ¬ same_function store_with_f void_of_double e) ∧
    ((register_function sample_collaborators store_with_f (symbol "f")
        (type_t.function void_of_double) 0).1.entries.map
          (fun e => (e.symbol_name, e.kind, e.type_information))
      = [("f", cxx_symbol_kind.SK_FUNCTION, type_t.function void_of_int),
         ("f", cxx_symbol_kind.SK_FUNCTION, type_t.function void_of_double)]) ∧
    ((register_function sample_collaborators store_with_f (symbol "f")
        (type_t.function void_of_double) 0).2 = store_with_f.entries.length ∧
    (register_function sample_collaborators store_with_f (symbol "f")
        (type_t.function void_of_double) 0).1.entries =
      store_with_f.entries ++
        [{ zero_entry with
            symbol_name := ASTText (symbol "f"), scope := 0,
            kind := cxx_symbol_kind.SK_FUNCTION,
            type_information := type_t.function void_of_double }] ∧
    (0 < store_with_f.scopes.length →
      (get_scope (register_function sample_collaborators store_with_f (symbol "f")
        (type_t.function void_of_double) 0).1 0).hash =
        store_with_f.entries.length :: (get_scope store_with_f 0).hash) ∧
    (∀ s, s ≠ 0 →
      get_scope (register_function sample_collaborators store_with_f (symbol "f")
        (type_t.function void_of_double) 0).1 s = get_scope store_with_f s)) :=
  have h : ∀ e, e ∈ (get_scope store_with_f 0).hash →
      (get_entry store_with_f e).symbol_name = ASTText (symbol "f") →
      ¬ same_function store_with_f void_of_double e := by
    intro e he _ hs
    have he0 : e = 0 := by
      have : (get_scope store_with_f 0).hash = [0] := by decide
      rw [this] at he
      simpa using he
    subst he0
    have := ((same_function_iff store_with_f void_of_double 0).mp hs).2
    revert this
    decide
  ⟨⟨by decide, h⟩, by decide,
    register_function_overload sample_collaborators store_with_f (symbol "f") void_of_double 0
      (by decide) h⟩

theorem map_summary_set_entry (tab : scope_store) (e : EntryId) (v : scope_entry_t)
    (h : entry_summary v = entry_summary (get_entry tab e)) :
    (set_entry tab e v).entries.map entry_summary = tab.entries.map entry_summary := by
  apply List.ext_getElem?
  intro j
  simp only [set_entry, List.getElem?_map, List.getElem?_set]
  by_cases hj : e = j
  · subst hj
    by_cases hl : e < tab.entries.length
    · simp only [hl, if_true, Option.map_some', h, get_entry]
      rw [List.getElem?_eq_getElem hl]
      rfl
    · simp [hl, List.getElem?_eq_none (Nat.le_of_not_lt hl)]
  · simp [hj]

theorem add_enumeration_summary (tab : scope_store) (target : Option EntryId)
    (info : simple_type_t) (item : EntryId) :
    (add_enumeration tab target info item).1.entries.map entry_summary =
      tab.entries.map entry_summary := by
  unfold add_enumeration
  cases target with
  | none => rfl
  | some e =>
    simp only
    apply map_summary_set_entry
    rfl

theorem enumerator_step_summary (env : collaborators) (st : ScopeId) (target : Option EntryId)
    (s : enum_state) (iter : AST) :
    (enumerator_step env st target s iter).tab.entries.map entry_summary =
      s.tab.entries.map entry_summary ++
        [(ASTText (ASTSon0 (ASTSon1 iter)), cxx_symbol_kind.SK_ENUMERATOR,
          env.tree_from_literal_value
            (enumerator_value
              (fun e => env.evaluate_constant_expression
                (store_at_enumerator env st target [iter] s 0) e st)
              s.enum_value (ASTSon1 iter)))] ∧
    (enumerator_step env st target s iter).enum_value =
      enumerator_value
        (fun e => env.evaluate_constant_expression
          (store_at_enumerator env st target [iter] s 0) e st)
        s.enum_value (ASTSon1 iter) := by
  constructor
  · unfold enumerator_step
    simp only
    rw [add_enumeration_summary]
    simp only [set_entry, new_symbol_id, new_symbol_entries, get_entry, List.map_append]
    simp [List.set_append, entry_summary, enumerator_value, store_at_enumerator,
      enumerator_loop, increment_literal_value, set_entry, get_entry, new_symbol_id,
      new_symbol_entries]
  · unfold enumerator_step
    simp only [enumerator_value, store_at_enumerator, enumerator_loop, increment_literal_value,
      List.take, List.foldl, List.getD_cons_zero]

theorem enumerator_values_shift (evaluate : Nat → AST → Int) (k : Nat) (previous : Int)
    (l : List AST) :
    enumerator_values evaluate (k + 1) previous l =
      enumerator_values (fun j => evaluate (j + 1)) k previous l := by
  induction l generalizing k previous with
  | nil => rfl
  | cons x xs ih => simp only [enumerator_values, ih]

theorem enumerator_values_length (evaluate : Nat → AST → Int) (k : Nat) (previous : Int)
    (l : List AST) : (enumerator_values evaluate k previous l).length = l.length := by
  induction l generalizing k previous with
  | nil => rfl
  | cons x xs ih => simp [enumerator_values, ih]

theorem store_at_enumerator_succ (env : collaborators) (st : ScopeId)
    (target : Option EntryId) (x : AST) (rest : List AST) (s : enum_state) (k : Nat) :
    store_at_enumerator env st target (x :: rest) s (k + 1) =
      store_at_enumerator env st target rest (enumerator_step env st target s x) k := by
  simp [store_at_enumerator, enumerator_loop]

theorem store_at_enumerator_zero (env : collaborators) (st : ScopeId)
    (target : Option EntryId) (x : AST) (rest : List AST) (s : enum_state) :
    store_at_enumerator env st target (x :: rest) s 0 =
      store_at_enumerator env st target [x] s 0 := by
  simp [store_at_enumerator, enumerator_loop]

theorem enumerator_loop_summary (env : collaborators) (st : ScopeId) (target : Option EntryId)
    (iters : List AST) (s : enum_state) :
    (enumerator_loop env st target iters s).tab.entries.map entry_summary =
      s.tab.entries.map entry_summary ++
        List.zipWith
          (fun iter v => (ASTText (ASTSon0 (ASTSon1 iter)), cxx_symbol_kind.SK_ENUMERATOR,
            env.tree_from_literal_value v))
          iters
          (enumerator_values
            (fun k e => env.evaluate_constant_expression
              (store_at_enumerator env st target iters s k) e st)
            0 s.enum_value (iters.map ASTSon1)) := by
  induction iters generalizing s with
  | nil => simp [enumerator_loop, enumerator_values]
  | cons x xs ih =>
    have hstep := enumerator_step_summary env st target s x
    have hloop : enumerator_loop env st target (x :: xs) s =
        enumerator_loop env st target xs (enumerator_step env st target s x) := rfl
    rw [hloop, ih, hstep.1, hstep.2]
    simp only [List.map_cons, enumerator_values, List.zipWith_cons_cons, List.append_assoc,
      List.singleton_append, store_at_enumerator_zero]
    rw [enumerator_values_shift]
    simp only [store_at_enumerator_succ]

theorem drop_length_sub_of_append {α : Type} (p q : List α) (n : Nat) (h : q.length = n) :
    (p ++ q).drop ((p ++ q).length - n) = q := by
  subst h
  simp

theorem map_drop_length_sub {α β : Type} (f : α → β) (l : List α) (n : Nat) :
    (l.drop (l.length - n)).map f = (l.map f).drop ((l.map f).length - n) := by
  simp [List.map_drop]

/-- C7: the enumerators of an enum specifier are the last entries created by
`gather_type_spec_from_enum_specifier`, one per enumerator and in order, each
of kind Enumerator under its own name; the value of each is the constant
value of its initializer, folded when the enumerator is processed, if it has
one, and otherwise the value of the previous enumerator plus one, the value
before the first enumerator being minus one, so that a first enumerator
without initializer gets 0. For `enum E { A, B, C = 5, D }` the values are
A = 0, B = 1, C = 5, D = 6. -/
theorem enum_specifier_values (env : collaborators) (tab : scope_store) (a : AST)
    (st : ScopeId) (simple_type_info : simple_type_t) :
    (((gather_type_spec_from_enum_specifier env tab a st simple_type_info).1.entries.drop
        ((gather_type_spec_from_enum_specifier env tab a st simple_type_info).1.entries.length
          - (for_each_element (ASTSon1 a)).length)).map entry_summary
      = List.zipWith
          (fun iter v => (ASTText (ASTSon0 (ASTSon1 iter)), cxx_symbol_kind.SK_ENUMERATOR,
            env.tree_from_literal_value v))
          (for_each_element (ASTSon1 a))
          (enumerator_values
            (fun k e => env.evaluate_constant_expression
              (store_at_enumerator env st (register_enum_name env tab a st simple_type_info).2.2
                (for_each_element (ASTSon1 a))
                { tab := (register_enum_name env tab a st simple_type_info).1,
                  enum_value := literal_value_minus_one,
                  simple_type_info := (register_enum_name env tab a st simple_type_info).2.1 }
                k) e st)
            0 (-1) (list_elements (ASTSon1 a))))
    ∧ (∀ (evaluate : Nat → AST → Int) (name : AST) (rest : List AST),
        enumerator_values evaluate 0 (-1)
            (ASTMake2 node_t.AST_ENUM_DEF name AST.null "" :: rest) =
          0 :: enumerator_values evaluate 1 0 rest)
    ∧ ((gather_type_spec_from_enum_specifier sample_collaborators global_store enum_E 0
          zero_simple_type).1.entries.map entry_summary
        = [("E", cxx_symbol_kind.SK_ENUM, AST.null),
           ("A", cxx_symbol_kind.SK_ENUMERATOR, literal "0"),
           ("B", cxx_symbol_kind.SK_ENUMERATOR, literal "1"),
           ("C", cxx_symbol_kind.SK_ENUMERATOR, literal "5"),
           ("D", cxx_symbol_kind.SK_ENUMERATOR, literal "6")]) := by
  refine ⟨?_, ?_, by decide⟩
  · have hfinal : (gather_type_spec_from_enum_specifier env tab a st simple_type_info).1 =
        (enumerator_loop env st (register_enum_name env tab a st simple_type_info).2.2
          (for_each_element (ASTSon1 a))
          { tab := (register_enum_name env tab a st simple_type_info).1,
            enum_value := literal_value_minus_one,
            simple_type_info := (register_enum_name env tab a st simple_type_info).2.1 }).tab := by
      unfold gather_type_spec_from_enum_specifier
      by_cases hl : ASTSon1 a = AST.null
      · simp [hl, for_each_element, enumerator_loop]
      · simp [hl]
    rw [hfinal, map_drop_length_sub]
    have hsum := enumerator_loop_summary env st
      (register_enum_name env tab a st simple_type_info).2.2 (for_each_element (ASTSon1 a))
      { tab := (register_enum_name env tab a st simple_type_info).1,
        enum_value := literal_value_minus_one,
        simple_type_info := (register_enum_name env tab a st simple_type_info).2.1 }
    rw [hsum]
    exact drop_length_sub_of_append _ _ _
      (by simp [List.length_zipWith, enumerator_values_length])
  · intro evaluate name rest
    simp [enumerator_values, enumerator_value, ASTMake2, ASTSon1]

theorem define_declared_symbol_eq (env : collaborators) (tab : scope_store) (st : ScopeId)
    (declarator initializer name : AST) (entry : EntryId) (rest : List EntryId)
    (h_name : get_declarator_name declarator = outcome.ok name)
    (h_query : query_id_expression env tab st name
      unqualified_lookup_behaviour_t.NOFULL_UNQUALIFIED_LOOKUP = entry :: rest) :
    define_declared_symbol env tab st declarator initializer =
      if (get_entry tab entry).defined then
        outcome.running_error "This symbol has already been defined"
      else
        outcome.ok
          (if initializer ≠ AST.null then
            set_entry (set_entry tab entry { get_entry tab entry with defined := true }) entry
              { get_entry (set_entry tab entry { get_entry tab entry with defined := true }) entry
                  with expression_value := initializer }
          else set_entry tab entry { get_entry tab entry with defined := true }) := by
  unfold define_declared_symbol
  simp only [h_name, outcome.ok_bind, h_query]
  split <;> [rfl; (split <;> rfl)]

theorem register_variable_x (env : collaborators) (tab : scope_store) (st : ScopeId) :
    register_new_variable_name env tab (symbol "x") int_type st =
      if filter_symbol_non_kind_set tab (query_in_current_scope tab st "x")
          [cxx_symbol_kind.SK_CLASS, cxx_symbol_kind.SK_ENUM] ≠ [] then
        outcome.running_error "Symbol %s has been redefined as another symbol kind"
      else outcome.ok (store_with_variable tab st, tab.entries.length) := rfl

theorem outcome.bind_assoc {α β γ : Type} (x : outcome α) (f : α → outcome β)
    (g : β → outcome γ) : (x >>= f) >>= g = x >>= fun a => f a >>= g := by
  cases x <;> rfl

theorem declarator_x_eq (env : collaborators) (fuel : Nat) (tab : scope_store) (st : ScopeId)
    (g : gather_decl_spec_t) (h : g.is_typedef = false) :
    build_scope_declarator_with_parameter_scope env (fuel + 3) tab declarator_x st none g
        (builtin_simple_type builtin_type_t.BT_INT) =
      (register_new_variable_name env tab (symbol "x") int_type st >>= fun r =>
        outcome.ok ⟨r.1, some r.2, none, int_type, declarator_x⟩) := by
  have h1 : build_scope_declarator_with_parameter_scope env (fuel + 3) tab declarator_x st none g
        (builtin_simple_type builtin_type_t.BT_INT) =
      (build_scope_declarator_id_expr env tab (declarator_id "x") int_type g st >>= fun e =>
        outcome.ok ⟨e.1, e.2, none, int_type, declarator_x⟩) := rfl
  have h2 : build_scope_declarator_id_expr env tab (declarator_id "x") int_type g st =
      (register_new_variable_name env tab (symbol "x") int_type st >>= fun r =>
        outcome.ok (r.1, some r.2)) := by
    simp [build_scope_declarator_id_expr, declarator_id, symbol, ASTLeaf, ASTSon0, ASTType, h]
  rw [h1, h2, outcome.bind_assoc]
  rfl

theorem extern_int_x_eq (env : collaborators) (fuel : Nat) (tab : scope_store) (st : ScopeId) :
    build_scope_simple_declaration env (fuel + 3) tab extern_int_x st =
      if filter_symbol_non_kind_set tab (query_in_current_scope tab st "x")
          [cxx_symbol_kind.SK_CLASS, cxx_symbol_kind.SK_ENUM] ≠ [] then
        outcome.running_error "Symbol %s has been redefined as another symbol kind"
      else outcome.ok (store_with_variable tab st) := by
  have h : build_scope_simple_declaration env (fuel + 3) tab extern_int_x st =
      (build_scope_declarator_with_parameter_scope env (fuel + 3) tab declarator_x st none
          { zero_gather_info with is_extern := true }
          (builtin_simple_type builtin_type_t.BT_INT) >>= fun r =>
        outcome.ok r.tab) >>= fun t => outcome.ok t := rfl
  rw [h, declarator_x_eq env fuel tab st _ rfl, register_variable_x]
  split <;> rfl

theorem int_x_eq (env : collaborators) (fuel : Nat) (tab : scope_store) (st : ScopeId) :
    build_scope_simple_declaration env (fuel + 3) tab int_x st =
      if filter_symbol_non_kind_set tab (query_in_current_scope tab st "x")
          [cxx_symbol_kind.SK_CLASS, cxx_symbol_kind.SK_ENUM] ≠ [] then
        outcome.running_error "Symbol %s has been redefined as another symbol kind"
      else define_declared_symbol env (store_with_variable tab st) st declarator_x AST.null := by
  have h : build_scope_simple_declaration env (fuel + 3) tab int_x st =
      (build_scope_declarator_with_parameter_scope env (fuel + 3) tab declarator_x st none
          zero_gather_info (builtin_simple_type builtin_type_t.BT_INT) >>= fun r =>
        if !zero_gather_info.is_extern && !r.declarator_type.is_function then
          define_declared_symbol env r.tab st r.tree AST.null
        else if AST.null ≠ AST.null then
          outcome.running_error "An extern symbol cannot be initialized"
        else outcome.ok r.tab) >>= fun t => outcome.ok t := rfl
  rw [h, declarator_x_eq env fuel tab st _ rfl, register_variable_x]
  split
  · rfl
  · simp only [outcome.ok_bind]
    show define_declared_symbol env (store_with_variable tab st) st declarator_x AST.null
      >>= _ = _
    cases define_declared_symbol env (store_with_variable tab st) st declarator_x AST.null <;> rfl

theorem store_with_variable_entry (tab : scope_store) (st : ScopeId) :
    (get_entry (store_with_variable tab st) tab.entries.length).symbol_name = "x" ∧
    (get_entry (store_with_variable tab st) tab.entries.length).kind =
      cxx_symbol_kind.SK_VARIABLE := by
  unfold store_with_variable
  rw [get_entry_set_entry]
  have hl : tab.entries.length < (new_symbol tab st "x").1.entries.length := by
    rw [new_symbol_entries]; simp
  simp only [hl, and_self, if_true]
  constructor
  · simp [get_entry, new_symbol_entries]
  · trivial

theorem store_with_variable_hash (tab : scope_store) (st : ScopeId)
    (h : st < tab.scopes.length) :
    tab.entries.length ∈ (get_scope (store_with_variable tab st) st).hash := by
  unfold store_with_variable
  rw [get_scope_set_entry, get_scope_new_symbol_same _ _ _ h]
  exact List.mem_cons_self _ _

theorem store_with_variable_invalid (tab : scope_store) (st : ScopeId)
    (h : ¬ st < tab.scopes.length) :
    query_in_current_scope (store_with_variable tab st) st "x" = [] := by
  have : get_scope (store_with_variable tab st) st =
      empty_scope scope_kind_t.NAMESPACE_SCOPE none := by
    unfold store_with_variable
    rw [get_scope_set_entry]
    unfold get_scope new_symbol
    simp only
    rw [List.getElem?_eq_none (by simpa using Nat.le_of_not_lt h)]
    rfl
  simp [query_in_current_scope, this, empty_scope]

theorem redefinition_check_of_variable (tab : scope_store) (st : ScopeId) (e : EntryId)
    (h_scope : e ∈ (get_scope tab st).hash) (h_name : (get_entry tab e).symbol_name = "x")
    (h_kind : (get_entry tab e).kind = cxx_symbol_kind.SK_VARIABLE) :
    filter_symbol_non_kind_set tab (query_in_current_scope tab st "x")
      [cxx_symbol_kind.SK_CLASS, cxx_symbol_kind.SK_ENUM] ≠ [] := by
  intro hc
  have hm : e ∈ filter_symbol_non_kind_set tab (query_in_current_scope tab st "x")
      [cxx_symbol_kind.SK_CLASS, cxx_symbol_kind.SK_ENUM] := by
    unfold filter_symbol_non_kind_set
    rw [List.mem_filter]
    refine ⟨(mem_query_in_current_scope _ _ _ _).mpr ⟨h_scope, h_name⟩, ?_⟩
    rw [h_kind]
    decide
  rw [hc] at hm
  cases hm

theorem extern_redeclaration_rejected (env : collaborators) (fuel : Nat) (tab tab1 : scope_store)
    (st : ScopeId) (h_valid : st < tab.scopes.length)
    (h_first : build_scope_simple_declaration env (fuel + 3) tab extern_int_x st =
      outcome.ok tab1) :
    build_scope_simple_declaration env (fuel + 3) tab1 extern_int_x st =
      outcome.running_error "Symbol %s has been redefined as another symbol kind" := by
  rw [extern_int_x_eq] at h_first
  split at h_first
  · cases h_first
  · injection h_first with h_first
    subst h_first
    rw [extern_int_x_eq, if_pos]
    exact redefinition_check_of_variable _ st tab.entries.length
      (store_with_variable_hash tab st h_valid) (store_with_variable_entry tab st).1
      (store_with_variable_entry tab st).2

theorem int_redeclaration_rejected (env : collaborators) (fuel : Nat) (tab tab1 : scope_store)
    (st : ScopeId)
    (h_first : build_scope_simple_declaration env (fuel + 3) tab int_x st = outcome.ok tab1) :
    build_scope_simple_declaration env (fuel + 3) tab1 int_x st =
      outcome.running_error "Symbol %s has been redefined as another symbol kind" := by
  rw [int_x_eq] at h_first
  split at h_first
  · cases h_first
  · by_cases h_valid : st < tab.scopes.length
    · have hq : query_id_expression env (store_with_variable tab st) st (symbol "x")
          unqualified_lookup_behaviour_t.NOFULL_UNQUALIFIED_LOOKUP =
          query_in_current_scope (store_with_variable tab st) st "x" := rfl
      cases hl : query_in_current_scope (store_with_variable tab st) st "x" with
      | nil =>
        have : tab.entries.length ∈ query_in_current_scope (store_with_variable tab st) st "x" :=
          (mem_query_in_current_scope _ _ _ _).mpr
            ⟨store_with_variable_hash tab st h_valid, (store_with_variable_entry tab st).1⟩
        rw [hl] at this
        cases this
      | cons entry rest =>
        rw [define_declared_symbol_eq env _ st declarator_x AST.null (symbol "x") entry rest rfl
          (hq.trans hl)] at h_first
        split at h_first
        · cases h_first
        · simp only [ne_eq, not_true_eq_false, if_false] at h_first
          injection h_first with h_first
          subst h_first
          rw [int_x_eq, if_pos]
          have hsame : ∀ e, (get_entry (set_entry (store_with_variable tab st) entry
                { get_entry (store_with_variable tab st) entry with defined := true }) e).symbol_name
                = (get_entry (store_with_variable tab st) e).symbol_name ∧
              (get_entry (set_entry (store_with_variable tab st) entry
                { get_entry (store_with_variable tab st) entry with defined := true }) e).kind
                = (get_entry (store_with_variable tab st) e).kind := by
            intro e
            rw [get_entry_set_entry]
            split
            · rename_i hc
              rw [← hc.1]
              exact ⟨rfl, rfl⟩
            · exact ⟨rfl, rfl⟩
          apply redefinition_check_of_variable _ st tab.entries.length
          · rw [get_scope_set_entry]
            exact store_with_variable_hash tab st h_valid
          · rw [(hsame _).1]
            exact (store_with_variable_entry tab st).1
          · rw [(hsame _).2]
            exact (store_with_variable_entry tab st).2
    · have hd : define_declared_symbol env (store_with_variable tab st) st declarator_x AST.null
          = outcome.internal_error "Symbol just declared has not been found in the scope!" := by
        have hq : query_id_expression env (store_with_variable tab st) st (symbol "x")
            unqualified_lookup_behaviour_t.NOFULL_UNQUALIFIED_LOOKUP = [] :=
          store_with_variable_invalid tab st h_valid
        have hn : get_declarator_name declarator_x = outcome.ok (symbol "x") := rfl
        unfold define_declared_symbol
        simp only [hn, outcome.ok_bind, hq]
      rw [hd] at h_first
      cases h_first

theorem set_entry_length (tab : scope_store) (e : EntryId) (v : scope_entry_t) :
    (set_entry tab e v).entries.length = tab.entries.length := by
  simp [set_entry]

theorem set_entry_scopes (tab : scope_store) (e : EntryId) (v : scope_entry_t) :
    (set_entry tab e v).scopes = tab.scopes := rfl

/-- C3: in `build_scope_simple_declaration`, for an init-declarator that is
not `extern` and whose composed type is not a function type: if the entry
found first for the declared name is already defined, the program error
`This symbol has already been defined` is raised; otherwise the declaration
is accepted, that entry becomes defined and, when there is an initializer,
the value of the entry is the initializer tree itself, not folded, all other
entries and all scopes staying as the declarator left them. Processing
`int x;` twice in the same scope raises a program error on the second
declaration. -/
theorem simple_declaration_defines_once (env : collaborators) (fuel : Nat)
    (gather_info : gather_decl_spec_t) (simple_type_info : simple_type_t) (st : ScopeId)
    (tab : scope_store) (iter name : AST) (r : declarator_result) (entry : EntryId)
    (rest : List EntryId)
    (h_storage : gather_info.is_extern = false)
    (h_declarator : build_scope_declarator_with_parameter_scope env fuel tab
      (ASTSon0 (resolved_init_declarator env tab st (ASTSon1 iter))) st none gather_info
      simple_type_info = outcome.ok r)
    (h_not_function : r.declarator_type.is_function = false)
    (h_name : get_declarator_name r.tree = outcome.ok name)
    (h_query : query_id_expression env r.tab st name
      unqualified_lookup_behaviour_t.NOFULL_UNQUALIFIED_LOOKUP = entry :: rest)
    (h_valid : entry < r.tab.entries.length) :
    ((get_entry r.tab entry).defined = true →
      build_scope_init_declarator env fuel gather_info simple_type_info st tab iter =
        outcome.running_error "This symbol has already been defined") ∧
    ((get_entry r.tab entry).defined = false →
      ∃ tab', build_scope_init_declarator env fuel gather_info simple_type_info st tab iter =
          outcome.ok tab' ∧
        (get_entry tab' entry).defined = true ∧
        (ASTSon1 (resolved_init_declarator env tab st (ASTSon1 iter)) ≠ AST.null →
          (get_entry tab' entry).expression_value =
            ASTSon1 (resolved_init_declarator env tab st (ASTSon1 iter))) ∧
        (ASTSon1 (resolved_init_declarator env tab st (ASTSon1 iter)) = AST.null →
          (get_entry tab' entry).expression_value = (get_entry r.tab entry).expression_value) ∧
        (∀ e, e ≠ entry → get_entry tab' e = get_entry r.tab e) ∧
        tab'.scopes = r.tab.scopes) ∧
    (∃ tab1, build_scope_simple_declaration sample_collaborators 3 global_store int_x 0 =
        outcome.ok tab1 ∧
      (build_scope_simple_declaration sample_collaborators 3 tab1 int_x 0).is_running_error
        = true) ∧
    (∀ (env : collaborators) (fuel : Nat) (tab tab1 : scope_store) (st : ScopeId),
      build_scope_simple_declaration env (fuel + 3) tab int_x st = outcome.ok tab1 →
      build_scope_simple_declaration env (fuel + 3) tab1 int_x st =
        outcome.running_error "Symbol %s has been redefined as another symbol kind") := by
  have hstep : build_scope_init_declarator env fuel gather_info simple_type_info st tab iter =
      define_declared_symbol env r.tab st r.tree
        (ASTSon1 (resolved_init_declarator env tab st (ASTSon1 iter))) := by
    unfold build_scope_init_declarator
    simp [h_declarator, h_storage, h_not_function]
  rw [hstep, define_declared_symbol_eq env r.tab st r.tree _ name entry rest h_name h_query]
  refine ⟨?_, ?_, ?_, ?_⟩
  · intro hd
    simp [hd]
  · intro hd
    simp only [hd, Bool.false_eq_true, if_false]
    refine ⟨_, rfl, ?_, ?_, ?_, ?_, ?_⟩
    · split <;> simp [get_entry_set_entry, h_valid, set_entry_length]
    · intro hi
      simp [hi, get_entry_set_entry, h_valid, set_entry_length]
    · intro hi
      simp [hi, get_entry_set_entry, h_valid]
    · intro e he
      split <;> simp [get_entry_set_entry, Ne.symm he]
    · split <;> rfl
  · exact ⟨_, rfl, by decide⟩
  · exact fun env fuel tab tab1 st h => int_redeclaration_rejected env fuel tab tab1 st h

theorem simple_declaration_defines_once_witness :
    (zero_gather_info.is_extern = false ∧
      build_scope_declarator_with_parameter_scope sample_collaborators 3 global_store
        (ASTSon0 (resolved_init_declarator sample_collaborators global_store 0
          (ASTSon1 init_declarator_x_3))) 0 none zero_gather_info
        (builtin_simple_type builtin_type_t.BT_INT) = outcome.ok declared_x ∧
      declared_x.declarator_type.is_function = false ∧
      get_declarator_name declared_x.tree = outcome.ok (symbol "x") ∧
      query_id_expression sample_collaborators declared_x.tab 0 (symbol "x")
        unqualified_lookup_behaviour_t.NOFULL_UNQUALIFIED_LOOKUP = [0] ∧
      0 < declared_x.tab.entries.length ∧
      (get_entry declared_x.tab 0).defined = false) ∧
    (build_scope_init_declarator sample_collaborators 3 zero_gather_info
        (builtin_simple_type builtin_type_t.BT_INT) 0 global_store init_declarator_x_3).bind
      (fun t => outcome.ok (entry_summary (get_entry t 0), (get_entry t 0).defined))
      = outcome.ok (("x", cxx_symbol_kind.SK_VARIABLE, literal "3"), true) ∧
    (((get_entry declared_x.tab 0).defined = true →
      build_scope_init_declarator sample_collaborators 3 zero_gather_info
          (builtin_simple_type builtin_type_t.BT_INT) 0 global_store init_declarator_x_3 =
        outcome.running_error "This symbol has already been defined") ∧
    ((get_entry declared_x.tab 0).defined = false →
      ∃ tab', build_scope_init_declarator sample_collaborators 3 zero_gather_info
          (builtin_simple_type builtin_type_t.BT_INT) 0 global_store init_declarator_x_3 =
          outcome.ok tab' ∧
        (get_entry tab' 0).defined = true ∧
        (ASTSon1 (resolved_init_declarator sample_collaborators global_store 0
            (ASTSon1 init_declarator_x_3)) ≠ AST.null →
          (get_entry tab' 0).expression_value =
            ASTSon1 (resolved_init_declarator sample_collaborators global_store 0
              (ASTSon1 init_declarator_x_3))) ∧
        (ASTSon1 (resolved_init_declarator sample_collaborators global_store 0
            (ASTSon1 init_declarator_x_3)) = AST.null →
          (get_entry tab' 0).expression_value = (get_entry declared_x.tab 0).expression_value) ∧
        (∀ e, e ≠ 0 → get_entry tab' e = get_entry declared_x.tab e) ∧
        tab'.scopes = declared_x.tab.scopes) ∧
    (∃ tab1, build_scope_simple_declaration sample_collaborators 3 global_store int_x 0 =
        outcome.ok tab1 ∧
      (build_scope_simple_declaration sample_collaborators 3 tab1 int_x 0).is_running_error
        = true) ∧
    (∀ (env : collaborators) (fuel : Nat) (tab tab1 : scope_store) (st : ScopeId),
      build_scope_simple_declaration env (fuel + 3) tab int_x st = outcome.ok tab1 →
      build_scope_simple_declaration env (fuel + 3) tab1 int_x st =
        outcome.running_error "Symbol %s has been redefined as another symbol kind")) :=
  ⟨by decide, by decide,
    simple_declaration_defines_once sample_collaborators 3 zero_gather_info
      (builtin_simple_type builtin_type_t.BT_INT) 0 global_store init_declarator_x_3
      (symbol "x") declared_x 0 [] (by decide) (by decide) (by decide) (by decide) (by decide)
      (by decide)⟩

/-- C4 (defect): processing `extern int x;` a second time in the same scope
raises the program error `Symbol %s has been redefined as another symbol
kind`: `register_new_variable_name` rejects every earlier entry of the name
that is not a class or an enum, the variable registered by the first
declaration included. This holds in the global scope of an empty store and
in every scope of every store in which the first declaration is accepted. -/
theorem extern_redeclaration_raises :
    (∃ tab1, build_scope_simple_declaration sample_collaborators 3 global_store extern_int_x 0
        = outcome.ok tab1 ∧
      build_scope_simple_declaration sample_collaborators 3 tab1 extern_int_x 0 =
        outcome.running_error "Symbol %s has been redefined as another symbol kind") ∧
    (∀ (env : collaborators) (fuel : Nat) (tab tab1 : scope_store) (st : ScopeId),
      st < tab.scopes.length →
      build_scope_simple_declaration env (fuel + 3) tab extern_int_x st = outcome.ok tab1 →
      build_scope_simple_declaration env (fuel + 3) tab1 extern_int_x st =
        outcome.running_error "Symbol %s has been redefined as another symbol kind") :=
  ⟨⟨_, rfl, by decide⟩, fun env fuel tab tab1 st h_valid h_first =>
    extern_redeclaration_rejected env fuel tab tab1 st h_valid h_first⟩

/-- C10 (defect): for `A<char>` against `template<class P, class Q = int>
class A`, the completion loop of `build_scope_template_arguments` extends the
argument tree with the default of `Q`, which is the type id `int` stored by
`build_scope_type_template_parameter` and not a template argument node; the
loop over the arguments then stops on it with the internal error
`Unexpected node`, for every recursion budget, and no argument list
`{char, int}` is produced. -/
theorem template_arguments_default_completion_fails :
    (get_entry primary_template_store 0).template_parameter_info.map
        template_parameter_t.default_argument
      = [AST.null, builtin_type_id node_t.AST_INT_TYPE]
    ∧ (complete_default_arguments (get_entry primary_template_store 0)
        (ASTSon1 template_id_A_char) 1).bind (fun l => outcome.ok (list_elements l))
      = outcome.ok [template_type_argument (builtin_type_id node_t.AST_CHAR_TYPE),
          builtin_type_id node_t.AST_INT_TYPE]
    ∧ ∀ fuel, build_scope_template_arguments sample_collaborators fuel primary_template_store
        template_id_A_char 0 = outcome.internal_error "Unexpected node %s" := by
  refine ⟨by decide, by decide, ?_⟩
  intro fuel
  rfl

/-- A template id `A<char, double>` that supplies both arguments is
processed. -/
theorem template_arguments_complete_list :
    (build_scope_template_arguments sample_collaborators 0 primary_template_store
      (AST.node node_t.AST_TEMPLATE_ID (symbol "A")
        (list2 (template_type_argument (builtin_type_id node_t.AST_CHAR_TYPE))
          (template_type_argument (builtin_type_id node_t.AST_DOUBLE_TYPE)))
        AST.null AST.null "") 0).bind
      (fun r => outcome.ok (r.2.1.toList.map (fun t => match t with
        | template_argument_t.mk k ty _ => (k, ty))))
    = outcome.ok
        [(template_argument_kind_t.TAK_TYPE,
            type_t.direct (builtin_simple_type builtin_type_t.BT_CHAR)),
         (template_argument_kind_t.TAK_TYPE,
            type_t.direct (builtin_simple_type builtin_type_t.BT_DOUBLE))] := by
  decide

/-- The completion loop stops with the invariant violation as soon as one of
the positions it visits has no default argument. -/
theorem default_completion_loop_fails (info : List template_parameter_t) (k : Nat) :
    ∀ (l : List Nat) (list : AST), k ∈ l →
      ((info[k]?).getD { type_info := type_t.null, default_argument := AST.null }).default_argument
        = AST.null →
      l.foldlM
        (fun list k =>
          let default_argument :=
            ((info[k]?).getD
              { type_info := type_t.null, default_argument := AST.null }).default_argument
          if default_argument = AST.null then
            (outcome.internal_error "Parameter %d of template %s has no default argument" :
              outcome AST)
          else pure (ASTMake2 node_t.AST_NODE_LIST list default_argument ""))
        list = outcome.internal_error "Parameter %d of template %s has no default argument" := by
  intro l
  induction l with
  | nil => intro list hk; simp at hk
  | cons x xs ih =>
    intro list hk hd
    rw [List.foldlM_cons]
    by_cases hx : ((info[x]?).getD
        { type_info := type_t.null, default_argument := AST.null }).default_argument = AST.null
    · simp [hx]
    · have hne : k ≠ x := by
        intro h; subst h; exact hx hd
      have hk' : k ∈ xs := by
        cases List.mem_cons.mp hk with
        | inl h => exact absurd h hne
        | inr h => exact h
      simp only [hx, if_false, outcome.pure_eq, outcome.ok_bind]
      exact ih _ hk' hd

/-- C11, counterexample. For `A<char>` against `template<class P, class Q>
class A`, where the unfilled parameter `Q` has no default argument,
`build_scope_template_arguments` does not raise a program error: it stops
with the invariant violation `Parameter ... has no default argument`. -/
theorem template_arguments_missing_default_not_running_error :
    (build_scope_template_arguments sample_collaborators 5 primary_template_without_default
        template_id_A_char 0).is_running_error = false ∧
      build_scope_template_arguments sample_collaborators 5 primary_template_without_default
        template_id_A_char 0 =
        outcome.internal_error "Parameter %d of template %s has no default argument" := by
  decide

/-- C11, amended. When a template-id supplies fewer arguments than its
primary template has parameters and the parameter at an unfilled position `k`
has no default argument, `build_scope_template_arguments` stops with the
invariant violation `Parameter ... has no default argument` (an internal
error, not a program error). -/
theorem template_arguments_missing_default (env : collaborators) (fuel : Nat)
    (tab : scope_store) (class_head_id : AST) (st : ScopeId) (primary_template : EntryId)
    (k : Nat)
    (h_primary : (env.query_unqualified_name tab st (ASTText (ASTSon0 class_head_id))).find?
      (fun e => (get_entry tab e).kind = cxx_symbol_kind.SK_TEMPLATE_PRIMARY_CLASS)
        = some primary_template)
    (h_unfilled : (for_each_element (ASTSon1 class_head_id)).length ≤ k)
    (h_parameter : k < (get_entry tab primary_template).num_template_parameters)
    (h_default :
      (((get_entry tab primary_template).template_parameter_info[k]?).getD
        { type_info := type_t.null, default_argument := AST.null }).default_argument
        = AST.null) :
    build_scope_template_arguments env fuel tab class_head_id st =
      outcome.internal_error "Parameter %d of template %s has no default argument" := by
  unfold build_scope_template_arguments
  simp only [h_primary]
  have hgt : (get_entry tab primary_template).num_template_parameters
      > (for_each_element (ASTSon1 class_head_id)).length := by omega
  have hmem : k ∈ List.range' (for_each_element (ASTSon1 class_head_id)).length
      ((get_entry tab primary_template).num_template_parameters
        - (for_each_element (ASTSon1 class_head_id)).length) := by
    rw [List.mem_range'_1]; omega
  have hloop := default_completion_loop_fails
    (get_entry tab primary_template).template_parameter_info k _ (ASTSon1 class_head_id)
    hmem h_default
  simp only [hgt, if_true, complete_default_arguments]
  rw [hloop]
  rfl

theorem template_arguments_missing_default_witness :
    ((sample_collaborators.query_unqualified_name primary_template_without_default 0
        (ASTText (ASTSon0 template_id_A_char))).find?
      (fun e => (get_entry primary_template_without_default e).kind
        = cxx_symbol_kind.SK_TEMPLATE_PRIMARY_CLASS) = some 0 ∧
      (for_each_element (ASTSon1 template_id_A_char)).length ≤ 1 ∧
      1 < (get_entry primary_template_without_default 0).num_template_parameters ∧
      (((get_entry primary_template_without_default 0).template_parameter_info[1]?).getD
        ({ type_info := type_t.null, default_argument := AST.null } :
          template_parameter_t)).default_argument = AST.null) ∧
    build_scope_template_arguments sample_collaborators 3 primary_template_without_default
      template_id_A_char 0 =
      outcome.internal_error "Parameter %d of template %s has no default argument" :=
  ⟨by decide,
    template_arguments_missing_default sample_collaborators 3 primary_template_without_default
      template_id_A_char 0 0 1 (by decide) (by decide) (by decide) (by decide)⟩

/-- The entry `find_function_declaration` finds is one of the list and a
function. -/
theorem find_function_declaration_loop_found (tab : scope_store)
    (f : Option function_info_t) (l : List EntryId) (ov : Bool) (e : EntryId)
    (h : (find_function_declaration_loop tab f l ov).1 = some e) :
    e ∈ l ∧ (get_entry tab e).kind = cxx_symbol_kind.SK_FUNCTION := by
  induction l generalizing ov with
  | nil => simp [find_function_declaration_loop] at h
  | cons x xs ih =>
    unfold find_function_declaration_loop at h
    by_cases h1 : (get_entry tab x).kind ≠ cxx_symbol_kind.SK_FUNCTION
    · rw [if_pos h1] at h
      have := ih _ h
      exact ⟨List.mem_cons_of_mem _ this.1, this.2⟩
    · rw [if_neg h1] at h
      by_cases h2 : (!overloaded_function f
          (get_entry tab x).type_information.function_info) = true
      · simp only [h2, if_true, Option.some.injEq] at h
        subst h
        exact ⟨List.mem_cons_self _ _, by simpa using h1⟩
      · simp only [h2] at h
        have := ih _ h
        exact ⟨List.mem_cons_of_mem _ this.1, this.2⟩

/-- The entry a new symbol is given by `set_entry` right after `new_symbol`. -/
theorem get_entry_set_new_symbol (tab : scope_store) (sc : ScopeId) (name : String)
    (v : scope_entry_t) :
    get_entry (set_entry (new_symbol tab sc name).1 (new_symbol tab sc name).2 v)
      (new_symbol tab sc name).2 = v := by
  rw [get_entry_set_entry, new_symbol_id, new_symbol_entries]
  simp

/-- The entry `new_symbol` creates carries the name. -/
theorem get_entry_new_symbol_new (tab : scope_store) (sc : ScopeId) (name : String) :
    get_entry (new_symbol tab sc name).1 (new_symbol tab sc name).2 =
      { zero_entry with symbol_name := name, scope := sc } := by
  simp [get_entry, new_symbol_id, new_symbol_entries]

/-- C19, counterexample. The destructor declaration `~A()` composes a
function type, and the entry `build_scope_declarator_id_expr` registers for
its destructor-id is of kind Function, not Variable; so does the composer run
on the whole declarator. -/
theorem destructor_id_registers_function :
    (∃ tab', build_scope_declarator_id_expr sample_collaborators global_store
        (destructor_declarator_id "A")
        (function_without_parameters (simple_type_to_type simple_type_t.null) zero_gather_info)
        zero_gather_info 0 = outcome.ok (tab', some 0) ∧
      (get_entry tab' 0).kind = cxx_symbol_kind.SK_FUNCTION ∧
      (get_entry tab' 0).kind ≠ cxx_symbol_kind.SK_VARIABLE ∧
      (get_entry tab' 0).symbol_name = "A") ∧
    (∃ r, build_scope_declarator_with_parameter_scope sample_collaborators 5 global_store
        destructor_declarator 0 none zero_gather_info simple_type_t.null = outcome.ok r ∧
      r.entry = some 0 ∧ (get_entry r.tab 0).kind = cxx_symbol_kind.SK_FUNCTION ∧
      r.declarator_type =
        function_without_parameters (simple_type_to_type simple_type_t.null) zero_gather_info) :=
  ⟨⟨_, rfl, by decide, by decide, by decide⟩, ⟨_, rfl, by decide, by decide, by decide⟩⟩

/-- C19, amended. For a declarator whose id is a destructor-id `~Name` with a
plain name and whose composed type is a function type, as the type of every
destructor declaration `~Name()` is, `build_scope_declarator_id_expr` returns
an entry of kind Function keyed by the base name `Name`: the entry of that
function if it is already declared in the scope, otherwise a new one. -/
theorem destructor_id_entry_is_function (env : collaborators) (tab : scope_store)
    (declarator_name : AST) (declarator_type : type_t) (gather_info : gather_decl_spec_t)
    (st : ScopeId)
    (h_id : ASTType (ASTSon0 declarator_name) = node_t.AST_DESTRUCTOR_ID)
    (h_name : ASTType (ASTSon0 (ASTSon0 declarator_name)) = node_t.AST_SYMBOL)
    (h_type : declarator_type.is_function = true) :
    ∃ tab' entry,
      build_scope_declarator_id_expr env tab declarator_name declarator_type gather_info st
        = outcome.ok (tab', some entry) ∧
      (get_entry tab' entry).kind = cxx_symbol_kind.SK_FUNCTION ∧
      (get_entry tab' entry).symbol_name = ASTText (ASTSon0 (ASTSon0 declarator_name)) := by
  unfold build_scope_declarator_id_expr
  simp only [h_id, register_new_variable_name, h_type, Bool.not_true, Bool.false_eq_true,
    if_false, outcome.pure_eq, outcome.ok_bind]
  unfold register_function
  cases hfind : (find_function_declaration env tab st (ASTSon0 (ASTSon0 declarator_name))
      declarator_type).1 with
  | none =>
    refine ⟨_, _, rfl, ?_, ?_⟩
    · simp only [get_entry_set_new_symbol]
    · simp only [get_entry_set_new_symbol, get_entry_new_symbol_new]
  | some entry =>
    refine ⟨_, _, rfl, ?_, ?_⟩
    · unfold find_function_declaration at hfind
      exact (find_function_declaration_loop_found _ _ _ _ _ hfind).2
    · unfold find_function_declaration at hfind
      have hmem := (find_function_declaration_loop_found _ _ _ _ _ hfind).1
      simp only [query_id_expression, h_name, if_true] at hmem
      exact ((mem_query_in_current_scope _ _ _ _).mp hmem).2

theorem destructor_id_entry_is_function_witness :
    (ASTType (ASTSon0 (destructor_declarator_id "A")) = node_t.AST_DESTRUCTOR_ID ∧
      ASTType (ASTSon0 (ASTSon0 (destructor_declarator_id "A"))) = node_t.AST_SYMBOL ∧
      (function_without_parameters (simple_type_to_type simple_type_t.null)
        zero_gather_info).is_function = true) ∧
    ∃ tab' entry,
      build_scope_declarator_id_expr sample_collaborators global_store
        (destructor_declarator_id "A")
        (function_without_parameters (simple_type_to_type simple_type_t.null) zero_gather_info)
        zero_gather_info 0 = outcome.ok (tab', some entry) ∧
      (get_entry tab' entry).kind = cxx_symbol_kind.SK_FUNCTION ∧
      (get_entry tab' entry).symbol_name =
        ASTText (ASTSon0 (ASTSon0 (destructor_declarator_id "A"))) :=
  ⟨by decide,
    destructor_id_entry_is_function sample_collaborators global_store
      (destructor_declarator_id "A")
      (function_without_parameters (simple_type_to_type simple_type_t.null) zero_gather_info)
      zero_gather_info 0 (by decide) (by decide) (by decide)⟩

/-- C20 (defect): a qualified declarator-id never creates an entry, but when
it names a function of which no declaration with a matching parameter list is
found, `build_scope_declarator_id_expr` returns no entry and raises nothing,
whereas for a type that is not a function an unresolved qualified name stops
with `Qualified id name not found`. Shown on `N::f` declared as `void (int)`
and as `int` in a symbol table where `N::f` resolves to nothing, and for all
inputs. -/
theorem qualified_function_id_unresolved_returns_no_entry :
    (build_scope_declarator_id_expr sample_collaborators global_store
        (qualified_declarator_id "N" "f") (type_t.function void_of_int) zero_gather_info 0
        = outcome.ok (global_store, none) ∧
      build_scope_declarator_id_expr sample_collaborators global_store
        (qualified_declarator_id "N" "f") int_type zero_gather_info 0
        = outcome.internal_error "Qualified id name not found") ∧
    (∀ (env : collaborators) (tab : scope_store) (declarator_name : AST)
        (declarator_type : type_t) (gather_info : gather_decl_spec_t) (st : ScopeId),
      ASTType (ASTSon0 declarator_name) = node_t.AST_QUALIFIED_ID →
      declarator_type.is_function = true →
      (find_function_declaration env tab st (ASTSon0 declarator_name) declarator_type).1
        = none →
      build_scope_declarator_id_expr env tab declarator_name declarator_type gather_info st
        = outcome.ok (tab, none)) ∧
    (∀ (env : collaborators) (tab : scope_store) (declarator_name : AST)
        (declarator_type : type_t) (gather_info : gather_decl_spec_t) (st : ScopeId)
        (r : scope_store × Option EntryId),
      ASTType (ASTSon0 declarator_name) = node_t.AST_QUALIFIED_ID →
      build_scope_declarator_id_expr env tab declarator_name declarator_type gather_info st
        = outcome.ok r →
      r.1 = tab) := by
  refine ⟨⟨by decide, by decide⟩, ?_, ?_⟩
  · intro env tab declarator_name declarator_type gather_info st h_id h_type h_find
    unfold build_scope_declarator_id_expr
    simp only [h_id, h_type, Bool.not_true, Bool.false_eq_true, if_false, h_find,
      outcome.pure_eq]
  · intro env tab declarator_name declarator_type gather_info st r h_id h
    unfold build_scope_declarator_id_expr at h
    simp only [h_id] at h
    split_ifs at h with h1
    · split at h
      · cases h
      · cases h; rfl
    · cases h; rfl

/-- C17, counterexample. After the declarations `enum E { A, A };` and
`int E;`, both accepted without error, the name `A` maps to two entries of the
global scope, both of kind Enumerator, and the name `E` to two entries, the
variable and the enum: entries after the first that are not of kind
Function. -/
theorem repeated_names_without_function :
    ∃ tab1 tab2,
      build_scope_simple_declaration sample_collaborators 3 global_store
        (type_declaration enum_E_A_A) 0 = outcome.ok tab1 ∧
      build_scope_simple_declaration sample_collaborators 3 tab1 int_E 0 = outcome.ok tab2 ∧
      kinds_of_name tab2 0 "A"
        = [cxx_symbol_kind.SK_ENUMERATOR, cxx_symbol_kind.SK_ENUMERATOR] ∧
      kinds_of_name tab2 0 "E" = [cxx_symbol_kind.SK_VARIABLE, cxx_symbol_kind.SK_ENUM] :=
  ⟨_, _, rfl, rfl, by decide, by decide⟩

/-- C17, amended. When `register_new_variable_name` accepts a plain name with
a type that is not a function, every entry the name already has in the scope
is of kind Class or Enum, and the entry returned is a new one of kind
Variable under that name; it is the registration of variables that keeps this
discipline, whereas enumerators, typedefs and the names of classes and enums
are registered without looking at the entries the name has. -/
theorem variable_registration_prior_kinds (env : collaborators) (tab : scope_store)
    (declarator_id : AST) (declarator_type : type_t) (st : ScopeId)
    (r : scope_store × EntryId)
    (h_name : ASTType declarator_id = node_t.AST_SYMBOL)
    (h_type : declarator_type.is_function = false)
    (h : register_new_variable_name env tab declarator_id declarator_type st = outcome.ok r) :
    (∀ e ∈ query_in_current_scope tab st (ASTText declarator_id),
      (get_entry tab e).kind = cxx_symbol_kind.SK_CLASS ∨
        (get_entry tab e).kind = cxx_symbol_kind.SK_ENUM) ∧
    r.2 = tab.entries.length ∧
    (get_entry r.1 r.2).kind = cxx_symbol_kind.SK_VARIABLE ∧
    (get_entry r.1 r.2).symbol_name = ASTText declarator_id ∧
    (get_entry r.1 r.2).type_information = declarator_type := by
  unfold register_new_variable_name at h
  simp only [h_type, Bool.not_false, if_true, query_id_expression, h_name] at h
  split_ifs at h with hc
  simp only [outcome.pure_eq, outcome.ok.injEq] at h
  subst h
  refine ⟨?_, rfl, ?_, ?_, ?_⟩
  · intro e he
    have hnot : e ∉ filter_symbol_non_kind_set tab
        (query_in_current_scope tab st (ASTText declarator_id))
        [cxx_symbol_kind.SK_CLASS, cxx_symbol_kind.SK_ENUM] := by
      simp only [ne_eq, not_not] at hc
      rw [hc]; exact List.not_mem_nil _
    simp only [filter_symbol_non_kind_set, List.mem_filter, he, true_and, Bool.not_eq_true',
      Bool.not_eq_false] at hnot
    simpa using hnot
  · simp only [get_entry_set_new_symbol]
  · simp only [get_entry_set_new_symbol, get_entry_new_symbol_new]
  · simp only [get_entry_set_new_symbol]

theorem variable_registration_prior_kinds_witness :
    (ASTType (symbol "E") = node_t.AST_SYMBOL ∧ int_type.is_function = false) ∧
    ∃ tab1 r,
      build_scope_simple_declaration sample_collaborators 3 global_store
        (type_declaration enum_E_A) 0 = outcome.ok tab1 ∧
      register_new_variable_name sample_collaborators tab1 (symbol "E") int_type 0
        = outcome.ok r ∧
      ((∀ e ∈ query_in_current_scope tab1 0 (ASTText (symbol "E")),
        (get_entry tab1 e).kind = cxx_symbol_kind.SK_CLASS ∨
          (get_entry tab1 e).kind = cxx_symbol_kind.SK_ENUM) ∧
      r.2 = tab1.entries.length ∧
      (get_entry r.1 r.2).kind = cxx_symbol_kind.SK_VARIABLE ∧
      (get_entry r.1 r.2).symbol_name = ASTText (symbol "E") ∧
      (get_entry r.1 r.2).type_information = int_type) :=
  ⟨by decide, _, _, rfl, rfl,
    variable_registration_prior_kinds sample_collaborators _ (symbol "E") int_type 0 _
      (by decide) (by decide) rfl⟩

/-- A loop over a list that is the concatenation of two runs first over the
one, then over the other. -/
theorem outcome.foldlM_append {σ α : Type} (f : σ → α → outcome σ) (l1 l2 : List α) (s : σ) :
    (l1 ++ l2).foldlM f s = l1.foldlM f s >>= fun s1 => l2.foldlM f s1 := by
  induction l1 generalizing s with
  | nil => simp
  | cons x xs ih =>
    simp only [List.cons_append, List.foldlM_cons, outcome.bind_assoc]
    congr 1
    funext s1
    exact ih s1

/-- A specifier that is accepted leaves the flag `is_extern` set when it was
set, and sets it when it is `extern`. -/
theorem extern_flag_of_specifier (a : AST) (g g' : gather_decl_spec_t)
    (h : gather_decl_spec_information a g = outcome.ok g')
    (hg : g.is_extern = true ∨ ASTType a = node_t.AST_EXTERN_SPEC) :
    gather_decl_spec_t.is_extern g' = true := by
  unfold gather_decl_spec_information at h
  rcases hg with hg | hg
  · split at h <;>
      first
      | (simp only [outcome.pure_eq, outcome.ok.injEq] at h; subst h; first | exact hg | rfl)
      | cases h
  · simp only [hg, outcome.pure_eq, outcome.ok.injEq] at h
    subst h
    rfl

/-- The loop over the specifiers keeps the flag `is_extern`. -/
theorem extern_flag_kept_by_specifiers (l : List AST) (g g' : gather_decl_spec_t)
    (h : l.foldlM (fun g iter => gather_decl_spec_information (ASTSon1 iter) g) g
      = outcome.ok g')
    (hg : g.is_extern = true) : gather_decl_spec_t.is_extern g' = true := by
  induction l generalizing g with
  | nil =>
    simp only [List.foldlM_nil, outcome.pure_eq, outcome.ok.injEq] at h
    subst h; exact hg
  | cons x xs ih =>
    rw [List.foldlM_cons] at h
    cases hx : gather_decl_spec_information (ASTSon1 x) g with
    | ok g1 =>
      rw [hx] at h
      exact ih g1 h (extern_flag_of_specifier _ _ _ hx (Or.inl hg))
    | internal_error m => rw [hx] at h; cases h
    | running_error m => rw [hx] at h; cases h
    | out_of_fuel => rw [hx] at h; cases h

/-- The loop over the specifiers sets the flag `is_extern` when one of them is
`extern`. -/
theorem extern_flag_set_by_specifiers (l : List AST) (g g' : gather_decl_spec_t)
    (h : l.foldlM (fun g iter => gather_decl_spec_information (ASTSon1 iter) g) g
      = outcome.ok g')
    (hl : ∃ iter ∈ l, ASTType (ASTSon1 iter) = node_t.AST_EXTERN_SPEC) :
    gather_decl_spec_t.is_extern g' = true := by
  induction l generalizing g with
  | nil => obtain ⟨iter, hmem, _⟩ := hl; cases hmem
  | cons x xs ih =>
    rw [List.foldlM_cons] at h
    cases hx : gather_decl_spec_information (ASTSon1 x) g with
    | ok g1 =>
      rw [hx] at h
      obtain ⟨iter, hmem, hk⟩ := hl
      cases List.mem_cons.mp hmem with
      | inl heq =>
        subst heq
        exact extern_flag_kept_by_specifiers xs g1 g' h
          (extern_flag_of_specifier _ _ _ hx (Or.inr hk))
      | inr hin => exact ih g1 h ⟨iter, hin, hk⟩
    | internal_error m => rw [hx] at h; cases h
    | running_error m => rw [hx] at h; cases h
    | out_of_fuel => rw [hx] at h; cases h

/-- One of the two specifier lists of a decl-specifier-seq sets or keeps the
flag `is_extern`. -/
theorem extern_flag_of_specifier_list (list : AST) (g g' : gather_decl_spec_t)
    (h : gather_decl_spec_list list g = outcome.ok g')
    (hl : g.is_extern = true ∨
      ∃ iter ∈ for_each_element list, ASTType (ASTSon1 iter) = node_t.AST_EXTERN_SPEC) :
    gather_decl_spec_t.is_extern g' = true := by
  unfold gather_decl_spec_list at h
  split_ifs at h with hn
  · rcases hl with hl | hl
    · exact extern_flag_kept_by_specifiers _ _ _ h hl
    · exact extern_flag_set_by_specifiers _ _ _ h hl
  · rcases hl with hl | hl
    · simp only [outcome.pure_eq, outcome.ok.injEq] at h
      subst h; exact hl
    · simp only [ne_eq, not_not] at hn
      subst hn
      obtain ⟨iter, hmem, _⟩ := hl
      simp [for_each_element] at hmem

/-- A decl-specifier-seq that is accepted and has `extern` among its
specifiers, before or after the type specifier, yields the flag `is_extern`. -/
theorem extern_flag_of_decl_specifier_seq (env : collaborators) (tab : scope_store) (a : AST)
    (st : ScopeId) (info : simple_type_t) (d : scope_store × gather_decl_spec_t × simple_type_t)
    (h : build_scope_decl_specifier_seq env tab a st zero_gather_info info = outcome.ok d)
    (hl : (∃ iter ∈ for_each_element (ASTSon0 a),
        ASTType (ASTSon1 iter) = node_t.AST_EXTERN_SPEC) ∨
      ∃ iter ∈ for_each_element (ASTSon2 a), ASTType (ASTSon1 iter) = node_t.AST_EXTERN_SPEC) :
    gather_decl_spec_t.is_extern d.2.1 = true := by
  unfold build_scope_decl_specifier_seq at h
  cases h1 : gather_decl_spec_list (ASTSon0 a) zero_gather_info with
  | ok g1 =>
    rw [h1] at h
    simp only [outcome.ok_bind] at h
    cases h2 : gather_decl_spec_list (ASTSon2 a) g1 with
    | ok g2 =>
      rw [h2] at h
      simp only [outcome.ok_bind] at h
      have hg2 : g2.is_extern = true := by
        rcases hl with hl | hl
        · exact extern_flag_of_specifier_list _ _ _ h2
            (Or.inl (extern_flag_of_specifier_list _ _ _ h1 (Or.inr hl)))
        · exact extern_flag_of_specifier_list _ _ _ h2 (Or.inr hl)
      split_ifs at h with hn
      · cases h3 : gather_type_spec_information env tab (ASTSon1 a) st zero_simple_type with
        | ok r =>
          rw [h3] at h
          simp only [outcome.ok_bind, outcome.pure_eq, outcome.ok.injEq] at h
          subst h; exact hg2
        | internal_error m => rw [h3] at h; cases h
        | running_error m => rw [h3] at h; cases h
        | out_of_fuel => rw [h3] at h; cases h
      · simp only [outcome.pure_eq, outcome.ok.injEq] at h
        subst h; exact hg2
    | internal_error m => rw [h2] at h; cases h
    | running_error m => rw [h2] at h; cases h
    | out_of_fuel => rw [h2] at h; cases h
  | internal_error m => rw [h1] at h; cases h
  | running_error m => rw [h1] at h; cases h
  | out_of_fuel => rw [h1] at h; cases h

/-- C15 (counterexample): the declaration `extern x = 3;` carries the
specifier `extern` and its init-declarator has the initializer `3`, yet
`build_scope_simple_declaration` accepts it and leaves the store as it was:
without a type specifier the init-declarators are not looked at. -/
theorem extern_initializer_without_type_accepted :
    (∃ spec ∈ for_each_element (ASTSon0 (ASTSon0 extern_x_3)),
      ASTType (ASTSon1 spec) = node_t.AST_EXTERN_SPEC) ∧
    for_each_element (ASTSon1 extern_x_3) = [init_declarator_x_3] ∧
    ASTSon1 (ASTSon1 init_declarator_x_3) = literal "3" ∧
    build_scope_decl_specifier_seq sample_collaborators global_store (ASTSon0 extern_x_3) 0
        zero_gather_info simple_type_t.null =
      outcome.ok (global_store, { zero_gather_info with is_extern := true },
        simple_type_t.null) ∧
    build_scope_simple_declaration sample_collaborators 3 global_store extern_x_3 0 =
      outcome.ok global_store :=
  ⟨⟨_, List.mem_singleton.mpr rfl, by decide⟩, by decide, by decide, by decide, by decide⟩

/-- C15 (amended): a simple declaration whose specifiers are accepted, carry
`extern` and name a type is rejected with the program error `An extern symbol
cannot be initialized` at the first init-declarator that has an initializer,
provided the init-declarators before it are accepted and its own declarator
composes. -/
theorem extern_initializer_rejected (env : collaborators) (fuel : Nat) (tab : scope_store)
    (a : AST) (st : ScopeId) (d : scope_store × gather_decl_spec_t × simple_type_t)
    (before after : List AST) (iter : AST) (tab1 : scope_store) (r : declarator_result)
    (h_kind : ASTType a ≠ node_t.AST_EMPTY_DECL)
    (h_seq : ASTSon0 a ≠ AST.null)
    (h_spec : build_scope_decl_specifier_seq env tab (ASTSon0 a) st zero_gather_info
      simple_type_t.null = outcome.ok d)
    (h_storage : (∃ spec ∈ for_each_element (ASTSon0 (ASTSon0 a)),
        ASTType (ASTSon1 spec) = node_t.AST_EXTERN_SPEC) ∨
      ∃ spec ∈ for_each_element (ASTSon2 (ASTSon0 a)),
        ASTType (ASTSon1 spec) = node_t.AST_EXTERN_SPEC)
    (h_type : d.2.2 ≠ simple_type_t.null)
    (h_list : for_each_element (ASTSon1 a) = before ++ iter :: after)
    (h_before : before.foldlM (build_scope_init_declarator env fuel d.2.1 d.2.2 st) d.1
      = outcome.ok tab1)
    (h_init : ASTSon1 (resolved_init_declarator env tab1 st (ASTSon1 iter)) ≠ AST.null)
    (h_declarator : build_scope_declarator_with_parameter_scope env fuel tab1
      (ASTSon0 (resolved_init_declarator env tab1 st (ASTSon1 iter))) st none d.2.1 d.2.2
      = outcome.ok r) :
    build_scope_simple_declaration env fuel tab a st =
      outcome.running_error "An extern symbol cannot be initialized" := by
  have h_flag := extern_flag_of_decl_specifier_seq env tab (ASTSon0 a) st _ d h_spec h_storage
  have h_nonnull : ASTSon1 a ≠ AST.null := by
    intro hn
    rw [hn] at h_list
    simp [for_each_element] at h_list
  unfold build_scope_simple_declaration
  simp only [h_kind, if_false, h_seq, ne_eq, not_false_eq_true, if_true, h_spec,
    outcome.ok_bind, h_type, h_nonnull, and_self, h_list]
  rw [outcome.foldlM_append, h_before]
  simp only [outcome.ok_bind, List.foldlM_cons]
  have h_step : build_scope_init_declarator env fuel d.2.1 d.2.2 st tab1 iter =
      outcome.running_error "An extern symbol cannot be initialized" := by
    unfold build_scope_init_declarator
    simp only [h_declarator, outcome.ok_bind, h_flag, Bool.not_true, Bool.false_and,
      Bool.false_eq_true, if_false, ne_eq, h_init, not_false_eq_true, if_true]
  rw [h_step]
  rfl

theorem extern_initializer_rejected_witness :
    (ASTType extern_int_x_3 ≠ node_t.AST_EMPTY_DECL ∧ ASTSon0 extern_int_x_3 ≠ AST.null ∧
      (∃ spec ∈ for_each_element (ASTSon0 (ASTSon0 extern_int_x_3)),
        ASTType (ASTSon1 spec) = node_t.AST_EXTERN_SPEC) ∧
      for_each_element (ASTSon1 extern_int_x_3) = [] ++ init_declarator_x_3 :: []) ∧
    build_scope_simple_declaration sample_collaborators 3 global_store extern_int_x_3 0 =
      outcome.running_error "An extern symbol cannot be initialized" :=
  ⟨⟨by decide, by decide, ⟨_, List.mem_singleton.mpr rfl, by decide⟩, by decide⟩,
    extern_initializer_rejected sample_collaborators 3 global_store extern_int_x_3 0
      (global_store, { zero_gather_info with is_extern := true },
        builtin_simple_type builtin_type_t.BT_INT)
      [] [] init_declarator_x_3 global_store declared_x
      (by decide) (by decide) (by decide)
      (Or.inl ⟨_, List.mem_singleton.mpr rfl, by decide⟩)
      (by decide) (by decide) (by decide) (by decide) (by decide)⟩

/-- C16: for a declarator built from `AST_DECLARATOR`,
`AST_PARENTHESIZED_DECLARATOR`, `AST_POINTER_DECL`, `AST_DECLARATOR_ARRAY` and
`AST_DECLARATOR_FUNC` nodes that ends in an `AST_DECLARATOR_ID_EXPR`,
`build_scope_declarator_rec`, given a recursion budget greater than the number
of nodes, returns what the wrappers of the nodes give when they are applied to
the base type one after the other from the root to the name (the wrapper of
the node nearest the name being the outermost constructor), together with the
declarator-id node as the name and the tree unchanged. -/
theorem declarator_rec_applies_wrappers (env : collaborators) (st : ScopeId)
    (gather_info : gather_decl_spec_t) (a : AST) (nodes : List AST) (id_expr : AST)
    (extra : Nat) (tab : scope_store) (parameters_scope : Option ScopeId) (base : type_t)
    (declarator_name : AST)
    (h_plain : declarator_spine a = some (nodes, id_expr)) :
    build_scope_declarator_rec env (extra + nodes.length + 1) tab a st parameters_scope base
        gather_info declarator_name =
      (apply_declarator_wrappers env st gather_info (extra + nodes.length + 1) nodes
        (tab, parameters_scope, base)) >>=
        fun s => pure ⟨s.1, s.2.1, s.2.2, id_expr, a⟩ := by
  induction a generalizing nodes tab parameters_scope base with
  | null => simp [declarator_spine] at h_plain
  | node kind son0 son1 son2 son3 text ih0 ih1 _ _ =>
    unfold declarator_spine at h_plain
    by_cases hid : kind = node_t.AST_DECLARATOR_ID_EXPR
    · subst hid
      simp only [if_true, Option.some.injEq, Prod.mk.injEq] at h_plain
      obtain ⟨rfl, rfl⟩ := h_plain
      rfl
    · rw [if_neg hid] at h_plain
      by_cases h0 : kind = node_t.AST_DECLARATOR ∨ kind = node_t.AST_PARENTHESIZED_DECLARATOR
          ∨ kind = node_t.AST_DECLARATOR_ARRAY ∨ kind = node_t.AST_DECLARATOR_FUNC
      · rw [if_pos h0] at h_plain
        cases hs : declarator_spine son0 with
        | none => rw [hs] at h_plain; cases h_plain
        | some r =>
          rw [hs] at h_plain
          simp only [Option.map_some', Option.some.injEq, Prod.mk.injEq] at h_plain
          obtain ⟨rfl, rfl⟩ := h_plain
          have ih := fun tab ps base => ih0 r.1 tab ps base hs
          have hfuel : extra + (AST.node kind son0 son1 son2 son3 text :: r.1).length + 1
              = (extra + r.1.length + 1) + 1 := by simp only [List.length_cons]; omega
          rw [hfuel]
          rcases h0 with h | h | h | h
          · subst h
            rw [build_scope_declarator_rec]
            simp only [ih, apply_declarator_wrappers, apply_declarator_wrapper, ASTType,
              outcome.pure_eq, outcome.ok_bind, outcome.bind_assoc]
            simp
          · subst h
            rw [build_scope_declarator_rec]
            simp only [ih, apply_declarator_wrappers, apply_declarator_wrapper, ASTType,
              outcome.pure_eq, outcome.ok_bind, outcome.bind_assoc]
            simp
          · subst h
            rw [build_scope_declarator_rec]
            simp only [ih, apply_declarator_wrappers, apply_declarator_wrapper, ASTType, ASTSon1,
              outcome.pure_eq, outcome.ok_bind, outcome.bind_assoc]
            simp
          · subst h
            rw [build_scope_declarator_rec]
            simp only [ih, apply_declarator_wrappers, apply_declarator_wrapper, ASTType, ASTSon1,
              ASTSon2, ASTSon3, outcome.pure_eq, outcome.ok_bind, outcome.bind_assoc]
            simp
      · rw [if_neg h0] at h_plain
        by_cases h1 : kind = node_t.AST_POINTER_DECL
        · rw [if_pos h1] at h_plain
          cases hs : declarator_spine son1 with
          | none => rw [hs] at h_plain; cases h_plain
          | some r =>
            rw [hs] at h_plain
            simp only [Option.map_some', Option.some.injEq, Prod.mk.injEq] at h_plain
            obtain ⟨rfl, rfl⟩ := h_plain
            have ih := fun tab ps base => ih1 r.1 tab ps base hs
            have hfuel : extra + (AST.node kind son0 son1 son2 son3 text :: r.1).length + 1
                = (extra + r.1.length + 1) + 1 := by simp only [List.length_cons]; omega
            rw [hfuel]
            subst h1
            rw [build_scope_declarator_rec]
            simp only [ih, apply_declarator_wrappers, apply_declarator_wrapper, ASTType, ASTSon0,
              outcome.pure_eq, outcome.ok_bind, outcome.bind_assoc, if_true]
        · rw [if_neg h1] at h_plain
          cases h_plain

theorem declarator_rec_applies_wrappers_witness :
    declarator_spine pointer_to_array_f =
      some ([pointer_to_array_f, ASTSon0 pointer_to_array_f,
        ASTSon0 (ASTSon0 pointer_to_array_f)], declarator_id "f") ∧
    apply_declarator_wrappers sample_collaborators 0 zero_gather_info 4
      [pointer_to_array_f, ASTSon0 pointer_to_array_f, ASTSon0 (ASTSon0 pointer_to_array_f)]
      (global_store, none, int_type) =
      outcome.ok (global_store, none,
        type_t.pointer (type_t.array int_type (literal "3")) CV_NONE) ∧
    build_scope_declarator_rec sample_collaborators
        (0 + [pointer_to_array_f, ASTSon0 pointer_to_array_f,
          ASTSon0 (ASTSon0 pointer_to_array_f)].length + 1)
        global_store pointer_to_array_f 0 none int_type zero_gather_info AST.null =
      (apply_declarator_wrappers sample_collaborators 0 zero_gather_info
        (0 + [pointer_to_array_f, ASTSon0 pointer_to_array_f,
          ASTSon0 (ASTSon0 pointer_to_array_f)].length + 1)
        [pointer_to_array_f, ASTSon0 pointer_to_array_f, ASTSon0 (ASTSon0 pointer_to_array_f)]
        (global_store, none, int_type)) >>=
        fun s => pure ⟨s.1, s.2.1, s.2.2, declarator_id "f", pointer_to_array_f⟩ :=
  ⟨by decide, by decide,
    declarator_rec_applies_wrappers sample_collaborators 0 zero_gather_info pointer_to_array_f
      [pointer_to_array_f, ASTSon0 pointer_to_array_f, ASTSon0 (ASTSon0 pointer_to_array_f)]
      (declarator_id "f") 0 global_store none int_type AST.null (by decide)⟩

/-- The store after `set_entry` right after `new_symbol`: the new value stands
at the end of the entries. -/
theorem set_new_symbol_entries (tab : scope_store) (sc : ScopeId) (name : String)
    (v : scope_entry_t) :
    (set_entry (new_symbol tab sc name).1 (new_symbol tab sc name).2 v).entries =
      tab.entries ++ [v] := by
  simp [set_entry, new_symbol]

/-- Registration by `new_symbol` and `set_entry` leaves the other scopes as
they are and puts the new symbol in front of the symbols of the scope. -/
theorem set_new_symbol_scopes (tab : scope_store) (sc : ScopeId) (name : String)
    (v : scope_entry_t) :
    (∀ s, s ≠ sc →
      get_scope (set_entry (new_symbol tab sc name).1 (new_symbol tab sc name).2 v) s =
        get_scope tab s) ∧
    (sc < tab.scopes.length →
      get_scope (set_entry (new_symbol tab sc name).1 (new_symbol tab sc name).2 v) sc =
        { get_scope tab sc with hash := tab.entries.length :: (get_scope tab sc).hash }) := by
  refine ⟨fun s hs => ?_, fun h => ?_⟩
  · rw [get_scope_set_entry, get_scope_new_symbol_other _ _ _ _ hs]
  · rw [get_scope_set_entry, get_scope_new_symbol_same _ _ _ h]

/-- C21: for a plain name with a composed type that is not a function, when
every entry the name already has in the scope is of kind Class or Enum (or it
has none), `register_new_variable_name` raises no error and returns a new
entry: the entries of the store are the old ones, unchanged, followed by one
entry of kind Variable that carries the name, the scope and the composed
type; the other scopes are as they were, and the scope has the new entry in
front of the symbols it had. -/
theorem register_new_variable_beside_types (env : collaborators) (tab : scope_store)
    (declarator_id : AST) (declarator_type : type_t) (st : ScopeId)
    (h_name : ASTType declarator_id = node_t.AST_SYMBOL)
    (h_type : declarator_type.is_function = false)
    (h_prior : ∀ e ∈ query_in_current_scope tab st (ASTText declarator_id),
      (get_entry tab e).kind = cxx_symbol_kind.SK_CLASS ∨
        (get_entry tab e).kind = cxx_symbol_kind.SK_ENUM) :
    ∃ tab',
      register_new_variable_name env tab declarator_id declarator_type st
        = outcome.ok (tab', tab.entries.length) ∧
      tab'.entries = tab.entries ++
        [{ zero_entry with
            symbol_name := ASTText declarator_id, scope := st,
            kind := cxx_symbol_kind.SK_VARIABLE, type_information := declarator_type }] ∧
      (∀ e, e < tab.entries.length → get_entry tab' e = get_entry tab e) ∧
      (∀ s, s ≠ st → get_scope tab' s = get_scope tab s) ∧
      (st < tab.scopes.length →
        get_scope tab' st =
          { get_scope tab st with hash := tab.entries.length :: (get_scope tab st).hash }) := by
  have hcheck : filter_symbol_non_kind_set tab
      (query_in_current_scope tab st (ASTText declarator_id))
      [cxx_symbol_kind.SK_CLASS, cxx_symbol_kind.SK_ENUM] = [] := by
    unfold filter_symbol_non_kind_set
    rw [List.filter_eq_nil_iff]
    intro e he
    rcases h_prior e he with h | h <;> simp [h]
  refine ⟨set_entry (new_symbol tab st (ASTText declarator_id)).1
      (new_symbol tab st (ASTText declarator_id)).2
      { get_entry (new_symbol tab st (ASTText declarator_id)).1
          (new_symbol tab st (ASTText declarator_id)).2 with
          kind := cxx_symbol_kind.SK_VARIABLE, type_information := declarator_type },
    ?_, ?_, ?_, (set_new_symbol_scopes tab st (ASTText declarator_id) _).1,
    (set_new_symbol_scopes tab st (ASTText declarator_id) _).2⟩
  · unfold register_new_variable_name
    simp only [h_type, Bool.not_false, if_true, query_id_expression, h_name, hcheck, ne_eq,
      not_true_eq_false, if_false, outcome.pure_eq, new_symbol_id]
  · rw [set_new_symbol_entries, get_entry_new_symbol_new]
  · intro e he
    rw [get_entry_set_entry, new_symbol_id, if_neg (fun h => absurd h.1 (Nat.ne_of_gt he)),
      get_entry_new_symbol_old _ _ _ _ he]

theorem register_new_variable_beside_types_witness :
    (ASTType (symbol "E") = node_t.AST_SYMBOL ∧ int_type.is_function = false) ∧
    ∃ tab1,
      build_scope_simple_declaration sample_collaborators 3 global_store
        (type_declaration enum_E_A) 0 = outcome.ok tab1 ∧
      kinds_of_name tab1 0 "E" = [cxx_symbol_kind.SK_ENUM] ∧
      ∃ tab',
        register_new_variable_name sample_collaborators tab1 (symbol "E") int_type 0
          = outcome.ok (tab', tab1.entries.length) ∧
        tab'.entries = tab1.entries ++
          [{ zero_entry with
              symbol_name := ASTText (symbol "E"), scope := 0,
              kind := cxx_symbol_kind.SK_VARIABLE, type_information := int_type }] ∧
        (∀ e, e < tab1.entries.length → get_entry tab' e = get_entry tab1 e) ∧
        (∀ s, s ≠ 0 → get_scope tab' s = get_scope tab1 s) ∧
        (0 < tab1.scopes.length →
          get_scope tab' 0 =
            { get_scope tab1 0 with hash := tab1.entries.length :: (get_scope tab1 0).hash }) :=
  ⟨by decide, _, rfl, by decide,
    register_new_variable_beside_types sample_collaborators _ (symbol "E") int_type 0
      (by decide) (by decide) (by decide)⟩

/-- C22: `register_new_typedef_name` raises the redeclaration program error
when lookup of the name yields more than one entry, or a single entry that
`filter_simple_type_specifier` does not accept as a type name; otherwise (no
entry, or a single one that is a type name) it adds one entry at the end of
the entries, of kind Typedef, whose type is a Direct type of kind
`STK_TYPEDEF` with the composed declarator type as aliased type; the older
entries and the other scopes are unchanged. -/
theorem register_new_typedef_name_cases (env : collaborators) (tab : scope_store)
    (declarator_id : AST) (declarator_type : type_t) (st : ScopeId) :
    (2 ≤ (env.query_unqualified_name tab st (ASTText declarator_id)).length →
      register_new_typedef_name env tab declarator_id declarator_type st =
        outcome.running_error
          "Symbol %s in line %d has been redeclared as a different symbol kind.") ∧
    (∀ e, env.query_unqualified_name tab st (ASTText declarator_id) = [e] →
      env.filter_simple_type_specifier tab [e] = none →
      register_new_typedef_name env tab declarator_id declarator_type st =
        outcome.running_error
          "Symbol %s in line %d has been redeclared as a different symbol kind.") ∧
    ((env.query_unqualified_name tab st (ASTText declarator_id) = [] ∨
        ∃ e, env.query_unqualified_name tab st (ASTText declarator_id) = [e] ∧
          env.filter_simple_type_specifier tab [e] ≠ none) →
      ∃ tab',
        register_new_typedef_name env tab declarator_id declarator_type st
          = outcome.ok (tab', tab.entries.length) ∧
        tab'.entries = tab.entries ++
          [{ zero_entry with
              symbol_name := ASTText declarator_id, scope := st,
              kind := cxx_symbol_kind.SK_TYPEDEF,
              type_information :=
                type_t.direct (simple_type_t.mk
                  { zero_simple_type_fields with kind := simple_type_kind_t.STK_TYPEDEF }
                  class_info_t.null declarator_type template_argument_list_t.null) }] ∧
        (∀ s, s ≠ st → get_scope tab' s = get_scope tab s) ∧
        (st < tab.scopes.length →
          get_scope tab' st =
            { get_scope tab st with
                hash := tab.entries.length :: (get_scope tab st).hash })) := by
  refine ⟨?_, ?_, ?_⟩
  · intro h
    unfold register_new_typedef_name
    match hl : env.query_unqualified_name tab st (ASTText declarator_id) with
    | [] => rw [hl] at h; simp at h
    | [_] => rw [hl] at h; simp at h
    | _ :: _ :: _ => rfl
  · intro e hl hf
    unfold register_new_typedef_name
    simp only [hl, hf]
  · intro h
    refine ⟨set_entry (new_symbol tab st (ASTText declarator_id)).1
        (new_symbol tab st (ASTText declarator_id)).2
        { get_entry (new_symbol tab st (ASTText declarator_id)).1
            (new_symbol tab st (ASTText declarator_id)).2 with
            kind := cxx_symbol_kind.SK_TYPEDEF,
            type_information := typedef_type declarator_type },
      ?_, ?_, (set_new_symbol_scopes tab st (ASTText declarator_id) _).1,
      (set_new_symbol_scopes tab st (ASTText declarator_id) _).2⟩
    · unfold register_new_typedef_name
      rcases h with hl | ⟨e, hl, hf⟩
      · simp only [hl, outcome.pure_eq, new_symbol_id]
      · obtain ⟨x, hx⟩ := Option.ne_none_iff_exists'.mp hf
        simp only [hl, hx, outcome.pure_eq, new_symbol_id]
    · rw [set_new_symbol_entries, get_entry_new_symbol_new]
      rfl

theorem register_new_typedef_name_cases_witness :
    ∃ tab2 tab1,
      build_scope_simple_declaration sample_collaborators 3 global_store
        (type_declaration enum_E_A_A) 0 = outcome.ok tab2 ∧
      build_scope_simple_declaration sample_collaborators 3 global_store
        (type_declaration enum_E_A) 0 = outcome.ok tab1 ∧
      (2 ≤ (sample_collaborators.query_unqualified_name tab2 0 (ASTText (symbol "A"))).length ∧
        register_new_typedef_name sample_collaborators tab2 (symbol "A") int_type 0 =
          outcome.running_error
            "Symbol %s in line %d has been redeclared as a different symbol kind.") ∧
      ((sample_collaborators.query_unqualified_name (store_with_variable global_store 0) 0
            (ASTText (symbol "x")) = [0] ∧
          sample_collaborators.filter_simple_type_specifier
            (store_with_variable global_store 0) [0] = none) ∧
        register_new_typedef_name sample_collaborators (store_with_variable global_store 0)
            (symbol "x") int_type 0 =
          outcome.running_error
            "Symbol %s in line %d has been redeclared as a different symbol kind.") ∧
      ((sample_collaborators.query_unqualified_name tab1 0 (ASTText (symbol "E")) = [0] ∧
          sample_collaborators.filter_simple_type_specifier tab1 [0] ≠ none) ∧
        ∃ tab',
          register_new_typedef_name sample_collaborators tab1 (symbol "E") int_type 0
            = outcome.ok (tab', tab1.entries.length) ∧
          tab'.entries = tab1.entries ++
            [{ zero_entry with
                symbol_name := ASTText (symbol "E"), scope := 0,
                kind := cxx_symbol_kind.SK_TYPEDEF,
                type_information :=
                  type_t.direct (simple_type_t.mk
                    { zero_simple_type_fields with kind := simple_type_kind_t.STK_TYPEDEF }
                    class_info_t.null int_type template_argument_list_t.null) }] ∧
          (∀ s, s ≠ 0 → get_scope tab' s = get_scope tab1 s) ∧
          (0 < tab1.scopes.length →
            get_scope tab' 0 =
              { get_scope tab1 0 with
                  hash := tab1.entries.length :: (get_scope tab1 0).hash })) :=
  ⟨_, _, rfl, rfl,
    ⟨by decide,
      (register_new_typedef_name_cases sample_collaborators _ (symbol "A") int_type 0).1
        (by decide)⟩,
    ⟨⟨by decide, by decide⟩,
      (register_new_typedef_name_cases sample_collaborators
        (store_with_variable global_store 0) (symbol "x") int_type 0).2.1 0
        (by decide) (by decide)⟩,
    ⟨⟨by decide, by decide⟩,
      (register_new_typedef_name_cases sample_collaborators _ (symbol "E") int_type 0).2.2
        (Or.inr ⟨0, by decide, by decide⟩)⟩⟩

/-- C24, counterexample. For the base clause `: B` in a symbol table without
any `B`, `build_scope_base_clause` stops with the internal error `Base class
not found!`, which is not a program error. -/
theorem base_class_not_found_not_running_error :
    build_scope_base_clause sample_collaborators (new_class_scope global_store 0).1
        (base_clause "B") 0 1 (empty_class_info 1)
      = outcome.internal_error "Base class not found!" ∧
    (build_scope_base_clause sample_collaborators (new_class_scope global_store 0).1
        (base_clause "B") 0 1 (empty_class_info 1)).is_running_error = false :=
  ⟨by decide, by decide⟩

/-- C24, amended. When the base specifiers before it are accepted and the
name of a base specifier resolves to no entry of kind Class,
TemplatePrimaryClass or TemplateSpecializedClass, `build_scope_base_clause`
stops with the internal error `Base class not found!`; it is not a program
error, and no store and no class information is handed back, so no base is
recorded. -/
theorem base_class_not_found (env : collaborators) (tab : scope_store) (base_clause : AST)
    (st class_scope : ScopeId) (class_info : class_info_t)
    (before after : List AST) (iter : AST) (s : scope_store × class_info_t)
    (n : AST × AST × AST)
    (h_list : for_each_element (ASTSon0 base_clause) = before ++ iter :: after)
    (h_before : before.foldlM (build_scope_base_specifier env st class_scope)
      (tab, class_info) = outcome.ok s)
    (h_kind : base_specifier_name (ASTSon1 iter) = outcome.ok n)
    (h_lookup : filter_symbol_kind_set s.1
      (env.query_nested_name s.1 st n.1 n.2.1 n.2.2
        unqualified_lookup_behaviour_t.FULL_UNQUALIFIED_LOOKUP)
      [cxx_symbol_kind.SK_CLASS, cxx_symbol_kind.SK_TEMPLATE_PRIMARY_CLASS,
        cxx_symbol_kind.SK_TEMPLATE_SPECIALIZED_CLASS] = []) :
    build_scope_base_clause env tab base_clause st class_scope class_info
      = outcome.internal_error "Base class not found!" ∧
    (build_scope_base_clause env tab base_clause st class_scope class_info).is_running_error
      = false ∧
    (build_scope_base_clause env tab base_clause st class_scope class_info).is_ok = false := by
  have h : build_scope_base_clause env tab base_clause st class_scope class_info
      = outcome.internal_error "Base class not found!" := by
    unfold build_scope_base_clause
    rw [h_list, outcome.foldlM_append, h_before]
    simp only [outcome.ok_bind, List.foldlM_cons]
    have h_step : build_scope_base_specifier env st class_scope s iter =
        outcome.internal_error "Base class not found!" := by
      unfold build_scope_base_specifier
      simp only [h_kind, outcome.ok_bind, h_lookup]
    rw [h_step]
    rfl
  rw [h]
  exact ⟨rfl, rfl, rfl⟩

theorem base_class_not_found_witness :
    (for_each_element (ASTSon0 (base_clause "B")) =
        [] ++ ASTSon0 (base_clause "B") :: [] ∧
      ([] : List AST).foldlM (build_scope_base_specifier sample_collaborators 0 1)
        ((new_class_scope global_store 0).1, empty_class_info 1)
        = outcome.ok ((new_class_scope global_store 0).1, empty_class_info 1) ∧
      base_specifier_name (ASTSon1 (ASTSon0 (base_clause "B")))
        = outcome.ok (AST.null, AST.null, symbol "B") ∧
      filter_symbol_kind_set (new_class_scope global_store 0).1
        (sample_collaborators.query_nested_name (new_class_scope global_store 0).1 0
          AST.null AST.null (symbol "B")
          unqualified_lookup_behaviour_t.FULL_UNQUALIFIED_LOOKUP)
        [cxx_symbol_kind.SK_CLASS, cxx_symbol_kind.SK_TEMPLATE_PRIMARY_CLASS,
          cxx_symbol_kind.SK_TEMPLATE_SPECIALIZED_CLASS] = []) ∧
    build_scope_base_clause sample_collaborators (new_class_scope global_store 0).1
        (base_clause "B") 0 1 (empty_class_info 1)
      = outcome.internal_error "Base class not found!" ∧
    (build_scope_base_clause sample_collaborators (new_class_scope global_store 0).1
        (base_clause "B") 0 1 (empty_class_info 1)).is_running_error = false ∧
    (build_scope_base_clause sample_collaborators (new_class_scope global_store 0).1
        (base_clause "B") 0 1 (empty_class_info 1)).is_ok = false :=
  ⟨⟨by decide, rfl, by decide, by decide⟩,
    base_class_not_found sample_collaborators (new_class_scope global_store 0).1
      (base_clause "B") 0 1 (empty_class_info 1) [] [] (ASTSon0 (base_clause "B"))
      ((new_class_scope global_store 0).1, empty_class_info 1) (AST.null, AST.null, symbol "B")
      (by decide) rfl (by decide) (by decide)⟩

/-- A template id with fewer arguments than the primary template has
parameters is not completed when an unfilled position has no default
argument. -/
theorem template_arguments_stop_without_default (env : collaborators) (fuel : Nat)
    (tab : scope_store) (class_head_id : AST) (st : ScopeId) (primary_template : EntryId)
    (k : Nat)
    (h_primary : (env.query_unqualified_name tab st (ASTText (ASTSon0 class_head_id))).find?
      (fun e => (get_entry tab e).kind = cxx_symbol_kind.SK_TEMPLATE_PRIMARY_CLASS)
        = some primary_template)
    (h_unfilled : (for_each_element (ASTSon1 class_head_id)).length ≤ k)
    (h_parameter : k < (get_entry tab primary_template).num_template_parameters)
    (h_default :
      (((get_entry tab primary_template).template_parameter_info[k]?).getD
        { type_info := type_t.null, default_argument := AST.null }).default_argument
        = AST.null) :
    build_scope_template_arguments env fuel tab class_head_id st =
      outcome.internal_error "Parameter %d of template %s has no default argument" := by
  unfold build_scope_template_arguments
  simp only [h_primary]
  have hgt : (get_entry tab primary_template).num_template_parameters
      > (for_each_element (ASTSon1 class_head_id)).length := by omega
  have hmem : k ∈ List.range' (for_each_element (ASTSon1 class_head_id)).length
      ((get_entry tab primary_template).num_template_parameters
        - (for_each_element (ASTSon1 class_head_id)).length) := by
    rw [List.mem_range'_1]; omega
  have hloop := default_completion_loop_fails
    (get_entry tab primary_template).template_parameter_info k _ (ASTSon1 class_head_id)
    hmem h_default
  simp only [hgt, if_true, complete_default_arguments]
  rw [hloop]
  rfl

/-- C30: whatever the parameter, the descriptor `build_scope_nontype_template_parameter`
makes holds no default argument; for `template<int N = 3> class A { };` the
primary template `A` is registered with one parameter descriptor without
default argument, and the template id `A<>`, which omits the argument, is not
completed: `build_scope_template_arguments` stops with the internal error
`Parameter ... has no default argument`, for every recursion budget. -/
theorem nontype_parameter_default_not_stored :
    (∀ env fuel tab a st num_parameter,
      (build_scope_nontype_template_parameter env fuel tab a st num_parameter).bind
          (fun r => outcome.ok r.2.default_argument) =
        (build_scope_nontype_template_parameter env fuel tab a st num_parameter).bind
          (fun _ => outcome.ok AST.null)) ∧
    ∃ tab1,
      build_scope_template_declaration (tie sample_collaborators 1) 8 global_store
        template_int_N_3_class_A 0 = outcome.ok tab1 ∧
      kinds_of_name tab1 0 "A" = [cxx_symbol_kind.SK_TEMPLATE_PRIMARY_CLASS] ∧
      (query_in_current_scope tab1 0 "A").map
          (fun e => ((get_entry tab1 e).num_template_parameters,
            (get_entry tab1 e).template_parameter_info.map
              template_parameter_t.default_argument))
        = [(1, [AST.null])] ∧
      ∀ fuel, build_scope_template_arguments sample_collaborators fuel tab1
          template_id_A_empty 0 =
        outcome.internal_error "Parameter %d of template %s has no default argument" := by
  refine ⟨?_, store_after_template_int_N_3, by decide!, by decide!, by decide!, fun fuel =>
    template_arguments_stop_without_default sample_collaborators fuel
      store_after_template_int_N_3 template_id_A_empty 0 1 0
      (by decide!) (by decide!) (by decide!) (by decide!)⟩
  intro env fuel tab a st num_parameter
  unfold build_scope_nontype_template_parameter
  simp only [outcome.bind_assoc, bind]
  cases h : build_scope_decl_specifier_seq env tab (ASTSon0 a) st zero_gather_info
      simple_type_t.null <;> simp only [outcome.bind]
  split_ifs
  · rfl
  · cases h2 : build_scope_declarator env fuel _ (ASTSon1 a) st _ _ <;> rfl
  · rfl

/-- The descriptor `build_scope_template_parameter` makes at a position: a
type parameter gets the placeholder type of the position, and the base type
of a parameter that is not a type parameter gets the position in
`template_parameter_num` before the declarator, if any, is composed over
it. -/
theorem template_parameter_descriptor (env : collaborators) (fuel : Nat) (tab : scope_store)
    (a : AST) (st : ScopeId) (k : Nat) (r : scope_store × template_parameter_t)
    (h : build_scope_template_parameter env fuel tab a st k = outcome.ok r) :
    ((ASTType a = node_t.AST_TYPE_PARAMETER_CLASS ∨
        ASTType a = node_t.AST_TYPE_PARAMETER_TYPENAME) →
      r.2.type_info = type_template_parameter_type k ∧ r.2.ordinal = some k) ∧
    (ASTType a = node_t.AST_PARAMETER_DECL →
      ∃ d, build_scope_decl_specifier_seq env tab (ASTSon0 a) st zero_gather_info
          simple_type_t.null = outcome.ok d ∧
        (d.2.2.update (fun f => { f with template_parameter_num := k })).fields.template_parameter_num
          = k ∧
        (ASTSon1 a = AST.null →
          r.2.type_info = simple_type_to_type
            (d.2.2.update (fun f => { f with template_parameter_num := k })) ∧
          r.2.ordinal = some k) ∧
        (ASTSon1 a ≠ AST.null →
          ∃ c, build_scope_declarator env (fuel - 1) d.1 (ASTSon1 a) st d.2.1
              (d.2.2.update (fun f => { f with template_parameter_num := k })) = outcome.ok c ∧
            r.2.type_info = c.declarator_type)) := by
  cases fuel with
  | zero => rw [build_scope_template_parameter] at h; cases h
  | succ fuel =>
    rw [build_scope_template_parameter] at h
    refine ⟨fun hk => ?_, fun hk => ?_⟩
    · have hne : ASTType a ≠ node_t.AST_PARAMETER_DECL := by
        rcases hk with hk | hk <;> rw [hk] <;> decide
      rw [if_neg hne, if_pos hk] at h
      simp only [outcome.pure_eq, outcome.ok.injEq] at h
      subst h
      exact ⟨rfl, rfl⟩
    · rw [if_pos hk] at h
      unfold build_scope_nontype_template_parameter at h
      dsimp only at h
      cases hd : build_scope_decl_specifier_seq env tab (ASTSon0 a) st zero_gather_info
          simple_type_t.null with
      | ok d =>
        rw [hd] at h
        simp only [outcome.ok_bind] at h
        by_cases hnull : d.2.2 = simple_type_t.null
        · rw [if_pos hnull] at h; cases h
        · rw [if_neg hnull] at h
          have hnum : (d.2.2.update
              (fun f => { f with template_parameter_num := k })).fields.template_parameter_num
                = k := by
            cases hs : d.2.2 with
            | null => exact absurd hs hnull
            | mk f c al t => rfl
          refine ⟨d, rfl, hnum, fun h1 => ?_, fun h1 => ?_⟩
          · rw [if_neg (not_not.mpr h1)] at h
            simp only [outcome.pure_eq, outcome.ok.injEq] at h
            subst h
            refine ⟨rfl, ?_⟩
            cases hs : d.2.2 with
            | null => exact absurd hs hnull
            | mk f c al t =>
              simp only [template_parameter_t.ordinal, simple_type_to_type, hs,
                simple_type_t.update]
          · rw [if_pos h1] at h
            simp only [Nat.add_sub_cancel]
            cases hc : build_scope_declarator env fuel d.1 (ASTSon1 a) st d.2.1
                (d.2.2.update (fun f => { f with template_parameter_num := k })) with
            | ok c =>
              rw [hc] at h
              simp only [outcome.ok_bind, outcome.pure_eq, outcome.ok.injEq] at h
              subst h
              exact ⟨c, rfl, rfl⟩
            | internal_error m => rw [hc] at h; cases h
            | running_error m => rw [hc] at h; cases h
            | out_of_fuel => rw [hc] at h; cases h
      | internal_error m => rw [hd] at h; cases h
      | running_error m => rw [hd] at h; cases h
      | out_of_fuel => rw [hd] at h; cases h

/-- The loop of `build_scope_template_parameter_list` appends to the
descriptors it starts with one descriptor for each parameter, in order, each
built at the position that is the number of descriptors before it. -/
theorem template_parameter_loop_descriptors (env : collaborators) (fuel : Nat) (st : ScopeId) :
    ∀ (l : List AST) (s r : scope_store × List template_parameter_t),
      l.foldlM
          (fun (s : scope_store × List template_parameter_t) iter => do
            let r ← build_scope_template_parameter env fuel s.1 (ASTSon1 iter) st s.2.length
            pure (r.1, s.2 ++ [r.2]))
          s = outcome.ok r →
      ∃ descriptors : List template_parameter_t,
        r.2 = s.2 ++ descriptors ∧ descriptors.length = l.length ∧
        ∀ k iter, l[k]? = some iter →
          ∃ tab_k tab_k' descriptor,
            descriptors[k]? = some descriptor ∧
            build_scope_template_parameter env fuel tab_k (ASTSon1 iter) st (s.2.length + k)
              = outcome.ok (tab_k', descriptor) := by
  intro l
  induction l with
  | nil =>
    intro s r h
    simp only [List.foldlM_nil, outcome.pure_eq, outcome.ok.injEq] at h
    subst h
    exact ⟨[], by simp, rfl, fun k iter hk => by simp at hk⟩
  | cons x xs ih =>
    intro s r h
    rw [List.foldlM_cons] at h
    cases hx : build_scope_template_parameter env fuel s.1 (ASTSon1 x) st s.2.length with
    | ok r0 =>
      simp only [hx, outcome.ok_bind, outcome.pure_eq] at h
      obtain ⟨descriptors, h1, h2, h3⟩ := ih _ _ h
      refine ⟨r0.2 :: descriptors, ?_, ?_, ?_⟩
      · rw [h1]; simp
      · simp [h2]
      · intro k iter hk
        cases k with
        | zero =>
          simp only [List.getElem?_cons_zero, Option.some.injEq] at hk
          subst hk
          exact ⟨s.1, r0.1, r0.2, by simp, by simpa using hx⟩
        | succ k =>
          simp only [List.getElem?_cons_succ] at hk
          obtain ⟨tab_k, tab_k', descriptor, hd, hb⟩ := h3 k iter hk
          refine ⟨tab_k, tab_k', descriptor, by simpa using hd, ?_⟩
          have : (s.2 ++ [r0.2]).length + k = s.2.length + (k + 1) := by
            simp; omega
          rw [← this]
          exact hb
    | internal_error m => simp only [hx, outcome.internal_error_bind] at h; cases h
    | running_error m => simp only [hx, outcome.running_error_bind] at h; cases h
    | out_of_fuel => simp only [hx, outcome.out_of_fuel_bind] at h; cases h

/-- C27: when `build_scope_template_parameter_list` returns for a list of `n`
parameters, it hands back `n` descriptors, in the order of the declaration,
and the descriptor at the position `k` (from zero) is the one
`build_scope_template_parameter` makes for the `k`-th parameter at the
position `k`: a type parameter has the placeholder type whose
`template_parameter_num` is `k`, and a parameter that is not a type
parameter has `template_parameter_num` set to `k` in its base type, over
which its declarator, if any, is composed. -/
theorem template_parameter_list_ordinals (env : collaborators) (fuel : Nat)
    (tab : scope_store) (a : AST) (st : ScopeId)
    (r : scope_store × List template_parameter_t)
    (h : build_scope_template_parameter_list env fuel tab a st = outcome.ok r) :
    r.2.length = (for_each_element a).length ∧
    ∀ k iter, (for_each_element a)[k]? = some iter →
      ∃ tab_k tab_k' descriptor,
        r.2[k]? = some descriptor ∧
        build_scope_template_parameter env fuel tab_k (ASTSon1 iter) st k
          = outcome.ok (tab_k', descriptor) ∧
        ((ASTType (ASTSon1 iter) = node_t.AST_TYPE_PARAMETER_CLASS ∨
            ASTType (ASTSon1 iter) = node_t.AST_TYPE_PARAMETER_TYPENAME) →
          descriptor.type_info = type_template_parameter_type k ∧
          descriptor.ordinal = some k) ∧
        (ASTType (ASTSon1 iter) = node_t.AST_PARAMETER_DECL →
          ∃ d, build_scope_decl_specifier_seq env tab_k (ASTSon0 (ASTSon1 iter)) st
              zero_gather_info simple_type_t.null = outcome.ok d ∧
            (d.2.2.update
              (fun f => { f with template_parameter_num := k })).fields.template_parameter_num
              = k ∧
            (ASTSon1 (ASTSon1 iter) = AST.null →
              descriptor.type_info = simple_type_to_type
                (d.2.2.update (fun f => { f with template_parameter_num := k })) ∧
              descriptor.ordinal = some k) ∧
            (ASTSon1 (ASTSon1 iter) ≠ AST.null →
              ∃ c, build_scope_declarator env (fuel - 1) d.1 (ASTSon1 (ASTSon1 iter)) st d.2.1
                  (d.2.2.update (fun f => { f with template_parameter_num := k }))
                  = outcome.ok c ∧
                descriptor.type_info = c.declarator_type)) := by
  unfold build_scope_template_parameter_list at h
  obtain ⟨descriptors, h1, h2, h3⟩ :=
    template_parameter_loop_descriptors env fuel st (for_each_element a) (tab, []) r h
  simp only [List.nil_append] at h1
  subst h1
  refine ⟨h2, fun k iter hk => ?_⟩
  obtain ⟨tab_k, tab_k', descriptor, hd, hb⟩ := h3 k iter hk
  simp only [List.length_nil, Nat.zero_add] at hb
  have hdesc := template_parameter_descriptor env fuel tab_k (ASTSon1 iter) st k _ hb
  exact ⟨tab_k, tab_k', descriptor, hd, hb, hdesc.1, hdesc.2⟩

theorem template_parameter_list_ordinals_witness :
    build_scope_template_parameter_list sample_collaborators 8
        (new_template_scope global_store 0).1 parameters_T_N 1
      = outcome.ok parameters_T_N_result ∧
    parameters_T_N_result.2.map template_parameter_t.ordinal = [some 0, some 1] ∧
    parameters_T_N_result.2.length = (for_each_element parameters_T_N).length ∧
    ∀ k iter, (for_each_element parameters_T_N)[k]? = some iter →
      ∃ tab_k tab_k' descriptor,
        parameters_T_N_result.2[k]? = some descriptor ∧
        build_scope_template_parameter sample_collaborators 8 tab_k (ASTSon1 iter) 1 k
          = outcome.ok (tab_k', descriptor) ∧
        ((ASTType (ASTSon1 iter) = node_t.AST_TYPE_PARAMETER_CLASS ∨
            ASTType (ASTSon1 iter) = node_t.AST_TYPE_PARAMETER_TYPENAME) →
          descriptor.type_info = type_template_parameter_type k ∧
          descriptor.ordinal = some k) ∧
        (ASTType (ASTSon1 iter) = node_t.AST_PARAMETER_DECL →
          ∃ d, build_scope_decl_specifier_seq sample_collaborators tab_k
              (ASTSon0 (ASTSon1 iter)) 1 zero_gather_info simple_type_t.null = outcome.ok d ∧
            (d.2.2.update
              (fun f => { f with template_parameter_num := k })).fields.template_parameter_num
              = k ∧
            (ASTSon1 (ASTSon1 iter) = AST.null →
              descriptor.type_info = simple_type_to_type
                (d.2.2.update (fun f => { f with template_parameter_num := k })) ∧
              descriptor.ordinal = some k) ∧
            (ASTSon1 (ASTSon1 iter) ≠ AST.null →
              ∃ c, build_scope_declarator sample_collaborators (8 - 1) d.1
                  (ASTSon1 (ASTSon1 iter)) 1 d.2.1
                  (d.2.2.update (fun f => { f with template_parameter_num := k }))
                  = outcome.ok c ∧
                descriptor.type_info = c.declarator_type)) :=
  ⟨by decide!, by decide!,
    template_parameter_list_ordinals sample_collaborators 8
      (new_template_scope global_store 0).1 parameters_T_N 1 parameters_T_N_result
      (by decide!)⟩

/-- An entry pointer beyond the entries reads a zeroed entry. -/
theorem get_entry_of_length_le (tab : scope_store) (e : Nat) (h : tab.entries.length ≤ e) :
    get_entry tab e = zero_entry := by
  unfold get_entry
  rw [List.getElem?_eq_none h]
  rfl

/-- A store through a pointer to a record leaves the scopes as they are. -/
theorem write_record_scopes (tab : scope_store) (r : simple_type_t) :
    (write_record tab r).scopes = tab.scopes := by
  unfold write_record
  split <;> rfl

/-- A store through a pointer to a record adds no symbol and removes none. -/
theorem write_record_entries_length (tab : scope_store) (r : simple_type_t) :
    (write_record tab r).entries.length = tab.entries.length := by
  unfold write_record
  split
  · rfl
  · simp

/-- A store through a pointer to a record leaves every scope as it is. -/
theorem get_scope_write_record (tab : scope_store) (r : simple_type_t) (s : ScopeId) :
    get_scope (write_record tab r) s = get_scope tab s := by
  unfold get_scope
  rw [write_record_scopes]

/-- A record without a name is held by no type of the symbol table: a store to
it leaves the table as it is. -/
theorem write_record_of_no_address (tab : scope_store) (r : simple_type_t)
    (h : r.fields.address = none) : write_record tab r = tab := by
  unfold write_record
  rw [h]

/-- The symbols after a store through a pointer to a record: the types they
hold show the record as written. -/
theorem get_entry_write_record (tab : scope_store) (r : simple_type_t) (e : EntryId) :
    get_entry (write_record tab r) e =
      match r.fields.address with
      | none => get_entry tab e
      | some _ => (get_entry tab e).rewrite (written_fields r.fields) := by
  cases h : r.fields.address with
  | none => rw [write_record_of_no_address tab r h]
  | some a =>
    unfold write_record get_entry
    simp only [h, List.getElem?_map]
    cases tab.entries[e]? <;> rfl

/-- A store through a pointer to a record changes types only: the name, the
kind, the scope, the definition flag and the linked scope of every symbol are
as they were. -/
theorem get_entry_write_record_frame (tab : scope_store) (r : simple_type_t) (e : EntryId) :
    (get_entry (write_record tab r) e).symbol_name = (get_entry tab e).symbol_name ∧
    (get_entry (write_record tab r) e).kind = (get_entry tab e).kind ∧
    (get_entry (write_record tab r) e).scope = (get_entry tab e).scope ∧
    (get_entry (write_record tab r) e).defined = (get_entry tab e).defined ∧
    (get_entry (write_record tab r) e).related_scope = (get_entry tab e).related_scope := by
  rw [get_entry_write_record]
  cases r.fields.address <;> exact ⟨rfl, rfl, rfl, rfl, rfl⟩

/-- The type of a symbol after a store through a pointer to a record. -/
theorem get_entry_write_record_type (tab : scope_store) (r : simple_type_t) (e : EntryId) :
    (get_entry (write_record tab r) e).type_information =
      (get_entry tab e).type_information.after_write r := by
  rw [get_entry_write_record]
  unfold type_t.after_write
  cases r.fields.address <;> rfl

/-- The function record of a symbol after a store through a pointer to a
record: a function type stays a function type. -/
theorem function_info_after_write (r : simple_type_t) (t : type_t) :
    (t.after_write r).function_info =
      match r.fields.address with
      | none => t.function_info
      | some _ => t.function_info.map (function_info_t.rewrite (written_fields r.fields)) := by
  unfold type_t.after_write
  cases r.fields.address with
  | none => rfl
  | some a => cases t <;> rfl

/-- Assigning a type to a symbol leaves the scopes, the number of symbols and
the other fields of every symbol as they are. -/
theorem set_entry_type_frame (tab : scope_store) (e : Nat) (t : type_t) :
    (set_entry tab e { get_entry tab e with type_information := t }).scopes = tab.scopes ∧
    (set_entry tab e { get_entry tab e with type_information := t }).entries.length
      = tab.entries.length ∧
    (∀ e', e' ≠ e →
      get_entry (set_entry tab e { get_entry tab e with type_information := t }) e'
        = get_entry tab e') ∧
    (∀ e',
      (get_entry (set_entry tab e { get_entry tab e with type_information := t }) e').symbol_name
        = (get_entry tab e').symbol_name ∧
      (get_entry (set_entry tab e { get_entry tab e with type_information := t }) e').kind
        = (get_entry tab e').kind ∧
      (get_entry (set_entry tab e { get_entry tab e with type_information := t }) e').scope
        = (get_entry tab e').scope ∧
      (get_entry (set_entry tab e { get_entry tab e with type_information := t }) e').related_scope
        = (get_entry tab e').related_scope) := by
  refine ⟨rfl, set_entry_length _ _ _, fun e' h => ?_, fun e' => ?_⟩
  · rw [get_entry_set_entry, if_neg (fun hh => h hh.1.symm)]
  · rw [get_entry_set_entry]
    split_ifs with hh
    · rw [← hh.1]; exact ⟨rfl, rfl, rfl, rfl⟩
    · exact ⟨rfl, rfl, rfl, rfl⟩

/-- What `update_class_type` leaves as it was, whatever record the class
symbol holds: the scopes, the number of symbols, every symbol whose type is a
function type, and the fields other than the type of every symbol. -/
theorem update_class_type_frame (tab tab' : scope_store)
    (class_type : Option class_info_pointer) (g : class_info_t → class_info_t)
    (h : update_class_type tab class_type g = outcome.ok tab') :
    tab'.scopes = tab.scopes ∧ tab'.entries.length = tab.entries.length ∧
    (∀ e f, (get_entry tab e).type_information.function_info = some f →
      get_entry tab' e = get_entry tab e) ∧
    (∀ e,
      (get_entry tab' e).symbol_name = (get_entry tab e).symbol_name ∧
      (get_entry tab' e).kind = (get_entry tab e).kind ∧
      (get_entry tab' e).scope = (get_entry tab e).scope ∧
      (get_entry tab' e).related_scope = (get_entry tab e).related_scope) := by
  have hsame : tab' = tab →
      tab'.scopes = tab.scopes ∧ tab'.entries.length = tab.entries.length ∧
      (∀ e f, (get_entry tab e).type_information.function_info = some f →
        get_entry tab' e = get_entry tab e) ∧
      (∀ e,
        (get_entry tab' e).symbol_name = (get_entry tab e).symbol_name ∧
        (get_entry tab' e).kind = (get_entry tab e).kind ∧
        (get_entry tab' e).scope = (get_entry tab e).scope ∧
        (get_entry tab' e).related_scope = (get_entry tab e).related_scope) := by
    intro hh
    subst hh
    exact ⟨rfl, rfl, fun _ _ _ => rfl, fun _ => ⟨rfl, rfl, rfl, rfl⟩⟩
  unfold update_class_type at h
  cases class_type with
  | none => cases h
  | some p =>
    simp only at h
    split at h
    · rename_i f s b c d o v al ta heq
      split_ifs at h
      · simp only [outcome.pure_eq, outcome.ok.injEq] at h
        have hfr := set_entry_type_frame tab p.class_entry
          (type_t.direct (simple_type_t.mk f (g (class_info_t.mk s b c d o v)) al ta))
        rw [← h]
        refine ⟨hfr.1, hfr.2.1, fun e f' hf => ?_, hfr.2.2.2⟩
        apply hfr.2.2.1
        intro hce
        subst hce
        rw [heq] at hf
        cases hf
      · simp only [outcome.pure_eq, outcome.ok.injEq] at h
        exact hsame h.symm
    · simp only [outcome.pure_eq, outcome.ok.injEq] at h
      exact hsame h.symm

/-- What a successful `record_member_function` leaves as it was: the scopes,
the number of symbols, every symbol whose type is a function type, and the
fields other than the type of every symbol. -/
theorem record_member_function_frame (tab tab' : scope_store) (class_name : String)
    (class_type : Option class_info_pointer) (declarator_name : AST) (entry : EntryId)
    (h : record_member_function tab class_name class_type declarator_name entry
      = outcome.ok tab') :
    tab'.scopes = tab.scopes ∧ tab'.entries.length = tab.entries.length ∧
    (∀ e f, (get_entry tab e).type_information.function_info = some f →
      get_entry tab' e = get_entry tab e) ∧
    (∀ e,
      (get_entry tab' e).symbol_name = (get_entry tab e).symbol_name ∧
      (get_entry tab' e).kind = (get_entry tab e).kind ∧
      (get_entry tab' e).scope = (get_entry tab e).scope ∧
      (get_entry tab' e).related_scope = (get_entry tab e).related_scope) := by
  unfold record_member_function at h
  split_ifs at h
  · exact update_class_type_frame _ _ _ _ h
  · simp only [outcome.pure_eq, outcome.ok.injEq] at h
    subst h
    exact ⟨rfl, rfl, fun _ _ _ => rfl, fun _ => ⟨rfl, rfl, rfl, rfl⟩⟩
  · exact update_class_type_frame _ _ _ _ h
  · exact update_class_type_frame _ _ _ _ h
  · split at h
    · cases h
    · exact update_class_type_frame _ _ _ _ h

/-- The steps of a successful `build_scope_member_function_definition` after
the function definition itself: the function is recorded in the class, marked
as a member and, unless it is static, given the symbol `this` in the scope it
is linked to. -/
theorem member_function_definition_result (env : collaborators) (fuel : Nat)
    (tab : scope_store) (a : AST) (st : ScopeId) (current_access : access_specifier_t)
    (class_info : simple_type_t) (c0 : String × Option class_info_pointer)
    (declarator_name : AST)
    (tab1 : scope_store) (entry : EntryId) (r : scope_store × simple_type_t)
    (h_class : class_of_member tab class_info = outcome.ok c0)
    (h_name : get_declarator_name (ASTSon1 a) = outcome.ok declarator_name)
    (h_def : build_scope_function_definition env fuel tab a st = outcome.ok (tab1, entry))
    (h : build_scope_member_function_definition env fuel tab a st current_access class_info
      = outcome.ok r) :
    ∃ tab1' f,
      record_member_function tab1 c0.1 c0.2 declarator_name entry = outcome.ok tab1' ∧
      (get_entry tab1' entry).type_information.function_info = some f ∧
      ((f.is_static = true ∧
          r.1 = set_entry tab1' entry
            { get_entry tab1' entry with
                type_information := type_t.function (f.set_member class_info) }) ∨
        (f.is_static = false ∧
          ∃ rs, (get_entry tab1' entry).related_scope = some rs ∧
            r.1 = introduce_this
              (set_entry tab1' entry
                { get_entry tab1' entry with
                    type_information := type_t.function (f.set_member class_info) })
              rs class_info f.cv_qualifier)) := by
  unfold build_scope_member_function_definition at h
  simp only [h_class, h_name, h_def, outcome.ok_bind] at h
  cases hrec : record_member_function tab1 c0.1 c0.2 declarator_name entry with
  | ok tab1' =>
    rw [hrec] at h
    simp only [outcome.ok_bind] at h
    cases hf : (get_entry tab1' entry).type_information.function_info with
    | none => rw [hf] at h; cases h
    | some f =>
      rw [hf] at h
      simp only at h
      refine ⟨tab1', f, rfl, hf, ?_⟩
      cases hs : f.is_static with
      | true =>
        rw [hs] at h
        simp only [Bool.not_true, Bool.false_eq_true, if_false, outcome.pure_eq,
          outcome.ok.injEq] at h
        exact Or.inl ⟨rfl, by rw [← h]⟩
      | false =>
        rw [hs] at h
        simp only [Bool.not_false, if_true] at h
        have hrel := (set_entry_type_frame tab1' entry
          (type_t.function (f.set_member class_info))).2.2.2 entry
        cases hr : (get_entry (set_entry tab1' entry
            { get_entry tab1' entry with
                type_information := type_t.function (f.set_member class_info) })
            entry).related_scope with
        | none => rw [hr] at h; cases h
        | some rs =>
          rw [hr] at h
          simp only [outcome.pure_eq, outcome.ok.injEq] at h
          refine Or.inr ⟨rfl, rs, ?_, by rw [← h]⟩
          rw [← hrel.2.2.2, hr]
  | internal_error m => rw [hrec] at h; cases h
  | running_error m => rw [hrec] at h; cases h
  | out_of_fuel => rw [hrec] at h; cases h

/-- The symbols there were before `this` was introduced: their types show the
cv-qualification written to the class record through the type of `this`, and
nothing else of them has changed. -/
theorem get_entry_introduce_this (tab : scope_store) (rs : ScopeId) (ct : simple_type_t)
    (cv : cv_qualifier_t) (e : Nat) (h : e < tab.entries.length) :
    get_entry (introduce_this tab rs ct cv) e =
      get_entry (write_record tab (ct.update (fun f => { f with cv_qualifier := cv }))) e := by
  unfold introduce_this
  simp only
  rw [get_entry_set_entry, new_symbol_id,
    if_neg (fun hh => absurd hh.1
      (Nat.ne_of_gt (by rw [write_record_entries_length]; exact h))),
    get_entry_new_symbol_old _ _ _ _ (by rw [write_record_entries_length]; exact h)]

/-- The base clause adds no symbol: it writes the base scopes of the class
scope and the bases of the class. -/
theorem class_bases_entries (env : collaborators) (tab : scope_store) (base_clause : AST)
    (st class_scope : ScopeId) (class_info : class_info_t) (b : scope_store × class_info_t)
    (h : class_bases env tab base_clause st class_scope class_info = outcome.ok b) :
    b.1.entries = tab.entries := by
  have hloop : ∀ (l : List AST) (s b : scope_store × class_info_t),
      l.foldlM (build_scope_base_specifier env st class_scope) s = outcome.ok b →
      b.1.entries = s.1.entries := by
    intro l
    induction l with
    | nil =>
      intro s b h
      simp only [List.foldlM_nil, outcome.pure_eq, outcome.ok.injEq] at h
      rw [h]
    | cons x xs ih =>
      intro s b h
      rw [List.foldlM_cons] at h
      cases hx : build_scope_base_specifier env st class_scope s x with
      | ok s1 =>
        rw [hx] at h
        simp only [outcome.ok_bind] at h
        rw [ih s1 b h]
        unfold build_scope_base_specifier at hx
        dsimp only at hx
        cases hn : base_specifier_name (ASTSon1 x) with
        | ok n =>
          rw [hn] at hx
          simp only [outcome.ok_bind] at hx
          split at hx
          · cases hx
          · simp only [outcome.pure_eq, outcome.ok.injEq] at hx
            rw [← hx]
            rfl
        | internal_error m => rw [hn] at hx; cases hx
        | running_error m => rw [hn] at hx; cases hx
        | out_of_fuel => rw [hn] at hx; cases hx
      | internal_error m => rw [hx] at h; cases h
      | running_error m => rw [hx] at h; cases h
      | out_of_fuel => rw [hx] at h; cases h
  unfold class_bases at h
  split_ifs at h
  · exact hloop _ _ _ h
  · simp only [outcome.pure_eq, outcome.ok.injEq] at h
    rw [← h]

/-- The two cases of `class_symbol`: the only symbol found, when it is a
class, is reused; otherwise a class symbol is created. -/
theorem class_symbol_cases (env : collaborators) (tab : scope_store) (st : ScopeId)
    (name : String) :
    (∀ e, env.query_unqualified_name tab st name = [e] →
      (get_entry tab e).kind = cxx_symbol_kind.SK_CLASS →
      class_symbol env tab st name = (tab, e)) ∧
    ((¬ ∃ e, env.query_unqualified_name tab st name = [e] ∧
        (get_entry tab e).kind = cxx_symbol_kind.SK_CLASS) →
      class_symbol env tab st name =
        (set_entry (new_symbol tab st name).1 (new_symbol tab st name).2
          { get_entry (new_symbol tab st name).1 (new_symbol tab st name).2 with
              kind := cxx_symbol_kind.SK_CLASS }, (new_symbol tab st name).2)) := by
  refine ⟨fun e hl hk => ?_, fun hno => ?_⟩
  · unfold class_symbol
    rw [hl]
    simp only [hk, if_true]
  · unfold class_symbol
    split
    · rename_i e hl
      have hk : (get_entry tab e).kind ≠ cxx_symbol_kind.SK_CLASS :=
        fun hk => hno ⟨e, hl, hk⟩
      rw [if_neg hk]
    · rfl

/-- A symbol of kind Class is one of the entries of the store. -/
theorem lt_length_of_kind_class (tab : scope_store) (e : Nat)
    (h : (get_entry tab e).kind = cxx_symbol_kind.SK_CLASS) : e < tab.entries.length := by
  by_contra hlt
  rw [get_entry_of_length_le tab e (Nat.le_of_not_lt hlt)] at h
  cases h

/-- The head of a class specifier whose name is a plain name, after the
bases: the class symbol is given the class type and the class scope. -/
theorem class_specifier_head_of_symbol (env : collaborators) (fuel : Nat) (tab : scope_store)
    (a : AST) (st : ScopeId) (simple_type_info : simple_type_t)
    (b : scope_store × class_info_t) (h0 : class_head_result)
    (h_symbol : ASTType (ASTSon2 (ASTSon0 a)) = node_t.AST_SYMBOL)
    (h_bases : class_bases env (new_class_scope tab st).1 (ASTSon3 (ASTSon0 a)) st
      (new_class_scope tab st).2
      (class_info_t.mk (some (new_class_scope tab st).2) type_list_t.nil [] none []
        conversion_list_t.nil) = outcome.ok b)
    (h_head : class_specifier_head env fuel tab a st simple_type_info = outcome.ok h0) :
    h0.inner_scope = tab.scopes.length ∧
    h0.class_entry = some (class_symbol env b.1 st (ASTText (ASTSon2 (ASTSon0 a)))).2 ∧
    h0.tab = set_entry (class_symbol env b.1 st (ASTText (ASTSon2 (ASTSon0 a)))).1
      (class_symbol env b.1 st (ASTText (ASTSon2 (ASTSon0 a)))).2
      { get_entry (class_symbol env b.1 st (ASTText (ASTSon2 (ASTSon0 a)))).1
          (class_symbol env b.1 st (ASTText (ASTSon2 (ASTSon0 a)))).2 with
          type_information :=
            copy_type (simple_type_to_type (simple_type_info.set_class_info b.2)),
          related_scope := some h0.inner_scope } := by
  have hne : ASTSon2 (ASTSon0 a) ≠ AST.null := by
    intro hn
    rw [hn] at h_symbol
    cases h_symbol
  unfold class_specifier_head at h_head
  dsimp only at h_head
  rw [h_bases] at h_head
  simp only [outcome.ok_bind] at h_head
  unfold register_class_name class_head_name at h_head
  rw [if_pos hne, if_pos (Or.inl h_symbol), if_pos h_symbol] at h_head
  simp only [outcome.pure_eq, outcome.ok_bind, outcome.ok.injEq] at h_head
  rw [← h_head]
  exact ⟨rfl, rfl, rfl⟩

/-- C23, counterexample. For `class A { void f() { class A { }; } }` in the
global scope the class specifier is accepted, the class scope of `A` is the
scope 1 and the symbol `A` is defined on completion, but its related scope is
the scope 4, the class scope of the local class of `f`, whose class specifier
found the same symbol by lookup and reused it. -/
theorem class_symbol_relinked_by_local_class :
    (gather_type_spec_from_class_specifier (tie sample_collaborators 6) 8 global_store
      class_A_with_local_class_A 0 zero_simple_type).bind (fun r => outcome.ok r.1)
      = outcome.ok store_after_class_A_with_local_class_A ∧
    (class_specifier_head (tie sample_collaborators 6) 8 global_store
      class_A_with_local_class_A 0 zero_simple_type).bind
        (fun h => outcome.ok (h.class_entry, h.inner_scope)) = outcome.ok (some 0, 1) ∧
    store_after_class_A_with_local_class_A.entries.map
        (fun e => (e.symbol_name, e.kind, e.defined, e.related_scope))
      = [("A", cxx_symbol_kind.SK_CLASS, true, some 4),
          ("f", cxx_symbol_kind.SK_FUNCTION, true, some 2),
          ("this", cxx_symbol_kind.SK_VARIABLE, false, none)] ∧
    store_after_class_A_with_local_class_A.scopes.map (fun s => (s.kind, s.contained_in))
      = [(scope_kind_t.NAMESPACE_SCOPE, none), (scope_kind_t.CLASS_SCOPE, some 0),
          (scope_kind_t.FUNCTION_SCOPE, some 1), (scope_kind_t.BLOCK_SCOPE, some 2),
          (scope_kind_t.CLASS_SCOPE, some 3)] ∧
    (get_entry store_after_class_A_with_local_class_A 0).related_scope ≠ some 1 := by
  refine ⟨by decide!, by decide!, by decide!, by decide!, by decide!⟩

/-- C23, amended. When a class specifier named by a plain name is processed
and lookup of the name, after the class scope has been created and the bases
processed, yields exactly one entry and it is of kind Class, that entry is
reused and no entry is added before the members; otherwise exactly one entry
is added, with the name, in the enclosing scope, not yet defined. In both
cases the entry is of kind Class and its related scope is the new class scope
when the members are about to be processed; on completion the entry is
defined, and its kind and related scope are the ones the processing of the
members has left. -/
theorem class_specifier_registers_name (env : collaborators) (fuel : Nat) (tab : scope_store)
    (a : AST) (st : ScopeId) (simple_type_info : simple_type_t)
    (b : scope_store × class_info_t) (h0 : class_head_result)
    (m : scope_store × simple_type_t)
    (h_symbol : ASTType (ASTSon2 (ASTSon0 a)) = node_t.AST_SYMBOL)
    (h_bases : class_bases env (new_class_scope tab st).1 (ASTSon3 (ASTSon0 a)) st
      (new_class_scope tab st).2
      (class_info_t.mk (some (new_class_scope tab st).2) type_list_t.nil [] none []
        conversion_list_t.nil) = outcome.ok b)
    (h_head : class_specifier_head env fuel tab a st simple_type_info = outcome.ok h0)
    (h_loop : member_specification_loop
      (fun (s : scope_store × simple_type_t) member current_access =>
        build_scope_member_declaration env fuel s.1 member h0.inner_scope current_access s.2)
      (ASTSon1 a) (initial_access (ASTSon0 (ASTSon0 a))) (h0.tab, h0.simple_type_info)
        = outcome.ok m) :
    h0.inner_scope = tab.scopes.length ∧ b.1.entries = tab.entries ∧
    ∃ e, h0.class_entry = some e ∧
      (∀ e', env.query_unqualified_name b.1 st (ASTText (ASTSon2 (ASTSon0 a))) = [e'] →
        (get_entry b.1 e').kind = cxx_symbol_kind.SK_CLASS →
        e = e' ∧ h0.tab.entries.length = tab.entries.length) ∧
      ((¬ ∃ e', env.query_unqualified_name b.1 st (ASTText (ASTSon2 (ASTSon0 a))) = [e'] ∧
          (get_entry b.1 e').kind = cxx_symbol_kind.SK_CLASS) →
        e = tab.entries.length ∧ h0.tab.entries.length = tab.entries.length + 1 ∧
        (get_entry h0.tab e).symbol_name = ASTText (ASTSon2 (ASTSon0 a)) ∧
        (get_entry h0.tab e).scope = st ∧ (get_entry h0.tab e).defined = false) ∧
      (get_entry h0.tab e).kind = cxx_symbol_kind.SK_CLASS ∧
      (get_entry h0.tab e).related_scope = some h0.inner_scope ∧
      gather_type_spec_from_class_specifier env fuel tab a st simple_type_info =
        outcome.ok (set_entry m.1 e { get_entry m.1 e with defined := true }, m.2) ∧
      (e < m.1.entries.length →
        (get_entry (set_entry m.1 e { get_entry m.1 e with defined := true }) e).defined
          = true ∧
        (get_entry (set_entry m.1 e { get_entry m.1 e with defined := true }) e).kind
          = (get_entry m.1 e).kind ∧
        (get_entry (set_entry m.1 e { get_entry m.1 e with defined := true }) e).related_scope
          = (get_entry m.1 e).related_scope) := by
  obtain ⟨hinner, hentry, htab⟩ := class_specifier_head_of_symbol env fuel tab a st
    simple_type_info b h0 h_symbol h_bases h_head
  have hb : b.1.entries = tab.entries := by
    rw [class_bases_entries env _ _ _ _ _ b h_bases]
    rfl
  have hcases := class_symbol_cases env b.1 st (ASTText (ASTSon2 (ASTSon0 a)))
  have hfin : gather_type_spec_from_class_specifier env fuel tab a st simple_type_info =
      outcome.ok (set_entry m.1 (class_symbol env b.1 st (ASTText (ASTSon2 (ASTSon0 a)))).2
        { get_entry m.1 (class_symbol env b.1 st (ASTText (ASTSon2 (ASTSon0 a)))).2 with
            defined := true }, m.2) := by
    unfold gather_type_spec_from_class_specifier
    rw [h_head]
    simp only [outcome.ok_bind]
    rw [h_loop]
    simp only [outcome.ok_bind, outcome.pure_eq, class_specifier_finish, hentry]
  have hlast : ∀ e, e < m.1.entries.length →
      (get_entry (set_entry m.1 e { get_entry m.1 e with defined := true }) e).defined
        = true ∧
      (get_entry (set_entry m.1 e { get_entry m.1 e with defined := true }) e).kind
        = (get_entry m.1 e).kind ∧
      (get_entry (set_entry m.1 e { get_entry m.1 e with defined := true }) e).related_scope
        = (get_entry m.1 e).related_scope := by
    intro e he
    rw [get_entry_set_entry, if_pos ⟨rfl, he⟩]
    exact ⟨rfl, rfl, rfl⟩
  refine ⟨hinner, hb, _, hentry, ?_⟩
  by_cases hre : ∃ e', env.query_unqualified_name b.1 st (ASTText (ASTSon2 (ASTSon0 a))) = [e'] ∧
      (get_entry b.1 e').kind = cxx_symbol_kind.SK_CLASS
  · obtain ⟨e1, hl, hk⟩ := hre
    have hsym := hcases.1 e1 hl hk
    have hlt := lt_length_of_kind_class b.1 e1 hk
    rw [hsym] at htab hfin ⊢
    dsimp only at htab hfin ⊢
    refine ⟨fun e' hl' _ => ?_, fun hno => absurd ⟨e1, hl, hk⟩ hno, ?_, ?_, hfin, hlast e1⟩
    · rw [hl] at hl'
      refine ⟨(List.cons.inj hl').1, ?_⟩
      rw [htab, set_entry_length, hb]
    · rw [htab, get_entry_set_entry, if_pos ⟨rfl, hlt⟩]
      exact hk
    · rw [htab, get_entry_set_entry, if_pos ⟨rfl, hlt⟩]
  · have hsym := hcases.2 hre
    rw [hsym] at htab hfin ⊢
    dsimp only at htab hfin ⊢
    have hlen : (set_entry (new_symbol b.1 st (ASTText (ASTSon2 (ASTSon0 a)))).1
        (new_symbol b.1 st (ASTText (ASTSon2 (ASTSon0 a)))).2
        { get_entry (new_symbol b.1 st (ASTText (ASTSon2 (ASTSon0 a)))).1
            (new_symbol b.1 st (ASTText (ASTSon2 (ASTSon0 a)))).2 with
            kind := cxx_symbol_kind.SK_CLASS }).entries.length = tab.entries.length + 1 := by
      rw [set_new_symbol_entries, List.length_append, hb]
      rfl
    have hid : (new_symbol b.1 st (ASTText (ASTSon2 (ASTSon0 a)))).2 = tab.entries.length := by
      rw [new_symbol_id, hb]
    have hget : get_entry h0.tab (new_symbol b.1 st (ASTText (ASTSon2 (ASTSon0 a)))).2 =
        { zero_entry with
            symbol_name := ASTText (ASTSon2 (ASTSon0 a)), scope := st,
            kind := cxx_symbol_kind.SK_CLASS,
            type_information :=
              copy_type (simple_type_to_type (simple_type_info.set_class_info b.2)),
            related_scope := some h0.inner_scope } := by
      rw [htab, get_entry_set_entry, if_pos ⟨rfl, by rw [hlen, hid]; exact Nat.lt_succ_self _⟩,
        get_entry_set_new_symbol, get_entry_new_symbol_new]
    refine ⟨fun e' hl' hk' => absurd ⟨e', hl', hk'⟩ hre, fun _ => ⟨hid, ?_, ?_, ?_, ?_⟩, ?_, ?_,
      hfin, hlast _⟩
    · rw [htab, set_entry_length, hlen]
    · rw [hget]
    · rw [hget]
    · rw [hget]; rfl
    · rw [hget]
    · rw [hget]

theorem class_specifier_registers_name_witness :
    (ASTType (ASTSon2 (ASTSon0 class_A_x_y)) = node_t.AST_SYMBOL ∧
      class_bases (tie sample_collaborators 3)
        (new_class_scope store_with_class_A_declared 0).1 (ASTSon3 (ASTSon0 class_A_x_y)) 0
        (new_class_scope store_with_class_A_declared 0).2
        (class_info_t.mk (some (new_class_scope store_with_class_A_declared 0).2)
          type_list_t.nil [] none [] conversion_list_t.nil)
        = outcome.ok ((new_class_scope store_with_class_A_declared 0).1, empty_class_info 1) ∧
      class_specifier_head (tie sample_collaborators 3) 8 store_with_class_A_declared
        class_A_x_y 0 zero_simple_type = outcome.ok class_A_x_y_head ∧
      member_specification_loop
        (fun (s : scope_store × simple_type_t) member current_access =>
          build_scope_member_declaration (tie sample_collaborators 3) 8 s.1 member
            class_A_x_y_head.inner_scope current_access s.2)
        (ASTSon1 class_A_x_y) (initial_access (ASTSon0 (ASTSon0 class_A_x_y)))
        (class_A_x_y_head.tab, class_A_x_y_head.simple_type_info)
          = outcome.ok class_A_x_y_members) ∧
    (store_with_class_A_declared.entries.map
        (fun e => (e.symbol_name, e.kind, e.defined, e.related_scope))
        = [("A", cxx_symbol_kind.SK_CLASS, false, none)] ∧
      class_A_x_y_members.1.entries.map
        (fun e => (e.symbol_name, e.kind, e.defined, e.related_scope))
        = [("A", cxx_symbol_kind.SK_CLASS, false, some 1),
            ("x", cxx_symbol_kind.SK_VARIABLE, false, none),
            ("y", cxx_symbol_kind.SK_VARIABLE, false, none)]) ∧
    class_A_x_y_head.inner_scope = store_with_class_A_declared.scopes.length ∧
    (new_class_scope store_with_class_A_declared 0).1.entries
      = store_with_class_A_declared.entries ∧
    ∃ e, class_A_x_y_head.class_entry = some e ∧
      (∀ e', (tie sample_collaborators 3).query_unqualified_name
          (new_class_scope store_with_class_A_declared 0).1 0
          (ASTText (ASTSon2 (ASTSon0 class_A_x_y))) = [e'] →
        (get_entry (new_class_scope store_with_class_A_declared 0).1 e').kind
          = cxx_symbol_kind.SK_CLASS →
        e = e' ∧
        class_A_x_y_head.tab.entries.length = store_with_class_A_declared.entries.length) ∧
      ((¬ ∃ e', (tie sample_collaborators 3).query_unqualified_name
            (new_class_scope store_with_class_A_declared 0).1 0
            (ASTText (ASTSon2 (ASTSon0 class_A_x_y))) = [e'] ∧
          (get_entry (new_class_scope store_with_class_A_declared 0).1 e').kind
            = cxx_symbol_kind.SK_CLASS) →
        e = store_with_class_A_declared.entries.length ∧
        class_A_x_y_head.tab.entries.length
          = store_with_class_A_declared.entries.length + 1 ∧
        (get_entry class_A_x_y_head.tab e).symbol_name
          = ASTText (ASTSon2 (ASTSon0 class_A_x_y)) ∧
        (get_entry class_A_x_y_head.tab e).scope = 0 ∧
        (get_entry class_A_x_y_head.tab e).defined = false) ∧
      (get_entry class_A_x_y_head.tab e).kind = cxx_symbol_kind.SK_CLASS ∧
      (get_entry class_A_x_y_head.tab e).related_scope = some class_A_x_y_head.inner_scope ∧
      gather_type_spec_from_class_specifier (tie sample_collaborators 3) 8
          store_with_class_A_declared class_A_x_y 0 zero_simple_type =
        outcome.ok (set_entry class_A_x_y_members.1 e
          { get_entry class_A_x_y_members.1 e with defined := true }, class_A_x_y_members.2) ∧
      (e < class_A_x_y_members.1.entries.length →
        (get_entry (set_entry class_A_x_y_members.1 e
          { get_entry class_A_x_y_members.1 e with defined := true }) e).defined = true ∧
        (get_entry (set_entry class_A_x_y_members.1 e
          { get_entry class_A_x_y_members.1 e with defined := true }) e).kind
          = (get_entry class_A_x_y_members.1 e).kind ∧
        (get_entry (set_entry class_A_x_y_members.1 e
          { get_entry class_A_x_y_members.1 e with defined := true }) e).related_scope
          = (get_entry class_A_x_y_members.1 e).related_scope) :=
  ⟨⟨by decide!, by decide!, by decide!, by decide!⟩, ⟨by decide!, by decide!⟩,
    class_specifier_registers_name (tie sample_collaborators 3) 8 store_with_class_A_declared
      class_A_x_y 0 zero_simple_type
      ((new_class_scope store_with_class_A_declared 0).1, empty_class_info 1)
      class_A_x_y_head class_A_x_y_members (by decide!) (by decide!) (by decide!)
      (by decide!)⟩

/-- The symbol `class_symbol` hands back is one of the entries and of kind
Class. -/
theorem class_symbol_valid (env : collaborators) (tab : scope_store) (st : ScopeId)
    (name : String) :
    (get_entry (class_symbol env tab st name).1 (class_symbol env tab st name).2).kind
      = cxx_symbol_kind.SK_CLASS ∧
    (class_symbol env tab st name).2 < (class_symbol env tab st name).1.entries.length := by
  have hcases := class_symbol_cases env tab st name
  by_cases hre : ∃ e, env.query_unqualified_name tab st name = [e] ∧
      (get_entry tab e).kind = cxx_symbol_kind.SK_CLASS
  · obtain ⟨e, hl, hk⟩ := hre
    rw [hcases.1 e hl hk]
    exact ⟨hk, lt_length_of_kind_class tab e hk⟩
  · rw [hcases.2 hre]
    dsimp only
    rw [get_entry_set_new_symbol, set_new_symbol_entries, new_symbol_id, List.length_append]
    exact ⟨rfl, Nat.lt_succ_self _⟩

/-- The head of a class specifier whose name is a template id, after the
bases: the template arguments are processed and stored in the class type the
class symbol is given. -/
theorem class_specifier_head_of_template_id (env : collaborators) (fuel : Nat)
    (tab : scope_store) (a : AST) (st : ScopeId) (simple_type_info : simple_type_t)
    (b : scope_store × class_info_t) (h0 : class_head_result)
    (r : scope_store × template_argument_list_t × AST)
    (h_id : ASTType (ASTSon2 (ASTSon0 a)) = node_t.AST_TEMPLATE_ID)
    (h_bases : class_bases env (new_class_scope tab st).1 (ASTSon3 (ASTSon0 a)) st
      (new_class_scope tab st).2
      (class_info_t.mk (some (new_class_scope tab st).2) type_list_t.nil [] none []
        conversion_list_t.nil) = outcome.ok b)
    (h_args : build_scope_template_arguments env fuel b.1 (ASTSon2 (ASTSon0 a)) st
      = outcome.ok r)
    (h_head : class_specifier_head env fuel tab a st simple_type_info = outcome.ok h0) :
    h0.class_entry = some (class_symbol env r.1 st (ASTText (ASTSon0 (ASTSon2 (ASTSon0 a))))).2 ∧
    h0.tab = set_entry (class_symbol env r.1 st (ASTText (ASTSon0 (ASTSon2 (ASTSon0 a))))).1
      (class_symbol env r.1 st (ASTText (ASTSon0 (ASTSon2 (ASTSon0 a))))).2
      { get_entry (class_symbol env r.1 st (ASTText (ASTSon0 (ASTSon2 (ASTSon0 a))))).1
          (class_symbol env r.1 st (ASTText (ASTSon0 (ASTSon2 (ASTSon0 a))))).2 with
          type_information :=
            copy_type (simple_type_to_type
              ((simple_type_info.set_class_info b.2).set_template_arguments r.2.1)),
          related_scope := some h0.inner_scope } := by
  have hne : ASTSon2 (ASTSon0 a) ≠ AST.null := by
    intro hn
    rw [hn] at h_id
    cases h_id
  have hns : ASTType (ASTSon2 (ASTSon0 a)) ≠ node_t.AST_SYMBOL := by
    rw [h_id]; decide
  unfold class_specifier_head at h_head
  dsimp only at h_head
  rw [h_bases] at h_head
  simp only [outcome.ok_bind] at h_head
  unfold register_class_name class_head_name at h_head
  rw [if_pos hne, if_pos (Or.inr h_id), if_neg hns, h_args] at h_head
  simp only [outcome.pure_eq, outcome.ok_bind, outcome.ok.injEq] at h_head
  rw [← h_head]
  exact ⟨rfl, rfl⟩

/-- A sequence of two steps that returns: the first step returns, and the
second returns on its value. -/
theorem outcome.bind_eq_ok {α β : Type} (x : outcome α) (f : α → outcome β) (r : β)
    (h : (x >>= f) = outcome.ok r) : ∃ v, x = outcome.ok v ∧ f v = outcome.ok r := by
  cases x with
  | ok v => exact ⟨v, rfl, h⟩
  | internal_error m => cases h
  | running_error m => cases h
  | out_of_fuel => cases h

/-- The argument list `build_scope_template_arguments` hands back is not
`NULL`. -/
theorem build_scope_template_arguments_list (env : collaborators) (fuel : Nat)
    (tab : scope_store) (class_head_id : AST) (st : ScopeId)
    (r : scope_store × template_argument_list_t × AST)
    (h : build_scope_template_arguments env fuel tab class_head_id st = outcome.ok r) :
    ∃ l, r.2.1 = template_argument_list_t.mk l := by
  unfold build_scope_template_arguments at h
  dsimp only at h
  split at h
  · cases h
  · split_ifs at h
    · obtain ⟨_, _, h⟩ := outcome.bind_eq_ok _ _ _ h
      obtain ⟨_, _, h⟩ := outcome.bind_eq_ok _ _ _ h
      obtain ⟨l, _, h⟩ := outcome.bind_eq_ok _ _ _ h
      simp only [outcome.pure_eq, outcome.ok.injEq] at h
      exact ⟨l.2, by rw [← h]⟩
    · obtain ⟨_, _, h⟩ := outcome.bind_eq_ok _ _ _ h
      obtain ⟨l, _, h⟩ := outcome.bind_eq_ok _ _ _ h
      simp only [outcome.pure_eq, outcome.ok.injEq] at h
      exact ⟨l.2, by rw [← h]⟩

/-! ### What a run may do to the symbol table -/

theorem outcome.holds_ok {α : Type} {P : α → Prop} {a : α} (h : P a) :
    (outcome.ok a).holds P := by
  intro r hr
  cases hr
  exact h

theorem outcome.holds_pure {α : Type} {P : α → Prop} {a : α} (h : P a) :
    (pure a : outcome α).holds P := outcome.holds_ok h

theorem outcome.holds_internal_error {α : Type} {P : α → Prop} {m : String} :
    (outcome.internal_error m : outcome α).holds P := by
  intro r hr; cases hr

theorem outcome.holds_running_error {α : Type} {P : α → Prop} {m : String} :
    (outcome.running_error m : outcome α).holds P := by
  intro r hr; cases hr

theorem outcome.holds_out_of_fuel {α : Type} {P : α → Prop} :
    (outcome.out_of_fuel : outcome α).holds P := by
  intro r hr; cases hr

theorem outcome.holds_null_dereference {α : Type} {P : α → Prop} :
    (null_dereference : outcome α).holds P := by
  intro r hr; cases hr

theorem outcome.holds_bind {α β : Type} {x : outcome α} {f : α → outcome β} {P : α → Prop}
    {Q : β → Prop} (hx : x.holds P) (hf : ∀ a, P a → (f a).holds Q) : (x >>= f).holds Q := by
  cases x with
  | ok a => exact hf a (hx a rfl)
  | internal_error m => intro r hr; cases hr
  | running_error m => intro r hr; cases hr
  | out_of_fuel => intro r hr; cases hr

theorem outcome.holds_mono {α : Type} {x : outcome α} {P Q : α → Prop} (hx : x.holds P)
    (h : ∀ a, P a → Q a) : x.holds Q :=
  fun r hr => h r (hx r hr)

theorem outcome.holds_foldlM {σ α : Type} {f : σ → α → outcome σ} {I : σ → Prop}
    (l : List α) (s : σ) (h0 : I s) (hstep : ∀ s x, I s → (f s x).holds I) :
    (l.foldlM f s).holds I := by
  induction l generalizing s with
  | nil => exact outcome.holds_pure h0
  | cons x xs ih =>
    rw [List.foldlM_cons]
    exact outcome.holds_bind (hstep s x h0) (fun a ha => ih a ha)

theorem steps.refl (st : ScopeId) (tab : scope_store) : steps st tab tab :=
  ⟨Nat.le_refl _, Nat.le_refl _, fun _ h => h, fun h _ => h, fun _ _ _ _ => rfl⟩

theorem steps.trans {st st2 : ScopeId} {tab tab1 tab2 : scope_store} (h1 : steps st tab tab1)
    (hv : store_wf tab1 → st < tab1.scopes.length → st2 < tab1.scopes.length)
    (h2 : steps st2 tab1 tab2) : steps st tab tab2 :=
  ⟨Nat.le_trans h1.scopes_le h2.scopes_le, Nat.le_trans h1.entries_le h2.entries_le,
    fun e h => h2.defined_mono e (h1.defined_mono e h),
    fun hw hs =>
      h2.wf (h1.wf hw hs) (hv (h1.wf hw hs) (Nat.lt_of_lt_of_le hs h1.scopes_le)),
    fun hw hs s hss =>
      (h2.links (h1.wf hw hs) (hv (h1.wf hw hs) (Nat.lt_of_lt_of_le hs h1.scopes_le)) s
        (Nat.lt_of_lt_of_le hss h1.scopes_le)).trans (h1.links hw hs s hss)⟩

theorem steps.trans_same {st : ScopeId} {tab tab1 tab2 : scope_store} (h1 : steps st tab tab1)
    (h2 : steps st tab1 tab2) : steps st tab tab2 :=
  h1.trans (fun _ h => h) h2

/-- What is done in a scope created on the way counts as done in the scope
the run started in. -/
theorem steps.trans_new {st st2 : ScopeId} {tab tab1 tab2 : scope_store}
    (h1 : steps st tab tab1) (hv : st2 < tab1.scopes.length) (h2 : steps st2 tab1 tab2) :
    steps st tab tab2 :=
  h1.trans (fun _ _ => hv) h2

/-- The scope in which a run happens does not matter for a step that creates
no scope. -/
theorem steps.of_wf {st : ScopeId} {tab tab' : scope_store}
    (hs : tab.scopes.length ≤ tab'.scopes.length) (he : tab.entries.length ≤ tab'.entries.length)
    (hd : ∀ e, (get_entry tab e).defined = true → (get_entry tab' e).defined = true)
    (hw : store_wf tab → store_wf tab')
    (hl : ∀ s, s < tab.scopes.length →
      (get_scope tab' s).template_scope = (get_scope tab s).template_scope) :
    steps st tab tab' :=
  ⟨hs, he, hd, fun h _ => hw h, fun _ _ => hl⟩

theorem steps.change_scope {st st2 : ScopeId} {tab tab' : scope_store} (h : steps st tab tab')
    (hv : store_wf tab → st2 < tab.scopes.length → st < tab.scopes.length) :
    steps st2 tab tab' :=
  ⟨h.scopes_le, h.entries_le, h.defined_mono, fun hw hs => h.wf hw (hv hw hs),
    fun hw hs => h.links hw (hv hw hs)⟩

theorem get_scope_new_symbol_contained_in (tab : scope_store) (sc : ScopeId) (name : String)
    (s : ScopeId) :
    (get_scope (new_symbol tab sc name).1 s).contained_in = (get_scope tab s).contained_in := by
  unfold new_symbol
  simp only [get_scope, List.getElem?_set]
  by_cases h : sc = s
  · subst h
    by_cases hl : sc < tab.scopes.length
    · simp [hl, List.getElem?_eq_getElem hl]
    · simp [hl, List.getElem?_eq_none (Nat.le_of_not_lt hl)]
  · simp [h]

theorem get_scope_new_symbol_template_scope (tab : scope_store) (sc : ScopeId) (name : String)
    (s : ScopeId) :
    (get_scope (new_symbol tab sc name).1 s).template_scope = (get_scope tab s).template_scope := by
  unfold new_symbol
  simp only [get_scope, List.getElem?_set]
  by_cases h : sc = s
  · subst h
    by_cases hl : sc < tab.scopes.length
    · simp [hl, List.getElem?_eq_getElem hl]
    · simp [hl, List.getElem?_eq_none (Nat.le_of_not_lt hl)]
  · simp [h]

theorem new_symbol_scopes_length (tab : scope_store) (sc : ScopeId) (name : String) :
    (new_symbol tab sc name).1.scopes.length = tab.scopes.length := by
  simp [new_symbol]

theorem new_symbol_entries_length (tab : scope_store) (sc : ScopeId) (name : String) :
    (new_symbol tab sc name).1.entries.length = tab.entries.length + 1 := by
  simp [new_symbol]

theorem get_entry_new_symbol (tab : scope_store) (sc : ScopeId) (name : String)
    (e : Nat) :
    get_entry (new_symbol tab sc name).1 e =
      if e = tab.entries.length then { zero_entry with symbol_name := name, scope := sc }
      else get_entry tab e := by
  by_cases h : e < tab.entries.length
  · rw [get_entry_new_symbol_old tab sc name e h, if_neg (Nat.ne_of_lt h)]
  · by_cases h2 : e = tab.entries.length
    · subst h2
      simp [get_entry, new_symbol]
    · rw [if_neg h2]
      have h3 : (tab.entries ++
          [{ zero_entry with symbol_name := name, scope := sc }]).length ≤ e := by
        simp only [List.length_append, List.length_singleton]; omega
      have h4 : tab.entries.length ≤ e := by omega
      simp only [get_entry, new_symbol]
      rw [List.getElem?_eq_none h3, List.getElem?_eq_none h4]

theorem steps_new_symbol (st : ScopeId) (tab : scope_store) (sc : ScopeId) (name : String) :
    steps st tab (new_symbol tab sc name).1 := by
  refine steps.of_wf ?_ ?_ ?_ ?_ (fun s _ => get_scope_new_symbol_template_scope tab sc name s)
  · rw [new_symbol_scopes_length]
  · rw [new_symbol_entries_length]; omega
  · intro e h
    rw [get_entry_new_symbol]
    split_ifs with he
    · subst he
      simp [get_entry, zero_entry] at h
    · exact h
  · intro hw
    refine ⟨?_, ?_⟩
    · intro e s h
      rw [new_symbol_scopes_length]
      rw [get_entry_new_symbol] at h
      split_ifs at h with he
      · simp [zero_entry] at h
      · exact hw.1 e s h
    · intro s hs
      rw [new_symbol_scopes_length] at hs
      rw [get_scope_new_symbol_contained_in]
      exact hw.2 s hs

theorem steps_set_entry (st : ScopeId) (tab : scope_store) (e : EntryId) (v : scope_entry_t)
    (hd : (get_entry tab e).defined = true → v.defined = true)
    (hr : store_wf tab → st < tab.scopes.length →
      ∀ s, v.related_scope = some s → s < tab.scopes.length) :
    steps st tab (set_entry tab e v) := by
  refine ⟨?_, ?_, ?_, ?_, fun _ _ _ _ => rfl⟩
  · rw [set_entry_scopes]
  · rw [set_entry_length]
  · intro e' h
    rw [get_entry_set_entry]
    split_ifs with he
    · obtain ⟨rfl, _⟩ := he
      exact hd h
    · exact h
  · intro hw hs
    refine ⟨?_, ?_⟩
    · intro e' s h
      rw [set_entry_scopes]
      rw [get_entry_set_entry] at h
      split_ifs at h with he
      · exact hr hw hs s h
      · exact hw.1 e' s h
    · intro s hs'
      rw [set_entry_scopes] at hs'
      rw [get_scope_set_entry]
      exact hw.2 s hs'

/-- An update of a symbol that leaves its definition flag or sets it, and
leaves its scope. -/
theorem steps_set_entry_keep (st : ScopeId) (tab : scope_store) (e : EntryId)
    (v : scope_entry_t)
    (hd : v.defined = (get_entry tab e).defined ∨ v.defined = true)
    (hr : v.related_scope = (get_entry tab e).related_scope) :
    steps st tab (set_entry tab e v) := by
  apply steps_set_entry
  · intro h
    rcases hd with hd | hd
    · rw [hd]; exact h
    · exact hd
  · intro hw _ s hs
    rw [hr] at hs
    exact hw.1 e s hs

/-- A store through a pointer to a record changes types only. -/
theorem steps_write_record (st : ScopeId) (tab : scope_store) (r : simple_type_t) :
    steps st tab (write_record tab r) := by
  refine steps.of_wf ?_ ?_ ?_ ?_ (fun s _ => by rw [get_scope_write_record])
  · rw [write_record_scopes]
  · rw [write_record_entries_length]
  · intro e h
    rw [(get_entry_write_record_frame tab r e).2.2.2.1]
    exact h
  · intro hw
    refine ⟨?_, ?_⟩
    · intro e s h
      rw [write_record_scopes]
      rw [(get_entry_write_record_frame tab r e).2.2.2.2] at h
      exact hw.1 e s h
    · intro s hs
      rw [write_record_scopes] at hs
      rw [get_scope_write_record]
      exact hw.2 s hs

theorem set_scope_length (tab : scope_store) (s : ScopeId) (v : scope_t) :
    (set_scope tab s v).scopes.length = tab.scopes.length := by
  simp [set_scope]

theorem get_entry_set_scope (tab : scope_store) (s : ScopeId) (v : scope_t) (e : EntryId) :
    get_entry (set_scope tab s v) e = get_entry tab e := rfl

theorem steps_set_scope (st : ScopeId) (tab : scope_store) (s : ScopeId) (v : scope_t)
    (hc : v.contained_in = (get_scope tab s).contained_in)
    (ht : v.template_scope = (get_scope tab s).template_scope) :
    steps st tab (set_scope tab s v) := by
  refine steps.of_wf ?_ ?_ ?_ ?_ ?_
  rotate_right
  · intro s' _
    rw [get_scope_set_scope]
    split_ifs with he
    · obtain ⟨rfl, _⟩ := he
      exact ht
    · rfl
  · rw [set_scope_length]
  · exact Nat.le_refl _
  · intro e h; exact h
  · intro hw
    refine ⟨?_, ?_⟩
    · intro e s' h
      rw [set_scope_length]
      exact hw.1 e s' h
    · intro s' hs'
      rw [set_scope_length] at hs'
      rw [get_scope_set_scope]
      split_ifs with he
      · obtain ⟨rfl, _⟩ := he
        rw [hc]
        exact hw.2 s hs'
      · exact hw.2 s' hs'

theorem new_scope_id (tab : scope_store) (kind : scope_kind_t) (enclosing : Option ScopeId)
    (p f : Option ScopeId) : (new_scope tab kind enclosing p f).2 = tab.scopes.length := rfl

theorem new_scope_length (tab : scope_store) (kind : scope_kind_t)
    (enclosing : Option ScopeId) (p f : Option ScopeId) :
    (new_scope tab kind enclosing p f).1.scopes.length = tab.scopes.length + 1 := by
  simp [new_scope]

theorem new_scope_valid (tab : scope_store) (kind : scope_kind_t) (enclosing : Option ScopeId)
    (p f : Option ScopeId) :
    (new_scope tab kind enclosing p f).2 < (new_scope tab kind enclosing p f).1.scopes.length := by
  rw [new_scope_id, new_scope_length]
  exact Nat.lt_succ_self _

theorem get_entry_new_scope (tab : scope_store) (kind : scope_kind_t)
    (enclosing : Option ScopeId) (p f : Option ScopeId) (e : EntryId) :
    get_entry (new_scope tab kind enclosing p f).1 e = get_entry tab e := rfl

theorem get_scope_new_scope (tab : scope_store) (kind : scope_kind_t)
    (enclosing : Option ScopeId) (p f : Option ScopeId) (s : Nat) :
    get_scope (new_scope tab kind enclosing p f).1 s =
      if s = tab.scopes.length then
        { empty_scope kind enclosing with prototype_scope := p, function_scope := f }
      else get_scope tab s := by
  unfold new_scope get_scope
  simp only
  by_cases h : s < tab.scopes.length
  · rw [List.getElem?_append_left h, if_neg (Nat.ne_of_lt h)]
  · by_cases h2 : s = tab.scopes.length
    · subst h2
      simp
    · rw [if_neg h2]
      have h3 : (tab.scopes ++
          [{ empty_scope kind enclosing with
              prototype_scope := p, function_scope := f }]).length ≤ s := by
        simp only [List.length_append, List.length_singleton]; omega
      have h4 : tab.scopes.length ≤ s := by omega
      rw [List.getElem?_eq_none h3, List.getElem?_eq_none h4]

/-- A scope created in an existing scope. -/
theorem steps_new_scope (st : ScopeId) (tab : scope_store) (kind : scope_kind_t)
    (p f : Option ScopeId) : steps st tab (new_scope tab kind (some st) p f).1 := by
  refine ⟨?_, ?_, ?_, ?_, ?_⟩
  rotate_right
  · intro _ _ s hs'
    rw [get_scope_new_scope, if_neg (Nat.ne_of_lt hs')]
  · rw [new_scope_length]; exact Nat.le_succ _
  · exact Nat.le_refl _
  · intro e h; exact h
  · intro hw hs
    refine ⟨?_, ?_⟩
    · intro e s h
      rw [new_scope_length]
      exact Nat.lt_succ_of_lt (hw.1 e s h)
    · intro s hs'
      rw [new_scope_length] at hs'
      rw [get_scope_new_scope]
      split_ifs with he
      · subst he
        right
        exact ⟨st, rfl, hs⟩
      · exact hw.2 s (Nat.lt_of_le_of_ne (Nat.le_of_lt_succ hs') he)

/-- A symbol is created and filled in. -/
theorem steps_register (st : ScopeId) (tab : scope_store) (sc : ScopeId) (name : String)
    (v : scope_entry_t)
    (hr : v.related_scope =
      (get_entry (new_symbol tab sc name).1 (new_symbol tab sc name).2).related_scope) :
    steps st tab (set_entry (new_symbol tab sc name).1 (new_symbol tab sc name).2 v) := by
  refine steps.trans_same (steps_new_symbol st tab sc name) ?_
  apply steps_set_entry
  · intro h
    rw [get_entry_new_symbol, new_symbol_id, if_pos rfl] at h
    simp [zero_entry] at h
  · intro hw _ s hs
    rw [hr] at hs
    exact hw.1 _ s hs

theorem outcome.holds_true {α : Type} (x : outcome α) : x.holds (fun _ => True) :=
  fun _ _ => trivial

/-! ### Type specifiers -/

theorem gather_type_spec_from_elaborated_steps (env : collaborators) (tab : scope_store)
    (st : ScopeId) (global_scope nested_name_specifier symbol : AST)
    (wanted : List cxx_symbol_kind) (stub_kind : cxx_symbol_kind)
    (stub_simple_kind : simple_type_kind_t) (type_info : simple_type_t) :
    steps st tab (gather_type_spec_from_elaborated env tab st global_scope
      nested_name_specifier symbol wanted stub_kind stub_simple_kind type_info).1 := by
  unfold gather_type_spec_from_elaborated
  simp only
  split
  · split_ifs
    · exact steps_register st tab st _ _ rfl
    · exact steps.refl st tab
  · exact steps.refl st tab

theorem add_enumeration_steps (st : ScopeId) (tab : scope_store) (target : Option EntryId)
    (info : simple_type_t) (item : EntryId) :
    steps st tab (add_enumeration tab target info item).1 := by
  unfold add_enumeration
  cases target with
  | none => exact steps.refl st tab
  | some e => exact steps_set_entry_keep st _ _ _ (Or.inl rfl) rfl

theorem enumerator_step_steps (env : collaborators) (st : ScopeId) (target : Option EntryId)
    (s : enum_state) (iter : AST) :
    steps st s.tab (enumerator_step env st target s iter).tab := by
  unfold enumerator_step
  simp only
  refine steps.trans_same ?_ (add_enumeration_steps st _ _ _ _)
  refine steps.trans_same ?_ (steps_set_entry_keep st _ _ _ (Or.inl rfl) rfl)
  refine steps.trans_same ?_ (steps_set_entry_keep st _ _ _ (Or.inl rfl) rfl)
  exact steps_new_symbol st s.tab st _

theorem enumerator_loop_steps (env : collaborators) (st : ScopeId) (target : Option EntryId)
    (iters : List AST) (s : enum_state) :
    steps st s.tab (enumerator_loop env st target iters s).tab := by
  induction iters generalizing s with
  | nil => exact steps.refl st s.tab
  | cons x xs ih =>
    have hloop : enumerator_loop env st target (x :: xs) s =
        enumerator_loop env st target xs (enumerator_step env st target s x) := rfl
    rw [hloop]
    exact (enumerator_step_steps env st target s x).trans_same (ih _)

theorem register_enum_name_steps (env : collaborators) (tab : scope_store) (a : AST)
    (st : ScopeId) (info : simple_type_t) :
    steps st tab (register_enum_name env tab a st info).1 := by
  unfold register_enum_name
  simp only
  split_ifs with hn
  · simp only
    refine steps.trans_same ?_ (steps_set_entry_keep st _ _ _ (Or.inr rfl) rfl)
    split
    · split_ifs
      · exact steps.refl st tab
      · exact steps_register st tab st _ _ rfl
    · exact steps_register st tab st _ _ rfl
  · exact steps.refl st tab

theorem gather_type_spec_from_enum_specifier_steps (env : collaborators) (tab : scope_store)
    (a : AST) (st : ScopeId) (info : simple_type_t) :
    steps st tab (gather_type_spec_from_enum_specifier env tab a st info).1 := by
  unfold gather_type_spec_from_enum_specifier
  simp only
  split_ifs
  · exact (register_enum_name_steps env tab a st info).trans_same
      (enumerator_loop_steps env st _ _
        { tab := (register_enum_name env tab a st info).1,
          enum_value := literal_value_minus_one,
          simple_type_info := (register_enum_name env tab a st info).2.1 })
  · exact register_enum_name_steps env tab a st info

theorem gather_type_spec_information_steps (env : collaborators) (henv : env_ok env)
    (tab : scope_store) (a : AST) (st : ScopeId) (info : simple_type_t) :
    (gather_type_spec_information env tab a st info).holds (fun r => steps st tab r.1) := by
  unfold gather_type_spec_information
  simp only
  split <;>
    first
    | exact outcome.holds_pure (steps.refl st tab)
    | exact outcome.holds_internal_error
    | exact henv.class_specifier tab a st info
    | exact outcome.holds_pure (gather_type_spec_from_enum_specifier_steps env tab a st info)
    | exact outcome.holds_pure (gather_type_spec_from_elaborated_steps env tab st _ _ _ _ _ _ _)
    | exact outcome.holds_bind (outcome.holds_true _)
        (fun _ _ => outcome.holds_pure (steps.refl st tab))

theorem build_scope_decl_specifier_seq_steps (env : collaborators) (henv : env_ok env)
    (tab : scope_store) (a : AST) (st : ScopeId) (gather_info : gather_decl_spec_t)
    (info : simple_type_t) :
    (build_scope_decl_specifier_seq env tab a st gather_info info).holds
      (fun r => steps st tab r.1) := by
  unfold build_scope_decl_specifier_seq
  refine outcome.holds_bind (outcome.holds_true _) (fun g1 _ => ?_)
  refine outcome.holds_bind (outcome.holds_true _) (fun g2 _ => ?_)
  split_ifs
  · exact outcome.holds_bind (gather_type_spec_information_steps env henv tab _ st _)
      (fun r hr => outcome.holds_pure (hr.trans_same (steps_write_record st _ _)))
  · exact outcome.holds_pure (steps.refl st tab)

/-! ### The registrar -/

theorem register_function_steps (env : collaborators) (tab : scope_store) (declarator_id : AST)
    (declarator_type : type_t) (st : ScopeId) :
    steps st tab (register_function env tab declarator_id declarator_type st).1 := by
  unfold register_function
  split
  · exact steps_register st tab st _ _ rfl
  · exact steps.refl st tab

theorem register_new_variable_name_steps (env : collaborators) (tab : scope_store)
    (declarator_id : AST) (declarator_type : type_t) (st : ScopeId) :
    (register_new_variable_name env tab declarator_id declarator_type st).holds
      (fun r => steps st tab r.1) := by
  unfold register_new_variable_name
  split_ifs
  · simp only
    split_ifs
    · exact outcome.holds_running_error
    · exact outcome.holds_pure (steps_register st tab st _ _ rfl)
  · exact outcome.holds_pure (register_function_steps env tab declarator_id declarator_type st)

theorem register_new_typedef_name_steps (env : collaborators) (tab : scope_store)
    (declarator_id : AST) (declarator_type : type_t) (st : ScopeId) :
    (register_new_typedef_name env tab declarator_id declarator_type st).holds
      (fun r => steps st tab r.1) := by
  unfold register_new_typedef_name
  have hreg : (pure (set_entry (new_symbol tab st (ASTText declarator_id)).1
      (new_symbol tab st (ASTText declarator_id)).2
      { get_entry (new_symbol tab st (ASTText declarator_id)).1
          (new_symbol tab st (ASTText declarator_id)).2 with
          kind := cxx_symbol_kind.SK_TYPEDEF,
          type_information := typedef_type declarator_type },
      (new_symbol tab st (ASTText declarator_id)).2) : outcome (scope_store × EntryId)).holds
      (fun r => steps st tab r.1) :=
    outcome.holds_pure (steps_register st tab st _ _ rfl)
  simp only
  split
  · exact hreg
  · split
    · exact outcome.holds_running_error
    · exact hreg
  · exact outcome.holds_running_error

theorem build_scope_declarator_id_expr_steps (env : collaborators) (tab : scope_store)
    (declarator_name : AST) (declarator_type : type_t) (gather_info : gather_decl_spec_t)
    (st : ScopeId) :
    (build_scope_declarator_id_expr env tab declarator_name declarator_type gather_info
      st).holds (fun r => steps st tab r.1) := by
  unfold build_scope_declarator_id_expr
  simp only
  split
  · split_ifs
    · exact outcome.holds_bind (register_new_typedef_name_steps env tab _ _ st)
        (fun r hr => outcome.holds_pure hr)
    · exact outcome.holds_bind (register_new_variable_name_steps env tab _ _ st)
        (fun r hr => outcome.holds_pure hr)
  · exact outcome.holds_bind (register_new_variable_name_steps env tab _ _ st)
      (fun r hr => outcome.holds_pure hr)
  · exact outcome.holds_pure (steps.refl st tab)
  · exact outcome.holds_bind (outcome.holds_true _) (fun n _ =>
      outcome.holds_bind (register_new_variable_name_steps env tab _ _ st)
        (fun r hr => outcome.holds_pure hr))
  · exact outcome.holds_pure (steps_register st tab st _ _ rfl)
  · split_ifs
    · split
      · exact outcome.holds_internal_error
      · exact outcome.holds_pure (steps.refl st tab)
    · exact outcome.holds_pure (steps.refl st tab)
  · exact outcome.holds_pure (steps.refl st tab)
  · exact outcome.holds_pure (steps.refl st tab)
  · exact outcome.holds_pure (steps.refl st tab)
  · exact outcome.holds_internal_error

theorem build_scope_declarator_name_steps (env : collaborators) (tab : scope_store)
    (declarator_name : AST) (declarator_type : type_t) (gather_info : gather_decl_spec_t)
    (st : ScopeId) :
    (build_scope_declarator_name env tab declarator_name declarator_type gather_info
      st).holds (fun r => steps st tab r.1) := by
  unfold build_scope_declarator_name
  split
  · exact build_scope_declarator_id_expr_steps env tab _ _ _ st
  · exact outcome.holds_internal_error

/-! ### The composer -/

theorem composer_steps_zero (env : collaborators) : composer_steps env 0 := by
  refine ⟨?_, ?_, ?_, ?_, ?_, ?_, ?_, ?_⟩
  · intro tab a st ps ty g name
    rw [build_scope_declarator_rec]; exact outcome.holds_out_of_fuel
  · intro tab ty st ps g p cv ex
    rw [set_function_type]; exact outcome.holds_out_of_fuel
  · intro tab st ps p
    rw [set_function_parameter_clause]; exact outcome.holds_out_of_fuel
  · intro tab st l pl
    rw [set_function_parameter_loop]; exact outcome.holds_out_of_fuel
  · intro tab st a
    rw [build_exception_spec]; exact outcome.holds_out_of_fuel
  · intro tab st l seq
    rw [build_exception_spec_loop]; exact outcome.holds_out_of_fuel
  · intro tab a st g ti
    rw [build_scope_declarator]; exact outcome.holds_out_of_fuel
  · intro tab a st ps g ti
    rw [build_scope_declarator_with_parameter_scope]; exact outcome.holds_out_of_fuel

theorem declarator_rec_steps_succ (env : collaborators) (fuel : Nat)
    (ih : composer_steps env fuel) (tab : scope_store) (a : AST) (st : ScopeId)
    (ps : Option ScopeId) (ty : type_t) (g : gather_decl_spec_t) (name : AST) :
    (build_scope_declarator_rec env (fuel + 1) tab a st ps ty g name).holds
      (fun r => steps st tab r.tab) := by
  cases a with
  | null => rw [build_scope_declarator_rec]; exact outcome.holds_internal_error
  | node kind son0 son1 son2 son3 text =>
    rw [build_scope_declarator_rec.eq_def]
    simp only
    split
    all_goals first
      | exact outcome.holds_internal_error
      | exact outcome.holds_pure (steps.refl st tab)
      | exact ih.1 _ _ _ _ _ _ _
      | exact outcome.holds_bind (ih.1 _ _ _ _ _ _ _) (fun r hr => outcome.holds_pure hr)
      | exact outcome.holds_bind (outcome.holds_true _) (fun t _ =>
          outcome.holds_bind (ih.1 _ _ _ _ _ _ _) (fun r hr => outcome.holds_pure hr))
      | (refine outcome.holds_bind (outcome.holds_true _) (fun t _ => ?_)
         split_ifs
         · exact outcome.holds_bind (ih.1 _ _ _ _ _ _ _) (fun r hr => outcome.holds_pure hr)
         · exact outcome.holds_pure (steps.refl st tab))
      | (split_ifs
         · exact outcome.holds_bind (ih.1 _ _ _ _ _ _ _) (fun r hr => outcome.holds_pure hr)
         · exact outcome.holds_pure (steps.refl st tab))
      | exact outcome.holds_bind (ih.2.1 _ _ _ _ _ _ _ _) (fun f hf =>
          outcome.holds_bind (ih.1 _ _ _ _ _ _ _)
            (fun r hr => outcome.holds_pure (hf.trans_same hr)))
      | (refine outcome.holds_bind (ih.2.1 _ _ _ _ _ _ _ _) (fun f hf => ?_)
         split_ifs
         · exact outcome.holds_bind (ih.1 _ _ _ _ _ _ _)
             (fun r hr => outcome.holds_pure (hf.trans_same hr))
         · exact outcome.holds_pure hf)

theorem set_function_parameter_loop_steps_succ (env : collaborators) (henv : env_ok env)
    (fuel : Nat) (ih : composer_steps env fuel) (tab : scope_store) (st : ScopeId)
    (l : List AST) (pl : parameter_list_t) :
    (set_function_parameter_loop env (fuel + 1) tab st l pl).holds
      (fun r => steps st tab r.1) := by
  cases l with
  | nil => rw [set_function_parameter_loop]; exact outcome.holds_pure (steps.refl st tab)
  | cons iter rest =>
    rw [set_function_parameter_loop]
    simp only
    split_ifs
    · exact ih.2.2.2.1 _ _ _ _
    · refine outcome.holds_bind (build_scope_decl_specifier_seq_steps env henv tab _ st _ _)
        (fun d hd => ?_)
      refine outcome.holds_bind (ih.2.2.2.2.2.2.1 _ _ _ _ _) (fun r hr => ?_)
      exact outcome.holds_mono (ih.2.2.2.1 _ _ _ _)
        (fun q hq => (hd.trans_same hr).trans_same hq)
    · refine outcome.holds_bind (build_scope_decl_specifier_seq_steps env henv tab _ st _ _)
        (fun d hd => ?_)
      exact outcome.holds_mono (ih.2.2.2.1 _ _ _ _) (fun q hq => hd.trans_same hq)

theorem build_exception_spec_loop_steps_succ (env : collaborators) (henv : env_ok env)
    (fuel : Nat) (ih : composer_steps env fuel) (tab : scope_store) (st : ScopeId)
    (l : List AST) (seq : type_list_t) :
    (build_exception_spec_loop env (fuel + 1) tab st l seq).holds
      (fun r => steps st tab r.1) := by
  cases l with
  | nil => rw [build_exception_spec_loop]; exact outcome.holds_pure (steps.refl st tab)
  | cons iter rest =>
    rw [build_exception_spec_loop]
    refine outcome.holds_bind (build_scope_decl_specifier_seq_steps env henv tab _ st _ _)
      (fun d hd => ?_)
    split_ifs
    · refine outcome.holds_bind (ih.2.2.2.2.2.2.1 _ _ _ _ _) (fun r hr => ?_)
      exact outcome.holds_mono (ih.2.2.2.2.2.1 _ _ _ _)
        (fun q hq => (hd.trans_same hr).trans_same hq)
    · exact outcome.holds_mono (ih.2.2.2.2.2.1 _ _ _ _) (fun q hq => hd.trans_same hq)

theorem composer_steps_succ (env : collaborators) (henv : env_ok env) (fuel : Nat)
    (ih : composer_steps env fuel) : composer_steps env (fuel + 1) := by
  refine ⟨declarator_rec_steps_succ env fuel ih, ?_, ?_,
    set_function_parameter_loop_steps_succ env henv fuel ih, ?_,
    build_exception_spec_loop_steps_succ env henv fuel ih, ?_, ?_⟩
  · intro tab ty st ps g p cv ex
    rw [set_function_type]
    refine outcome.holds_bind (ih.2.2.1 _ _ _ _) (fun q hq => ?_)
    refine outcome.holds_bind (outcome.holds_true _) (fun c _ => ?_)
    exact outcome.holds_bind (ih.2.2.2.2.1 _ _ _) (fun e he =>
      outcome.holds_pure (hq.trans_same he))
  · intro tab st ps p
    rw [set_function_parameter_clause]
    split_ifs
    · exact outcome.holds_pure (steps.refl st tab)
    · refine outcome.holds_bind (ih.2.2.2.1 _ _ _ _) (fun r hr => ?_)
      exact outcome.holds_pure
        ((steps_new_scope st tab _ _ _).trans_new (new_scope_valid _ _ _ _ _) hr)
  · intro tab st a
    rw [build_exception_spec]
    split_ifs
    · exact outcome.holds_pure (steps.refl st tab)
    · exact outcome.holds_pure (steps.refl st tab)
    · exact outcome.holds_bind (ih.2.2.2.2.2.1 _ _ _ _) (fun r hr => outcome.holds_pure hr)
  · intro tab a st g ti
    rw [build_scope_declarator]
    exact ih.2.2.2.2.2.2.2 _ _ _ _ _ _
  · intro tab a st ps g ti
    rw [build_scope_declarator_with_parameter_scope]
    refine outcome.holds_bind (ih.1 _ _ _ _ _ _ _) (fun r hr => ?_)
    split_ifs
    · exact outcome.holds_bind (build_scope_declarator_name_steps env r.tab _ _ _ st)
        (fun e he => outcome.holds_pure (hr.trans_same he))
    · exact outcome.holds_pure hr

theorem composer_steps_all (env : collaborators) (henv : env_ok env) (fuel : Nat) :
    composer_steps env fuel := by
  induction fuel with
  | zero => exact composer_steps_zero env
  | succ n ih => exact composer_steps_succ env henv n ih

theorem build_scope_declarator_steps (env : collaborators) (henv : env_ok env) (fuel : Nat)
    (tab : scope_store) (a : AST) (st : ScopeId) (g : gather_decl_spec_t)
    (ti : simple_type_t) :
    (build_scope_declarator env fuel tab a st g ti).holds (fun r => steps st tab r.tab) :=
  (composer_steps_all env henv fuel).2.2.2.2.2.2.1 tab a st g ti

theorem build_scope_declarator_with_parameter_scope_steps (env : collaborators)
    (henv : env_ok env) (fuel : Nat) (tab : scope_store) (a : AST) (st : ScopeId)
    (ps : Option ScopeId) (g : gather_decl_spec_t) (ti : simple_type_t) :
    (build_scope_declarator_with_parameter_scope env fuel tab a st ps g ti).holds
      (fun r => steps st tab r.tab) :=
  (composer_steps_all env henv fuel).2.2.2.2.2.2.2 tab a st ps g ti

/-! ### Simple declarations, using directives, template arguments -/

theorem define_declared_symbol_steps (env : collaborators) (tab : scope_store) (st : ScopeId)
    (declarator initializer : AST) :
    (define_declared_symbol env tab st declarator initializer).holds (steps st tab) := by
  unfold define_declared_symbol
  refine outcome.holds_bind (outcome.holds_true _) (fun n _ => ?_)
  split
  · exact outcome.holds_internal_error
  · split_ifs
    · exact outcome.holds_running_error
    · refine outcome.holds_pure ?_
      refine steps.trans_same ?_ (steps_set_entry_keep st _ _ _ (Or.inl rfl) rfl)
      exact steps_set_entry_keep st _ _ _ (Or.inr rfl) rfl
    · exact outcome.holds_pure (steps_set_entry_keep st _ _ _ (Or.inr rfl) rfl)

theorem build_scope_init_declarator_steps (env : collaborators) (henv : env_ok env)
    (fuel : Nat) (g : gather_decl_spec_t) (ti : simple_type_t) (st : ScopeId)
    (tab : scope_store) (iter : AST) :
    (build_scope_init_declarator env fuel g ti st tab iter).holds (steps st tab) := by
  unfold build_scope_init_declarator
  refine outcome.holds_bind
    (build_scope_declarator_with_parameter_scope_steps env henv fuel tab _ st _ _ _)
    (fun r hr => ?_)
  split_ifs
  · exact outcome.holds_mono (define_declared_symbol_steps env r.tab st _ _)
      (fun q hq => hr.trans_same hq)
  · exact outcome.holds_running_error
  · exact outcome.holds_pure hr

theorem build_scope_simple_declaration_steps (env : collaborators) (henv : env_ok env)
    (fuel : Nat) (tab : scope_store) (a : AST) (st : ScopeId) :
    (build_scope_simple_declaration env fuel tab a st).holds (steps st tab) := by
  have hloop : ∀ (d : scope_store × gather_decl_spec_t × simple_type_t), steps st tab d.1 →
      (if d.2.2 ≠ simple_type_t.null ∧ ASTSon1 a ≠ AST.null then
        List.foldlM (build_scope_init_declarator env fuel d.2.1 d.2.2 st) d.1
          (for_each_element (ASTSon1 a))
      else pure d.1).holds (steps st tab) := by
    intro d hd
    split_ifs
    · exact outcome.holds_foldlM _ _ hd (fun s x hs =>
        outcome.holds_mono (build_scope_init_declarator_steps env henv fuel _ _ st s x)
          (fun q hq => hs.trans_same hq))
    · exact outcome.holds_pure hd
  unfold build_scope_simple_declaration
  split_ifs
  · exact outcome.holds_pure (steps.refl st tab)
  · exact outcome.holds_bind (build_scope_decl_specifier_seq_steps env henv tab _ st _ _)
      (fun d hd => hloop d hd)
  · simp only [outcome.pure_eq, outcome.ok_bind]
    exact hloop (tab, zero_gather_info, simple_type_t.null) (steps.refl st tab)

theorem use_namespace_once_steps (st : ScopeId) (tab : scope_store) (s ns : ScopeId) :
    steps st tab (use_namespace_once tab s ns) := by
  unfold use_namespace_once
  split_ifs
  · exact steps.refl st tab
  · exact steps_set_scope st tab s _ rfl rfl

theorem fold_use_namespace_steps (st s : ScopeId) (l : List ScopeId) (tab : scope_store) :
    steps st tab (l.foldl (fun t ns => use_namespace_once t s ns) tab) := by
  induction l generalizing tab with
  | nil => exact steps.refl st tab
  | cons x xs ih =>
    simp only [List.foldl_cons]
    exact (use_namespace_once_steps st tab s x).trans_same (ih _)

theorem build_scope_using_directive_steps (env : collaborators) (tab : scope_store) (a : AST)
    (st : ScopeId) : (build_scope_using_directive env tab a st).holds (steps st tab) := by
  unfold build_scope_using_directive
  simp only
  split
  · exact outcome.holds_internal_error
  · split_ifs
    · exact outcome.holds_internal_error
    · split
      · exact outcome.holds_internal_error
      · exact outcome.holds_pure
          ((use_namespace_once_steps st tab st _).trans_same (fold_use_namespace_steps st st _ _))

theorem build_scope_type_template_parameter_steps (st : ScopeId) (tab : scope_store) (a : AST)
    (sc : ScopeId) (n : Nat) :
    steps st tab (build_scope_type_template_parameter tab a sc n).1 := by
  unfold build_scope_type_template_parameter
  simp only
  split_ifs
  · exact steps_register st tab sc _ _ rfl
  · exact steps.refl st tab

theorem build_scope_template_argument_loop_steps (env : collaborators) (henv : env_ok env)
    (fuel : Nat) (st : ScopeId) (l : List AST) :
    ∀ (tab : scope_store) (arguments : template_arguments_t),
      (build_scope_template_argument_loop env fuel st l tab arguments).holds
        (fun r => steps st tab r.1) := by
  induction l with
  | nil =>
    intro tab arguments
    rw [build_scope_template_argument_loop]
    exact outcome.holds_pure (steps.refl st tab)
  | cons iter rest ih =>
    intro tab arguments
    rw [build_scope_template_argument_loop]
    simp only
    split
    · refine outcome.holds_bind (build_scope_decl_specifier_seq_steps env henv tab _ st _ _)
        (fun d hd => ?_)
      split_ifs
      · refine outcome.holds_bind (build_scope_declarator_steps env henv fuel d.1 _ st _ _)
          (fun r hr => ?_)
        exact outcome.holds_mono (ih _ _) (fun q hq => (hd.trans_same hr).trans_same hq)
      · exact outcome.holds_mono (ih _ _) (fun q hq => hd.trans_same hq)
    · exact ih _ _
    · exact outcome.holds_internal_error
    · exact outcome.holds_internal_error

theorem build_scope_template_arguments_steps (env : collaborators) (henv : env_ok env)
    (fuel : Nat) (tab : scope_store) (class_head_id : AST) (st : ScopeId) :
    (build_scope_template_arguments env fuel tab class_head_id st).holds
      (fun r => steps st tab r.1) := by
  unfold build_scope_template_arguments
  simp only
  split
  · exact outcome.holds_internal_error
  · split_ifs
    · refine outcome.holds_bind (outcome.holds_true _) (fun c _ => ?_)
      simp only [outcome.pure_eq, outcome.ok_bind]
      exact outcome.holds_bind
        (build_scope_template_argument_loop_steps env henv fuel st _ _ _)
        (fun r hr => outcome.holds_pure hr)
    · simp only [outcome.pure_eq, outcome.ok_bind]
      exact outcome.holds_bind
        (build_scope_template_argument_loop_steps env henv fuel st _ _ _)
        (fun r hr => outcome.holds_pure hr)

/-! ### Class specifiers and function definitions -/

theorem steps.valid {st : ScopeId} {tab tab' : scope_store} (h : steps st tab tab')
    {s : Nat} (hs : s < tab.scopes.length) : s < tab'.scopes.length :=
  Nat.lt_of_lt_of_le hs h.scopes_le

theorem steps_new_function_scope (st : ScopeId) (tab : scope_store) (p : Option ScopeId) :
    steps st tab (new_function_scope tab st p).1 :=
  steps_new_scope st tab scope_kind_t.FUNCTION_SCOPE p none

theorem steps_new_class_scope (st : ScopeId) (tab : scope_store) :
    steps st tab (new_class_scope tab st).1 :=
  steps_new_scope st tab scope_kind_t.CLASS_SCOPE none none

theorem steps_new_template_scope (st : ScopeId) (tab : scope_store) :
    steps st tab (new_template_scope tab st).1 :=
  steps_new_scope st tab scope_kind_t.TEMPLATE_SCOPE none none

theorem steps_open_block_scope (st : ScopeId) (tab : scope_store) :
    steps st tab (open_block_scope tab st).1 ∧
    (open_block_scope tab st).2 < (open_block_scope tab st).1.scopes.length :=
  ⟨steps_new_scope st tab scope_kind_t.BLOCK_SCOPE _ _, new_scope_valid _ _ _ _ _⟩

/-- A symbol receives a scope that exists. -/
theorem steps_set_entry_scope (st : ScopeId) (tab : scope_store) (e : EntryId)
    (v : scope_entry_t) (s : Nat)
    (hd : v.defined = (get_entry tab e).defined ∨ v.defined = true)
    (hr : v.related_scope = some s) (hs : s < tab.scopes.length) :
    steps st tab (set_entry tab e v) := by
  apply steps_set_entry
  · intro h
    rcases hd with hd | hd
    · rw [hd]; exact h
    · exact hd
  · intro _ _ s' hs'
    rw [hr] at hs'
    cases hs'
    exact hs

theorem build_scope_base_specifier_steps (env : collaborators) (st class_scope : ScopeId)
    (s : scope_store × class_info_t) (iter : AST) :
    (build_scope_base_specifier env st class_scope s iter).holds
      (fun r => steps st s.1 r.1) := by
  unfold build_scope_base_specifier
  refine outcome.holds_bind (outcome.holds_true _) (fun n _ => ?_)
  simp only
  split
  · exact outcome.holds_internal_error
  · exact outcome.holds_pure (steps_set_scope st s.1 class_scope _ rfl rfl)

theorem build_scope_base_clause_steps (env : collaborators) (tab : scope_store)
    (base_clause : AST) (st class_scope : ScopeId) (class_info : class_info_t) :
    (build_scope_base_clause env tab base_clause st class_scope class_info).holds
      (fun r => steps st tab r.1) := by
  unfold build_scope_base_clause
  exact outcome.holds_foldlM (I := fun r => steps st tab r.1) _ (tab, class_info)
    (steps.refl st tab)
    (fun s x hs => outcome.holds_mono (build_scope_base_specifier_steps env st class_scope s x)
      (fun q hq => steps.trans_same hs hq))

theorem class_bases_steps (env : collaborators) (tab : scope_store)
    (base_clause : AST) (st class_scope : ScopeId) (class_info : class_info_t) :
    (class_bases env tab base_clause st class_scope class_info).holds
      (fun r => steps st tab r.1) := by
  unfold class_bases
  split_ifs
  · exact build_scope_base_clause_steps env tab base_clause st class_scope class_info
  · exact outcome.holds_pure (steps.refl st tab)

theorem class_head_name_steps (env : collaborators) (henv : env_ok env) (fuel : Nat)
    (tab : scope_store) (class_head_identifier : AST) (st : ScopeId) (info : simple_type_t) :
    (class_head_name env fuel tab class_head_identifier st info).holds
      (fun n => steps st tab n.2.1) := by
  unfold class_head_name
  split_ifs
  · exact outcome.holds_pure (steps.refl st tab)
  · exact outcome.holds_bind (build_scope_template_arguments_steps env henv fuel tab _ st)
      (fun r hr => outcome.holds_pure hr)

theorem class_symbol_steps (env : collaborators) (tab : scope_store) (st : ScopeId)
    (name : String) : steps st tab (class_symbol env tab st name).1 := by
  unfold class_symbol
  split
  · split_ifs
    · exact steps.refl st tab
    · exact steps_register st tab st _ _ rfl
  · exact steps_register st tab st _ _ rfl

theorem register_class_name_steps (env : collaborators) (henv : env_ok env) (fuel : Nat)
    (tab : scope_store) (class_head_identifier : AST) (st : ScopeId) (inner_scope : Nat)
    (info : simple_type_t) (hv : inner_scope < tab.scopes.length) :
    (register_class_name env fuel tab class_head_identifier st inner_scope info).holds
      (fun r => steps st tab r.1) := by
  unfold register_class_name
  split_ifs
  · refine outcome.holds_bind (class_head_name_steps env henv fuel tab _ st info)
      (fun n hn => ?_)
    refine outcome.holds_pure ?_
    have h2 := hn.trans_same (class_symbol_steps env n.2.1 st n.1)
    exact h2.trans_same
      (steps_set_entry_scope st _ _ _ inner_scope (Or.inl rfl) rfl (h2.valid hv))
  · exact outcome.holds_internal_error
  · exact outcome.holds_pure (steps.refl st tab)

theorem class_specifier_head_steps (env : collaborators) (henv : env_ok env) (fuel : Nat)
    (tab : scope_store) (a : AST) (st : ScopeId) (info : simple_type_t) :
    (class_specifier_head env fuel tab a st info).holds
      (fun h => steps st tab h.tab ∧ h.inner_scope < h.tab.scopes.length) := by
  unfold class_specifier_head
  simp only
  have h0 : steps st tab (new_class_scope tab st).1 := steps_new_class_scope st tab
  have hv : (new_class_scope tab st).2 < (new_class_scope tab st).1.scopes.length :=
    new_scope_valid _ _ _ _ _
  refine outcome.holds_bind (class_bases_steps env _ _ st _ _) (fun b hb => ?_)
  refine outcome.holds_bind
    (register_class_name_steps env henv fuel b.1 _ st _ _ (hb.valid hv)) (fun r hr => ?_)
  exact outcome.holds_pure ⟨(h0.trans_same hb).trans_same hr, hr.valid (hb.valid hv)⟩

theorem member_specification_loop_holds {σ : Type}
    (member : σ → AST → access_specifier_t → outcome σ) (I : σ → Prop)
    (hstep : ∀ s m acc, I s → (member s m acc).holds I) (spec : AST) :
    ∀ (acc : access_specifier_t) (s : σ), I s →
      (member_specification_loop member spec acc s).holds I := by
  induction spec with
  | null => intro acc s hs; exact outcome.holds_pure hs
  | node kind son0 son1 son2 son3 text _ _ ih2 _ =>
    intro acc s hs
    rw [member_specification_loop]
    refine outcome.holds_bind (outcome.holds_true _) (fun acc1 _ => ?_)
    split_ifs
    · exact outcome.holds_bind (hstep s son1 acc1 hs) (fun s1 hs1 => ih2 _ s1 hs1)
    · exact ih2 _ s hs

theorem class_specifier_finish_steps (st : ScopeId) (h : class_head_result)
    (m : scope_store × simple_type_t) : steps st m.1 (class_specifier_finish h m).1 := by
  unfold class_specifier_finish
  split
  · exact steps_set_entry_keep st _ _ _ (Or.inr rfl) rfl
  · exact steps.refl st m.1

theorem introduce_this_steps (st : ScopeId) (tab : scope_store) (related_scope : ScopeId)
    (class_type : simple_type_t) (cv : cv_qualifier_t) :
    steps st tab (introduce_this tab related_scope class_type cv) := by
  unfold introduce_this
  exact (steps_write_record st tab _).trans_same (steps_register st _ related_scope _ _ rfl)

theorem optional_decl_specifier_seq_steps (env : collaborators) (henv : env_ok env)
    (tab : scope_store) (a : AST) (st : ScopeId) :
    (optional_decl_specifier_seq env tab a st).holds (fun r => steps st tab r.1) := by
  unfold optional_decl_specifier_seq
  split_ifs
  · exact build_scope_decl_specifier_seq_steps env henv tab _ st _ _
  · exact outcome.holds_pure (steps.refl st tab)

theorem open_function_scope_steps (st : ScopeId) (tab : scope_store)
    (parameter_scope : Option ScopeId) (entry : EntryId) :
    steps st tab (open_function_scope tab st parameter_scope entry).1 ∧
    (open_function_scope tab st parameter_scope entry).2 <
      (open_function_scope tab st parameter_scope entry).1.scopes.length := by
  unfold open_function_scope
  simp only
  have hv : (new_function_scope tab st parameter_scope).2 <
      (new_function_scope tab st parameter_scope).1.scopes.length :=
    new_scope_valid _ _ _ _ _
  refine ⟨?_, ?_⟩
  · refine steps.trans_same ?_ (steps_set_entry_scope st _ entry _ _ (Or.inl rfl) rfl hv)
    exact steps_new_function_scope st tab parameter_scope
  · rw [set_entry_scopes]
    exact hv

theorem introduce_this_of_member_steps (st : ScopeId) (tab : scope_store) (entry : EntryId)
    (f : function_info_t) (inner_scope : ScopeId) :
    steps st tab (introduce_this_of_member tab entry f inner_scope) := by
  unfold introduce_this_of_member
  split_ifs
  · simp only
    refine steps.trans_same ?_ (introduce_this_steps st _ _ _ _)
    exact steps_set_entry_keep st _ _ _ (Or.inl rfl) rfl
  · exact steps.refl st tab

theorem build_scope_function_definition_steps (env : collaborators) (henv : env_ok env)
    (fuel : Nat) (tab : scope_store) (a : AST) (st : ScopeId) :
    (build_scope_function_definition env fuel tab a st).holds
      (fun r => steps st tab r.1) := by
  unfold build_scope_function_definition
  refine outcome.holds_bind (optional_decl_specifier_seq_steps env henv tab _ st)
    (fun d hd => ?_)
  refine outcome.holds_bind
    (build_scope_declarator_with_parameter_scope_steps env henv fuel d.1 _ st _ _ _)
    (fun r hr => ?_)
  split
  · exact outcome.holds_internal_error
  · rename_i entry _
    split_ifs
    · exact outcome.holds_internal_error
    · simp only
      obtain ⟨ho, hv⟩ := open_function_scope_steps st r.tab r.parameters_scope entry
      split
      · exact outcome.holds_null_dereference
      · rename_i f _
        have h3 : steps st tab (introduce_this_of_member
            (open_function_scope r.tab st r.parameters_scope entry).1 entry f
            (open_function_scope r.tab st r.parameters_scope entry).2) :=
          ((hd.trans_same hr).trans_same ho).trans_same
            (introduce_this_of_member_steps st _ entry f _)
        have hv3 : (open_function_scope r.tab st r.parameters_scope entry).2 <
            (introduce_this_of_member
              (open_function_scope r.tab st r.parameters_scope entry).1 entry f
              (open_function_scope r.tab st r.parameters_scope entry).2).scopes.length :=
          (introduce_this_of_member_steps st _ entry f _).valid hv
        refine outcome.holds_bind (henv.statement _ _ _) (fun t ht => ?_)
        refine outcome.holds_pure ?_
        refine steps.trans_same ?_ (steps_set_entry_keep st _ _ _ (Or.inr rfl) rfl)
        exact h3.trans_new hv3 ht

/-! ### Members -/

theorem update_class_type_steps (st : ScopeId) (tab : scope_store)
    (class_type : Option class_info_pointer) (g : class_info_t → class_info_t) :
    (update_class_type tab class_type g).holds (steps st tab) := by
  unfold update_class_type
  split
  · exact outcome.holds_null_dereference
  · simp only
    split
    · split_ifs
      · exact outcome.holds_pure (steps_set_entry_keep st _ _ _ (Or.inl rfl) rfl)
      · exact outcome.holds_pure (steps.refl st tab)
    · exact outcome.holds_pure (steps.refl st tab)

theorem record_member_function_steps (st : ScopeId) (tab : scope_store) (class_name : String)
    (class_type : Option class_info_pointer) (declarator_name : AST) (entry : EntryId) :
    (record_member_function tab class_name class_type declarator_name entry).holds
      (steps st tab) := by
  unfold record_member_function
  split_ifs
  · exact update_class_type_steps st tab _ _
  · exact outcome.holds_pure (steps.refl st tab)
  · exact update_class_type_steps st tab _ _
  · exact update_class_type_steps st tab _ _
  · split
    · exact outcome.holds_null_dereference
    · exact update_class_type_steps st tab _ _
  · exact outcome.holds_internal_error

theorem build_scope_member_function_definition_steps (env : collaborators)
    (henv : env_ok env) (fuel : Nat) (tab : scope_store) (a : AST) (st : ScopeId)
    (current_access : access_specifier_t) (class_info : simple_type_t) :
    (build_scope_member_function_definition env fuel tab a st current_access
      class_info).holds (fun r => steps st tab r.1) := by
  unfold build_scope_member_function_definition
  refine outcome.holds_bind (outcome.holds_true _) (fun c _ => ?_)
  refine outcome.holds_bind (outcome.holds_true _) (fun declarator_name _ => ?_)
  refine outcome.holds_bind (build_scope_function_definition_steps env henv fuel tab a st)
    (fun r hr => ?_)
  refine outcome.holds_bind (record_member_function_steps st r.1 _ _ _ _) (fun tab1 h1 => ?_)
  simp only
  split
  · exact outcome.holds_null_dereference
  · have h2 := (hr.trans_same h1).trans_same
      (steps_set_entry_keep st tab1 r.2
        { get_entry tab1 r.2 with
            type_information := type_t.function
              (function_info_t.set_member (by assumption) class_info) }
        (Or.inl rfl) rfl)
    split_ifs
    · split
      · exact outcome.holds_null_dereference
      · exact outcome.holds_pure (h2.trans_same (introduce_this_steps st _ _ _ _))
    · exact outcome.holds_pure h2

theorem build_scope_member_declarator_steps (env : collaborators) (henv : env_ok env)
    (fuel : Nat) (a : AST) (st : ScopeId) (gather_info : gather_decl_spec_t)
    (simple_type_info class_info : simple_type_t) (tab : scope_store) (iter : AST) :
    (build_scope_member_declarator env fuel a st gather_info simple_type_info class_info tab
      iter).holds (steps st tab) := by
  unfold build_scope_member_declarator
  simp only
  split_ifs
  · refine outcome.holds_bind (build_scope_declarator_steps env henv fuel tab _ st _ _)
      (fun r hr => ?_)
    split
    · exact outcome.holds_null_dereference
    · split_ifs
      · split
        · exact outcome.holds_null_dereference
        · refine outcome.holds_bind (outcome.holds_true _) (fun c _ => ?_)
          refine outcome.holds_bind (outcome.holds_true _) (fun declarator_name _ => ?_)
          refine outcome.holds_mono (record_member_function_steps st _ _ _ _ _)
            (fun t ht => ?_)
          refine steps.trans_same ?_ ht
          exact hr.trans_same (steps_set_entry_keep st _ _ _ (Or.inl rfl) rfl)
      · exact outcome.holds_pure hr
  · exact outcome.holds_internal_error

theorem build_scope_simple_member_declaration_steps (env : collaborators)
    (henv : env_ok env) (fuel : Nat) (tab : scope_store) (a : AST) (st : ScopeId)
    (current_access : access_specifier_t) (class_info : simple_type_t) :
    (build_scope_simple_member_declaration env fuel tab a st current_access
      class_info).holds (steps st tab) := by
  unfold build_scope_simple_member_declaration
  refine outcome.holds_bind (optional_decl_specifier_seq_steps env henv tab _ st)
    (fun d hd => ?_)
  split_ifs
  · exact outcome.holds_foldlM (I := fun t => steps st tab t) _ d.1 hd
      (fun s x hs => outcome.holds_mono
        (build_scope_member_declarator_steps env henv fuel a st d.2.1 d.2.2 class_info s x)
        (fun q hq => steps.trans_same hs hq))
  · exact outcome.holds_pure hd

theorem build_scope_member_declaration_steps (env : collaborators) (henv : env_ok env)
    (fuel : Nat) (tab : scope_store) (a : AST) (st : ScopeId)
    (current_access : access_specifier_t) (class_info : simple_type_t) :
    (build_scope_member_declaration env fuel tab a st current_access class_info).holds
      (fun r => steps st tab r.1) := by
  unfold build_scope_member_declaration
  split_ifs
  · exact outcome.holds_bind
      (build_scope_simple_member_declaration_steps env henv fuel tab a st current_access
        class_info) (fun t ht => outcome.holds_pure ht)
  · exact build_scope_member_function_definition_steps env henv fuel tab a st current_access
      class_info
  · exact outcome.holds_internal_error

theorem gather_type_spec_from_class_specifier_steps (env : collaborators) (henv : env_ok env)
    (fuel : Nat) (tab : scope_store) (a : AST) (st : ScopeId) (info : simple_type_t) :
    (gather_type_spec_from_class_specifier env fuel tab a st info).holds
      (fun r => steps st tab r.1) := by
  unfold gather_type_spec_from_class_specifier
  refine outcome.holds_bind (class_specifier_head_steps env henv fuel tab a st info)
    (fun h hh => ?_)
  simp only
  refine outcome.holds_bind
    (member_specification_loop_holds _
      (fun (s : scope_store × simple_type_t) =>
        steps st tab s.1 ∧ h.inner_scope < s.1.scopes.length)
      (fun s m acc hs => outcome.holds_mono
        (build_scope_member_declaration_steps env henv fuel s.1 m h.inner_scope acc s.2)
        (fun q hq => ⟨hs.1.trans_new hs.2 hq, hq.valid hs.2⟩))
      (ASTSon1 a) _ (h.tab, h.simple_type_info) hh)
    (fun m hm => ?_)
  exact outcome.holds_pure (hm.1.trans_same (class_specifier_finish_steps st h m))

/-! ### Statements -/

theorem build_scope_condition_steps (env : collaborators) (henv : env_ok env) (fuel : Nat)
    (tab : scope_store) (a : AST) (st : ScopeId) :
    (build_scope_condition env fuel tab a st).holds (steps st tab) := by
  unfold build_scope_condition
  simp only
  split_ifs
  · exact outcome.holds_internal_error
  · refine outcome.holds_bind (build_scope_decl_specifier_seq_steps env henv tab _ st _ _)
      (fun d hd => ?_)
    refine outcome.holds_bind (build_scope_declarator_steps env henv fuel d.1 _ st _ _)
      (fun r hr => ?_)
    split
    · exact outcome.holds_null_dereference
    · exact outcome.holds_pure
        ((hd.trans_same hr).trans_same (steps_set_entry_keep st _ _ _ (Or.inl rfl) rfl))
  · refine outcome.holds_bind (build_scope_decl_specifier_seq_steps env henv tab _ st _ _)
      (fun d hd => ?_)
    refine outcome.holds_bind (build_scope_declarator_steps env henv fuel d.1 _ st _ _)
      (fun r hr => ?_)
    split
    · exact outcome.holds_null_dereference
    · exact outcome.holds_pure
        ((hd.trans_same hr).trans_same (steps_set_entry_keep st _ _ _ (Or.inl rfl) rfl))
  · exact outcome.holds_pure (steps.refl st tab)

/-- What is done in a block scope opened in the scope counts as done in the
scope. -/
theorem steps_in_block_scope {st : ScopeId} {tab : scope_store} {x : outcome scope_store}
    (hx : x.holds (steps (open_block_scope tab st).2 (open_block_scope tab st).1)) :
    x.holds (steps st tab) :=
  outcome.holds_mono hx
    (fun _ h => (steps_open_block_scope st tab).1.trans_new (steps_open_block_scope st tab).2 h)

theorem build_scope_compound_statement_steps (env : collaborators) (henv : env_ok env)
    (tab : scope_store) (a : AST) (st : ScopeId) :
    (build_scope_compound_statement env tab a st).holds (steps st tab) := by
  unfold build_scope_compound_statement
  simp only
  apply steps_in_block_scope
  split_ifs
  · exact outcome.holds_foldlM
      (I := fun t => steps (open_block_scope tab st).2 (open_block_scope tab st).1 t) _ _
      (steps.refl _ _)
      (fun s x hs => outcome.holds_mono (henv.statement s (ASTSon1 x) _)
        (fun q hq => steps.trans_same hs hq))
  · exact outcome.holds_pure (steps.refl _ _)

theorem build_scope_while_statement_steps (env : collaborators) (henv : env_ok env)
    (fuel : Nat) (tab : scope_store) (a : AST) (st : ScopeId) :
    (build_scope_while_statement env fuel tab a st).holds (steps st tab) := by
  unfold build_scope_while_statement
  simp only
  apply steps_in_block_scope
  refine outcome.holds_bind (build_scope_condition_steps env henv fuel _ _ _) (fun t ht => ?_)
  split_ifs
  · exact outcome.holds_mono (henv.statement t _ _) (fun q hq => ht.trans_same hq)
  · exact outcome.holds_pure ht

theorem build_scope_if_else_statement_steps (env : collaborators) (henv : env_ok env)
    (fuel : Nat) (tab : scope_store) (a : AST) (st : ScopeId) :
    (build_scope_if_else_statement env fuel tab a st).holds (steps st tab) := by
  unfold build_scope_if_else_statement
  simp only
  apply steps_in_block_scope
  refine outcome.holds_bind (build_scope_condition_steps env henv fuel _ _ _) (fun t ht => ?_)
  refine outcome.holds_bind (henv.statement t _ _) (fun t1 ht1 => ?_)
  split_ifs
  · exact outcome.holds_mono (henv.statement t1 _ _)
      (fun q hq => (ht.trans_same ht1).trans_same hq)
  · exact outcome.holds_pure (ht.trans_same ht1)

theorem optional_condition_steps (env : collaborators) (henv : env_ok env) (fuel : Nat)
    (tab : scope_store) (a : AST) (st : ScopeId) :
    (optional_condition env fuel tab a st).holds (steps st tab) := by
  unfold optional_condition
  split_ifs
  · exact build_scope_condition_steps env henv fuel tab a st
  · exact outcome.holds_pure (steps.refl st tab)

theorem build_scope_for_statement_steps (env : collaborators) (henv : env_ok env)
    (fuel : Nat) (tab : scope_store) (a : AST) (st : ScopeId) :
    (build_scope_for_statement env fuel tab a st).holds (steps st tab) := by
  unfold build_scope_for_statement
  simp only
  apply steps_in_block_scope
  refine outcome.holds_bind (optional_condition_steps env henv fuel _ _ _) (fun t ht => ?_)
  exact outcome.holds_mono (henv.statement t _ _) (fun q hq => ht.trans_same hq)

theorem build_scope_switch_statement_steps (env : collaborators) (henv : env_ok env)
    (fuel : Nat) (tab : scope_store) (a : AST) (st : ScopeId) :
    (build_scope_switch_statement env fuel tab a st).holds (steps st tab) := by
  unfold build_scope_switch_statement
  simp only
  apply steps_in_block_scope
  refine outcome.holds_bind (build_scope_condition_steps env henv fuel _ _ _) (fun t ht => ?_)
  exact outcome.holds_mono (henv.statement t _ _) (fun q hq => ht.trans_same hq)

theorem exception_declarator_steps (env : collaborators) (henv : env_ok env) (fuel : Nat)
    (tab : scope_store) (declarator : AST) (st : ScopeId) (gather_info : gather_decl_spec_t)
    (type_info : simple_type_t) :
    (exception_declarator env fuel tab declarator st gather_info type_info).holds
      (steps st tab) := by
  unfold exception_declarator
  split_ifs
  · exact outcome.holds_bind (build_scope_declarator_steps env henv fuel tab _ st _ _)
      (fun r hr => outcome.holds_pure hr)
  · exact outcome.holds_pure (steps.refl st tab)

theorem build_scope_handler_steps (env : collaborators) (henv : env_ok env) (fuel : Nat)
    (st : ScopeId) (tab : scope_store) (iter : AST) :
    (build_scope_handler env fuel st tab iter).holds (steps st tab) := by
  unfold build_scope_handler
  simp only
  split_ifs
  · exact outcome.holds_pure (steps.refl st tab)
  · refine outcome.holds_bind (build_scope_decl_specifier_seq_steps env henv _ _ _ _ _)
      (fun d hd => ?_)
    refine outcome.holds_bind (exception_declarator_steps env henv fuel d.1 _ _ _ _)
      (fun t ht => ?_)
    have h1 : steps st tab t :=
      (steps_open_block_scope st tab).1.trans_new (steps_open_block_scope st tab).2
        (hd.trans_same ht)
    exact outcome.holds_mono (henv.statement t _ st) (fun q hq => h1.trans_same hq)

theorem build_scope_try_block_steps (env : collaborators) (henv : env_ok env) (fuel : Nat)
    (tab : scope_store) (a : AST) (st : ScopeId) :
    (build_scope_try_block env fuel tab a st).holds (steps st tab) := by
  unfold build_scope_try_block
  refine outcome.holds_bind (henv.statement tab _ st) (fun t ht => ?_)
  exact outcome.holds_foldlM (I := fun q => steps st tab q) _ t ht
    (fun s x hs => outcome.holds_mono (build_scope_handler_steps env henv fuel st s x)
      (fun q hq => steps.trans_same hs hq))

theorem outcome.holds_ite {α : Type} {c : Prop} [Decidable c] {x y : outcome α}
    {P : α → Prop} (hx : x.holds P) (hy : y.holds P) : (if c then x else y).holds P := by
  split_ifs
  · exact hx
  · exact hy

theorem build_scope_statement_steps (env : collaborators) (henv : env_ok env) (fuel : Nat)
    (tab : scope_store) (a : AST) (st : ScopeId) :
    (build_scope_statement env fuel tab a st).holds (steps st tab) := by
  unfold build_scope_statement
  apply outcome.holds_ite (henv.statement tab _ st)
  apply outcome.holds_ite (outcome.holds_pure (steps.refl st tab))
  apply outcome.holds_ite (henv.declaration tab _ st)
  apply outcome.holds_ite (build_scope_compound_statement_steps env henv tab a st)
  apply outcome.holds_ite (henv.statement tab _ st)
  apply outcome.holds_ite (build_scope_while_statement_steps env henv fuel tab a st)
  apply outcome.holds_ite (build_scope_if_else_statement_steps env henv fuel tab a st)
  apply outcome.holds_ite (build_scope_for_statement_steps env henv fuel tab a st)
  apply outcome.holds_ite (henv.statement tab _ st)
  apply outcome.holds_ite (henv.statement tab _ st)
  apply outcome.holds_ite (henv.statement tab _ st)
  apply outcome.holds_ite (outcome.holds_pure (steps.refl st tab))
  apply outcome.holds_ite (build_scope_try_block_steps env henv fuel tab a st)
  apply outcome.holds_ite (build_scope_switch_statement_steps env henv fuel tab a st)
  exact outcome.holds_pure (steps.refl st tab)

/-! ### Template declarations -/

theorem steps.to_grows {st : ScopeId} {tab tab' : scope_store} (h : steps st tab tab') :
    grows tab tab' :=
  ⟨h.scopes_le, h.entries_le, h.defined_mono⟩

theorem grows.stay (tab : scope_store) : grows tab tab :=
  ⟨Nat.le_refl _, Nat.le_refl _, fun _ h => h⟩

theorem grows.chain {tab tab1 tab2 : scope_store} (h1 : grows tab tab1) (h2 : grows tab1 tab2) :
    grows tab tab2 :=
  ⟨Nat.le_trans h1.scopes_le h2.scopes_le, Nat.le_trans h1.entries_le h2.entries_le,
    fun e h => h2.defined_mono e (h1.defined_mono e h)⟩

theorem grows_set_scope (tab : scope_store) (s : ScopeId) (v : scope_t) :
    grows tab (set_scope tab s v) :=
  ⟨Nat.le_of_eq (set_scope_length tab s v).symm, Nat.le_refl _, fun _ h => h⟩

theorem push_template_scope_length (tab : scope_store) (st ts : ScopeId) :
    (push_template_scope tab st ts).scopes.length = tab.scopes.length := by
  unfold push_template_scope
  simp only [set_scope_length]

theorem pop_template_scope_length (tab : scope_store) (st ts : ScopeId) :
    (pop_template_scope tab st ts).scopes.length = tab.scopes.length := by
  unfold pop_template_scope
  simp only [set_scope_length]

theorem grows_push_template_scope (tab : scope_store) (st ts : ScopeId) :
    grows tab (push_template_scope tab st ts) :=
  (grows_set_scope tab _ _).chain (grows_set_scope _ _ _)

theorem grows_pop_template_scope (tab : scope_store) (st ts : ScopeId) :
    grows tab (pop_template_scope tab st ts) :=
  (grows_set_scope tab _ _).chain (grows_set_scope _ _ _)

/-- A store through a scope pointer that leaves the enclosing scope as it was
keeps the table well-formed. -/
theorem store_wf_set_scope (tab : scope_store) (s : ScopeId) (v : scope_t)
    (hc : v.contained_in = (get_scope tab s).contained_in) (hw : store_wf tab) :
    store_wf (set_scope tab s v) := by
  refine ⟨?_, ?_⟩
  · intro e s' h
    rw [set_scope_length]
    exact hw.1 e s' h
  · intro s' hs'
    rw [set_scope_length] at hs'
    rw [get_scope_set_scope]
    split_ifs with he
    · obtain ⟨rfl, _⟩ := he
      rw [hc]
      exact hw.2 s hs'
    · exact hw.2 s' hs'

theorem store_wf_push_template_scope (tab : scope_store) (st ts : ScopeId)
    (hw : store_wf tab) : store_wf (push_template_scope tab st ts) := by
  unfold push_template_scope
  exact store_wf_set_scope _ _ _ rfl (store_wf_set_scope _ _ _ rfl hw)

theorem store_wf_pop_template_scope (tab : scope_store) (st ts : ScopeId)
    (hw : store_wf tab) : store_wf (pop_template_scope tab st ts) := by
  unfold pop_template_scope
  exact store_wf_set_scope _ _ _ rfl (store_wf_set_scope _ _ _ rfl hw)

/-- The template scope links after the push. -/
theorem get_scope_push_template_scope (tab : scope_store) (st ts : ScopeId)
    (hs : st < tab.scopes.length) (hts : ts < tab.scopes.length) (hne : st ≠ ts) (s : ScopeId) :
    (get_scope (push_template_scope tab st ts) s).template_scope =
      if s = st then some ts
      else if s = ts then (get_scope tab st).template_scope
      else (get_scope tab s).template_scope := by
  unfold push_template_scope
  simp only [get_scope_set_scope, set_scope_length]
  by_cases h1 : s = st
  · subst h1
    simp [hs]
  · by_cases h2 : s = ts
    · subst h2
      simp [hts, hne, h1, Ne.symm hne]
    · simp [h1, h2, Ne.symm h1, Ne.symm h2]

/-- The template scope links after the pop. -/
theorem get_scope_pop_template_scope (tab : scope_store) (st ts : ScopeId)
    (hs : st < tab.scopes.length) (hts : ts < tab.scopes.length) (hne : st ≠ ts) (s : ScopeId) :
    (get_scope (pop_template_scope tab st ts) s).template_scope =
      if s = ts then none
      else if s = st then (get_scope tab ts).template_scope
      else (get_scope tab s).template_scope := by
  unfold pop_template_scope
  simp only [get_scope_set_scope, set_scope_length]
  by_cases h2 : s = ts
  · subst h2
    simp [hts]
  · by_cases h1 : s = st
    · subst h1
      simp [hs, hne, h2, Ne.symm hne]
    · simp [h1, h2, Ne.symm h1, Ne.symm h2]

theorem steps.to_template_steps {st : ScopeId} {tab tab' : scope_store} (ts : ScopeId)
    (h : steps st tab tab') : template_steps st ts tab tab' :=
  ⟨h.to_grows, fun hw hs _ _ _ => h.wf hw hs, fun hw hs _ _ _ => h.links hw hs⟩

theorem template_steps.unchanged (st ts : ScopeId) (tab : scope_store) :
    template_steps st ts tab tab :=
  (steps.refl st tab).to_template_steps ts

theorem template_steps.compose {st ts : ScopeId} {tab tab1 tab2 : scope_store}
    (h1 : template_steps st ts tab tab1) (h2 : template_steps st ts tab1 tab2) :
    template_steps st ts tab tab2 := by
  refine ⟨h1.grows.chain h2.grows, ?_, ?_⟩
  · intro hw hs hts hne hn
    refine h2.wf (h1.wf hw hs hts hne hn) (Nat.lt_of_lt_of_le hs h1.grows.scopes_le)
      (Nat.lt_of_lt_of_le hts h1.grows.scopes_le) hne ?_
    rw [h1.links hw hs hts hne hn ts hts]
    exact hn
  · intro hw hs hts hne hn s hss
    rw [h2.links (h1.wf hw hs hts hne hn) (Nat.lt_of_lt_of_le hs h1.grows.scopes_le)
      (Nat.lt_of_lt_of_le hts h1.grows.scopes_le) hne ?_ s
      (Nat.lt_of_lt_of_le hss h1.grows.scopes_le)]
    · exact h1.links hw hs hts hne hn s hss
    · rw [h1.links hw hs hts hne hn ts hts]
      exact hn

/-- The push of the template scope, a run in the scope and the pop. -/
theorem template_steps_push_pop {st ts : ScopeId} {tab tab1 : scope_store}
    (h : steps st (push_template_scope tab st ts) tab1) :
    template_steps st ts tab (pop_template_scope tab1 st ts) := by
  refine ⟨((grows_push_template_scope tab st ts).chain h.to_grows).chain
    (grows_pop_template_scope tab1 st ts), ?_, ?_⟩
  · intro hw hs _ _ _
    refine store_wf_pop_template_scope _ _ _ (h.wf (store_wf_push_template_scope _ _ _ hw) ?_)
    rw [push_template_scope_length]
    exact hs
  · intro hw hs hts hne hn s hss
    have hs1 : st < (push_template_scope tab st ts).scopes.length := by
      rw [push_template_scope_length]; exact hs
    have hl := h.links (store_wf_push_template_scope tab st ts hw) hs1
    have hlen : ∀ x, x < tab.scopes.length → x < tab1.scopes.length := fun x hx =>
      Nat.lt_of_lt_of_le (by rw [push_template_scope_length]; exact hx) h.scopes_le
    rw [get_scope_pop_template_scope tab1 st ts (hlen st hs) (hlen ts hts) hne s]
    by_cases h2 : s = ts
    · subst h2
      rw [if_pos rfl, hn]
    · rw [if_neg h2]
      by_cases h1 : s = st
      · subst h1
        rw [if_pos rfl, hl ts (by rw [push_template_scope_length]; exact hts),
          get_scope_push_template_scope tab s ts hs hts hne ts, if_neg (Ne.symm hne),
          if_pos rfl]
      · rw [if_neg h1, hl s (by rw [push_template_scope_length]; exact hss),
          get_scope_push_template_scope tab st ts hs hts hne s, if_neg h1, if_neg h2]

/-- A run in a scope followed by a run that pushes and pops a template scope
created on the way. -/
theorem steps.then_template {st ts : ScopeId} {tab tab1 tab2 : scope_store}
    (h1 : steps st tab tab1)
    (hv : store_wf tab → st < tab.scopes.length →
      ts < tab1.scopes.length ∧ st ≠ ts ∧ (get_scope tab1 ts).template_scope = none)
    (h2 : template_steps st ts tab1 tab2) : steps st tab tab2 := by
  refine ⟨Nat.le_trans h1.scopes_le h2.grows.scopes_le,
    Nat.le_trans h1.entries_le h2.grows.entries_le,
    fun e h => h2.grows.defined_mono e (h1.defined_mono e h), ?_, ?_⟩
  · intro hw hs
    obtain ⟨a, b, c⟩ := hv hw hs
    exact h2.wf (h1.wf hw hs) (Nat.lt_of_lt_of_le hs h1.scopes_le) a b c
  · intro hw hs s hss
    obtain ⟨a, b, c⟩ := hv hw hs
    rw [h2.links (h1.wf hw hs) (Nat.lt_of_lt_of_le hs h1.scopes_le) a b c s
      (Nat.lt_of_lt_of_le hss h1.scopes_le)]
    exact h1.links hw hs s hss

theorem build_scope_template_function_definition_steps (env : collaborators)
    (henv : env_ok env) (fuel : Nat) (tab : scope_store) (a : AST) (st ts : ScopeId) :
    (build_scope_template_function_definition env fuel tab a st ts).holds
      (template_steps st ts tab) := by
  unfold build_scope_template_function_definition
  exact outcome.holds_bind (build_scope_function_definition_steps env henv fuel _ a st)
    (fun r hr => outcome.holds_pure (template_steps_push_pop hr))

theorem register_template_class_steps (st : ScopeId) (tab : scope_store)
    (simple_type_info : simple_type_t) (num_parameters : Nat)
    (template_param_info : List template_parameter_t) :
    (register_template_class tab simple_type_info num_parameters template_param_info).holds
      (steps st tab) := by
  unfold register_template_class
  split_ifs
  · exact outcome.holds_null_dereference
  · split
    · exact outcome.holds_null_dereference
    · split_ifs
      · split
        · exact outcome.holds_pure (steps_set_entry_keep st _ _ _ (Or.inl rfl) rfl)
        · exact outcome.holds_null_dereference
      · exact outcome.holds_pure (steps.refl st tab)
  · exact outcome.holds_pure (steps.refl st tab)

theorem define_template_symbol_steps (env : collaborators) (tab : scope_store) (st : ScopeId)
    (declarator : AST) : (define_template_symbol env tab st declarator).holds (steps st tab) := by
  unfold define_template_symbol
  refine outcome.holds_bind (outcome.holds_true _) (fun declarator_name _ => ?_)
  split
  · exact outcome.holds_internal_error
  · split_ifs
    · exact outcome.holds_running_error
    · exact outcome.holds_pure (steps_set_entry_keep st _ _ _ (Or.inr rfl) rfl)

theorem mark_template_function_steps (st : ScopeId) (tab : scope_store) (entry : EntryId) :
    steps st tab (mark_template_function tab entry) := by
  unfold mark_template_function
  split_ifs
  · exact steps_set_entry_keep st _ _ _ (Or.inl rfl) rfl
  · exact steps.refl st tab

theorem build_scope_template_declarator_steps (env : collaborators) (henv : env_ok env)
    (fuel : Nat) (tab : scope_store) (init_declarator_list : AST) (st ts : ScopeId)
    (gather_info : gather_decl_spec_t) (simple_type_info : simple_type_t) :
    (build_scope_template_declarator env fuel tab init_declarator_list st ts gather_info
      simple_type_info).holds (template_steps st ts tab) := by
  unfold build_scope_template_declarator
  split_ifs
  · exact outcome.holds_running_error
  · simp only
    refine outcome.holds_bind (build_scope_declarator_steps env henv fuel _ _ st _ _)
      (fun r hr => ?_)
    split
    · exact outcome.holds_null_dereference
    · have h1 := (template_steps_push_pop hr).compose
        ((mark_template_function_steps st (pop_template_scope r.tab st ts)
          (by assumption)).to_template_steps ts)
      split_ifs
      · exact outcome.holds_mono (define_template_symbol_steps env _ st _)
          (fun q hq => h1.compose (hq.to_template_steps ts))
      · exact outcome.holds_pure h1

theorem template_decl_specifier_seq_steps (env : collaborators) (henv : env_ok env)
    (tab : scope_store) (decl_specifier_seq : AST) (st ts : ScopeId) :
    (template_decl_specifier_seq env tab decl_specifier_seq st ts).holds
      (fun r => template_steps st ts tab r.1) := by
  unfold template_decl_specifier_seq
  split_ifs
  · exact outcome.holds_bind (build_scope_decl_specifier_seq_steps env henv _ _ st _ _)
      (fun r hr => outcome.holds_pure (template_steps_push_pop hr))
  · exact outcome.holds_pure (template_steps.unchanged st ts tab)

theorem build_scope_template_simple_declaration_steps (env : collaborators)
    (henv : env_ok env) (fuel : Nat) (tab : scope_store) (a : AST) (st ts : ScopeId)
    (num_parameters : Nat) (template_param_info : List template_parameter_t) :
    (build_scope_template_simple_declaration env fuel tab a st ts num_parameters
      template_param_info).holds (template_steps st ts tab) := by
  unfold build_scope_template_simple_declaration
  simp only
  refine outcome.holds_bind (template_decl_specifier_seq_steps env henv tab _ st ts)
    (fun d hd => ?_)
  refine outcome.holds_bind (register_template_class_steps st d.1 _ _ _) (fun tab1 h1 => ?_)
  have h2 := hd.compose (h1.to_template_steps ts)
  split_ifs
  · exact outcome.holds_mono
      (build_scope_template_declarator_steps env henv fuel tab1 _ st ts _ _)
      (fun q hq => h2.compose hq)
  · exact outcome.holds_pure h2

theorem build_scope_nontype_template_parameter_steps (env : collaborators)
    (henv : env_ok env) (fuel : Nat) (tab : scope_store) (a : AST) (st : ScopeId)
    (num_parameter : Nat) :
    (build_scope_nontype_template_parameter env fuel tab a st num_parameter).holds
      (fun r => steps st tab r.1) := by
  unfold build_scope_nontype_template_parameter
  simp only
  refine outcome.holds_bind (build_scope_decl_specifier_seq_steps env henv tab _ st _ _)
    (fun d hd => ?_)
  split_ifs
  · exact outcome.holds_null_dereference
  · refine outcome.holds_bind (build_scope_declarator_steps env henv fuel d.1 _ st _ _)
      (fun r hr => outcome.holds_pure ?_)
    refine ((hd.trans_same hr).trans_same ?_).trans_same (steps_write_record st _ _)
    split
    · exact steps_set_entry_keep st _ _ _ (Or.inl rfl) rfl
    · exact steps.refl st _
  · exact outcome.holds_pure (hd.trans_same (steps_write_record st _ _))

theorem build_scope_template_parameter_steps (env : collaborators) (henv : env_ok env)
    (fuel : Nat) (tab : scope_store) (a : AST) (st : ScopeId) (num_parameter : Nat) :
    (build_scope_template_parameter env fuel tab a st num_parameter).holds
      (fun r => steps st tab r.1) := by
  induction fuel generalizing a with
  | zero =>
    unfold build_scope_template_parameter
    exact outcome.holds_out_of_fuel
  | succ n ih =>
    unfold build_scope_template_parameter
    apply outcome.holds_ite
      (build_scope_nontype_template_parameter_steps env henv n tab a st num_parameter)
    apply outcome.holds_ite
    · exact outcome.holds_pure
        (build_scope_type_template_parameter_steps st tab a st num_parameter)
    apply outcome.holds_ite
    · exact outcome.holds_internal_error
    apply outcome.holds_ite (ih _)
    exact outcome.holds_internal_error

theorem build_scope_template_parameter_list_steps (env : collaborators) (henv : env_ok env)
    (fuel : Nat) (tab : scope_store) (a : AST) (st : ScopeId) :
    (build_scope_template_parameter_list env fuel tab a st).holds
      (fun r => steps st tab r.1) := by
  unfold build_scope_template_parameter_list
  exact outcome.holds_foldlM
    (I := fun (s : scope_store × List template_parameter_t) => steps st tab s.1) _ _
    (steps.refl st tab)
    (fun s x hs => outcome.holds_bind
      (build_scope_template_parameter_steps env henv fuel s.1 _ st _)
      (fun r hr => outcome.holds_pure (steps.trans_same hs hr)))

/-- A template scope created in a scope of a well-formed table is another
scope than that one and has no template scope link. -/
theorem new_template_scope_fresh (tab : scope_store) (st : ScopeId)
    (hs : st < tab.scopes.length) :
    (new_template_scope tab st).2 < (new_template_scope tab st).1.scopes.length ∧
      st ≠ (new_template_scope tab st).2 ∧
      (get_scope (new_template_scope tab st).1 (new_template_scope tab st).2).template_scope
        = none := by
  refine ⟨new_scope_valid _ _ _ _ _, Nat.ne_of_lt hs, ?_⟩
  unfold new_template_scope
  rw [get_scope_new_scope, new_scope_id, if_pos rfl]
  rfl

theorem build_scope_template_declaration_steps (env : collaborators) (henv : env_ok env)
    (fuel : Nat) (tab : scope_store) (a : AST) (st : ScopeId) :
    (build_scope_template_declaration env fuel tab a st).holds (steps st tab) := by
  unfold build_scope_template_declaration
  simp only
  refine outcome.holds_bind
    (build_scope_template_parameter_list_steps env henv fuel _ _ (new_template_scope tab st).2)
    (fun p hp => ?_)
  have h1 : steps st tab p.1 :=
    (steps_new_template_scope st tab).trans_new (new_scope_valid _ _ _ _ _) hp
  have hv : store_wf tab → st < tab.scopes.length →
      (new_template_scope tab st).2 < p.1.scopes.length ∧ st ≠ (new_template_scope tab st).2 ∧
        (get_scope p.1 (new_template_scope tab st).2).template_scope = none := by
    intro hw hs
    obtain ⟨a1, a2, a3⟩ := new_template_scope_fresh tab st hs
    refine ⟨hp.valid a1, a2, ?_⟩
    rw [hp.links ((steps_new_template_scope st tab).wf hw hs) a1 _ a1]
    exact a3
  apply outcome.holds_ite
  · exact outcome.holds_mono
      (build_scope_template_function_definition_steps env henv fuel p.1 _ st _)
      (fun q hq => h1.then_template hv hq)
  apply outcome.holds_ite
  · exact outcome.holds_mono
      (build_scope_template_simple_declaration_steps env henv fuel p.1 _ st _ _ _)
      (fun q hq => h1.then_template hv hq)
  exact outcome.holds_internal_error

theorem build_scope_explicit_template_specialization_steps (env : collaborators)
    (henv : env_ok env) (fuel : Nat) (tab : scope_store) (a : AST) (st : ScopeId) :
    (build_scope_explicit_template_specialization env fuel tab a st).holds (steps st tab) := by
  unfold build_scope_explicit_template_specialization
  simp only
  have hv : store_wf tab → st < tab.scopes.length →
      (new_template_scope tab st).2 < (new_template_scope tab st).1.scopes.length ∧
        st ≠ (new_template_scope tab st).2 ∧
        (get_scope (new_template_scope tab st).1
          (new_template_scope tab st).2).template_scope = none :=
    fun _ hs => new_template_scope_fresh tab st hs
  apply outcome.holds_ite
  · exact outcome.holds_mono
      (build_scope_template_function_definition_steps env henv fuel _ _ st _)
      (fun q hq => (steps_new_template_scope st tab).then_template hv hq)
  apply outcome.holds_ite
  · exact outcome.holds_mono
      (build_scope_template_simple_declaration_steps env henv fuel _ _ st _ _ _)
      (fun q hq => (steps_new_template_scope st tab).then_template hv hq)
  exact outcome.holds_internal_error

/-! ### Declarations -/

theorem build_scope_declaration_sequence_steps (env : collaborators) (henv : env_ok env)
    (tab : scope_store) (list : AST) (st : ScopeId) :
    (build_scope_declaration_sequence env tab list st).holds (steps st tab) := by
  unfold build_scope_declaration_sequence
  exact outcome.holds_foldlM (I := fun t => steps st tab t) _ _ (steps.refl st tab)
    (fun s x hs => outcome.holds_mono (henv.declaration s _ st)
      (fun q hq => steps.trans_same hs hq))

theorem register_namespace_steps (env : collaborators) (tab : scope_store)
    (namespace_name : AST) (st : ScopeId) :
    steps st tab (register_namespace env tab namespace_name st).1 := by
  have hc : steps st tab
      (set_entry (new_symbol (new_namespace_scope tab (some st)).1 st (ASTText namespace_name)).1
        (new_symbol (new_namespace_scope tab (some st)).1 st (ASTText namespace_name)).2
        { get_entry (new_symbol (new_namespace_scope tab (some st)).1 st
              (ASTText namespace_name)).1
            (new_symbol (new_namespace_scope tab (some st)).1 st (ASTText namespace_name)).2 with
          kind := cxx_symbol_kind.SK_NAMESPACE,
          related_scope := some (new_namespace_scope tab (some st)).2 }) := by
    refine steps.trans_same ?_
      (steps_set_entry_scope st _ _ _ (new_namespace_scope tab (some st)).2 (Or.inl rfl) rfl ?_)
    · exact (steps_new_scope st tab scope_kind_t.NAMESPACE_SCOPE none none).trans_same
        (steps_new_symbol st _ st _)
    · rw [new_symbol_scopes_length]
      exact new_scope_valid _ _ _ _ _
  unfold register_namespace
  simp only
  split
  · split_ifs
    · exact steps.refl st tab
    · exact hc
  · exact hc

theorem build_scope_namespace_definition_steps (env : collaborators) (henv : env_ok env)
    (tab : scope_store) (a : AST) (st : ScopeId) :
    (build_scope_namespace_definition env tab a st).holds (steps st tab) := by
  unfold build_scope_namespace_definition
  simp only
  have h1 := register_namespace_steps env tab (ASTSon0 a) st
  split_ifs
  · exact outcome.holds_running_error
  · split
    · exact outcome.holds_pure h1
    · rename_i related_scope heq
      exact outcome.holds_mono
        (build_scope_declaration_sequence_steps env henv _ (ASTSon1 a) related_scope)
        (fun q hq => h1.trans (fun hw _ => hw.1 _ _ heq) hq)
  · split
    · exact outcome.holds_null_dereference
    · rename_i related_scope heq
      exact outcome.holds_mono
        (build_scope_declaration_sequence_steps env henv _ (ASTSon1 a) related_scope)
        (fun q hq => h1.trans (fun hw _ => hw.1 _ _ heq) hq)
  · exact outcome.holds_pure (steps.refl st tab)

theorem build_scope_linkage_specifier_steps (env : collaborators) (henv : env_ok env)
    (tab : scope_store) (a : AST) (st : ScopeId) :
    (build_scope_linkage_specifier env tab a st).holds (steps st tab) := by
  unfold build_scope_linkage_specifier
  simp only
  split_ifs
  · exact outcome.holds_pure (steps.refl st tab)
  · exact build_scope_declaration_sequence_steps env henv tab _ st

theorem build_scope_declaration_steps (env : collaborators) (henv : env_ok env) (fuel : Nat)
    (tab : scope_store) (a : AST) (st : ScopeId) :
    (build_scope_declaration env fuel tab a st).holds (steps st tab) := by
  unfold build_scope_declaration
  apply outcome.holds_ite (build_scope_simple_declaration_steps env henv fuel tab a st)
  apply outcome.holds_ite (build_scope_namespace_definition_steps env henv tab a st)
  apply outcome.holds_ite
  · exact outcome.holds_bind (build_scope_function_definition_steps env henv fuel tab a st)
      (fun r hr => outcome.holds_pure hr)
  apply outcome.holds_ite (build_scope_linkage_specifier_steps env henv tab a st)
  apply outcome.holds_ite (henv.declaration tab _ st)
  apply outcome.holds_ite (build_scope_template_declaration_steps env henv fuel tab a st)
  apply outcome.holds_ite
  · exact outcome.holds_pure (steps.refl st tab)
  apply outcome.holds_ite
    (build_scope_explicit_template_specialization_steps env henv fuel tab a st)
  apply outcome.holds_ite (build_scope_using_directive_steps env tab a st)
  apply outcome.holds_ite (henv.declaration tab _ st)
  exact outcome.holds_internal_error

/-- The three entry points do to the symbol table what a run may do, at
every depth of the recursion. -/
theorem env_ok_tie (env : collaborators) (fuel : Nat) : env_ok (tie env fuel) := by
  induction fuel with
  | zero =>
    exact ⟨fun _ _ _ _ => outcome.holds_out_of_fuel, fun _ _ _ => outcome.holds_out_of_fuel,
      fun _ _ _ => outcome.holds_out_of_fuel⟩
  | succ n ih =>
    exact ⟨fun tab a st info => gather_type_spec_from_class_specifier_steps _ ih n tab a st info,
      fun tab a st => build_scope_declaration_steps _ ih n tab a st,
      fun tab a st => build_scope_statement_steps _ ih n tab a st⟩

theorem store_wf_empty_store : store_wf empty_store :=
  ⟨fun e s h => by simp [get_entry, empty_store, zero_entry] at h,
    fun s hs => by simp [empty_store] at hs⟩

theorem store_wf_global_scope : store_wf (new_namespace_scope empty_store none).1 := by
  refine ⟨fun e s h => by simp [get_entry, new_namespace_scope, new_scope, empty_store,
    zero_entry] at h, fun s hs => ?_⟩
  have h0 : s = 0 := by
    simp [new_namespace_scope, new_scope, empty_store] at hs
    exact hs
  subst h0
  left
  exact ⟨rfl, rfl⟩

/-- The symbol table of a translation unit is well-formed, and the symbols
that are defined at a moment of the run stay so. -/
theorem build_scope_translation_unit_wf (env : collaborators) (fuel : Nat) (a : AST) :
    (build_scope_translation_unit env fuel a).holds store_wf := by
  unfold build_scope_translation_unit
  simp only
  split_ifs
  · exact outcome.holds_pure store_wf_empty_store
  · exact outcome.holds_mono
      (build_scope_declaration_sequence_steps (tie env fuel) (env_ok_tie env fuel) _ _ _)
      (fun q hq => hq.wf store_wf_global_scope (new_scope_valid _ _ _ _ _))

theorem store_wf_global_store : store_wf global_store :=
  store_wf_global_scope

theorem store_wf_nested_template_store : store_wf nested_template_store :=
  (steps_new_template_scope 0 _).wf
    (store_wf_push_template_scope _ 0 1
      ((steps_new_template_scope 0 global_store).wf store_wf_global_store (by decide)))
    (by decide)

/-- C28: a template function definition and a template simple declaration
that return leave the template scope link of the scope they were run in as it
was before, and the template scope without link, as it was before the push:
the table is well-formed, the scope and the template scope exist and differ,
and the template scope has no link when the run starts, as is the case of the
template scope `build_scope_template_declaration` creates. The three entry
points of the recursion are the functions of the file, at any depth. -/
theorem template_scope_push_pop_balanced (env : collaborators) (depth fuel : Nat)
    (tab tab' : scope_store) (a : AST) (st ts : ScopeId) (num_parameters : Nat)
    (template_param_info : List template_parameter_t)
    (hw : store_wf tab) (hs : st < tab.scopes.length) (hts : ts < tab.scopes.length)
    (hne : st ≠ ts) (hn : (get_scope tab ts).template_scope = none) :
    (build_scope_template_function_definition (tie env depth) fuel tab a st ts
        = outcome.ok tab' →
      (get_scope tab' st).template_scope = (get_scope tab st).template_scope ∧
        (get_scope tab' ts).template_scope = none) ∧
    (build_scope_template_simple_declaration (tie env depth) fuel tab a st ts num_parameters
        template_param_info = outcome.ok tab' →
      (get_scope tab' st).template_scope = (get_scope tab st).template_scope ∧
        (get_scope tab' ts).template_scope = none) := by
  refine ⟨fun h => ?_, fun h => ?_⟩
  · have ht := build_scope_template_function_definition_steps (tie env depth)
      (env_ok_tie env depth) fuel tab a st ts tab' h
    exact ⟨ht.links hw hs hts hne hn st hs, (ht.links hw hs hts hne hn ts hts).trans hn⟩
  · have ht := build_scope_template_simple_declaration_steps (tie env depth)
      (env_ok_tie env depth) fuel tab a st ts num_parameters template_param_info tab' h
    exact ⟨ht.links hw hs hts hne hn st hs, (ht.links hw hs hts hne hn ts hts).trans hn⟩

theorem template_scope_push_pop_balanced_witness :
    (store_wf nested_template_store ∧ 0 < nested_template_store.scopes.length ∧
      2 < nested_template_store.scopes.length ∧ (0 : ScopeId) ≠ 2 ∧
      (get_scope nested_template_store 2).template_scope = none ∧
      (get_scope nested_template_store 0).template_scope = some 1 ∧
      build_scope_template_function_definition (tie sample_collaborators 3) 8
        nested_template_store void_f 0 2 = outcome.ok store_after_template_void_f ∧
      build_scope_template_simple_declaration (tie sample_collaborators 3) 8
        nested_template_store declaration_class_A 0 2 0 []
          = outcome.ok store_after_template_declaration_class_A) ∧
    ((get_scope store_after_template_void_f 0).template_scope
        = (get_scope nested_template_store 0).template_scope ∧
      (get_scope store_after_template_void_f 2).template_scope = none) ∧
    ((get_scope store_after_template_declaration_class_A 0).template_scope
        = (get_scope nested_template_store 0).template_scope ∧
      (get_scope store_after_template_declaration_class_A 2).template_scope = none) :=
  ⟨⟨store_wf_nested_template_store, by decide, by decide, by decide, by decide, by decide,
      by decide!, by decide!⟩,
    (template_scope_push_pop_balanced sample_collaborators 3 8 nested_template_store
      store_after_template_void_f void_f 0 2 0 [] store_wf_nested_template_store
      (by decide) (by decide) (by decide) (by decide)).1 (by decide!),
    (template_scope_push_pop_balanced sample_collaborators 3 8 nested_template_store
      store_after_template_declaration_class_A declaration_class_A 0 2 0 []
      store_wf_nested_template_store (by decide) (by decide) (by decide) (by decide)).2
      (by decide!)⟩

/-- C13 (counterexample): `enum E { A };` is processed in the global scope,
which makes the Enum entry `E` (entry 0) defined; the same declaration is
processed again and is accepted: no program error is raised, the entry is
reused and is still defined. The same holds for `class A { };` processed
twice. -/
theorem second_specifier_body_accepted :
    build_scope_simple_declaration (tie sample_collaborators 1) 3 global_store
        (type_declaration enum_E_A) 0 = outcome.ok store_after_enum_E_A ∧
      (get_entry store_after_enum_E_A 0).symbol_name = "E" ∧
      (get_entry store_after_enum_E_A 0).kind = cxx_symbol_kind.SK_ENUM ∧
      (get_entry store_after_enum_E_A 0).scope = 0 ∧
      (get_entry store_after_enum_E_A 0).defined = true ∧
      build_scope_simple_declaration (tie sample_collaborators 1) 3 store_after_enum_E_A
        (type_declaration enum_E_A) 0 = outcome.ok store_after_enum_E_A_twice ∧
      (store_after_enum_E_A_twice.entries.map (fun e => (e.symbol_name, e.kind, e.defined)))
        = [("E", cxx_symbol_kind.SK_ENUM, true), ("A", cxx_symbol_kind.SK_ENUMERATOR, false),
            ("A", cxx_symbol_kind.SK_ENUMERATOR, false)] ∧
    build_scope_simple_declaration (tie sample_collaborators 2) 8 global_store
        declaration_class_A 0 = outcome.ok store_after_class_A ∧
      (store_after_class_A.entries.map (fun e => (e.symbol_name, e.kind, e.defined)))
        = [("A", cxx_symbol_kind.SK_CLASS, true)] ∧
      build_scope_simple_declaration (tie sample_collaborators 2) 8 store_after_class_A
        declaration_class_A 0 = outcome.ok store_after_class_A_twice ∧
      (store_after_class_A_twice.entries.map (fun e => (e.symbol_name, e.kind, e.defined)))
        = [("A", cxx_symbol_kind.SK_CLASS, true)] := by
  refine ⟨?_, ?_, ?_, ?_, ?_, ?_, ?_, ?_, ?_, ?_, ?_⟩ <;> decide!

/-- C13 (amended): the program error `This symbol has already been defined`
is raised where a definition is made for a declarator, by
`define_declared_symbol` in a simple declaration and by the definition step of
a template declaration, when the first entry found for the declared name is
already defined. The builders of the enum specifier and of the class specifier
make no such check: the enum specifier never stops the run, a defined entry
stays defined through both, and when lookup of the name yields exactly one
entry, which is an Enum (a Class) entry, that entry is the symbol of the
specifier and no symbol is created for it. -/
theorem redefinition_checked_for_declarators_only (env : collaborators) (depth fuel : Nat)
    (tab : scope_store) (st : ScopeId) (declarator initializer declarator_name a : AST)
    (entry : EntryId) (rest : List EntryId) (simple_type_info : simple_type_t)
    (hname : get_declarator_name declarator = outcome.ok declarator_name)
    (hq : query_id_expression env tab st declarator_name
      unqualified_lookup_behaviour_t.NOFULL_UNQUALIFIED_LOOKUP = entry :: rest)
    (hd : (get_entry tab entry).defined = true) :
    define_declared_symbol env tab st declarator initializer
        = outcome.running_error "This symbol has already been defined" ∧
    define_template_symbol env tab st declarator
        = outcome.running_error "This symbol has already been defined" ∧
    (get_entry (gather_type_spec_from_enum_specifier env tab a st simple_type_info).1
        entry).defined = true ∧
    (∀ r, gather_type_spec_from_class_specifier (tie env depth) fuel tab a st simple_type_info
        = outcome.ok r → (get_entry r.1 entry).defined = true) ∧
    (∀ e, ASTSon0 a ≠ AST.null →
      env.query_unqualified_name tab st (ASTText (ASTSon0 a)) = [e] →
      (get_entry tab e).kind = cxx_symbol_kind.SK_ENUM →
      (register_enum_name env tab a st simple_type_info).2.2 = some e ∧
        (register_enum_name env tab a st simple_type_info).1.entries.length
          = tab.entries.length) ∧
    (∀ name e, env.query_unqualified_name tab st name = [e] →
      (get_entry tab e).kind = cxx_symbol_kind.SK_CLASS →
      class_symbol env tab st name = (tab, e)) := by
  refine ⟨?_, ?_, ?_, ?_, ?_, ?_⟩
  · unfold define_declared_symbol
    rw [hname, outcome.ok_bind]
    simp only [hq, hd, if_true]
  · unfold define_template_symbol
    rw [hname, outcome.ok_bind]
    simp only [hq, hd, if_true]
  · exact (gather_type_spec_from_enum_specifier_steps env tab a st simple_type_info).defined_mono
      entry hd
  · intro r hr
    exact (gather_type_spec_from_class_specifier_steps (tie env depth) (env_ok_tie env depth)
      fuel tab a st simple_type_info r hr).defined_mono entry hd
  · intro e hn hl hk
    unfold register_enum_name
    simp only [hn, hl, hk, if_true, ne_eq, not_false_eq_true, set_entry_length]
    exact ⟨trivial, trivial⟩
  · intro name e hl hk
    unfold class_symbol
    simp only [hl, hk, if_true]

theorem redefinition_checked_for_declarators_only_witness :
    (get_declarator_name declarator_E = outcome.ok (symbol "E") ∧
      query_id_expression sample_collaborators store_after_enum_E_A 0 (symbol "E")
        unqualified_lookup_behaviour_t.NOFULL_UNQUALIFIED_LOOKUP = 0 :: [] ∧
      (get_entry store_after_enum_E_A 0).defined = true) ∧
    (define_declared_symbol sample_collaborators store_after_enum_E_A 0 declarator_E AST.null
        = outcome.running_error "This symbol has already been defined" ∧
    define_template_symbol sample_collaborators store_after_enum_E_A 0 declarator_E
        = outcome.running_error "This symbol has already been defined" ∧
    (get_entry (gather_type_spec_from_enum_specifier sample_collaborators store_after_enum_E_A
        enum_E_A 0 zero_simple_type).1 0).defined = true ∧
    (∀ r, gather_type_spec_from_class_specifier (tie sample_collaborators 2) 8
        store_after_enum_E_A enum_E_A 0 zero_simple_type = outcome.ok r →
      (get_entry r.1 0).defined = true) ∧
    (∀ e, ASTSon0 enum_E_A ≠ AST.null →
      sample_collaborators.query_unqualified_name store_after_enum_E_A 0
        (ASTText (ASTSon0 enum_E_A)) = [e] →
      (get_entry store_after_enum_E_A e).kind = cxx_symbol_kind.SK_ENUM →
      (register_enum_name sample_collaborators store_after_enum_E_A enum_E_A 0
          zero_simple_type).2.2 = some e ∧
        (register_enum_name sample_collaborators store_after_enum_E_A enum_E_A 0
          zero_simple_type).1.entries.length = store_after_enum_E_A.entries.length) ∧
    (∀ name e, sample_collaborators.query_unqualified_name store_after_enum_E_A 0 name = [e] →
      (get_entry store_after_enum_E_A e).kind = cxx_symbol_kind.SK_CLASS →
      class_symbol sample_collaborators store_after_enum_E_A 0 name
        = (store_after_enum_E_A, e))) :=
  ⟨⟨by decide, by decide!, by decide!⟩,
    redefinition_checked_for_declarators_only sample_collaborators 2 8 store_after_enum_E_A 0
      declarator_E AST.null (symbol "E") enum_E_A 0 [] zero_simple_type (by decide)
      (by decide!) (by decide!)⟩

/-- C14: a symbol that is defined is still defined after a simple
declaration, a class specifier, an enum specifier, a function definition, a
template declaration, and after any declaration, whatever the operation does
on the way: the flag `defined` never goes from true to false. The three entry
points of the recursion are the functions of the file, at any depth. -/
theorem defined_is_monotonic (env : collaborators) (depth fuel : Nat) (tab : scope_store)
    (a : AST) (st : ScopeId) (simple_type_info : simple_type_t) (e : EntryId)
    (he : (get_entry tab e).defined = true) :
    (∀ tab', build_scope_simple_declaration (tie env depth) fuel tab a st = outcome.ok tab' →
      (get_entry tab' e).defined = true) ∧
    (∀ r, gather_type_spec_from_class_specifier (tie env depth) fuel tab a st simple_type_info
        = outcome.ok r → (get_entry r.1 e).defined = true) ∧
    (get_entry (gather_type_spec_from_enum_specifier (tie env depth) tab a st
        simple_type_info).1 e).defined = true ∧
    (∀ r, build_scope_function_definition (tie env depth) fuel tab a st = outcome.ok r →
      (get_entry r.1 e).defined = true) ∧
    (∀ tab', build_scope_template_declaration (tie env depth) fuel tab a st = outcome.ok tab' →
      (get_entry tab' e).defined = true) ∧
    (∀ tab', build_scope_declaration (tie env depth) fuel tab a st = outcome.ok tab' →
      (get_entry tab' e).defined = true) :=
  ⟨fun tab' h => (build_scope_simple_declaration_steps _ (env_ok_tie env depth) fuel tab a st
      tab' h).defined_mono e he,
    fun r h => (gather_type_spec_from_class_specifier_steps _ (env_ok_tie env depth) fuel tab a
      st simple_type_info r h).defined_mono e he,
    (gather_type_spec_from_enum_specifier_steps _ tab a st simple_type_info).defined_mono e he,
    fun r h => (build_scope_function_definition_steps _ (env_ok_tie env depth) fuel tab a st
      r h).defined_mono e he,
    fun tab' h => (build_scope_template_declaration_steps _ (env_ok_tie env depth) fuel tab a st
      tab' h).defined_mono e he,
    fun tab' h => (build_scope_declaration_steps _ (env_ok_tie env depth) fuel tab a st
      tab' h).defined_mono e he⟩

theorem defined_is_monotonic_witness :
    ((get_entry store_after_enum_E_A 0).defined = true ∧
      build_scope_simple_declaration (tie sample_collaborators 1) 3 store_after_enum_E_A
        (type_declaration enum_E_A) 0 = outcome.ok store_after_enum_E_A_twice ∧
      build_scope_declaration (tie sample_collaborators 1) 3 store_after_enum_E_A
        (type_declaration enum_E_A) 0 = outcome.ok store_after_enum_E_A_twice) ∧
    (get_entry store_after_enum_E_A_twice 0).defined = true ∧
    (get_entry store_after_enum_E_A_twice 0).defined = true :=
  ⟨⟨by decide!, by decide!, by decide!⟩,
    (defined_is_monotonic sample_collaborators 1 3 store_after_enum_E_A
      (type_declaration enum_E_A) 0 zero_simple_type 0 (by decide!)).1
      store_after_enum_E_A_twice (by decide!),
    (defined_is_monotonic sample_collaborators 1 3 store_after_enum_E_A
      (type_declaration enum_E_A) 0 zero_simple_type 0 (by decide!)).2.2.2.2.2
      store_after_enum_E_A_twice (by decide!)⟩

theorem enclosing_scope_reaches_global (tab : scope_store) (hw : store_wf tab) :
    ∀ s, s < tab.scopes.length → ∃ n, n ≤ s ∧ enclosing_scope tab n s = some 0 := by
  intro s
  induction s using Nat.strong_induction_on with
  | _ s ih =>
    intro hs
    rcases hw.2 s hs with ⟨_, h0⟩ | ⟨p, hp, hlt⟩
    · subst h0
      exact ⟨0, Nat.le_refl _, rfl⟩
    · obtain ⟨n, hn, hr⟩ := ih p hlt (Nat.lt_trans hlt hs)
      refine ⟨n + 1, Nat.succ_le_of_lt (Nat.lt_of_le_of_lt hn hlt), ?_⟩
      unfold enclosing_scope
      rw [hp]
      exact hr

/-- C18: in the symbol table of a translation unit, the identifier of a scope
being the number of scopes created before it, every scope but the first has an
enclosing scope that was created before it, and the first scope, the global
one, is the only scope without enclosing scope; so going from a scope to the
enclosing scope, again and again, reaches the global scope after at most as
many steps as the identifier of the scope. -/
theorem scope_parents_created_before (env : collaborators) (fuel : Nat) (a : AST)
    (tab : scope_store) (h : build_scope_translation_unit env fuel a = outcome.ok tab) :
    (∀ s p, s < tab.scopes.length → (get_scope tab s).contained_in = some p → p < s) ∧
    (∀ s, s < tab.scopes.length → ((get_scope tab s).contained_in = none ↔ s = 0)) ∧
    (∀ s, s < tab.scopes.length → ∃ n, n ≤ s ∧ enclosing_scope tab n s = some 0) := by
  have hw : store_wf tab := build_scope_translation_unit_wf env fuel a tab h
  refine ⟨?_, ?_, enclosing_scope_reaches_global tab hw⟩
  · intro s p hs hp
    rcases hw.2 s hs with ⟨hn, _⟩ | ⟨q, hq, hlt⟩
    · rw [hn] at hp
      cases hp
    · rw [hq] at hp
      cases hp
      exact hlt
  · intro s hs
    rcases hw.2 s hs with ⟨hn, h0⟩ | ⟨q, hq, hlt⟩
    · exact ⟨fun _ => h0, fun _ => hn⟩
    · refine ⟨fun hn => ?_, fun h0 => ?_⟩
      · rw [hq] at hn
        cases hn
      · subst h0
        exact absurd hlt (Nat.not_lt_zero _)

theorem scope_parents_created_before_witness :
    (build_scope_translation_unit sample_collaborators 12 namespace_N_void_f
        = outcome.ok store_after_namespace_N_void_f ∧
      store_after_namespace_N_void_f.scopes.map (fun s => (s.kind, s.contained_in))
        = [(scope_kind_t.NAMESPACE_SCOPE, none), (scope_kind_t.NAMESPACE_SCOPE, some 0),
            (scope_kind_t.FUNCTION_SCOPE, some 1), (scope_kind_t.BLOCK_SCOPE, some 2)]) ∧
    ((∀ s p, s < store_after_namespace_N_void_f.scopes.length →
        (get_scope store_after_namespace_N_void_f s).contained_in = some p → p < s) ∧
    (∀ s, s < store_after_namespace_N_void_f.scopes.length →
      ((get_scope store_after_namespace_N_void_f s).contained_in = none ↔ s = 0)) ∧
    (∀ s, s < store_after_namespace_N_void_f.scopes.length →
      ∃ n, n ≤ s ∧ enclosing_scope store_after_namespace_N_void_f n s = some 0)) :=
  ⟨⟨by decide!, by decide!⟩,
    scope_parents_created_before sample_collaborators 12 namespace_N_void_f
      store_after_namespace_N_void_f (by decide!)⟩

/-- The switch of `get_operator_function_name` read as a table. -/
theorem get_operator_function_name_eq (a : AST) :
    get_operator_function_name a =
      if ASTType a ≠ node_t.AST_OPERATOR_FUNCTION_ID then
        outcome.internal_error "This node is not valid here %s"
      else
        match operator_tokens.lookup (ASTType (ASTSon0 a)) with
        | some token => outcome.ok ("operator " ++ token)
        | none => outcome.internal_error "Invalid node type %s" := by
  unfold get_operator_function_name
  split_ifs
  · rfl
  · generalize ASTType (ASTSon0 a) = k
    cases k <;> rfl

theorem mem_of_lookup_operator_tokens (k : node_t) (t : String) :
    ∀ (l : List (node_t × String)), l.lookup k = some t → (k, t) ∈ l := by
  intro l
  induction l with
  | nil => intro h; cases h
  | cons p ps ih =>
    intro h
    obtain ⟨k', t'⟩ := p
    by_cases hk : k = k'
    · subst hk
      simp only [List.lookup, beq_self_eq_true, Option.some.injEq] at h
      subst h
      exact List.mem_cons_self _ _
    · have hb : (k == k') = false := by simpa using hk
      simp only [List.lookup, hb] at h
      exact List.mem_cons_of_mem _ (ih h)

theorem operator_name_cancel (s t : String) (h : "operator " ++ s = "operator " ++ t) :
    s = t := by
  have h1 := congrArg String.data h
  simp only [String.data_append] at h1
  exact String.ext (List.append_cancel_left h1)

theorem operator_tokens_distinct :
    ∀ p ∈ operator_tokens, ∀ q ∈ operator_tokens, p.2 = q.2 → p.1 = q.1 := by
  decide!

/-- What `get_operator_function_name` returns, when it returns. -/
theorem get_operator_function_name_ok (a : AST) (n : String)
    (h : get_operator_function_name a = outcome.ok n) :
    ∃ t, (ASTType (ASTSon0 a), t) ∈ operator_tokens ∧ n = "operator " ++ t := by
  rw [get_operator_function_name_eq] at h
  split_ifs at h
  cases hl : operator_tokens.lookup (ASTType (ASTSon0 a)) with
  | none => rw [hl] at h; cases h
  | some t =>
    rw [hl] at h
    simp only [outcome.ok.injEq] at h
    exact ⟨t, mem_of_lookup_operator_tokens _ _ _ hl, h.symm⟩

/-- C31: `get_operator_function_name` gives every overloadable operator, by
the kind of the node of the operator, the name made of the text `operator `
and the token of the operator, and no name to another kind; an operator
function id of `AST_ADD_OPERATOR` gets `operator +`. Two operator function ids
that get the same name have operators of the same kind. -/
theorem operator_function_names_distinct (a b : AST) (n m : String)
    (ha : get_operator_function_name a = outcome.ok n)
    (hb : get_operator_function_name b = outcome.ok m) :
    (∃ t, (ASTType (ASTSon0 a), t) ∈ operator_tokens ∧ n = "operator " ++ t) ∧
    (n = m → ASTType (ASTSon0 a) = ASTType (ASTSon0 b)) ∧
    (∀ p ∈ operator_tokens, ∀ c, ASTType c = node_t.AST_OPERATOR_FUNCTION_ID →
      ASTType (ASTSon0 c) = p.1 → get_operator_function_name c = outcome.ok ("operator " ++ p.2)) ∧
    get_operator_function_name (operator_function_id node_t.AST_ADD_OPERATOR)
      = outcome.ok "operator +" := by
  obtain ⟨t, ht, hn⟩ := get_operator_function_name_ok a n ha
  obtain ⟨u, hu, hm⟩ := get_operator_function_name_ok b m hb
  refine ⟨⟨t, ht, hn⟩, ?_, ?_, by decide⟩
  · intro hnm
    rw [hn, hm] at hnm
    exact operator_tokens_distinct _ ht _ hu (operator_name_cancel t u hnm)
  · have key : ∀ p ∈ operator_tokens,
        (match operator_tokens.lookup p.1 with
          | some token => outcome.ok ("operator " ++ token)
          | none => outcome.internal_error "Invalid node type %s")
          = outcome.ok ("operator " ++ p.2) := by decide!
    intro p hp c hc hk
    rw [get_operator_function_name_eq, if_neg (by simp [hc]), hk]
    exact key p hp

theorem operator_function_names_distinct_witness :
    (get_operator_function_name (operator_function_id node_t.AST_LEFT_OPERATOR)
        = outcome.ok "operator <<" ∧
      get_operator_function_name (operator_function_id node_t.AST_LEFT_ASSIGN_OPERATOR)
        = outcome.ok "operator <<=") ∧
    ((∃ t, (ASTType (ASTSon0 (operator_function_id node_t.AST_LEFT_OPERATOR)), t)
        ∈ operator_tokens ∧ "operator <<" = "operator " ++ t) ∧
    ("operator <<" = "operator <<=" →
      ASTType (ASTSon0 (operator_function_id node_t.AST_LEFT_OPERATOR))
        = ASTType (ASTSon0 (operator_function_id node_t.AST_LEFT_ASSIGN_OPERATOR))) ∧
    (∀ p ∈ operator_tokens, ∀ c, ASTType c = node_t.AST_OPERATOR_FUNCTION_ID →
      ASTType (ASTSon0 c) = p.1 → get_operator_function_name c = outcome.ok ("operator " ++ p.2)) ∧
    get_operator_function_name (operator_function_id node_t.AST_ADD_OPERATOR)
      = outcome.ok "operator +") :=
  ⟨⟨by decide, by decide⟩,
    operator_function_names_distinct (operator_function_id node_t.AST_LEFT_OPERATOR)
      (operator_function_id node_t.AST_LEFT_ASSIGN_OPERATOR) "operator <<" "operator <<="
      (by decide) (by decide)⟩

/-- C34 (defect): the specifiers `long` of a decl-specifier-seq are recorded in
one flag, `gather_info->is_long`, which `build_scope_decl_specifier_seq` adds
once to the count of the type specifier; with the type specifier `int` the
count is at most 1 whatever the number of `long` specifiers, so `long long
int`, `int long long` and `long int long` get the same base type as `long
int`. -/
theorem long_long_int_counts_one :
    long_count long_int = some 1 ∧ long_count long_long_int = some 1 ∧
    long_count int_long_long = some 1 ∧ long_count long_int_long = some 1 ∧
    build_scope_decl_specifier_seq sample_collaborators global_store long_long_int 0
        zero_gather_info simple_type_t.null
      = build_scope_decl_specifier_seq sample_collaborators global_store long_int 0
        zero_gather_info simple_type_t.null ∧
    (∀ env tab a st gather_info simple_type_info r,
      ASTType (ASTSon1 a) = node_t.AST_INT_TYPE →
      build_scope_decl_specifier_seq env tab a st gather_info simple_type_info = outcome.ok r →
      r.2.2.fields.is_long ≤ 1) := by
  refine ⟨by decide, by decide, by decide, by decide, by decide, ?_⟩
  intro env tab a st gather_info simple_type_info r hk h
  unfold build_scope_decl_specifier_seq at h
  obtain ⟨g1, _, h⟩ := outcome.bind_eq_ok _ _ _ h
  obtain ⟨g2, _, h⟩ := outcome.bind_eq_ok _ _ _ h
  have hn : ASTSon1 a ≠ AST.null := by
    intro hnull
    rw [hnull] at hk
    cases hk
  rw [if_pos hn] at h
  obtain ⟨t, ht, h⟩ := outcome.bind_eq_ok _ _ _ h
  unfold gather_type_spec_information at ht
  simp only [hk, outcome.pure_eq, outcome.ok.injEq] at ht
  simp only [outcome.pure_eq, outcome.ok.injEq] at h
  subst h
  subst ht
  simp only [zero_simple_type, simple_type_t.update, simple_type_t.fields, apply_gather_info,
    zero_simple_type_fields, id]
  split_ifs <;> simp

/-- C38 (defect): `build_scope_for_statement` does nothing with the
for-init-statement: the result is the same whatever the first child of the
statement is, and after `for (int i = 0; ; ) { }` the symbol table holds the
block scope of the loop and the block scope of its body, and no symbol. -/
theorem for_init_declaration_not_registered :
    (∀ env fuel tab st kind init init' condition expression statement text,
      build_scope_for_statement env fuel tab
          (AST.node kind init condition expression statement text) st
        = build_scope_for_statement env fuel tab
          (AST.node kind init' condition expression statement text) st) ∧
    ASTSon0 for_int_i = simple_declaration AST.null node_t.AST_INT_TYPE "i" (literal "0") ∧
    ∃ tab1, build_scope_statement (tie sample_collaborators 2) 8 global_store for_int_i 0
        = outcome.ok tab1 ∧
      tab1.entries = [] ∧
      tab1.scopes.map (fun s => (s.kind, s.contained_in, s.hash))
        = [(scope_kind_t.NAMESPACE_SCOPE, none, []), (scope_kind_t.BLOCK_SCOPE, some 0, []),
            (scope_kind_t.BLOCK_SCOPE, some 1, [])] :=
  ⟨fun _ _ _ _ _ _ _ _ _ _ _ => rfl, rfl,
    (build_scope_statement (tie sample_collaborators 2) 8 global_store for_int_i 0).store,
    by decide!, by decide!, by decide!⟩

/-- C37 (defect): in `build_scope_try_block` the compound statement of a
handler is processed in the scope of the try block, not in the block scope made
for the exception declaration. After `try { } catch (int e) { }` in the global
scope (0), `e` is a symbol of the block scope 2, and the block scope 3 of the
handler body is enclosed in the scope 0: lookup outwards from the body does not
find `e`. -/
theorem handler_body_outside_exception_scope :
    (∀ env fuel st tab iter, ASTType (ASTSon1 iter) ≠ node_t.AST_ANY_EXCEPTION →
      build_scope_handler env fuel st tab iter =
        (build_scope_decl_specifier_seq env (open_block_scope tab st).1
            (ASTSon0 (ASTSon0 (ASTSon1 iter))) (open_block_scope tab st).2 zero_gather_info
            simple_type_t.null >>= fun d =>
          exception_declarator env fuel d.1 (ASTSon1 (ASTSon0 (ASTSon1 iter)))
            (open_block_scope tab st).2 d.2.1 d.2.2 >>= fun t =>
          env.build_scope_statement t (ASTSon1 (ASTSon1 iter)) st)) ∧
    build_scope_try_block (tie sample_collaborators 2) 8 global_store try_catch_int_e 0
      = outcome.ok store_after_try_catch_int_e ∧
    store_after_try_catch_int_e.entries.map (fun e => (e.symbol_name, e.kind, e.scope))
      = [("e", cxx_symbol_kind.SK_VARIABLE, 2)] ∧
    store_after_try_catch_int_e.scopes.map (fun s => (s.kind, s.contained_in, s.hash))
      = [(scope_kind_t.NAMESPACE_SCOPE, none, []), (scope_kind_t.BLOCK_SCOPE, some 0, []),
          (scope_kind_t.BLOCK_SCOPE, some 0, [0]), (scope_kind_t.BLOCK_SCOPE, some 0, [])] ∧
    query_outwards store_after_try_catch_int_e "e" 5 2 = [0] ∧
    query_outwards store_after_try_catch_int_e "e" 5 3 = [] := by
  refine ⟨?_, by decide!, by decide!, by decide!, by decide!, by decide!⟩
  intro env fuel st tab iter h
  unfold build_scope_handler
  simp only [if_neg h]

/-- The outcomes of `compute_cv_qualifier`: a value or an internal error. -/
theorem compute_cv_qualifier_cases (a : AST) :
    (∃ cv, compute_cv_qualifier a = outcome.ok cv) ∨
      ∃ m, compute_cv_qualifier a = outcome.internal_error m := by
  have hfold : ∀ (l : List AST) (cv : cv_qualifier_t),
      (∃ r, l.foldlM compute_cv_qualifier_step cv = outcome.ok r) ∨
        ∃ m, l.foldlM compute_cv_qualifier_step cv = outcome.internal_error m := by
    intro l
    induction l with
    | nil => intro cv; exact Or.inl ⟨cv, rfl⟩
    | cons x xs ih =>
      intro cv
      rw [List.foldlM_cons]
      unfold compute_cv_qualifier_step
      split
      · exact ih _
      · exact ih _
      · exact Or.inr ⟨_, rfl⟩
  unfold compute_cv_qualifier
  split_ifs
  · exact Or.inl ⟨_, rfl⟩
  · exact Or.inr ⟨_, rfl⟩
  · exact hfold _ _

/-- The outcomes of `set_pointer_type`: a type, for a pointer or reference
operator, or an internal error. -/
theorem set_pointer_type_cases (env : collaborators) (tab : scope_store)
    (declarator_type : type_t) (st : ScopeId) (pointer_tree : AST) :
    (∃ t, set_pointer_type env tab declarator_type st pointer_tree = outcome.ok t ∧
        (ASTType pointer_tree = node_t.AST_POINTER_SPEC ∨
          ASTType pointer_tree = node_t.AST_REFERENCE_SPEC)) ∨
      ∃ m, set_pointer_type env tab declarator_type st pointer_tree
        = outcome.internal_error m := by
  unfold set_pointer_type
  simp only
  split
  · rename_i hk
    split_ifs
    · rcases compute_cv_qualifier_cases (ASTSon2 pointer_tree) with ⟨cv, hcv⟩ | ⟨m, hm⟩
      · rw [hcv]
        exact Or.inl ⟨_, rfl, Or.inl hk⟩
      · rw [hm]
        exact Or.inr ⟨m, rfl⟩
    · rcases compute_cv_qualifier_cases (ASTSon2 pointer_tree) with ⟨cv, hcv⟩ | ⟨m, hm⟩
      · rw [hcv]
        exact Or.inl ⟨_, rfl, Or.inl hk⟩
      · rw [hm]
        exact Or.inr ⟨m, rfl⟩
  · rename_i hk
    exact Or.inl ⟨_, rfl, Or.inr hk⟩
  · exact Or.inr ⟨_, rfl⟩

/-- C39 (defect): on an `AST_NEW_DECLARATOR` node `build_scope_declarator_rec`
wraps the type with the pointer operator, the first child, and then goes on
with that same first child, not with the nested new-declarator, the second
child; a pointer operator is no declarator, so the composition stops with an
internal error whenever the budget lets it run, whatever the nested declarator
is. For the pointer operator `*` the error is `Unknown node`. -/
theorem new_declarator_always_stops :
    (∀ env fuel tab st parameters_scope declarator_type gather_info declarator_name
        pointer_operator nested son2 son3 text,
      ∃ m, build_scope_declarator_rec env (fuel + 2) tab
          (AST.node node_t.AST_NEW_DECLARATOR pointer_operator nested son2 son3 text) st
          parameters_scope declarator_type gather_info declarator_name
        = outcome.internal_error m) ∧
    (∀ env fuel tab st parameters_scope declarator_type gather_info declarator_name nested,
      build_scope_declarator_rec env (fuel + 2) tab
          (AST.node node_t.AST_NEW_DECLARATOR plain_pointer_spec nested AST.null AST.null "") st
          parameters_scope declarator_type gather_info declarator_name
        = outcome.internal_error "Unknown node %s") := by
  refine ⟨?_, ?_⟩
  · intro env fuel tab st ps ty g dn p nested son2 son3 text
    rw [build_scope_declarator_rec]
    rcases set_pointer_type_cases env tab ty st p with ⟨t, ht, hk⟩ | ⟨m, hm⟩
    · rw [ht, outcome.ok_bind]
      cases p with
      | null => rcases hk with hk | hk <;> cases hk
      | node k s0 s1 s2 s3 tx =>
        have hne : AST.node k s0 s1 s2 s3 tx ≠ AST.null := by intro h; cases h
        rw [if_pos hne]
        rcases hk with hk | hk
        · simp only [ASTType] at hk
          subst hk
          exact ⟨"Unknown node %s", rfl⟩
        · simp only [ASTType] at hk
          subst hk
          exact ⟨"Unknown node %s", rfl⟩
    · rw [hm]
      exact ⟨m, rfl⟩
  · intro env fuel tab st ps ty g dn nested
    rfl

/-- The name node `build_scope_declarator_rec` reports for a declarator of
which `get_declarator_name` gives the name: the declarator-id node the name is
the first child of; the tree is left as it is. -/
theorem declarator_rec_name_node (env : collaborators) (st : ScopeId)
    (gather_info : gather_decl_spec_t) (a : AST) :
    ∀ (fuel : Nat) (tab : scope_store) (parameters_scope : Option ScopeId)
      (declarator_type : type_t) (declarator_name name : AST) (r : declarator_rec_result),
      get_declarator_name a = outcome.ok name →
      build_scope_declarator_rec env fuel tab a st parameters_scope declarator_type gather_info
        declarator_name = outcome.ok r →
      ASTType r.declarator_name = node_t.AST_DECLARATOR_ID_EXPR ∧
        ASTSon0 r.declarator_name = name ∧ r.tree = a := by
  induction a with
  | null => intro fuel tab ps ty dn name r hn _; cases hn
  | node kind son0 son1 son2 son3 text ih0 ih1 _ _ =>
    intro fuel tab ps ty dn name r hn hr
    cases fuel with
    | zero => cases hr
    | succ fuel =>
      unfold get_declarator_name at hn
      split at hn
      · rw [build_scope_declarator_rec] at hr
        obtain ⟨r0, hr0, hr⟩ := outcome.bind_eq_ok _ _ _ hr
        obtain ⟨h1, h2, h3⟩ := ih0 fuel tab ps ty dn name r0 hn hr0
        simp only [outcome.pure_eq, outcome.ok.injEq] at hr
        subst hr
        exact ⟨h1, h2, by simp only [h3]⟩
      · rw [build_scope_declarator_rec] at hr
        obtain ⟨r0, hr0, hr⟩ := outcome.bind_eq_ok _ _ _ hr
        obtain ⟨h1, h2, h3⟩ := ih0 fuel tab ps ty dn name r0 hn hr0
        simp only [outcome.pure_eq, outcome.ok.injEq] at hr
        subst hr
        exact ⟨h1, h2, by simp only [h3]⟩
      · rw [build_scope_declarator_rec] at hr
        obtain ⟨t, _, hr⟩ := outcome.bind_eq_ok _ _ _ hr
        obtain ⟨r0, hr0, hr⟩ := outcome.bind_eq_ok _ _ _ hr
        obtain ⟨h1, h2, h3⟩ := ih1 fuel tab ps t dn name r0 hn hr0
        simp only [outcome.pure_eq, outcome.ok.injEq] at hr
        subst hr
        exact ⟨h1, h2, by simp only [h3]⟩
      · rw [build_scope_declarator_rec] at hr
        obtain ⟨r0, hr0, hr⟩ := outcome.bind_eq_ok _ _ _ hr
        obtain ⟨h1, h2, h3⟩ := ih0 fuel tab ps _ dn name r0 hn hr0
        simp only [outcome.pure_eq, outcome.ok.injEq] at hr
        subst hr
        exact ⟨h1, h2, by simp only [h3]⟩
      · rw [build_scope_declarator_rec] at hr
        obtain ⟨f, _, hr⟩ := outcome.bind_eq_ok _ _ _ hr
        obtain ⟨r0, hr0, hr⟩ := outcome.bind_eq_ok _ _ _ hr
        obtain ⟨h1, h2, h3⟩ := ih0 fuel f.1 f.2.1 f.2.2 dn name r0 hn hr0
        simp only [outcome.pure_eq, outcome.ok.injEq] at hr
        subst hr
        exact ⟨h1, h2, by simp only [h3]⟩
      · rw [build_scope_declarator_rec] at hr
        simp only [outcome.pure_eq, outcome.ok.injEq] at hr hn
        subst hr
        subst hn
        exact ⟨rfl, rfl, rfl⟩
      · cases hn

/-- C40: for a declarator that `get_declarator_name` accepts, so one without
abstract or ambiguous node on the way to its name, and that
`build_scope_declarator_rec` composes, the name `get_declarator_name` returns is
the first child of the node `build_scope_declarator_rec` reports as the name of
the declarator, which is an `AST_DECLARATOR_ID_EXPR` node; the composer leaves
the tree as it is, so the name asked for again after the composition is the
same. -/
theorem get_declarator_name_agrees (env : collaborators) (fuel : Nat) (tab : scope_store)
    (a : AST) (st : ScopeId) (parameters_scope : Option ScopeId) (declarator_type : type_t)
    (gather_info : gather_decl_spec_t) (declarator_name name : AST)
    (r : declarator_rec_result)
    (h_name : get_declarator_name a = outcome.ok name)
    (h_rec : build_scope_declarator_rec env fuel tab a st parameters_scope declarator_type
      gather_info declarator_name = outcome.ok r) :
    ASTType r.declarator_name = node_t.AST_DECLARATOR_ID_EXPR ∧
    ASTSon0 r.declarator_name = name ∧
    get_declarator_name r.tree = outcome.ok name :=
  have h := declarator_rec_name_node env st gather_info a fuel tab parameters_scope
    declarator_type declarator_name name r h_name h_rec
  ⟨h.1, h.2.1, by rw [h.2.2]; exact h_name⟩

theorem get_declarator_name_agrees_witness :
    (get_declarator_name pointer_to_array_f = outcome.ok (symbol "f") ∧
      build_scope_declarator_rec sample_collaborators 4 global_store pointer_to_array_f 0 none
          int_type zero_gather_info AST.null
        = outcome.ok ⟨global_store, none,
            type_t.pointer (type_t.array int_type (literal "3")) CV_NONE, declarator_id "f",
            pointer_to_array_f⟩) ∧
    ASTType (declarator_id "f") = node_t.AST_DECLARATOR_ID_EXPR ∧
    ASTSon0 (declarator_id "f") = symbol "f" ∧
    get_declarator_name pointer_to_array_f = outcome.ok (symbol "f") :=
  ⟨⟨by decide, by decide⟩,
    get_declarator_name_agrees sample_collaborators 4 global_store pointer_to_array_f 0 none
      int_type zero_gather_info AST.null (symbol "f")
      ⟨global_store, none, type_t.pointer (type_t.array int_type (literal "3")) CV_NONE,
        declarator_id "f", pointer_to_array_f⟩ (by decide) (by decide)⟩

/-- C32: when the composer gives, for a declarator with a name, a function
type whose return type has no simple type, and the id of the name is a
conversion function id, or a qualified id that ends in one,
`build_scope_declarator_with_parameter_scope` registers the name with the
function type in which the return type is the type
`get_conversion_function_name` gives for the conversion function id, and
returns that type; for a plain conversion function id the symbol created
carries this type. -/
theorem conversion_function_return_type (env : collaborators) (fuel : Nat)
    (tab : scope_store) (a : AST) (st : ScopeId) (parameters_scope : Option ScopeId)
    (gather_info : gather_decl_spec_t) (simple_type_info : simple_type_t)
    (r : declarator_rec_result) (f : function_info_t) (conversion_function_id : AST)
    (h_rec : build_scope_declarator_rec env fuel tab a st parameters_scope
      (simple_type_to_type simple_type_info) gather_info AST.null = outcome.ok r)
    (h_name : ASTType r.declarator_name = node_t.AST_DECLARATOR_ID_EXPR)
    (h_function : r.declarator_type = type_t.function f)
    (h_return : f.return_type.type_is_null = true)
    (h_id : (ASTType (ASTSon0 r.declarator_name) = node_t.AST_CONVERSION_FUNCTION_ID ∧
        conversion_function_id = ASTSon0 r.declarator_name) ∨
      (ASTType (ASTSon0 r.declarator_name) = node_t.AST_QUALIFIED_ID ∧
        ASTType (ASTSon2 (ASTSon0 r.declarator_name)) = node_t.AST_CONVERSION_FUNCTION_ID ∧
        conversion_function_id = ASTSon2 (ASTSon0 r.declarator_name))) :
    build_scope_declarator_with_parameter_scope env (fuel + 1) tab a st parameters_scope
        gather_info simple_type_info =
      (build_scope_declarator_name env r.tab r.declarator_name
          (type_t.function (f.set_return_type
            (env.get_conversion_function_name r.tab conversion_function_id st).2))
          gather_info st >>= fun e =>
        pure ⟨e.1, e.2, r.parameters_scope,
          type_t.function (f.set_return_type
            (env.get_conversion_function_name r.tab conversion_function_id st).2), r.tree⟩) ∧
    (ASTType (ASTSon0 r.declarator_name) = node_t.AST_CONVERSION_FUNCTION_ID →
      ∃ tab' e, build_scope_declarator_with_parameter_scope env (fuel + 1) tab a st
          parameters_scope gather_info simple_type_info
          = outcome.ok ⟨tab', some e, r.parameters_scope,
              type_t.function (f.set_return_type
                (env.get_conversion_function_name r.tab conversion_function_id st).2),
              r.tree⟩ ∧
        (get_entry tab' e).kind = cxx_symbol_kind.SK_FUNCTION ∧
        (get_entry tab' e).type_information =
          type_t.function (f.set_return_type
            (env.get_conversion_function_name r.tab conversion_function_id st).2)) := by
  have hne : r.declarator_name ≠ AST.null := by
    intro h
    rw [h] at h_name
    cases h_name
  have hfix : fix_conversion_return_type env r.tab st r.declarator_name r.declarator_type =
      type_t.function (f.set_return_type
        (env.get_conversion_function_name r.tab conversion_function_id st).2) := by
    have hcid : conversion_function_id_of r.declarator_name = conversion_function_id := by
      unfold conversion_function_id_of
      rcases h_id with ⟨h1, h2⟩ | ⟨h1, h2, h3⟩
      · simp only [h1, if_true, h2]
      · have h4 : ¬ (node_t.AST_QUALIFIED_ID = node_t.AST_CONVERSION_FUNCTION_ID) := by decide
        simp only [h1, h2, if_true, h4, if_false, h3]
    have hcn : conversion_function_id ≠ AST.null := by
      intro h
      rcases h_id with ⟨h1, h2⟩ | ⟨_, h2, h3⟩
      · rw [← h2, h] at h1
        cases h1
      · rw [← h3, h] at h2
        cases h2
    unfold fix_conversion_return_type
    rw [h_function]
    simp only [h_return, if_true, hcid, ne_eq, hcn, not_false_eq_true]
  have hmain : build_scope_declarator_with_parameter_scope env (fuel + 1) tab a st
      parameters_scope gather_info simple_type_info =
      (build_scope_declarator_name env r.tab r.declarator_name
          (type_t.function (f.set_return_type
            (env.get_conversion_function_name r.tab conversion_function_id st).2))
          gather_info st >>= fun e =>
        pure ⟨e.1, e.2, r.parameters_scope,
          type_t.function (f.set_return_type
            (env.get_conversion_function_name r.tab conversion_function_id st).2), r.tree⟩) := by
    rw [build_scope_declarator_with_parameter_scope, h_rec, outcome.ok_bind]
    simp only [ne_eq, hne, not_false_eq_true, if_true, hfix]
  refine ⟨hmain, ?_⟩
  intro hk
  rw [hmain]
  unfold build_scope_declarator_name
  simp only [h_name]
  unfold build_scope_declarator_id_expr
  simp only [hk, outcome.pure_eq, outcome.ok_bind]
  exact ⟨_, _, rfl, by rw [get_entry_set_new_symbol], by rw [get_entry_set_new_symbol]⟩

theorem conversion_function_return_type_witness :
    (build_scope_declarator_rec conversion_collaborators 5 global_store
          conversion_function_declarator 0 none (simple_type_to_type simple_type_t.null)
          zero_gather_info AST.null = outcome.ok conversion_function_composed ∧
      ASTType conversion_function_composed.declarator_name = node_t.AST_DECLARATOR_ID_EXPR ∧
      conversion_function_composed.declarator_type
        = type_t.function (function_info_t.mk (simple_type_to_type simple_type_t.null)
            parameter_list_t.nil CV_NONE exception_spec_t.null false false false false false
            simple_type_t.null) ∧
      (simple_type_to_type simple_type_t.null).type_is_null = true ∧
      ASTType (ASTSon0 conversion_function_composed.declarator_name)
        = node_t.AST_CONVERSION_FUNCTION_ID) ∧
    (build_scope_declarator_with_parameter_scope conversion_collaborators (5 + 1) global_store
        conversion_function_declarator 0 none zero_gather_info simple_type_t.null).bind
      (fun r => outcome.ok (r.declarator_type,
        r.tab.entries.map (fun e => (e.symbol_name, e.kind, e.type_information))))
      = outcome.ok (function_without_parameters int_type zero_gather_info,
          [("operator int", cxx_symbol_kind.SK_FUNCTION,
            function_without_parameters int_type zero_gather_info)]) :=
  ⟨⟨by decide, by decide, by decide, by decide, by decide⟩, by
    rw [(conversion_function_return_type conversion_collaborators 5 global_store
      conversion_function_declarator 0 none zero_gather_info simple_type_t.null
      conversion_function_composed
      (function_info_t.mk (simple_type_to_type simple_type_t.null)
        parameter_list_t.nil CV_NONE exception_spec_t.null false false false false false
        simple_type_t.null)
      (ASTSon0 conversion_function_composed.declarator_name)
      (by decide) (by decide) (by decide) (by decide) (Or.inl ⟨by decide, rfl⟩)).1]
    decide⟩

/-- The symbol `register_new_variable_name` makes for a type that is not a
function type, when it accepts the name. -/
theorem register_new_variable_name_new (env : collaborators) (tab : scope_store)
    (declarator_id : AST) (declarator_type : type_t) (st : ScopeId) (q : scope_store × EntryId)
    (hf : declarator_type.is_function = false)
    (h : register_new_variable_name env tab declarator_id declarator_type st = outcome.ok q) :
    ∃ v : scope_entry_t,
      q = (set_entry (new_symbol tab st (ASTText declarator_id)).1
        (new_symbol tab st (ASTText declarator_id)).2 v,
        (new_symbol tab st (ASTText declarator_id)).2) ∧
      v.symbol_name = ASTText declarator_id ∧ v.defined = false ∧ v.scope = st := by
  unfold register_new_variable_name at h
  simp only [hf, Bool.not_false, if_true] at h
  split_ifs at h
  simp only [outcome.pure_eq, outcome.ok.injEq] at h
  refine ⟨_, h.symm, ?_, ?_, ?_⟩ <;> simp [get_entry_new_symbol_new, zero_entry]

/-- The symbol `register_new_typedef_name` makes when it accepts the name. -/
theorem register_new_typedef_name_new (env : collaborators) (tab : scope_store)
    (declarator_id : AST) (declarator_type : type_t) (st : ScopeId) (q : scope_store × EntryId)
    (h : register_new_typedef_name env tab declarator_id declarator_type st = outcome.ok q) :
    ∃ v : scope_entry_t,
      q = (set_entry (new_symbol tab st (ASTText declarator_id)).1
        (new_symbol tab st (ASTText declarator_id)).2 v,
        (new_symbol tab st (ASTText declarator_id)).2) ∧
      v.symbol_name = ASTText declarator_id ∧ v.defined = false ∧ v.scope = st := by
  have hreg : ∀ q', (pure (set_entry (new_symbol tab st (ASTText declarator_id)).1
        (new_symbol tab st (ASTText declarator_id)).2
        { get_entry (new_symbol tab st (ASTText declarator_id)).1
            (new_symbol tab st (ASTText declarator_id)).2 with
          kind := cxx_symbol_kind.SK_TYPEDEF,
          type_information := typedef_type declarator_type },
        (new_symbol tab st (ASTText declarator_id)).2) : outcome (scope_store × EntryId))
        = outcome.ok q' →
      ∃ v : scope_entry_t,
        q' = (set_entry (new_symbol tab st (ASTText declarator_id)).1
          (new_symbol tab st (ASTText declarator_id)).2 v,
          (new_symbol tab st (ASTText declarator_id)).2) ∧
        v.symbol_name = ASTText declarator_id ∧ v.defined = false ∧ v.scope = st := by
    intro q' hq
    simp only [outcome.pure_eq, outcome.ok.injEq] at hq
    refine ⟨_, hq.symm, ?_, ?_, ?_⟩ <;> simp [get_entry_new_symbol_new, zero_entry]
  unfold register_new_typedef_name at h
  simp only at h
  split at h
  · exact hreg q h
  · split at h
    · cases h
    · exact hreg q h
  · cases h

/-- Lookup of the name of a symbol just created in a scope finds the symbol
first. -/
theorem query_new_symbol_first (env : collaborators) (tab : scope_store) (st : ScopeId)
    (name : AST) (v : scope_entry_t) (h_plain : ASTType name = node_t.AST_SYMBOL)
    (h_scope : st < tab.scopes.length) (hv : v.symbol_name = ASTText name) :
    query_id_expression env
        (set_entry (new_symbol tab st (ASTText name)).1 (new_symbol tab st (ASTText name)).2 v)
        st name unqualified_lookup_behaviour_t.NOFULL_UNQUALIFIED_LOOKUP
      = (new_symbol tab st (ASTText name)).2 ::
        ((get_scope tab st).hash.filter
          (fun e => (get_entry
            (set_entry (new_symbol tab st (ASTText name)).1
              (new_symbol tab st (ASTText name)).2 v) e).symbol_name == ASTText name)) := by
  unfold query_id_expression
  simp only [h_plain, if_true]
  unfold query_in_current_scope
  rw [get_scope_set_entry, get_scope_new_symbol_same tab st _ h_scope]
  simp only
  rw [List.filter_cons, ← new_symbol_id tab st (ASTText name), get_entry_set_new_symbol, hv]
  simp

/-- The definition step on a symbol that is not defined yet. -/
theorem define_declared_symbol_fresh (env : collaborators) (tab : scope_store) (st : ScopeId)
    (declarator initializer name : AST) (entry : EntryId) (rest : List EntryId)
    (h_name : get_declarator_name declarator = outcome.ok name)
    (h_query : query_id_expression env tab st name
      unqualified_lookup_behaviour_t.NOFULL_UNQUALIFIED_LOOKUP = entry :: rest)
    (h_valid : entry < tab.entries.length) (h_fresh : (get_entry tab entry).defined = false) :
    ∃ tab', define_declared_symbol env tab st declarator initializer = outcome.ok tab' ∧
      (get_entry tab' entry).defined = true ∧
      (∀ e, e ≠ entry → get_entry tab' e = get_entry tab e) ∧
      tab'.scopes = tab.scopes := by
  rw [define_declared_symbol_eq env tab st declarator _ name entry rest h_name h_query]
  simp only [h_fresh, Bool.false_eq_true, if_false]
  refine ⟨_, rfl, ?_, ?_, ?_⟩
  · split <;> simp [get_entry_set_entry, h_valid, set_entry_length]
  · intro e he
    split <;> simp [get_entry_set_entry, Ne.symm he]
  · split <;> rfl

/-- C35: for an init-declarator of a simple declaration that is not `extern`,
whose composed type is not a function type and whose name is a plain name
(without ambiguous node on the way to the name): the declarator creates a
symbol, the newest of the table, and it is this symbol that lookup of the name
in the scope finds first, before the older symbols of that name in the scope,
a lookup restricted to the scope giving the most recently inserted symbol
first. So the symbol whose flag `defined` is tested and set is the one the
declarator created; it is not yet defined, and the declaration is accepted
whether or not an older symbol of the name, which can only be a class or an
enum, is defined. -/
theorem simple_declaration_defines_registered_entry (env : collaborators) (fuel : Nat)
    (gather_info : gather_decl_spec_t) (simple_type_info : simple_type_t) (st : ScopeId)
    (tab : scope_store) (iter name : AST) (r : declarator_result)
    (h_storage : gather_info.is_extern = false)
    (h_declarator : build_scope_declarator_with_parameter_scope env fuel tab
      (ASTSon0 (resolved_init_declarator env tab st (ASTSon1 iter))) st none gather_info
      simple_type_info = outcome.ok r)
    (h_not_function : r.declarator_type.is_function = false)
    (h_name : get_declarator_name (ASTSon0 (resolved_init_declarator env tab st (ASTSon1 iter)))
      = outcome.ok name)
    (h_plain : ASTType name = node_t.AST_SYMBOL)
    (h_scope : st < r.tab.scopes.length) :
    ∃ entry, r.entry = some entry ∧ entry + 1 = r.tab.entries.length ∧
      (get_entry r.tab entry).symbol_name = ASTText name ∧
      (get_entry r.tab entry).scope = st ∧
      (get_entry r.tab entry).defined = false ∧
      (∃ rest, query_id_expression env r.tab st name
        unqualified_lookup_behaviour_t.NOFULL_UNQUALIFIED_LOOKUP = entry :: rest) ∧
      ∃ tab', build_scope_init_declarator env fuel gather_info simple_type_info st tab iter
          = outcome.ok tab' ∧
        (get_entry tab' entry).defined = true ∧
        (∀ e, e ≠ entry → get_entry tab' e = get_entry r.tab e) ∧
        tab'.scopes = r.tab.scopes := by
  cases fuel with
  | zero => cases h_declarator
  | succ fuel =>
    have hstep : build_scope_init_declarator env (fuel + 1) gather_info simple_type_info st tab
        iter = define_declared_symbol env r.tab st r.tree
          (ASTSon1 (resolved_init_declarator env tab st (ASTSon1 iter))) := by
      unfold build_scope_init_declarator
      simp [h_declarator, h_storage, h_not_function]
    rw [build_scope_declarator_with_parameter_scope] at h_declarator
    obtain ⟨r0, hr0, h⟩ := outcome.bind_eq_ok _ _ _ h_declarator
    obtain ⟨hk, hson, htree⟩ := declarator_rec_name_node env st gather_info _ fuel tab none _
      AST.null name r0 h_name hr0
    have hne : r0.declarator_name ≠ AST.null := by
      intro hnull
      rw [hnull] at hk
      cases hk
    rw [if_pos hne] at h
    obtain ⟨e, he, h⟩ := outcome.bind_eq_ok _ _ _ h
    simp only [outcome.pure_eq, outcome.ok.injEq] at h
    subst h
    simp only at h_not_function h_scope hstep ⊢
    have hreg : ∃ v : scope_entry_t,
        e = (set_entry (new_symbol r0.tab st (ASTText name)).1
          (new_symbol r0.tab st (ASTText name)).2 v,
          some (new_symbol r0.tab st (ASTText name)).2) ∧
        v.symbol_name = ASTText name ∧ v.defined = false ∧ v.scope = st := by
      unfold build_scope_declarator_name at he
      simp only [hk] at he
      unfold build_scope_declarator_id_expr at he
      simp only [hson, h_plain] at he
      split_ifs at he
      · obtain ⟨q, hq, he⟩ := outcome.bind_eq_ok _ _ _ he
        obtain ⟨v, hv, h1, h2, h3⟩ := register_new_typedef_name_new env _ _ _ _ q hq
        simp only [outcome.pure_eq, outcome.ok.injEq] at he
        subst he
        exact ⟨v, by rw [hv], h1, h2, h3⟩
      · obtain ⟨q, hq, he⟩ := outcome.bind_eq_ok _ _ _ he
        obtain ⟨v, hv, h1, h2, h3⟩ :=
          register_new_variable_name_new env _ _ _ _ q h_not_function hq
        simp only [outcome.pure_eq, outcome.ok.injEq] at he
        subst he
        exact ⟨v, by rw [hv], h1, h2, h3⟩
    obtain ⟨v, hv, hv1, hv2, hv3⟩ := hreg
    subst hv
    simp only at h_scope hstep ⊢
    have hs0 : st < r0.tab.scopes.length := by
      rw [set_entry_scopes, new_symbol_scopes_length] at h_scope
      exact h_scope
    have hget : get_entry (set_entry (new_symbol r0.tab st (ASTText name)).1
        (new_symbol r0.tab st (ASTText name)).2 v) (new_symbol r0.tab st (ASTText name)).2 = v :=
      get_entry_set_new_symbol _ _ _ _
    have hq := query_new_symbol_first env r0.tab st name v h_plain hs0 hv1
    have hvalid : (new_symbol r0.tab st (ASTText name)).2 <
        (set_entry (new_symbol r0.tab st (ASTText name)).1
          (new_symbol r0.tab st (ASTText name)).2 v).entries.length := by
      rw [set_entry_length, new_symbol_entries_length, new_symbol_id]
      exact Nat.lt_succ_self _
    refine ⟨_, rfl, ?_, ?_, ?_, ?_, ⟨_, hq⟩, ?_⟩
    · rw [set_entry_length, new_symbol_entries_length, new_symbol_id]
    · rw [hget]; exact hv1
    · rw [hget]; exact hv3
    · rw [hget]; exact hv2
    · rw [hstep]
      exact define_declared_symbol_fresh env _ st r0.tree _ name _ _
        (by rw [htree]; exact h_name) hq hvalid (by rw [hget]; exact hv2)

theorem simple_declaration_defines_registered_entry_witness :
    (zero_gather_info.is_extern = false ∧
      build_scope_declarator_with_parameter_scope sample_collaborators 3 store_after_enum_E_A
        (ASTSon0 (resolved_init_declarator sample_collaborators store_after_enum_E_A 0
          (ASTSon1 init_declarator_E))) 0 none zero_gather_info
        (builtin_simple_type builtin_type_t.BT_INT) = outcome.ok declared_E ∧
      declared_E.declarator_type.is_function = false ∧
      get_declarator_name (ASTSon0 (resolved_init_declarator sample_collaborators
        store_after_enum_E_A 0 (ASTSon1 init_declarator_E))) = outcome.ok (symbol "E") ∧
      ASTType (symbol "E") = node_t.AST_SYMBOL ∧ 0 < declared_E.tab.scopes.length ∧
      (get_entry store_after_enum_E_A 0).symbol_name = "E" ∧
      (get_entry store_after_enum_E_A 0).kind = cxx_symbol_kind.SK_ENUM ∧
      (get_entry store_after_enum_E_A 0).defined = true) ∧
    ∃ entry, declared_E.entry = some entry ∧ entry + 1 = declared_E.tab.entries.length ∧
      (get_entry declared_E.tab entry).symbol_name = ASTText (symbol "E") ∧
      (get_entry declared_E.tab entry).scope = 0 ∧
      (get_entry declared_E.tab entry).defined = false ∧
      (∃ rest, query_id_expression sample_collaborators declared_E.tab 0 (symbol "E")
        unqualified_lookup_behaviour_t.NOFULL_UNQUALIFIED_LOOKUP = entry :: rest) ∧
      ∃ tab', build_scope_init_declarator sample_collaborators 3 zero_gather_info
          (builtin_simple_type builtin_type_t.BT_INT) 0 store_after_enum_E_A init_declarator_E
          = outcome.ok tab' ∧
        (get_entry tab' entry).defined = true ∧
        (∀ e, e ≠ entry → get_entry tab' e = get_entry declared_E.tab e) ∧
        tab'.scopes = declared_E.tab.scopes :=
  ⟨⟨by decide, by decide!, by decide!, by decide, by decide, by decide!, by decide!, by decide!,
      by decide!⟩,
    simple_declaration_defines_registered_entry sample_collaborators 3 zero_gather_info
      (builtin_simple_type builtin_type_t.BT_INT) 0 store_after_enum_E_A init_declarator_E
      (symbol "E") declared_E (by decide) (by decide!) (by decide!) (by decide) (by decide)
      (by decide!)⟩

/-- C36 (defect): `build_scope_template_simple_declaration` looks at the
symbol the type of the decl-specifier-seq refers to, whether a class specifier
of the declaration introduced it or a simple type specifier merely named it:
a symbol of kind Class whose type has no template arguments is made a primary
template and receives the template parameters. After `class B { };`, the
declaration `template<class T> B f();` turns the ordinary class `B` into a
primary template with one parameter. -/
theorem template_declaration_retags_named_class :
    (∀ tab entry fields class_info aliased_type num_parameters template_param_info,
      (get_entry tab entry).kind = cxx_symbol_kind.SK_CLASS →
      (get_entry tab entry).type_information
        = type_t.direct (simple_type_t.mk fields class_info aliased_type
            template_argument_list_t.null) →
      register_template_class tab (set_user_defined zero_simple_type entry) num_parameters
          template_param_info
        = outcome.ok (set_entry tab entry
            { get_entry tab entry with
                kind := cxx_symbol_kind.SK_TEMPLATE_PRIMARY_CLASS,
                num_template_parameters := num_parameters,
                template_parameter_info := template_param_info })) ∧
    build_scope_simple_declaration (tie sample_collaborators 2) 8 global_store
        (type_declaration (class_specifier node_t.AST_CLASS_KEY_CLASS "B" AST.null)) 0
      = outcome.ok store_after_class_B ∧
    store_after_class_B.entries.map
        (fun e => (e.symbol_name, e.kind, e.num_template_parameters,
          e.template_parameter_info.length))
      = [("B", cxx_symbol_kind.SK_CLASS, 0, 0)] ∧
    build_scope_template_declaration (tie sample_collaborators 2) 8 store_after_class_B
        template_B_f 0 = outcome.ok store_after_template_B_f ∧
    store_after_template_B_f.entries.map
        (fun e => (e.symbol_name, e.kind, e.num_template_parameters,
          e.template_parameter_info.length))
      = [("B", cxx_symbol_kind.SK_TEMPLATE_PRIMARY_CLASS, 1, 1),
          ("T", cxx_symbol_kind.SK_TEMPLATE_PARAMETER, 0, 0),
          ("f", cxx_symbol_kind.SK_TEMPLATE_FUNCTION, 0, 0)] := by
  refine ⟨?_, by decide!, by decide!, by decide!, by decide!⟩
  intro tab entry fields class_info aliased_type num_parameters template_param_info hk ht
  unfold register_template_class
  have h1 : set_user_defined zero_simple_type entry ≠ simple_type_t.null := by
    intro h
    cases h
  have h2 : (set_user_defined zero_simple_type entry).fields.kind
      = simple_type_kind_t.STK_USER_DEFINED := rfl
  have h3 : (set_user_defined zero_simple_type entry).fields.user_defined_type = some entry :=
    rfl
  rw [if_neg h1, if_pos h2, h3]
  simp only [hk, if_true, ht]
  rfl

/-- Stores with the same scopes read the same scope through a pointer. -/
theorem get_scope_congr (tab tab' : scope_store) (h : tab'.scopes = tab.scopes) (s : ScopeId) :
    get_scope tab' s = get_scope tab s := by
  unfold get_scope
  rw [h]

/-- What `introduce_this` does: the cv-qualification is written to the class
record through the pointer, and one symbol is added at the end of the entries,
named `this`, of kind Variable, owned by the given scope, of type pointer to
the class type with the given cv-qualification on the pointee; it is put in
front of the symbols of that scope, and the other scopes are unchanged. -/
theorem introduce_this_result (tab : scope_store) (rs : ScopeId) (ct : simple_type_t)
    (cv : cv_qualifier_t) :
    (introduce_this tab rs ct cv).entries =
      (write_record tab (ct.update (fun f => { f with cv_qualifier := cv }))).entries ++
      [{ zero_entry with
          symbol_name := "this", scope := rs, kind := cxx_symbol_kind.SK_VARIABLE,
          type_information := type_t.pointer
            (simple_type_to_type (ct.update (fun f => { f with cv_qualifier := cv })))
            CV_NONE }] ∧
    (∀ s, s ≠ rs → get_scope (introduce_this tab rs ct cv) s = get_scope tab s) ∧
    (rs < tab.scopes.length →
      get_scope (introduce_this tab rs ct cv) rs =
        { get_scope tab rs with hash := tab.entries.length :: (get_scope tab rs).hash }) := by
  unfold introduce_this
  simp only
  refine ⟨?_, fun s hs => ?_, fun hlt => ?_⟩
  · rw [set_new_symbol_entries, get_entry_new_symbol_new]
  · rw [(set_new_symbol_scopes _ rs "this" _).1 s hs, get_scope_write_record]
  · rw [(set_new_symbol_scopes _ rs "this" _).2 (by rw [write_record_scopes]; exact hlt),
      get_scope_write_record, write_record_entries_length]

/-- C26, counterexample. In `class A { void f() { } void f() { } }` the second
definition finds the function marked as a member by the first:
`build_scope_function_definition` introduces `this` in the new scope of the
function, the scope 4, and `build_scope_member_function_definition` introduces
it there once more. The scope of the function holds two symbols named
`this`. -/
theorem redefined_member_function_has_two_this :
    (gather_type_spec_from_class_specifier (tie sample_collaborators 6) 8 global_store
      class_A_f_f 0 zero_simple_type).bind (fun r => outcome.ok r.1)
      = outcome.ok store_after_class_A_f_f ∧
    store_after_class_A_f_f.entries.map
        (fun e => (e.symbol_name, e.kind, e.scope, e.related_scope))
      = [("A", cxx_symbol_kind.SK_CLASS, 0, some 1),
          ("f", cxx_symbol_kind.SK_FUNCTION, 1, some 4),
          ("this", cxx_symbol_kind.SK_VARIABLE, 2, none),
          ("this", cxx_symbol_kind.SK_VARIABLE, 4, none),
          ("this", cxx_symbol_kind.SK_VARIABLE, 4, none)] ∧
    query_in_current_scope store_after_class_A_f_f 4 "this" = [4, 3] ∧
    (get_entry store_after_class_A_f_f 3).type_information
      = (get_entry store_after_class_A_f_f 4).type_information := by
  refine ⟨by decide!, by decide!, by decide!, by decide!⟩

/-- The function definition of a function that is not yet marked as a member:
`build_scope_function_definition` opens the scope of the function, introduces
nothing in it, processes the body and marks the function as defined. -/
theorem function_definition_of_new_member (env : collaborators) (fuel : Nat)
    (tab : scope_store) (a : AST) (st : ScopeId)
    (d : scope_store × gather_decl_spec_t × simple_type_t) (dr : declarator_result)
    (entry : EntryId) (f : function_info_t) (tab3 : scope_store)
    (h_spec : optional_decl_specifier_seq env tab (ASTSon0 a) st = outcome.ok d)
    (h_declarator : build_scope_declarator_with_parameter_scope env fuel d.1 (ASTSon1 a) st none
      d.2.1 d.2.2 = outcome.ok dr)
    (h_entry : dr.entry = some entry)
    (h_kind : (get_entry dr.tab entry).kind = cxx_symbol_kind.SK_FUNCTION)
    (h_fn : (get_entry dr.tab entry).type_information.function_info = some f)
    (h_first : f.is_member = false)
    (h_body : env.build_scope_statement
      (open_function_scope dr.tab st dr.parameters_scope entry).1 (ASTSon0 (ASTSon3 a))
      dr.tab.scopes.length = outcome.ok tab3) :
    build_scope_function_definition env fuel tab a st =
      outcome.ok (set_entry tab3 entry { get_entry tab3 entry with defined := true }, entry) ∧
    get_entry (open_function_scope dr.tab st dr.parameters_scope entry).1 entry =
      { get_entry dr.tab entry with related_scope := some dr.tab.scopes.length } ∧
    (open_function_scope dr.tab st dr.parameters_scope entry).1.scopes.length =
      dr.tab.scopes.length + 1 := by
  have hlt : entry < dr.tab.entries.length := by
    by_contra hge
    rw [get_entry_of_length_le dr.tab entry (Nat.le_of_not_lt hge)] at h_kind
    cases h_kind
  have hget : get_entry (open_function_scope dr.tab st dr.parameters_scope entry).1 entry =
      { get_entry dr.tab entry with related_scope := some dr.tab.scopes.length } := by
    unfold open_function_scope
    simp only
    rw [get_entry_set_entry, if_pos ⟨rfl, hlt⟩]
    rfl
  have hlen : (open_function_scope dr.tab st dr.parameters_scope entry).1.scopes.length =
      dr.tab.scopes.length + 1 := by
    simp [open_function_scope, new_function_scope, new_scope, set_entry]
  refine ⟨?_, hget, hlen⟩
  unfold build_scope_function_definition
  simp only [h_spec, h_declarator, outcome.ok_bind, h_entry, h_kind, ne_eq, not_true_eq_false,
    if_false]
  have hfn : (get_entry (open_function_scope dr.tab st dr.parameters_scope entry).1
      entry).type_information.function_info = some f := by
    rw [hget]
    exact h_fn
  rw [hfn]
  simp only
  have hthis : introduce_this_of_member
      (open_function_scope dr.tab st dr.parameters_scope entry).1 entry f
      (open_function_scope dr.tab st dr.parameters_scope entry).2 =
      (open_function_scope dr.tab st dr.parameters_scope entry).1 := by
    unfold introduce_this_of_member
    rw [h_first]
    rfl
  have hid : (open_function_scope dr.tab st dr.parameters_scope entry).2
      = dr.tab.scopes.length := rfl
  rw [hthis, hid, h_body]
  rfl

/-- The symbols of a name among the symbols of a scope, when the symbols of
the scope have kept their names. -/
theorem filter_name_congr (tab tab' : scope_store) (l : List EntryId) (name : String)
    (h : ∀ e ∈ l, (get_entry tab' e).symbol_name = (get_entry tab e).symbol_name) :
    l.filter (fun e => (get_entry tab' e).symbol_name == name) =
      l.filter (fun e => (get_entry tab e).symbol_name == name) := by
  apply List.filter_congr
  intro e he
  rw [h e he]

/-- No symbol of a list carries a name when none of them is named so. -/
theorem filter_name_nil (tab : scope_store) (l : List EntryId) (name : String)
    (h : ∀ e ∈ l, (get_entry tab e).symbol_name ≠ name) :
    l.filter (fun e => (get_entry tab e).symbol_name == name) = [] := by
  rw [List.filter_eq_nil_iff]
  intro e he
  simp only [beq_iff_eq]
  exact h e he

/-- C26, amended. A function definition is processed as a member of a class,
in the class scope `st`, for a function that is not yet marked as a member (it
has not been declared or defined in the class before), and its body leaves the
symbol of the function as it is and puts no symbol named `this` in the scope
of the function, which is the scope created for the definition. Then, when
`build_scope_member_function_definition` returns, the function is linked to
that scope, and the symbols named `this` of that scope are: exactly one if the
function is not static, of kind Variable and of type pointer to the class
type with the cv-qualification of the member function on the pointee; none if
the function is static. Every other scope, the class scope among them, has the
symbols the function definition left. The three entry points of the recursion
are the functions of the file, at any depth. -/
theorem member_function_this (env : collaborators) (depth fuel : Nat)
    (tab : scope_store) (a : AST) (st : ScopeId) (current_access : access_specifier_t)
    (class_info : simple_type_t)
    (d : scope_store × gather_decl_spec_t × simple_type_t) (dr : declarator_result)
    (entry : EntryId) (f : function_info_t) (tab3 : scope_store)
    (r : scope_store × simple_type_t)
    (h_spec : optional_decl_specifier_seq (tie env depth) tab (ASTSon0 a) st = outcome.ok d)
    (h_declarator : build_scope_declarator_with_parameter_scope (tie env depth) fuel d.1
      (ASTSon1 a) st none d.2.1 d.2.2 = outcome.ok dr)
    (h_entry : dr.entry = some entry)
    (h_kind : (get_entry dr.tab entry).kind = cxx_symbol_kind.SK_FUNCTION)
    (h_fn : (get_entry dr.tab entry).type_information.function_info = some f)
    (h_first : f.is_member = false)
    (h_body : (tie env depth).build_scope_statement
      (open_function_scope dr.tab st dr.parameters_scope entry).1 (ASTSon0 (ASTSon3 a))
      dr.tab.scopes.length = outcome.ok tab3)
    (h_kept : get_entry tab3 entry =
      get_entry (open_function_scope dr.tab st dr.parameters_scope entry).1 entry)
    (h_symbols : ∀ e ∈ (get_scope tab3 dr.tab.scopes.length).hash,
      e < tab3.entries.length ∧ (get_entry tab3 e).symbol_name ≠ "this")
    (h : build_scope_member_function_definition (tie env depth) fuel tab a st current_access
      class_info = outcome.ok r) :
    (get_entry r.1 entry).related_scope = some dr.tab.scopes.length ∧
    (f.is_static = false →
      query_in_current_scope r.1 dr.tab.scopes.length "this" = [tab3.entries.length] ∧
      get_entry r.1 tab3.entries.length =
        { zero_entry with
            symbol_name := "this", scope := dr.tab.scopes.length,
            kind := cxx_symbol_kind.SK_VARIABLE,
            type_information := type_t.pointer
              (simple_type_to_type
                (class_info.update (fun c => { c with cv_qualifier := f.cv_qualifier })))
              CV_NONE }) ∧
    (f.is_static = true → query_in_current_scope r.1 dr.tab.scopes.length "this" = []) ∧
    (∀ s, s ≠ dr.tab.scopes.length → get_scope r.1 s = get_scope tab3 s) := by
  obtain ⟨hdef, hget, hlen⟩ := function_definition_of_new_member (tie env depth) fuel tab a st
    d dr entry f tab3 h_spec h_declarator h_entry h_kind h_fn h_first h_body
  -- the scope of the function is a scope when the body is done
  have hsteps := (env_ok_tie env depth).statement
    (open_function_scope dr.tab st dr.parameters_scope entry).1 (ASTSon0 (ASTSon3 a))
    dr.tab.scopes.length tab3 h_body
  have hfs : dr.tab.scopes.length < tab3.scopes.length := by
    have := hsteps.scopes_le
    rw [hlen] at this
    exact this
  -- the class and the name
  have h' := h
  unfold build_scope_member_function_definition at h'
  obtain ⟨c0, hclass, h'⟩ := outcome.bind_eq_ok _ _ _ h'
  obtain ⟨declarator_name, hname, _⟩ := outcome.bind_eq_ok _ _ _ h'
  obtain ⟨tab1', f', hrec, hf', hcases⟩ := member_function_definition_result (tie env depth)
    fuel tab a st current_access class_info c0 declarator_name _ entry r hclass hname hdef h
  obtain ⟨hsc, hlen1, hfun, hfields⟩ := record_member_function_frame _ tab1' c0.1 c0.2
    declarator_name entry hrec
  have hlt3 : entry < tab3.entries.length := by
    by_contra hge
    have hz := get_entry_of_length_le tab3 entry (Nat.le_of_not_lt hge)
    rw [hz] at h_kept
    rw [hget] at h_kept
    have hk : zero_entry.kind = cxx_symbol_kind.SK_FUNCTION := by
      rw [h_kept]; exact h_kind
    cases hk
  have hdefined : get_entry (set_entry tab3 entry { get_entry tab3 entry with defined := true })
      entry = { get_entry tab3 entry with defined := true } := by
    rw [get_entry_set_entry, if_pos ⟨rfl, hlt3⟩]
  have hfn1 : (get_entry (set_entry tab3 entry { get_entry tab3 entry with defined := true })
      entry).type_information.function_info = some f := by
    rw [hdefined, h_kept, hget]
    exact h_fn
  have hentry : get_entry tab1' entry =
      get_entry (set_entry tab3 entry { get_entry tab3 entry with defined := true }) entry :=
    hfun entry f hfn1
  have hff : f' = f := by
    rw [hentry, hfn1] at hf'
    exact (Option.some.inj hf').symm
  subst hff
  have hrel1 : (get_entry tab1' entry).related_scope = some dr.tab.scopes.length := by
    rw [hentry, hdefined, h_kept, hget]
  -- the store before `this`
  have h2 := set_entry_type_frame tab1' entry (type_t.function (f'.set_member class_info))
  have hname2 : ∀ e,
      (get_entry (set_entry tab1' entry
        { get_entry tab1' entry with
            type_information := type_t.function (f'.set_member class_info) }) e).symbol_name
        = (get_entry tab3 e).symbol_name := by
    intro e
    rw [(h2.2.2.2 e).1, (hfields e).1, get_entry_set_entry]
    split_ifs with he
    · rw [← he.1]
    · rfl
  have hrel2 : (get_entry (set_entry tab1' entry
        { get_entry tab1' entry with
            type_information := type_t.function (f'.set_member class_info) })
        entry).related_scope = some dr.tab.scopes.length := by
    rw [(h2.2.2.2 entry).2.2.2, hrel1]
  have hsc2 : ∀ s, get_scope (set_entry tab1' entry
      { get_entry tab1' entry with
          type_information := type_t.function (f'.set_member class_info) }) s
        = get_scope tab3 s := fun s =>
    (get_scope_congr _ _ h2.1 s).trans ((get_scope_congr _ _ hsc s).trans
      (get_scope_set_entry tab3 entry _ s))
  have hlen2 : (set_entry tab1' entry
      { get_entry tab1' entry with
          type_information := type_t.function (f'.set_member class_info) }).entries.length
        = tab3.entries.length := by
    rw [h2.2.1, hlen1, set_entry_length]
  have hscopes2 : (set_entry tab1' entry
      { get_entry tab1' entry with
          type_information := type_t.function (f'.set_member class_info) }).scopes.length
        = tab3.scopes.length := by
    rw [h2.1, hsc, set_entry_scopes]
  rcases hcases with ⟨hst, hr⟩ | ⟨hst, rs, hrs, hr⟩
  · -- a static function
    refine ⟨by rw [hr]; exact hrel2, fun hs => ?_, fun _ => ?_, fun s _ => by rw [hr]; exact hsc2 s⟩
    · rw [hs] at hst; cases hst
    · unfold query_in_current_scope
      rw [hr, hsc2]
      rw [filter_name_congr tab3 _ _ "this" (fun e _ => hname2 e)]
      exact filter_name_nil tab3 _ "this" (fun e he => (h_symbols e he).2)
  · -- a function that is not static
    have hrs' : rs = dr.tab.scopes.length := by
      rw [hrel1] at hrs
      exact (Option.some.inj hrs).symm
    subst hrs'
    have hit := introduce_this_result (set_entry tab1' entry
      { get_entry tab1' entry with
          type_information := type_t.function (f'.set_member class_info) })
      dr.tab.scopes.length class_info f'.cv_qualifier
    have hnew : get_entry r.1 tab3.entries.length =
        { zero_entry with
            symbol_name := "this", scope := dr.tab.scopes.length,
            kind := cxx_symbol_kind.SK_VARIABLE,
            type_information := type_t.pointer
              (simple_type_to_type
                (class_info.update (fun c => { c with cv_qualifier := f'.cv_qualifier })))
              CV_NONE } := by
      rw [hr, get_entry, hit.1, ← hlen2, ← write_record_entries_length _
        (class_info.update (fun c => { c with cv_qualifier := f'.cv_qualifier })),
        List.getElem?_concat_length]
      rfl
    have hold : ∀ e, e < tab3.entries.length →
        (get_entry r.1 e).symbol_name = (get_entry tab3 e).symbol_name ∧
        (get_entry r.1 e).related_scope =
          (get_entry (set_entry tab1' entry
            { get_entry tab1' entry with
                type_information := type_t.function (f'.set_member class_info) })
            e).related_scope := by
      intro e he
      rw [hr, get_entry_introduce_this _ _ _ _ _ (by rw [hlen2]; exact he)]
      exact ⟨((get_entry_write_record_frame _ _ e).1).trans (hname2 e),
        (get_entry_write_record_frame _ _ e).2.2.2.2⟩
    refine ⟨?_, fun _ => ⟨?_, hnew⟩, fun hs => ?_, fun s hs => ?_⟩
    · rw [(hold entry hlt3).2]
      exact hrel2
    · unfold query_in_current_scope
      rw [hr, hit.2.2 (by rw [hscopes2]; exact hfs), ← hr, hsc2, hlen2]
      simp only [List.filter_cons, hnew, beq_self_eq_true, if_true]
      congr 1
      rw [filter_name_congr tab3 _ _ "this" (fun e he => (hold e (h_symbols e he).1).1)]
      exact filter_name_nil tab3 _ "this" (fun e he => (h_symbols e he).2)
    · rw [hs] at hst; cases hst
    · rw [hr, hit.2.1 s hs]
      exact hsc2 s

theorem member_function_this_witness :
    (optional_decl_specifier_seq (tie sample_collaborators 3) class_A_head.tab (ASTSon0 void_f)
        class_A_head.inner_scope
        = outcome.ok (class_A_head.tab, zero_gather_info,
            builtin_simple_type builtin_type_t.BT_VOID) ∧
      build_scope_declarator_with_parameter_scope (tie sample_collaborators 3) 8
        class_A_head.tab (ASTSon1 void_f) class_A_head.inner_scope none zero_gather_info
        (builtin_simple_type builtin_type_t.BT_VOID) = outcome.ok void_f_declared ∧
      void_f_declared.entry = some 1 ∧
      (get_entry void_f_declared.tab 1).kind = cxx_symbol_kind.SK_FUNCTION ∧
      (get_entry void_f_declared.tab 1).type_information.function_info
        = some (void_function_record false) ∧
      (void_function_record false).is_member = false ∧
      (tie sample_collaborators 3).build_scope_statement
        (open_function_scope void_f_declared.tab class_A_head.inner_scope
          void_f_declared.parameters_scope 1).1
        (ASTSon0 (ASTSon3 void_f)) void_f_declared.tab.scopes.length = outcome.ok void_f_body ∧
      get_entry void_f_body 1 =
        get_entry (open_function_scope void_f_declared.tab class_A_head.inner_scope
          void_f_declared.parameters_scope 1).1 1 ∧
      (∀ e ∈ (get_scope void_f_body void_f_declared.tab.scopes.length).hash,
        e < void_f_body.entries.length ∧ (get_entry void_f_body e).symbol_name ≠ "this") ∧
      build_scope_member_function_definition (tie sample_collaborators 3) 8 class_A_head.tab
        void_f class_A_head.inner_scope access_specifier_t.AS_PRIVATE
        class_A_head.simple_type_info = outcome.ok void_f_member) ∧
    (class_A_head.inner_scope = 1 ∧ void_f_declared.tab.scopes.length = 2 ∧
      void_f_body.entries.length = 2 ∧
      kinds_of_name void_f_member.1 2 "this" = [cxx_symbol_kind.SK_VARIABLE] ∧
      kinds_of_name void_f_member.1 1 "this" = [] ∧
      void_f_member.1.entries.map (fun e => (e.symbol_name, e.scope))
        = [("A", 0), ("f", 1), ("this", 2)] ∧
      static_void_g_member.entries.map (fun e => (e.symbol_name, e.scope))
        = [("A", 0), ("g", 1)]) ∧
    (get_entry void_f_member.1 1).related_scope = some void_f_declared.tab.scopes.length ∧
    ((void_function_record false).is_static = false →
      query_in_current_scope void_f_member.1 void_f_declared.tab.scopes.length "this"
        = [void_f_body.entries.length] ∧
      get_entry void_f_member.1 void_f_body.entries.length =
        { zero_entry with
            symbol_name := "this", scope := void_f_declared.tab.scopes.length,
            kind := cxx_symbol_kind.SK_VARIABLE,
            type_information := type_t.pointer
              (simple_type_to_type
                (class_A_head.simple_type_info.update
                  (fun c => { c with cv_qualifier := (void_function_record false).cv_qualifier })))
              CV_NONE }) ∧
    ((void_function_record false).is_static = true →
      query_in_current_scope void_f_member.1 void_f_declared.tab.scopes.length "this" = []) ∧
    (∀ s, s ≠ void_f_declared.tab.scopes.length →
      get_scope void_f_member.1 s = get_scope void_f_body s) :=
  ⟨⟨by decide!, by decide!, by decide!, by decide!, by decide!, by decide!, by decide!,
      by decide!, by decide!, by decide!⟩,
    ⟨by decide!, by decide!, by decide!, by decide!, by decide!, by decide!, by decide!⟩,
    member_function_this sample_collaborators 3 8 class_A_head.tab
      void_f class_A_head.inner_scope access_specifier_t.AS_PRIVATE
      class_A_head.simple_type_info
      (class_A_head.tab, zero_gather_info, builtin_simple_type builtin_type_t.BT_VOID)
      void_f_declared 1 (void_function_record false) void_f_body void_f_member
      (by decide!) (by decide!) (by decide!) (by decide!) (by decide!) (by decide!)
      (by decide!) (by decide!) (by decide!) (by decide!)⟩

/-- A property of the state that every member declaration keeps is kept by
the loop over a member specification. -/
theorem member_specification_loop_invariant {σ : Type}
    (member : σ → AST → access_specifier_t → outcome σ) (P : σ → Prop)
    (hstep : ∀ s m access s', P s → member s m access = outcome.ok s' → P s') (spec : AST) :
    ∀ (current_access : access_specifier_t) (s r : σ), P s →
      member_specification_loop member spec current_access s = outcome.ok r → P r := by
  induction spec with
  | null =>
    intro current_access s r hP h
    simp only [member_specification_loop, outcome.pure_eq, outcome.ok.injEq] at h
    rw [← h]
    exact hP
  | node kind son0 son1 son2 son3 text _ _ ih2 _ =>
    intro current_access s r hP h
    rw [member_specification_loop] at h
    obtain ⟨access, _, h⟩ := outcome.bind_eq_ok _ _ _ h
    split_ifs at h with h1
    · obtain ⟨s1, hs1, h⟩ := outcome.bind_eq_ok _ _ _ h
      exact ih2 _ _ _ (hstep _ _ _ _ hP hs1) h
    · exact ih2 _ _ _ hP h

/-- A member declaration hands back the record `*class_info` it was given,
with the cv-qualification of a member function written to it at most. -/
theorem build_scope_member_declaration_record (env : collaborators) (fuel : Nat)
    (tab : scope_store) (a : AST) (st : ScopeId) (current_access : access_specifier_t)
    (class_info : simple_type_t) (r : scope_store × simple_type_t)
    (h : build_scope_member_declaration env fuel tab a st current_access class_info
      = outcome.ok r) :
    r.2 = class_info ∨
      ∃ cv, r.2 = class_info.update (fun c => { c with cv_qualifier := cv }) := by
  unfold build_scope_member_declaration at h
  split_ifs at h
  · obtain ⟨t, _, h⟩ := outcome.bind_eq_ok _ _ _ h
    simp only [outcome.pure_eq, outcome.ok.injEq] at h
    left
    rw [← h]
  · unfold build_scope_member_function_definition at h
    obtain ⟨c, _, h⟩ := outcome.bind_eq_ok _ _ _ h
    obtain ⟨n, _, h⟩ := outcome.bind_eq_ok _ _ _ h
    obtain ⟨d, _, h⟩ := outcome.bind_eq_ok _ _ _ h
    obtain ⟨tab1, _, h⟩ := outcome.bind_eq_ok _ _ _ h
    simp only at h
    split at h
    · cases h
    · rename_i f hf
      split_ifs at h
      · split at h
        · cases h
        · simp only [outcome.pure_eq, outcome.ok.injEq] at h
          right
          exact ⟨f.cv_qualifier, by rw [← h]⟩
      · simp only [outcome.pure_eq, outcome.ok.injEq] at h
        left
        rw [← h]

/-- The update of a record with what the decl-specifier-seq said leaves its
kind and the symbol it refers to. -/
theorem apply_gather_info_kind (g : gather_decl_spec_t) (f : simple_type_fields) :
    (apply_gather_info g f).kind = f.kind ∧
    (apply_gather_info g f).user_defined_type = f.user_defined_type := by
  unfold apply_gather_info
  simp only
  split_ifs <;> exact ⟨rfl, rfl⟩

/-- The record a named class specifier hands to its members refers to the
class symbol. -/
theorem class_specifier_head_record (env : collaborators) (fuel : Nat) (tab : scope_store)
    (a : AST) (st : ScopeId) (simple_type_info : simple_type_t) (h0 : class_head_result)
    (e : EntryId)
    (h_head : class_specifier_head env fuel tab a st simple_type_info = outcome.ok h0)
    (h_entry : h0.class_entry = some e) :
    (ASTType (ASTSon2 (ASTSon0 a)) = node_t.AST_SYMBOL ∨
      ASTType (ASTSon2 (ASTSon0 a)) = node_t.AST_TEMPLATE_ID) ∧
    ∃ f, h0.simple_type_info =
        simple_type_t.mk f class_info_t.null type_t.null template_argument_list_t.null ∧
      f.kind = simple_type_kind_t.STK_USER_DEFINED ∧ f.user_defined_type = some e := by
  unfold class_specifier_head at h_head
  dsimp only at h_head
  obtain ⟨b, _, h_head⟩ := outcome.bind_eq_ok _ _ _ h_head
  obtain ⟨r, hr, h_head⟩ := outcome.bind_eq_ok _ _ _ h_head
  simp only [outcome.pure_eq, outcome.ok.injEq] at h_head
  unfold register_class_name at hr
  split_ifs at hr with hne hk
  · obtain ⟨n, _, hr⟩ := outcome.bind_eq_ok _ _ _ hr
    simp only [outcome.pure_eq, outcome.ok.injEq] at hr
    subst hr
    subst h_head
    simp only [Option.some.injEq] at h_entry
    refine ⟨hk, ?_⟩
    rw [← h_entry]
    exact ⟨_, rfl, rfl, rfl⟩
  · simp only [outcome.pure_eq, outcome.ok.injEq] at hr
    subst hr
    subst h_head
    cases h_entry

/-- A change of the plain fields of the records keeps an argument list that is
`NULL` and one that is not. -/
theorem template_argument_list_rewrite_null (g : simple_type_fields → simple_type_fields)
    (t : template_argument_list_t) :
    template_argument_list_t.rewrite g t = template_argument_list_t.null ↔
      t = template_argument_list_t.null := by
  cases t with
  | null => exact ⟨fun _ => rfl, fun _ => rfl⟩
  | mk l =>
    constructor
    · intro h
      simp only [template_argument_list_t.rewrite] at h
      cases h
    · intro h
      cases h

/-- The template arguments of a class type after a store through a pointer to
a record: the type is still a class type, and its argument list is `NULL`
exactly when it was. -/
theorem template_arguments_after_write (r : simple_type_t) (t : type_t)
    (ta : template_argument_list_t) (h : t.template_arguments = some ta) :
    ∃ f c al ta', t.after_write r = type_t.direct (simple_type_t.mk f c al ta') ∧
      (ta' = template_argument_list_t.null ↔ ta = template_argument_list_t.null) := by
  cases t with
  | direct s =>
    cases s with
    | null => cases h
    | mk f c al ta0 =>
      simp only [type_t.template_arguments, Option.some.injEq] at h
      subst h
      unfold type_t.after_write
      cases r.fields.address with
      | none => exact ⟨f, c, al, ta0, rfl, Iff.rfl⟩
      | some a =>
        exact ⟨written_fields r.fields f, c.rewrite (written_fields r.fields),
          al.rewrite (written_fields r.fields), ta0.rewrite (written_fields r.fields),
          by simp only [type_t.rewrite, simple_type_t.rewrite],
          template_argument_list_rewrite_null _ ta0⟩
  | null => cases h
  | pointer _ _ => cases h
  | pointer_to_member _ _ _ => cases h
  | reference _ => cases h
  | array _ _ => cases h
  | function _ => cases h

/-- The end of a template declaration of a class: when the members have left
the class symbol a class with the template arguments `ta` in its class type,
`build_scope_template_simple_declaration` turns it into a primary template if
there are no arguments and into a specialization if there are, and stores the
template parameters in it. -/
theorem class_kind_of_template_arguments (env : collaborators) (depth fuel : Nat)
    (tab : scope_store) (a : AST) (st template_scope : ScopeId) (num_parameters : Nat)
    (template_param_info : List template_parameter_t) (g1 g2 : gather_decl_spec_t)
    (h0 : class_head_result) (m : scope_store × simple_type_t) (e : EntryId)
    (ta : template_argument_list_t)
    (h_seq : ASTSon0 a ≠ AST.null)
    (h_nodecl : ASTSon1 a = AST.null)
    (h_before : gather_decl_spec_list (ASTSon0 (ASTSon0 a)) zero_gather_info = outcome.ok g1)
    (h_after : gather_decl_spec_list (ASTSon2 (ASTSon0 a)) g1 = outcome.ok g2)
    (h_class : ASTType (ASTSon1 (ASTSon0 a)) = node_t.AST_CLASS_SPECIFIER)
    (h_head : class_specifier_head (tie env depth) depth
      (push_template_scope tab st template_scope) (ASTSon1 (ASTSon0 a)) st zero_simple_type
      = outcome.ok h0)
    (h_entry : h0.class_entry = some e)
    (h_loop : member_specification_loop
      (fun (s : scope_store × simple_type_t) member current_access =>
        build_scope_member_declaration (tie env depth) depth s.1 member h0.inner_scope
          current_access s.2)
      (ASTSon1 (ASTSon1 (ASTSon0 a)))
      (initial_access (ASTSon0 (ASTSon0 (ASTSon1 (ASTSon0 a)))))
      (h0.tab, h0.simple_type_info) = outcome.ok m)
    (h_kind : (get_entry m.1 e).kind = cxx_symbol_kind.SK_CLASS)
    (h_arguments : (get_entry m.1 e).type_information.template_arguments = some ta) :
    ∃ tab', build_scope_template_simple_declaration (tie env (depth + 1)) fuel tab a st
          template_scope num_parameters template_param_info = outcome.ok tab' ∧
      (ta = template_argument_list_t.null →
        (get_entry tab' e).kind = cxx_symbol_kind.SK_TEMPLATE_PRIMARY_CLASS) ∧
      (ta ≠ template_argument_list_t.null →
        (get_entry tab' e).kind = cxx_symbol_kind.SK_TEMPLATE_SPECIALIZED_CLASS) ∧
      (get_entry tab' e).num_template_parameters = num_parameters ∧
      (get_entry tab' e).template_parameter_info = template_param_info := by
  obtain ⟨_, f0, hsti, hk0, hu0⟩ := class_specifier_head_record _ _ _ _ _ _ h0 e h_head h_entry
  -- the record the members hand back refers to the class symbol
  have hm : ∃ f, m.2 = simple_type_t.mk f class_info_t.null type_t.null
      template_argument_list_t.null ∧ f.kind = simple_type_kind_t.STK_USER_DEFINED ∧
      f.user_defined_type = some e := by
    refine member_specification_loop_invariant _
      (fun s => ∃ f, s.2 = simple_type_t.mk f class_info_t.null type_t.null
        template_argument_list_t.null ∧ f.kind = simple_type_kind_t.STK_USER_DEFINED ∧
        f.user_defined_type = some e) ?_ _ _ _ _ ⟨f0, hsti, hk0, hu0⟩ h_loop
    intro s member access s' hP hs
    obtain ⟨f, hf, hk, hu⟩ := hP
    rcases build_scope_member_declaration_record _ _ _ _ _ _ _ _ hs with h1 | ⟨cv, h1⟩
    · exact ⟨f, by rw [h1, hf], hk, hu⟩
    · exact ⟨{ f with cv_qualifier := cv }, by rw [h1, hf]; rfl, hk, hu⟩
  obtain ⟨fm, hm2, hkm, hum⟩ := hm
  have hR : m.2.update (apply_gather_info g2) =
      simple_type_t.mk (apply_gather_info g2 fm) class_info_t.null type_t.null
        template_argument_list_t.null := by
    rw [hm2]; rfl
  -- the decl-specifier-seq
  have hcs : gather_type_spec_from_class_specifier (tie env depth) depth
      (push_template_scope tab st template_scope) (ASTSon1 (ASTSon0 a)) st zero_simple_type =
      outcome.ok (set_entry m.1 e { get_entry m.1 e with defined := true }, m.2) := by
    unfold gather_type_spec_from_class_specifier
    rw [h_head]
    simp only [outcome.ok_bind]
    rw [h_loop]
    simp only [outcome.ok_bind, outcome.pure_eq, class_specifier_finish, h_entry]
  have hinfo : gather_type_spec_information (tie env (depth + 1))
      (push_template_scope tab st template_scope) (ASTSon1 (ASTSon0 a)) st zero_simple_type =
      outcome.ok (set_entry m.1 e { get_entry m.1 e with defined := true }, m.2) := by
    unfold gather_type_spec_information
    simp only [h_class]
    exact hcs
  have hcsne : ASTSon1 (ASTSon0 a) ≠ AST.null := by
    intro hn
    rw [hn] at h_class
    cases h_class
  have htd : template_decl_specifier_seq (tie env (depth + 1)) tab (ASTSon0 a) st
      template_scope =
      outcome.ok (pop_template_scope
        (write_record (set_entry m.1 e { get_entry m.1 e with defined := true })
          (m.2.update (apply_gather_info g2))) st template_scope, g2,
        m.2.update (apply_gather_info g2)) := by
    unfold template_decl_specifier_seq
    rw [if_pos h_seq]
    unfold build_scope_decl_specifier_seq
    simp only [h_before, h_after, outcome.ok_bind, hcsne, ne_eq, not_false_eq_true, if_true,
      hinfo, outcome.pure_eq]
  -- the class symbol when the decl-specifier-seq is done
  have hfin : (get_entry (set_entry m.1 e { get_entry m.1 e with defined := true }) e).kind
        = cxx_symbol_kind.SK_CLASS ∧
      (get_entry (set_entry m.1 e { get_entry m.1 e with defined := true })
        e).type_information = (get_entry m.1 e).type_information := by
    rw [get_entry_set_entry]
    split_ifs
    · exact ⟨h_kind, rfl⟩
    · exact ⟨h_kind, rfl⟩
  have hpop : ∀ x, get_entry (pop_template_scope
      (write_record (set_entry m.1 e { get_entry m.1 e with defined := true })
        (m.2.update (apply_gather_info g2))) st template_scope) x =
      get_entry (write_record (set_entry m.1 e { get_entry m.1 e with defined := true })
        (m.2.update (apply_gather_info g2))) x := fun _ => rfl
  have hkd : (get_entry (pop_template_scope
      (write_record (set_entry m.1 e { get_entry m.1 e with defined := true })
        (m.2.update (apply_gather_info g2))) st template_scope) e).kind
        = cxx_symbol_kind.SK_CLASS := by
    rw [hpop, (get_entry_write_record_frame _ _ e).2.1]
    exact hfin.1
  obtain ⟨f1, c1, al1, ta1, htype, hnull⟩ := template_arguments_after_write
    (m.2.update (apply_gather_info g2)) (get_entry m.1 e).type_information ta h_arguments
  have htd_type : (get_entry (pop_template_scope
      (write_record (set_entry m.1 e { get_entry m.1 e with defined := true })
        (m.2.update (apply_gather_info g2))) st template_scope) e).type_information
        = type_t.direct (simple_type_t.mk f1 c1 al1 ta1) := by
    rw [hpop, get_entry_write_record_type, hfin.2]
    exact htype
  have hlt := lt_length_of_kind_class _ e hkd
  refine ⟨set_entry (pop_template_scope
      (write_record (set_entry m.1 e { get_entry m.1 e with defined := true })
        (m.2.update (apply_gather_info g2))) st template_scope) e
      { get_entry (pop_template_scope
          (write_record (set_entry m.1 e { get_entry m.1 e with defined := true })
            (m.2.update (apply_gather_info g2))) st template_scope) e with
          kind :=
            if ta1 = template_argument_list_t.null then
              cxx_symbol_kind.SK_TEMPLATE_PRIMARY_CLASS
            else cxx_symbol_kind.SK_TEMPLATE_SPECIALIZED_CLASS,
          num_template_parameters := num_parameters,
          template_parameter_info := template_param_info }, ?_, ?_, ?_, ?_, ?_⟩
  · unfold build_scope_template_simple_declaration
    dsimp only
    rw [htd]
    simp only [outcome.ok_bind]
    unfold register_template_class
    have hne : m.2.update (apply_gather_info g2) ≠ simple_type_t.null := by
      rw [hR]
      intro hh
      cases hh
    have hkR : (m.2.update (apply_gather_info g2)).fields.kind
        = simple_type_kind_t.STK_USER_DEFINED := by
      rw [hR]
      exact (apply_gather_info_kind g2 fm).1.trans hkm
    have huR : (m.2.update (apply_gather_info g2)).fields.user_defined_type = some e := by
      rw [hR]
      exact (apply_gather_info_kind g2 fm).2.trans hum
    rw [if_neg hne, if_pos hkR, huR]
    simp only [hkd, if_true, htd_type, outcome.pure_eq, outcome.ok_bind, h_nodecl, ne_eq,
      not_true_eq_false, if_false]
  · intro hn
    rw [get_entry_set_entry, if_pos ⟨rfl, hlt⟩, if_pos (hnull.mpr hn)]
  · intro hn
    rw [get_entry_set_entry, if_pos ⟨rfl, hlt⟩, if_neg (fun hh => hn (hnull.mp hh))]
  · rw [get_entry_set_entry, if_pos ⟨rfl, hlt⟩]
  · rw [get_entry_set_entry, if_pos ⟨rfl, hlt⟩]

/-- C29 (amended): for a template declaration that is a class specifier
without declarators, whose class head registers a class symbol `e` and whose
member declarations are all accepted and leave the kind of `e` and the
template arguments of its class type as the class head set them,
`build_scope_template_simple_declaration` returns, and in the store it
returns `e` is of kind TemplatePrimaryClass when the name in the class head is
a plain name and of kind TemplateSpecializedClass when it is a template id;
the name is one of the two, and the template parameters are stored in `e`. -/
theorem template_class_kind (env : collaborators) (depth fuel : Nat)
    (tab : scope_store) (a : AST) (st template_scope : ScopeId) (num_parameters : Nat)
    (template_param_info : List template_parameter_t) (g1 g2 : gather_decl_spec_t)
    (h0 : class_head_result) (m : scope_store × simple_type_t) (e : EntryId)
    (h_seq : ASTSon0 a ≠ AST.null)
    (h_nodecl : ASTSon1 a = AST.null)
    (h_before : gather_decl_spec_list (ASTSon0 (ASTSon0 a)) zero_gather_info = outcome.ok g1)
    (h_after : gather_decl_spec_list (ASTSon2 (ASTSon0 a)) g1 = outcome.ok g2)
    (h_class : ASTType (ASTSon1 (ASTSon0 a)) = node_t.AST_CLASS_SPECIFIER)
    (h_head : class_specifier_head (tie env depth) depth
      (push_template_scope tab st template_scope) (ASTSon1 (ASTSon0 a)) st zero_simple_type
      = outcome.ok h0)
    (h_entry : h0.class_entry = some e)
    (h_loop : member_specification_loop
      (fun (s : scope_store × simple_type_t) member current_access =>
        build_scope_member_declaration (tie env depth) depth s.1 member h0.inner_scope
          current_access s.2)
      (ASTSon1 (ASTSon1 (ASTSon0 a)))
      (initial_access (ASTSon0 (ASTSon0 (ASTSon1 (ASTSon0 a)))))
      (h0.tab, h0.simple_type_info) = outcome.ok m)
    (h_kept : (get_entry m.1 e).kind = (get_entry h0.tab e).kind ∧
      (get_entry m.1 e).type_information.template_arguments
        = (get_entry h0.tab e).type_information.template_arguments) :
    (ASTType (ASTSon2 (ASTSon0 (ASTSon1 (ASTSon0 a)))) = node_t.AST_SYMBOL ∨
      ASTType (ASTSon2 (ASTSon0 (ASTSon1 (ASTSon0 a)))) = node_t.AST_TEMPLATE_ID) ∧
    ∃ tab', build_scope_template_simple_declaration (tie env (depth + 1)) fuel tab a st
          template_scope num_parameters template_param_info = outcome.ok tab' ∧
      (ASTType (ASTSon2 (ASTSon0 (ASTSon1 (ASTSon0 a)))) = node_t.AST_SYMBOL →
        (get_entry tab' e).kind = cxx_symbol_kind.SK_TEMPLATE_PRIMARY_CLASS) ∧
      (ASTType (ASTSon2 (ASTSon0 (ASTSon1 (ASTSon0 a)))) = node_t.AST_TEMPLATE_ID →
        (get_entry tab' e).kind = cxx_symbol_kind.SK_TEMPLATE_SPECIALIZED_CLASS) ∧
      (get_entry tab' e).num_template_parameters = num_parameters ∧
      (get_entry tab' e).template_parameter_info = template_param_info := by
  obtain ⟨hid, _⟩ := class_specifier_head_record _ _ _ _ _ _ h0 e h_head h_entry
  refine ⟨hid, ?_⟩
  have h_head' := h_head
  unfold class_specifier_head at h_head'
  dsimp only at h_head'
  obtain ⟨b, h_bases, h_rest⟩ := outcome.bind_eq_ok _ _ _ h_head'
  -- the class symbol as the class head leaves it
  have key : ∃ ta, (get_entry h0.tab e).kind = cxx_symbol_kind.SK_CLASS ∧
      (get_entry h0.tab e).type_information.template_arguments = some ta ∧
      (ASTType (ASTSon2 (ASTSon0 (ASTSon1 (ASTSon0 a)))) = node_t.AST_SYMBOL →
        ta = template_argument_list_t.null) ∧
      (ASTType (ASTSon2 (ASTSon0 (ASTSon1 (ASTSon0 a)))) = node_t.AST_TEMPLATE_ID →
        ta ≠ template_argument_list_t.null) := by
    rcases hid with h_symbol | h_id
    · obtain ⟨_, hentry, htab⟩ := class_specifier_head_of_symbol (tie env depth) depth _
        (ASTSon1 (ASTSon0 a)) st zero_simple_type b h0 h_symbol h_bases h_head
      obtain ⟨hk, hlt⟩ := class_symbol_valid (tie env depth) b.1 st
        (ASTText (ASTSon2 (ASTSon0 (ASTSon1 (ASTSon0 a)))))
      have he : e = (class_symbol (tie env depth) b.1 st
          (ASTText (ASTSon2 (ASTSon0 (ASTSon1 (ASTSon0 a)))))).2 := by
        rw [h_entry] at hentry
        exact Option.some.inj hentry
      refine ⟨template_argument_list_t.null, ?_, ?_, fun _ => rfl, ?_⟩
      · rw [htab, he, get_entry_set_entry, if_pos ⟨rfl, hlt⟩]
        exact hk
      · rw [htab, he, get_entry_set_entry, if_pos ⟨rfl, hlt⟩]
        rfl
      · intro h
        rw [h_symbol] at h
        cases h
    · have hne : ASTSon2 (ASTSon0 (ASTSon1 (ASTSon0 a))) ≠ AST.null := by
        intro hn
        rw [hn] at h_id
        cases h_id
      have hns : ASTType (ASTSon2 (ASTSon0 (ASTSon1 (ASTSon0 a)))) ≠ node_t.AST_SYMBOL := by
        rw [h_id]; decide
      obtain ⟨r0, h_reg, _⟩ := outcome.bind_eq_ok _ _ _ h_rest
      unfold register_class_name class_head_name at h_reg
      rw [if_pos hne, if_pos (Or.inr h_id), if_neg hns] at h_reg
      obtain ⟨n, h_n, _⟩ := outcome.bind_eq_ok _ _ _ h_reg
      obtain ⟨r, h_args, _⟩ := outcome.bind_eq_ok _ _ _ h_n
      obtain ⟨hentry, htab⟩ := class_specifier_head_of_template_id (tie env depth) depth _
        (ASTSon1 (ASTSon0 a)) st zero_simple_type b h0 r h_id h_bases h_args h_head
      obtain ⟨hk, hlt⟩ := class_symbol_valid (tie env depth) r.1 st
        (ASTText (ASTSon0 (ASTSon2 (ASTSon0 (ASTSon1 (ASTSon0 a))))))
      obtain ⟨l, hl⟩ := build_scope_template_arguments_list (tie env depth) depth b.1 _ st r
        h_args
      have he : e = (class_symbol (tie env depth) r.1 st
          (ASTText (ASTSon0 (ASTSon2 (ASTSon0 (ASTSon1 (ASTSon0 a))))))).2 := by
        rw [h_entry] at hentry
        exact Option.some.inj hentry
      refine ⟨template_argument_list_t.mk l, ?_, ?_, ?_, fun _ hh => by cases hh⟩
      · rw [htab, he, get_entry_set_entry, if_pos ⟨rfl, hlt⟩]
        exact hk
      · rw [htab, he, get_entry_set_entry, if_pos ⟨rfl, hlt⟩, hl]
        rfl
      · intro h
        rw [h_id] at h
        cases h
  obtain ⟨ta, hkind0, hta0, hsym, htid⟩ := key
  obtain ⟨tab', hrun, hp, hs, hn, hi⟩ := class_kind_of_template_arguments env depth fuel tab a
    st template_scope num_parameters template_param_info g1 g2 h0 m e ta h_seq h_nodecl
    h_before h_after h_class h_head h_entry h_loop (h_kept.1.trans hkind0)
    (h_kept.2.trans hta0)
  exact ⟨tab', hrun, fun h => hp (hsym h), fun h => hs (htid h), hn, hi⟩

/-- C29, counterexample. In the namespace scope 2, the declaration
`template<class T> class A<char, double> { void f() { class A { }; } };`
is accepted. The name in its class head is a template id with arguments, but
the class specifier in the body of `f` finds the class symbol by its name and
gives it a class type without template arguments, so that the symbol ends as a
primary template. Without the member it ends as a specialization. -/
theorem specialization_ends_primary_after_local_class :
    build_scope_template_declaration (tie sample_collaborators 6) 8
      primary_template_store_with_namespace specialization_A_with_local_class_A 2
      = outcome.ok store_after_specialization_A_with_local_class_A ∧
    ASTType (ASTSon2 (ASTSon0 (ASTSon1 (ASTSon0
      (ASTSon1 specialization_A_with_local_class_A))))) = node_t.AST_TEMPLATE_ID ∧
    ASTSon1 (ASTSon2 (ASTSon0 (ASTSon1 (ASTSon0
      (ASTSon1 specialization_A_with_local_class_A))))) ≠ AST.null ∧
    store_after_specialization_A_with_local_class_A.entries.map
        (fun e => (e.symbol_name, e.kind, e.scope))
      = [("A", cxx_symbol_kind.SK_TEMPLATE_PRIMARY_CLASS, 0),
          ("P", cxx_symbol_kind.SK_TEMPLATE_PARAMETER, 1),
          ("Q", cxx_symbol_kind.SK_TEMPLATE_PARAMETER, 1),
          ("T", cxx_symbol_kind.SK_TEMPLATE_PARAMETER, 3),
          ("A", cxx_symbol_kind.SK_TEMPLATE_PRIMARY_CLASS, 2),
          ("f", cxx_symbol_kind.SK_FUNCTION, 4),
          ("this", cxx_symbol_kind.SK_VARIABLE, 5)] ∧
    kinds_of_name store_after_specialization_A_with_local_class_A 2 "A"
      = [cxx_symbol_kind.SK_TEMPLATE_PRIMARY_CLASS] ∧
    build_scope_template_declaration (tie sample_collaborators 6) 8
      primary_template_store_with_namespace template_class_A_char_double 2
      = outcome.ok store_after_specialization_A_in_namespace ∧
    kinds_of_name store_after_specialization_A_in_namespace 2 "A"
      = [cxx_symbol_kind.SK_TEMPLATE_SPECIALIZED_CLASS] := by
  refine ⟨by decide!, by decide!, by decide!, by decide!, by decide!, by decide!, by decide!⟩

theorem template_class_kind_witness :
    (ASTSon0 (type_declaration class_A_char_double_x_y) ≠ AST.null ∧
      ASTSon1 (type_declaration class_A_char_double_x_y) = AST.null ∧
      gather_decl_spec_list (ASTSon0 (ASTSon0 (type_declaration class_A_char_double_x_y)))
        zero_gather_info = outcome.ok zero_gather_info ∧
      gather_decl_spec_list (ASTSon2 (ASTSon0 (type_declaration class_A_char_double_x_y)))
        zero_gather_info = outcome.ok zero_gather_info ∧
      ASTType (ASTSon1 (ASTSon0 (type_declaration class_A_char_double_x_y)))
        = node_t.AST_CLASS_SPECIFIER ∧
      class_specifier_head (tie sample_collaborators 8) 8
        (push_template_scope parameters_T_result.1 0 2)
        (ASTSon1 (ASTSon0 (type_declaration class_A_char_double_x_y))) 0 zero_simple_type
        = outcome.ok specialization_A_head ∧
      specialization_A_head.class_entry = some 4 ∧
      member_specification_loop
        (fun (s : scope_store × simple_type_t) member current_access =>
          build_scope_member_declaration (tie sample_collaborators 8) 8 s.1 member
            specialization_A_head.inner_scope current_access s.2)
        (ASTSon1 (ASTSon1 (ASTSon0 (type_declaration class_A_char_double_x_y))))
        (initial_access (ASTSon0 (ASTSon0 (ASTSon1 (ASTSon0
          (type_declaration class_A_char_double_x_y))))))
        (specialization_A_head.tab, specialization_A_head.simple_type_info)
        = outcome.ok specialization_A_members ∧
      (get_entry specialization_A_members.1 4).kind
        = (get_entry specialization_A_head.tab 4).kind ∧
      (get_entry specialization_A_members.1 4).type_information.template_arguments
        = (get_entry specialization_A_head.tab 4).type_information.template_arguments) ∧
    (build_scope_template_declaration (tie sample_collaborators 9) 8 primary_template_store
        (template_class_declaration (list1 (type_parameter_class "T" AST.null))
          class_A_char_double_x_y) 0 = outcome.ok store_after_specialization_A_x_y ∧
      build_scope_template_simple_declaration (tie sample_collaborators (8 + 1)) 8
        parameters_T_result.1 (type_declaration class_A_char_double_x_y) 0 2 1
        parameters_T_result.2 = outcome.ok store_after_specialization_A_x_y ∧
      specialization_A_members.1.entries.map (fun e => (e.symbol_name, e.kind, e.scope))
        = [("A", cxx_symbol_kind.SK_TEMPLATE_PRIMARY_CLASS, 0),
            ("P", cxx_symbol_kind.SK_TEMPLATE_PARAMETER, 1),
            ("Q", cxx_symbol_kind.SK_TEMPLATE_PARAMETER, 1),
            ("T", cxx_symbol_kind.SK_TEMPLATE_PARAMETER, 2),
            ("A", cxx_symbol_kind.SK_CLASS, 0),
            ("x", cxx_symbol_kind.SK_VARIABLE, 3),
            ("y", cxx_symbol_kind.SK_VARIABLE, 3)] ∧
      kinds_of_name store_after_specialization_A_x_y 0 "A"
        = [cxx_symbol_kind.SK_TEMPLATE_SPECIALIZED_CLASS,
            cxx_symbol_kind.SK_TEMPLATE_PRIMARY_CLASS] ∧
      kinds_of_name store_after_template_class_A 0 "A"
        = [cxx_symbol_kind.SK_TEMPLATE_PRIMARY_CLASS]) ∧
    (ASTType (ASTSon2 (ASTSon0 (ASTSon1 (ASTSon0
        (type_declaration class_A_char_double_x_y))))) = node_t.AST_SYMBOL ∨
      ASTType (ASTSon2 (ASTSon0 (ASTSon1 (ASTSon0
        (type_declaration class_A_char_double_x_y))))) = node_t.AST_TEMPLATE_ID) ∧
    ∃ tab', build_scope_template_simple_declaration (tie sample_collaborators (8 + 1)) 8
          parameters_T_result.1 (type_declaration class_A_char_double_x_y) 0 2 1
          parameters_T_result.2 = outcome.ok tab' ∧
      (ASTType (ASTSon2 (ASTSon0 (ASTSon1 (ASTSon0
          (type_declaration class_A_char_double_x_y))))) = node_t.AST_SYMBOL →
        (get_entry tab' 4).kind = cxx_symbol_kind.SK_TEMPLATE_PRIMARY_CLASS) ∧
      (ASTType (ASTSon2 (ASTSon0 (ASTSon1 (ASTSon0
          (type_declaration class_A_char_double_x_y))))) = node_t.AST_TEMPLATE_ID →
        (get_entry tab' 4).kind = cxx_symbol_kind.SK_TEMPLATE_SPECIALIZED_CLASS) ∧
      (get_entry tab' 4).num_template_parameters = 1 ∧
      (get_entry tab' 4).template_parameter_info = parameters_T_result.2 :=
  ⟨⟨by decide!, by decide!, by decide!, by decide!, by decide!, by decide!, by decide!,
      by decide!, by decide!, by decide!⟩,
    ⟨by decide!, by decide!, by decide!, by decide!, by decide!⟩,
    template_class_kind sample_collaborators 8 8 parameters_T_result.1
      (type_declaration class_A_char_double_x_y) 0 2 1 parameters_T_result.2
      zero_gather_info zero_gather_info specialization_A_head specialization_A_members 4
      (by decide!) (by decide!) (by decide!) (by decide!) (by decide!) (by decide!)
      (by decide!) (by decide!) ⟨by decide!, by decide!⟩⟩


end Mcxx
